import Mathlib

/-!
# R-Type: verification of the entity store, the wire protocol and the room directory

Shallow embedding of

* `src/src/engine/Registry.cpp`, `src/include/rtype/engine/Registry.hpp`
* `src/src/common/protocol/Protocol.cpp`, `src/include/rtype/common/Protocol.hpp`
* `src/src/server/Room.cpp`, `src/src/server/RoomManager.cpp`
* `src/src/server/GameServer.cpp` (the session handlers)
* `src/src/server/systems/*.cpp` (the fourteen systems of the pipeline),
  `src/src/engine/SystemPipeline.cpp`, `src/src/server/GameLogicHandler.cpp`,
  `src/src/server/EntityFactory.cpp`
* `src/src/common/config/GameConfig.cpp` (monster types, directions, spawn
  positions), `src/include/rtype/common/GameConfig.hpp`

Conventions.

* `std::uint8_t`, `std::uint16_t`, `std::uint32_t` are natural numbers; every
  place where the C++ truncates or wraps carries an explicit `% 2 ^ w`.
* `std::unordered_map<K, V>` is an association list with pairwise distinct
  keys (`AList`); its iteration order is the order of the entries, which is
  arbitrary, as it is in C++.  `std::unordered_set<K>` is a `Finset`.
* `std::vector<T>` is a `List T`; `push_back x` is `l ++ [x]`, `back()` is the
  last element.
* A component type is identified by its `typeid(...).hash_code()`, a natural
  number, exactly as `Registry::getComponentTypeHash` does.  Component values
  of all types live in one value type `V`.
* A `float` of the wire protocol is handled through its 32-bit pattern
  (`floatToU32` / `u32ToFloat` are `memcpy`), so a float field of a message is
  the natural number below `2 ^ 32` holding its bits.  A `float` of the
  simulation (position, radius, timer) is a rational number, the value it
  holds; `Float32` gives the rounding operations of binary32 where a
  definition computes with them.
* Undefined behaviour (the dereference of a null or past-the-end pointer) is
  the result `none`.
-/

namespace rtype

/-- Embeds `using EntityId = std::uint32_t;` -/
abbrev EntityId := Nat

/-- Embeds `using PlayerId = std::uint8_t;` -/
abbrev PlayerId := Nat

/-- Embeds `using SequenceNumber = std::uint32_t;` -/
abbrev SequenceNumber := Nat

/-- Embeds `using Timestamp = std::uint32_t;` -/
abbrev Timestamp := Nat

namespace engine

/-- Embeds `ComponentStorage<Component>::components`, the inner map
`std::unordered_map<EntityId, Component>`. -/
abbrev ComponentStorage (V : Type) := AList (fun _ : EntityId => V)

/-- The member variables of `class Registry`. -/
structure Registry (V : Type) where
  /-- Embeds `_componentStorages`: component type hash -> storage of that type. -/
  componentStorages : List (Nat × ComponentStorage V)
  /-- Embeds `_freeEntityIds`: pool of recycled entity ids. -/
  freeEntityIds : List EntityId
  /-- Embeds `_nextEntityId{1}`. -/
  nextEntityId : EntityId
  /-- Embeds `_activeEntities`. -/
  activeEntities : Finset EntityId

namespace Registry

variable {V : Type}

/-- A default-constructed `Registry`. -/
def fresh : Registry V :=
  { componentStorages := [], freeEntityIds := [], nextEntityId := 1, activeEntities := ∅ }

/-- Embeds `Registry::createEntity` (Registry.cpp:8-25): returns the id and the new state. -/
def createEntity (r : Registry V) : EntityId × Registry V :=
  match r.freeEntityIds.getLast? with
  | some id =>
      (id, { r with freeEntityIds := r.freeEntityIds.dropLast,
                    activeEntities := insert id r.activeEntities })
  | none =>
      (r.nextEntityId, { r with nextEntityId := (r.nextEntityId + 1) % 2 ^ 32,
                                activeEntities := insert r.nextEntityId r.activeEntities })

/-- Embeds `Registry::destroyEntity` (Registry.cpp:27-38). -/
def destroyEntity (r : Registry V) (id : EntityId) : Registry V :=
  { r with activeEntities := r.activeEntities.erase id,
           componentStorages := r.componentStorages.map (fun ts => (ts.1, ts.2.erase id)),
           freeEntityIds := r.freeEntityIds ++ [id] }

/-- Embeds `Registry::entityExists` (Registry.hpp:217-220). -/
def entityExists (r : Registry V) (id : EntityId) : Bool :=
  decide (id ∈ r.activeEntities)

/-- Embeds `Registry::getStorage` (Registry.hpp:257-267): `none` is the null pointer. -/
def getStorage (r : Registry V) (typeHash : Nat) : Option (ComponentStorage V) :=
  r.componentStorages.lookup typeHash

/-- Embeds `Registry::getOrCreateStorage` (Registry.hpp:240-255). -/
def getOrCreateStorage (r : Registry V) (typeHash : Nat) : ComponentStorage V × Registry V :=
  match r.componentStorages.lookup typeHash with
  | none => (∅, { r with componentStorages := r.componentStorages ++ [(typeHash, ∅)] })
  | some storage => (storage, r)

/-- Embeds `Registry::getComponent(...) const` (Registry.hpp:291-303): `none` is the
null pointer, the explicit "absent" outcome. -/
def getComponent (r : Registry V) (typeHash : Nat) (id : EntityId) : Option V :=
  match r.getStorage typeHash with
  | none => none
  | some storage => storage.lookup id

/-- Embeds `Registry::getComponent(...)`, the mutable overload (Registry.hpp:305-315):
it goes through `getOrCreateStorage`, so it may add an empty storage. -/
def getComponentMut (r : Registry V) (typeHash : Nat) (id : EntityId) : Option V × Registry V :=
  let sr := r.getOrCreateStorage typeHash
  (sr.1.lookup id, sr.2)

/-- Embeds `Registry::hasComponent` (Registry.hpp:329-337). -/
def hasComponent (r : Registry V) (typeHash : Nat) (id : EntityId) : Bool :=
  match r.getStorage typeHash with
  | none => false
  | some storage => decide (id ∈ storage.keys)

/-- One call of the callback of `view`: the id and the two components passed. -/
abbrev ViewCall (V : Type) := EntityId × V × V

/-- The loop of the first branch of `view<C1,C2>` (Registry.hpp:394-399): walk
the entries of `storage1`, probe `C2` with the mutable `getComponent`.  The
state is the list of callback invocations made so far and the registry. -/
def viewLoopFirst (t2 : Nat) :
    List (Sigma fun _ : EntityId => V) → List (ViewCall V) × Registry V →
      List (ViewCall V) × Registry V
  | [], st => st
  | e :: rest, st =>
      let probe := st.2.getComponentMut t2 e.1
      match probe.1 with
      | some comp2 => viewLoopFirst t2 rest (st.1 ++ [(e.1, e.2, comp2)], probe.2)
      | none => viewLoopFirst t2 rest (st.1, probe.2)

/-- The loop of the second branch of `view<C1,C2>` (Registry.hpp:401-406): walk
the entries of `storage2`, probe `C1`. -/
def viewLoopSecond (t1 : Nat) :
    List (Sigma fun _ : EntityId => V) → List (ViewCall V) × Registry V →
      List (ViewCall V) × Registry V
  | [], st => st
  | e :: rest, st =>
      let probe := st.2.getComponentMut t1 e.1
      match probe.1 with
      | some comp1 => viewLoopSecond t1 rest (st.1 ++ [(e.1, comp1, e.2)], probe.2)
      | none => viewLoopSecond t1 rest (st.1, probe.2)

/-- Embeds `Registry::view<C1,C2>` (Registry.hpp:387-408) run with a callback that
does not touch the registry: the list of callback invocations, in order, and
the registry afterwards (the two storages may have been created). -/
def view (r : Registry V) (t1 t2 : Nat) : List (ViewCall V) × Registry V :=
  let s1 := r.getOrCreateStorage t1
  let s2 := s1.2.getOrCreateStorage t2
  let storage1 := s1.1
  let storage2 := s2.1
  if storage1.entries.length ≤ storage2.entries.length then
    viewLoopFirst t2 storage1.entries ([], s2.2)
  else
    viewLoopSecond t1 storage2.entries ([], s2.2)

/-- Embeds `Registry::addComponent` (Registry.hpp:269-276). -/
def addComponent (r : Registry V) (typeHash : Nat) (id : EntityId) (c : V) : Registry V :=
  let r1 := (r.getOrCreateStorage typeHash).2
  let storages := r1.componentStorages.map
    (fun ts => if ts.1 = typeHash then (ts.1, ts.2.insert id c) else ts)
  { r1 with componentStorages := storages }

/-- One call made on a registry by a client of the class. -/
inductive Call where
  | create
  | destroy (id : EntityId)
  deriving DecidableEq, Repr

/-- Run a sequence of `createEntity` / `destroyEntity` calls and report whether
every id returned by `createEntity` was not alive (`entityExists`) in the state
in which the call was made. -/
def createsOnlyDeadIds : List Call -> Registry V -> Bool
  | [], _ => true
  | Call.create :: rest, r =>
      (!r.entityExists r.createEntity.1) && createsOnlyDeadIds rest r.createEntity.2
  | Call.destroy id :: rest, r => createsOnlyDeadIds rest (r.destroyEntity id)

/-- The ids on which the callback was invoked, in order. -/
def visitedIds (calls : List (ViewCall V)) : List EntityId :=
  calls.map Prod.fst

end Registry

end engine

end rtype


namespace rtype

/-- Embeds `enum class PlayerPowerUpType : std::uint8_t { Nothing, Shield }`, as the
value of its underlying byte. -/
abbrev PlayerPowerUpType := Nat

/-- Embeds `PlayerPowerUpType::Nothing`. -/
def PlayerPowerUpType.Nothing : PlayerPowerUpType := 0

/-- Embeds `PlayerPowerUpType::Shield`. -/
def PlayerPowerUpType.Shield : PlayerPowerUpType := 1

namespace net

/-! ## Wire protocol (Protocol.hpp, Protocol.cpp)

The fields of the message structs are natural numbers; the C++ type of each
(`PlayerId` and `std::uint8_t`: below `2 ^ 8`; `std::uint16_t`: below
`2 ^ 16`; `EntityId`, `std::uint32_t` and the bits of a `float`: below
`2 ^ 32`) appears as a hypothesis where a statement depends on it. -/

/-- Embeds `kHeaderSize = sizeof(uint16_t) * 2 + sizeof(uint32_t) * 2` (Protocol.cpp:17). -/
def kHeaderSize : Nat := 2 * 2 + 4 * 2

/-- Embeds `enum class PacketType : std::uint16_t`, as the value of the underlying
16-bit code (Protocol.hpp:20-52). -/
abbrev PacketType := Nat

namespace PacketType

def Handshake : PacketType := 1
def PlayerInput : PacketType := 2
def PlayerState : PacketType := 3
def MonsterSpawn : PacketType := 4
def MonsterState : PacketType := 5
def MonsterDeath : PacketType := 6
def PlayerDeath : PacketType := 7
def BulletFired : PacketType := 8
def BulletState : PacketType := 9
def Disconnect : PacketType := 10
def PlayerAssignment : PacketType := 11
def PowerUpState : PacketType := 12
def LevelBegin : PacketType := 13
def CreateRoom : PacketType := 14
def JoinRoom : PacketType := 15
def LeaveRoom : PacketType := 16
def StartGame : PacketType := 17
def RoomList : PacketType := 18
def RoomCreated : PacketType := 19
def RoomJoined : PacketType := 20
def RoomLeft : PacketType := 21
def GameStarted : PacketType := 22
def RoomListResponse : PacketType := 23
def RoomError : PacketType := 24
def AllPlayersDead : PacketType := 25
def SpectatorMode : PacketType := 26
def HostChanged : PacketType := 27
def ShieldSpawn : PacketType := 28
def ShieldState : PacketType := 29
def ShieldDeath : PacketType := 30

end PacketType

/-- Embeds `struct PacketHeader`. -/
structure PacketHeader where
  type : Nat
  payloadSize : Nat
  sequence : Nat
  timestamp : Nat
  deriving DecidableEq, Repr

/-- Embeds `struct PlayerInput`. -/
structure PlayerInput where
  player : Nat
  up : Bool
  down : Bool
  left : Bool
  right : Bool
  fire : Bool
  swapWeapon : Bool
  deriving DecidableEq, Repr

/-- Embeds `struct PlayerState`; `x` and `y` are the bit patterns of the floats. -/
structure PlayerState where
  player : Nat
  x : Nat
  y : Nat
  hp : Nat
  score : Nat
  alive : Bool
  powerUpType : Nat
  deriving DecidableEq, Repr

/-- Embeds `struct MonsterSpawn`. -/
structure MonsterSpawn where
  id : Nat
  x : Nat
  y : Nat
  monsterType : Nat
  deriving DecidableEq, Repr

/-- Embeds `struct MonsterState`. -/
structure MonsterState where
  id : Nat
  type : Nat
  x : Nat
  y : Nat
  vx : Nat
  vy : Nat
  alive : Bool
  deriving DecidableEq, Repr

/-- Embeds `struct MonsterDeath`. -/
structure MonsterDeath where
  id : Nat
  killer : Nat
  deriving DecidableEq, Repr

/-- Embeds `struct PlayerDeath`. -/
structure PlayerDeath where
  player : Nat
  deriving DecidableEq, Repr

/-- Embeds `struct BulletFired`. -/
structure BulletFired where
  id : Nat
  owner : Nat
  x : Nat
  y : Nat
  vx : Nat
  vy : Nat
  fromPlayer : Bool
  deriving DecidableEq, Repr

/-- Embeds `struct BulletState`. -/
structure BulletState where
  id : Nat
  x : Nat
  y : Nat
  weaponType : Nat
  fromPlayer : Bool
  active : Bool
  deriving DecidableEq, Repr

/-- Embeds `struct DisconnectNotice`. -/
structure DisconnectNotice where
  player : Nat
  deriving DecidableEq, Repr

/-- Embeds `struct PlayerAssignment`. -/
structure PlayerAssignment where
  playerId : Nat
  deriving DecidableEq, Repr

/-- Embeds `struct PowerUpState`. -/
structure PowerUpState where
  id : Nat
  type : Nat
  value : Nat
  x : Nat
  y : Nat
  active : Bool
  deriving DecidableEq, Repr

/-- Embeds `struct ShieldSpawn`. -/
structure ShieldSpawn where
  id : Nat
  x : Nat
  y : Nat
  shieldType : Nat
  deriving DecidableEq, Repr

/-- Embeds `struct ShieldState`. -/
structure ShieldState where
  id : Nat
  type : Nat
  x : Nat
  y : Nat
  vx : Nat
  vy : Nat
  alive : Bool
  deriving DecidableEq, Repr

/-- Embeds `struct ShieldDeath`. -/
structure ShieldDeath where
  id : Nat
  deriving DecidableEq, Repr

/-- Embeds `struct LevelBegin`. -/
structure LevelBegin where
  levelNumber : Nat
  deriving DecidableEq, Repr

/-- Embeds `struct CreateRoom`; `roomName` is the `char[32]` buffer, one number per byte. -/
structure CreateRoom where
  roomName : List Nat
  deriving DecidableEq, Repr

/-- Embeds `struct JoinRoom`. -/
structure JoinRoom where
  roomId : Nat
  deriving DecidableEq, Repr

/-- Embeds `struct LeaveRoom`. -/
structure LeaveRoom where
  roomId : Nat
  deriving DecidableEq, Repr

/-- Embeds `struct StartGame`. -/
structure StartGame where
  roomId : Nat
  deriving DecidableEq, Repr

/-- Embeds `struct RoomCreated`. -/
structure RoomCreated where
  roomId : Nat
  roomName : List Nat
  hostId : Nat
  playerId : Nat
  deriving DecidableEq, Repr

/-- Embeds `struct RoomJoined`. -/
structure RoomJoined where
  roomId : Nat
  roomName : List Nat
  hostId : Nat
  playerCount : Nat
  playerId : Nat
  deriving DecidableEq, Repr

/-- Embeds `struct RoomLeft`. -/
structure RoomLeft where
  roomId : Nat
  deriving DecidableEq, Repr

/-- Embeds `struct GameStarted`. -/
structure GameStarted where
  roomId : Nat
  deriving DecidableEq, Repr

/-- Embeds `struct RoomListEntry`. -/
structure RoomListEntry where
  roomId : Nat
  roomName : List Nat
  hostId : Nat
  playerCount : Nat
  maxPlayers : Nat
  state : Nat
  deriving DecidableEq, Repr

/-- Embeds `struct RoomListResponse`.  As the argument of the serializer `rooms` is
the array `rooms[16]`; as the result of the decoder it lists the elements
`rooms[0 .. min(roomCount, 16))` that the decoder wrote (the other elements of
the caller's array are not touched). -/
structure RoomListResponse where
  roomCount : Nat
  rooms : List RoomListEntry
  deriving DecidableEq, Repr

/-- Embeds `struct RoomError`; `message` is the `char[64]` buffer. -/
structure RoomError where
  errorCode : Nat
  message : List Nat
  deriving DecidableEq, Repr

/-- Embeds `struct AllPlayersDead`. -/
structure AllPlayersDead where
  roomId : Nat
  deriving DecidableEq, Repr

/-- Embeds `struct SpectatorMode`. -/
structure SpectatorMode where
  playerId : Nat
  enabled : Bool
  deriving DecidableEq, Repr

/-- Embeds `struct HostChanged`. -/
structure HostChanged where
  roomId : Nat
  newHostId : Nat
  deriving DecidableEq, Repr

/-- The state used as the example in the specification: player 2, x = 10.5
(bits 0x41280000), y = -3.25 (bits 0xC0500000), hp 2, score 100, alive,
power-up Shield. -/
def examplePlayerState : PlayerState :=
  { player := 2, x := 0x41280000, y := 0xC0500000, hp := 2, score := 100, alive := true,
    powerUpType := PlayerPowerUpType.Shield }

/-! ### BinaryWriter

The writer is its `_buffer`; every `write*` returns the extended buffer. -/

/-- Embeds `BinaryWriter::writeU8` (Protocol.cpp:40-43); the parameter is a `uint8_t`. -/
def writeU8 (buffer : List Nat) (value : Nat) : List Nat :=
  buffer ++ [value % 256]

/-- Embeds `BinaryWriter::writeU16` (Protocol.cpp:45-49): `htons`, then the two bytes
of the network-order value in memory order, i.e. most significant first. -/
def writeU16 (buffer : List Nat) (value : Nat) : List Nat :=
  buffer ++ [value / 256 % 256, value % 256]

/-- Embeds `BinaryWriter::writeU32` (Protocol.cpp:51-55). -/
def writeU32 (buffer : List Nat) (value : Nat) : List Nat :=
  buffer ++ [value / 16777216 % 256, value / 65536 % 256, value / 256 % 256, value % 256]

/-- Embeds `BinaryWriter::writeF32` (Protocol.cpp:57-60) on the bits of the float. -/
def writeF32 (buffer : List Nat) (bits : Nat) : List Nat :=
  writeU32 buffer bits

/-- The `size` bytes found at a pointer into `data` at index `start`; a byte
past the end of `data` reads as 0 (for a `char[n]{}` member shorter lists are
zero padded, as the brace initialiser does). -/
def bytesAt (data : List Nat) (start : Nat) : Nat -> List Nat
  | 0 => []
  | size + 1 => data.getD start 0 :: bytesAt data (start + 1) size

/-- Embeds `BinaryWriter::writeBytes` (Protocol.cpp:62-65). -/
def writeBytes (buffer : List Nat) (data : List Nat) (size : Nat) : List Nat :=
  buffer ++ bytesAt data 0 size

/-- Embeds `b ? 1 : 0`. -/
def boolByte (b : Bool) : Nat := if b then 1 else 0

/-! ### BinaryReader

A decoder is handed a pointer `payload` and a `size`.  `data` is the memory at
that pointer (it may well extend past `size`); the reader that is currently in
use starts at `payload + base`, believes it has `size` bytes, and stands at
`offset`.  `reads` records the index (relative to `payload`) of every byte
fetched so far, by a reader or by a `memcpy`. -/

/-- The state of a running decoder. -/
structure DecodeState where
  data : List Nat
  base : Nat
  size : Nat
  offset : Nat
  reads : List Nat
  deriving DecidableEq, Repr

/-- A step of a decoder: its result (`none` when the C++ function is about to
return `false`) and the state afterwards. -/
def Decoder (α : Type) : Type := DecodeState -> Option α × DecodeState

/-- What follows a step: go on with its value, or stop when it failed. -/
def Decoder.continueWith {α β : Type} (r : Option α × DecodeState) (f : α -> Decoder β) :
    Option β × DecodeState :=
  match r with
  | (some a, s1) => f a s1
  | (none, s1) => (none, s1)

/-- Sequencing with the short-circuit of the C++ `&&` chains and early returns. -/
def Decoder.bind {α β : Type} (m : Decoder α) (f : α -> Decoder β) : Decoder β :=
  fun s => Decoder.continueWith (m s) f

/-- A step that reads nothing. -/
def Decoder.pure {α : Type} (a : α) : Decoder α :=
  fun s => (some a, s)

instance : Monad Decoder where
  pure := Decoder.pure
  bind := Decoder.bind

/-- Embeds `return false;`. -/
def Decoder.fail {α : Type} : Decoder α :=
  fun s => (none, s)

/-- The indices `start, start + 1, ..., start + n - 1`. -/
def indexRange (start : Nat) : Nat -> List Nat
  | 0 => []
  | n + 1 => start :: indexRange (start + 1) n

/-- Embeds `BinaryReader::read<T>` with `n = sizeof(T)` (Protocol.cpp:112-120): the
bound check, the `memcpy` of `n` bytes from `_data + _offset`, and the advance. -/
def BinaryReader.read (n : Nat) : Decoder (List Nat) :=
  fun s =>
    if s.offset + n > s.size then (none, s)
    else
      (some (bytesAt s.data (s.base + s.offset) n),
        { s with offset := s.offset + n,
                 reads := s.reads ++ indexRange (s.base + s.offset) n })

/-- Embeds `ntohs` of the two bytes in memory order. -/
def ntohs (bytes : List Nat) : Nat :=
  bytes.getD 0 0 * 256 + bytes.getD 1 0

/-- Embeds `ntohl` of the four bytes in memory order. -/
def ntohl (bytes : List Nat) : Nat :=
  bytes.getD 0 0 * 16777216 + bytes.getD 1 0 * 65536 + bytes.getD 2 0 * 256 + bytes.getD 3 0

/-- Embeds `BinaryReader::readU8` (Protocol.cpp:82-85). -/
def BinaryReader.readU8 : Decoder Nat := do
  let bytes <- BinaryReader.read 1
  return bytes.getD 0 0

/-- Embeds `BinaryReader::readU16` (Protocol.cpp:87-93). -/
def BinaryReader.readU16 : Decoder Nat := do
  let bytes <- BinaryReader.read 2
  return ntohs bytes

/-- Embeds `BinaryReader::readU32` (Protocol.cpp:95-101). -/
def BinaryReader.readU32 : Decoder Nat := do
  let bytes <- BinaryReader.read 4
  return ntohl bytes

/-- Embeds `BinaryReader::readF32` (Protocol.cpp:103-110): the bits of the float. -/
def BinaryReader.readF32 : Decoder Nat :=
  BinaryReader.readU32

/-- Embeds `BinaryReader r(payload + base, size);`: from here on the decoder uses the
new reader (in every decoder of Protocol.cpp the previous reader is not used
again once the next one has been constructed). -/
def BinaryReader.construct (base size : Nat) : Decoder Unit :=
  fun s => (some (), { s with base := base, size := size, offset := 0 })

/-- Embeds `std::memcpy(dst, payload + start, n)`: fetches `n` bytes of the payload
without any check. -/
def memcpyFrom (start n : Nat) : Decoder (List Nat) :=
  fun s => (some (bytesAt s.data start n), { s with reads := s.reads ++ indexRange start n })

/-- Run a decoder body that starts with `BinaryReader reader(payload, size);`:
the result and the indices of the bytes that were fetched. -/
def Decoder.run {α : Type} (d : Decoder α) (payload : List Nat) (size : Nat) :
    Option α × List Nat :=
  let r := d { data := payload, base := 0, size := size, offset := 0, reads := [] }
  (r.1, r.2.reads)

open BinaryReader

/-- Embeds `deserializeHeader` (Protocol.cpp:122-142); `none` is `ok == false`. -/
def deserializeHeader (data : List Nat) (size : Nat) : Option PacketHeader × List Nat :=
  Decoder.run (do
    let type <- readU16
    let payloadSize <- readU16
    let sequence <- readU32
    let timestamp <- readU32
    return { type := type, payloadSize := payloadSize, sequence := sequence,
             timestamp := timestamp }) data size

/-- Embeds `serializePacket` (Protocol.cpp:144-159); `payloadSize` is the length of
`payload`, as at every call site. -/
def serializePacket (type : PacketType) (sequence : SequenceNumber) (timestamp : Timestamp)
    (payload : List Nat) : List Nat :=
  let headerWriter := writeU16 [] (type % 65536)
  let headerWriter := writeU16 headerWriter (payload.length % 65536)
  let headerWriter := writeU32 headerWriter sequence
  let headerWriter := writeU32 headerWriter timestamp
  headerWriter ++ payload

/-- Embeds `deserializePayload` (Protocol.cpp:161-173): `none` is `return false`,
otherwise the header and the payload vector; the second component lists the
packet indices that were read (by `deserializeHeader` and by `payload.assign`). -/
def deserializePayload (packet : List Nat) (packetSize : Nat) :
    Option (PacketHeader × List Nat) × List Nat :=
  if packetSize < kHeaderSize then (none, [])
  else
    let parsed := deserializeHeader packet kHeaderSize
    match parsed.1 with
    | none => (none, parsed.2)
    | some header =>
        if packetSize < kHeaderSize + header.payloadSize then (none, parsed.2)
        else
          (some (header, bytesAt packet kHeaderSize header.payloadSize),
            parsed.2 ++ indexRange kHeaderSize header.payloadSize)

/-- The payload that `serializePlayerInput` builds in its `BinaryWriter`. -/
def payloadPlayerInput (input : PlayerInput) : List Nat :=
  let writer : List Nat := []
  let writer := writeU8 writer input.player
  let writer := writeU8 writer (boolByte input.up)
  let writer := writeU8 writer (boolByte input.down)
  let writer := writeU8 writer (boolByte input.left)
  let writer := writeU8 writer (boolByte input.right)
  let writer := writeU8 writer (boolByte input.fire)
  let writer := writeU8 writer (boolByte input.swapWeapon)
  writer

/-- Embeds `serializePlayerInput` (Protocol.cpp:175-200). -/
def serializePlayerInput (input : PlayerInput) (sequence : SequenceNumber)
    (timestamp : Timestamp) : List Nat :=
  serializePacket PacketType.PlayerInput sequence timestamp (payloadPlayerInput input)

/-- Embeds `deserializePlayerInput` (Protocol.cpp:175-200): `none` is `return false`; the
second component lists the payload indices that were read. -/
def deserializePlayerInput (payload : List Nat) (size : Nat) : Option PlayerInput × List Nat :=
  Decoder.run (do
    let player <- readU8
    let up <- readU8
    let down <- readU8
    let left <- readU8
    let right <- readU8
    let fire <- readU8
    let swapWeapon <- readU8
    return { player := player, up := up != 0, down := down != 0, left := left != 0,
             right := right != 0, fire := fire != 0, swapWeapon := swapWeapon != 0 }) payload size

/-- The payload that `serializePlayerState` builds in its `BinaryWriter`. -/
def payloadPlayerState (state : PlayerState) : List Nat :=
  let writer : List Nat := []
  let writer := writeU8 writer state.player
  let writer := writeF32 writer state.x
  let writer := writeF32 writer state.y
  let writer := writeU8 writer state.hp
  let writer := writeU16 writer state.score
  let writer := writeU8 writer (boolByte state.alive)
  let writer := writeU8 writer state.powerUpType
  writer

/-- Embeds `serializePlayerState` (Protocol.cpp:202-227). -/
def serializePlayerState (state : PlayerState) (sequence : SequenceNumber)
    (timestamp : Timestamp) : List Nat :=
  serializePacket PacketType.PlayerState sequence timestamp (payloadPlayerState state)

/-- Embeds `deserializePlayerState` (Protocol.cpp:202-227): `none` is `return false`; the
second component lists the payload indices that were read. -/
def deserializePlayerState (payload : List Nat) (size : Nat) : Option PlayerState × List Nat :=
  Decoder.run (do
    let player <- readU8
    let x <- readF32
    let y <- readF32
    let hp <- readU8
    let score <- readU16
    let alive <- readU8
    let powerUpType <- readU8
    return { player := player, x := x, y := y, hp := hp, score := score,
             alive := alive != 0, powerUpType := powerUpType }) payload size

/-- The payload that `serializeMonsterSpawn` builds in its `BinaryWriter`. -/
def payloadMonsterSpawn (spawn : MonsterSpawn) : List Nat :=
  let writer : List Nat := []
  let writer := writeU32 writer spawn.id
  let writer := writeF32 writer spawn.x
  let writer := writeF32 writer spawn.y
  let writer := writeU8 writer spawn.monsterType
  writer

/-- Embeds `serializeMonsterSpawn` (Protocol.cpp:229-246). -/
def serializeMonsterSpawn (spawn : MonsterSpawn) (sequence : SequenceNumber)
    (timestamp : Timestamp) : List Nat :=
  serializePacket PacketType.MonsterSpawn sequence timestamp (payloadMonsterSpawn spawn)

/-- Embeds `deserializeMonsterSpawn` (Protocol.cpp:229-246): `none` is `return false`; the
second component lists the payload indices that were read. -/
def deserializeMonsterSpawn (payload : List Nat) (size : Nat) : Option MonsterSpawn × List Nat :=
  Decoder.run (do
    let id <- readU32
    let x <- readF32
    let y <- readF32
    let monsterType <- readU8
    return { id := id, x := x, y := y, monsterType := monsterType }) payload size

/-- The payload that `serializeMonsterState` builds in its `BinaryWriter`. -/
def payloadMonsterState (state : MonsterState) : List Nat :=
  let writer : List Nat := []
  let writer := writeU32 writer state.id
  let writer := writeU8 writer state.type
  let writer := writeF32 writer state.x
  let writer := writeF32 writer state.y
  let writer := writeF32 writer state.vx
  let writer := writeF32 writer state.vy
  let writer := writeU8 writer (boolByte state.alive)
  writer

/-- Embeds `serializeMonsterState` (Protocol.cpp:248-273). -/
def serializeMonsterState (state : MonsterState) (sequence : SequenceNumber)
    (timestamp : Timestamp) : List Nat :=
  serializePacket PacketType.MonsterState sequence timestamp (payloadMonsterState state)

/-- Embeds `deserializeMonsterState` (Protocol.cpp:248-273): `none` is `return false`; the
second component lists the payload indices that were read. -/
def deserializeMonsterState (payload : List Nat) (size : Nat) : Option MonsterState × List Nat :=
  Decoder.run (do
    let id <- readU32
    let type <- readU8
    let x <- readF32
    let y <- readF32
    let vx <- readF32
    let vy <- readF32
    let alive <- readU8
    return { id := id, type := type, x := x, y := y, vx := vx, vy := vy,
             alive := alive != 0 }) payload size

/-- The payload that `serializeMonsterDeath` builds in its `BinaryWriter`. -/
def payloadMonsterDeath (death : MonsterDeath) : List Nat :=
  let writer : List Nat := []
  let writer := writeU32 writer death.id
  let writer := writeU8 writer death.killer
  writer

/-- Embeds `serializeMonsterDeath` (Protocol.cpp:275-287). -/
def serializeMonsterDeath (death : MonsterDeath) (sequence : SequenceNumber)
    (timestamp : Timestamp) : List Nat :=
  serializePacket PacketType.MonsterDeath sequence timestamp (payloadMonsterDeath death)

/-- Embeds `deserializeMonsterDeath` (Protocol.cpp:275-287): `none` is `return false`; the
second component lists the payload indices that were read. -/
def deserializeMonsterDeath (payload : List Nat) (size : Nat) : Option MonsterDeath × List Nat :=
  Decoder.run (do
    let id <- readU32
    let killer <- readU8
    return { id := id, killer := killer }) payload size

/-- The payload that `serializeShieldSpawn` builds in its `BinaryWriter`. -/
def payloadShieldSpawn (spawn : ShieldSpawn) : List Nat :=
  let writer : List Nat := []
  let writer := writeU32 writer spawn.id
  let writer := writeF32 writer spawn.x
  let writer := writeF32 writer spawn.y
  let writer := writeU8 writer spawn.shieldType
  writer

/-- Embeds `serializeShieldSpawn` (Protocol.cpp:289-306). -/
def serializeShieldSpawn (spawn : ShieldSpawn) (sequence : SequenceNumber)
    (timestamp : Timestamp) : List Nat :=
  serializePacket PacketType.ShieldSpawn sequence timestamp (payloadShieldSpawn spawn)

/-- Embeds `deserializeShieldSpawn` (Protocol.cpp:289-306): `none` is `return false`; the
second component lists the payload indices that were read. -/
def deserializeShieldSpawn (payload : List Nat) (size : Nat) : Option ShieldSpawn × List Nat :=
  Decoder.run (do
    let id <- readU32
    let x <- readF32
    let y <- readF32
    let shieldType <- readU8
    return { id := id, x := x, y := y, shieldType := shieldType }) payload size

/-- The payload that `serializeShieldState` builds in its `BinaryWriter`. -/
def payloadShieldState (state : ShieldState) : List Nat :=
  let writer : List Nat := []
  let writer := writeU32 writer state.id
  let writer := writeU8 writer state.type
  let writer := writeF32 writer state.x
  let writer := writeF32 writer state.y
  let writer := writeF32 writer state.vx
  let writer := writeF32 writer state.vy
  let writer := writeU8 writer (boolByte state.alive)
  writer

/-- Embeds `serializeShieldState` (Protocol.cpp:308-333). -/
def serializeShieldState (state : ShieldState) (sequence : SequenceNumber)
    (timestamp : Timestamp) : List Nat :=
  serializePacket PacketType.ShieldState sequence timestamp (payloadShieldState state)

/-- Embeds `deserializeShieldState` (Protocol.cpp:308-333): `none` is `return false`; the
second component lists the payload indices that were read. -/
def deserializeShieldState (payload : List Nat) (size : Nat) : Option ShieldState × List Nat :=
  Decoder.run (do
    let id <- readU32
    let type <- readU8
    let x <- readF32
    let y <- readF32
    let vx <- readF32
    let vy <- readF32
    let alive <- readU8
    return { id := id, type := type, x := x, y := y, vx := vx, vy := vy,
             alive := alive != 0 }) payload size

/-- The payload that `serializeShieldDeath` builds in its `BinaryWriter`. -/
def payloadShieldDeath (death : ShieldDeath) : List Nat :=
  let writer : List Nat := []
  let writer := writeU32 writer death.id
  writer

/-- Embeds `serializeShieldDeath` (Protocol.cpp:335-346). -/
def serializeShieldDeath (death : ShieldDeath) (sequence : SequenceNumber)
    (timestamp : Timestamp) : List Nat :=
  serializePacket PacketType.ShieldDeath sequence timestamp (payloadShieldDeath death)

/-- Embeds `deserializeShieldDeath` (Protocol.cpp:335-346): `none` is `return false`; the
second component lists the payload indices that were read. -/
def deserializeShieldDeath (payload : List Nat) (size : Nat) : Option ShieldDeath × List Nat :=
  Decoder.run (do
    let id <- readU32
    return { id := id }) payload size

/-- The payload that `serializePlayerDeath` builds in its `BinaryWriter`. -/
def payloadPlayerDeath (death : PlayerDeath) : List Nat :=
  let writer : List Nat := []
  let writer := writeU8 writer death.player
  writer

/-- Embeds `serializePlayerDeath` (Protocol.cpp:348-359). -/
def serializePlayerDeath (death : PlayerDeath) (sequence : SequenceNumber)
    (timestamp : Timestamp) : List Nat :=
  serializePacket PacketType.PlayerDeath sequence timestamp (payloadPlayerDeath death)

/-- Embeds `deserializePlayerDeath` (Protocol.cpp:348-359): `none` is `return false`; the
second component lists the payload indices that were read. -/
def deserializePlayerDeath (payload : List Nat) (size : Nat) : Option PlayerDeath × List Nat :=
  Decoder.run (do
    let player <- readU8
    return { player := player }) payload size

/-- The payload that `serializeBulletFired` builds in its `BinaryWriter`. -/
def payloadBulletFired (bullet : BulletFired) : List Nat :=
  let writer : List Nat := []
  let writer := writeU32 writer bullet.id
  let writer := writeU8 writer bullet.owner
  let writer := writeF32 writer bullet.x
  let writer := writeF32 writer bullet.y
  let writer := writeF32 writer bullet.vx
  let writer := writeF32 writer bullet.vy
  let writer := writeU8 writer (boolByte bullet.fromPlayer)
  writer

/-- Embeds `serializeBulletFired` (Protocol.cpp:361-386). -/
def serializeBulletFired (bullet : BulletFired) (sequence : SequenceNumber)
    (timestamp : Timestamp) : List Nat :=
  serializePacket PacketType.BulletFired sequence timestamp (payloadBulletFired bullet)

/-- Embeds `deserializeBulletFired` (Protocol.cpp:361-386): `none` is `return false`; the
second component lists the payload indices that were read. -/
def deserializeBulletFired (payload : List Nat) (size : Nat) : Option BulletFired × List Nat :=
  Decoder.run (do
    let id <- readU32
    let owner <- readU8
    let x <- readF32
    let y <- readF32
    let vx <- readF32
    let vy <- readF32
    let fromPlayer <- readU8
    return { id := id, owner := owner, x := x, y := y, vx := vx, vy := vy,
             fromPlayer := fromPlayer != 0 }) payload size

/-- The payload that `serializeDisconnect` builds in its `BinaryWriter`. -/
def payloadDisconnect (notice : DisconnectNotice) : List Nat :=
  let writer : List Nat := []
  let writer := writeU8 writer notice.player
  writer

/-- Embeds `serializeDisconnect` (Protocol.cpp:417-428). -/
def serializeDisconnect (notice : DisconnectNotice) (sequence : SequenceNumber)
    (timestamp : Timestamp) : List Nat :=
  serializePacket PacketType.Disconnect sequence timestamp (payloadDisconnect notice)

/-- Embeds `deserializeDisconnect` (Protocol.cpp:417-428): `none` is `return false`; the
second component lists the payload indices that were read. -/
def deserializeDisconnect (payload : List Nat) (size : Nat) : Option DisconnectNotice × List Nat :=
  Decoder.run (do
    let player <- readU8
    return { player := player }) payload size

/-- The payload that `serializePlayerAssignment` builds in its `BinaryWriter`. -/
def payloadPlayerAssignment (assignment : PlayerAssignment) : List Nat :=
  let writer : List Nat := []
  let writer := writeU8 writer assignment.playerId
  writer

/-- Embeds `serializePlayerAssignment` (Protocol.cpp:430-441). -/
def serializePlayerAssignment (assignment : PlayerAssignment) (sequence : SequenceNumber)
    (timestamp : Timestamp) : List Nat :=
  serializePacket PacketType.PlayerAssignment sequence timestamp (payloadPlayerAssignment assignment)

/-- Embeds `deserializePlayerAssignment` (Protocol.cpp:430-441): `none` is `return false`; the
second component lists the payload indices that were read. -/
def deserializePlayerAssignment (payload : List Nat) (size : Nat) : Option PlayerAssignment × List Nat :=
  Decoder.run (do
    let playerId <- readU8
    return { playerId := playerId }) payload size

/-- The payload that `serializePowerUpState` builds in its `BinaryWriter`. -/
def payloadPowerUpState (state : PowerUpState) : List Nat :=
  let writer : List Nat := []
  let writer := writeU32 writer state.id
  let writer := writeU8 writer state.type
  let writer := writeU8 writer state.value
  let writer := writeF32 writer state.x
  let writer := writeF32 writer state.y
  let writer := writeU8 writer (boolByte state.active)
  writer

/-- Embeds `serializePowerUpState` (Protocol.cpp:443-466). -/
def serializePowerUpState (state : PowerUpState) (sequence : SequenceNumber)
    (timestamp : Timestamp) : List Nat :=
  serializePacket PacketType.PowerUpState sequence timestamp (payloadPowerUpState state)

/-- Embeds `deserializePowerUpState` (Protocol.cpp:443-466): `none` is `return false`; the
second component lists the payload indices that were read. -/
def deserializePowerUpState (payload : List Nat) (size : Nat) : Option PowerUpState × List Nat :=
  Decoder.run (do
    let id <- readU32
    let type <- readU8
    let value <- readU8
    let x <- readF32
    let y <- readF32
    let active <- readU8
    return { id := id, type := type, value := value, x := x, y := y, active := active != 0 }) payload size

/-- The payload that `serializeLevelBegin` builds in its `BinaryWriter`. -/
def payloadLevelBegin (level : LevelBegin) : List Nat :=
  let writer : List Nat := []
  let writer := writeU8 writer level.levelNumber
  writer

/-- Embeds `serializeLevelBegin` (Protocol.cpp:468-479). -/
def serializeLevelBegin (level : LevelBegin) (sequence : SequenceNumber)
    (timestamp : Timestamp) : List Nat :=
  serializePacket PacketType.LevelBegin sequence timestamp (payloadLevelBegin level)

/-- Embeds `deserializeLevelBegin` (Protocol.cpp:468-479): `none` is `return false`; the
second component lists the payload indices that were read. -/
def deserializeLevelBegin (payload : List Nat) (size : Nat) : Option LevelBegin × List Nat :=
  Decoder.run (do
    let levelNumber <- readU8
    return { levelNumber := levelNumber }) payload size

/-- The payload that `serializeJoinRoom` builds in its `BinaryWriter`. -/
def payloadJoinRoom (join : JoinRoom) : List Nat :=
  let writer : List Nat := []
  let writer := writeU32 writer join.roomId
  writer

/-- Embeds `serializeJoinRoom` (Protocol.cpp:497-508). -/
def serializeJoinRoom (join : JoinRoom) (sequence : SequenceNumber)
    (timestamp : Timestamp) : List Nat :=
  serializePacket PacketType.JoinRoom sequence timestamp (payloadJoinRoom join)

/-- Embeds `deserializeJoinRoom` (Protocol.cpp:497-508): `none` is `return false`; the
second component lists the payload indices that were read. -/
def deserializeJoinRoom (payload : List Nat) (size : Nat) : Option JoinRoom × List Nat :=
  Decoder.run (do
    let roomId <- readU32
    return { roomId := roomId }) payload size

/-- The payload that `serializeLeaveRoom` builds in its `BinaryWriter`. -/
def payloadLeaveRoom (leave : LeaveRoom) : List Nat :=
  let writer : List Nat := []
  let writer := writeU32 writer leave.roomId
  writer

/-- Embeds `serializeLeaveRoom` (Protocol.cpp:510-521). -/
def serializeLeaveRoom (leave : LeaveRoom) (sequence : SequenceNumber)
    (timestamp : Timestamp) : List Nat :=
  serializePacket PacketType.LeaveRoom sequence timestamp (payloadLeaveRoom leave)

/-- Embeds `deserializeLeaveRoom` (Protocol.cpp:510-521): `none` is `return false`; the
second component lists the payload indices that were read. -/
def deserializeLeaveRoom (payload : List Nat) (size : Nat) : Option LeaveRoom × List Nat :=
  Decoder.run (do
    let roomId <- readU32
    return { roomId := roomId }) payload size

/-- The payload that `serializeStartGame` builds in its `BinaryWriter`. -/
def payloadStartGame (start : StartGame) : List Nat :=
  let writer : List Nat := []
  let writer := writeU32 writer start.roomId
  writer

/-- Embeds `serializeStartGame` (Protocol.cpp:523-534). -/
def serializeStartGame (start : StartGame) (sequence : SequenceNumber)
    (timestamp : Timestamp) : List Nat :=
  serializePacket PacketType.StartGame sequence timestamp (payloadStartGame start)

/-- Embeds `deserializeStartGame` (Protocol.cpp:523-534): `none` is `return false`; the
second component lists the payload indices that were read. -/
def deserializeStartGame (payload : List Nat) (size : Nat) : Option StartGame × List Nat :=
  Decoder.run (do
    let roomId <- readU32
    return { roomId := roomId }) payload size

/-- The payload that `serializeRoomLeft` builds in its `BinaryWriter`. -/
def payloadRoomLeft (left : RoomLeft) : List Nat :=
  let writer : List Nat := []
  let writer := writeU32 writer left.roomId
  writer

/-- Embeds `serializeRoomLeft` (Protocol.cpp:583-594). -/
def serializeRoomLeft (left : RoomLeft) (sequence : SequenceNumber)
    (timestamp : Timestamp) : List Nat :=
  serializePacket PacketType.RoomLeft sequence timestamp (payloadRoomLeft left)

/-- Embeds `deserializeRoomLeft` (Protocol.cpp:583-594): `none` is `return false`; the
second component lists the payload indices that were read. -/
def deserializeRoomLeft (payload : List Nat) (size : Nat) : Option RoomLeft × List Nat :=
  Decoder.run (do
    let roomId <- readU32
    return { roomId := roomId }) payload size

/-- The payload that `serializeGameStarted` builds in its `BinaryWriter`. -/
def payloadGameStarted (started : GameStarted) : List Nat :=
  let writer : List Nat := []
  let writer := writeU32 writer started.roomId
  writer

/-- Embeds `serializeGameStarted` (Protocol.cpp:596-607). -/
def serializeGameStarted (started : GameStarted) (sequence : SequenceNumber)
    (timestamp : Timestamp) : List Nat :=
  serializePacket PacketType.GameStarted sequence timestamp (payloadGameStarted started)

/-- Embeds `deserializeGameStarted` (Protocol.cpp:596-607): `none` is `return false`; the
second component lists the payload indices that were read. -/
def deserializeGameStarted (payload : List Nat) (size : Nat) : Option GameStarted × List Nat :=
  Decoder.run (do
    let roomId <- readU32
    return { roomId := roomId }) payload size

/-- The payload that `serializeBulletState` builds (Protocol.cpp:388-399):
`fromPlayer` is written twice, before and after `active`. -/
def payloadBulletState (bullet : BulletState) : List Nat :=
  let writer : List Nat := []
  let writer := writeU32 writer bullet.id
  let writer := writeF32 writer bullet.x
  let writer := writeF32 writer bullet.y
  let writer := writeU8 writer bullet.weaponType
  let writer := writeU8 writer (boolByte bullet.fromPlayer)
  let writer := writeU8 writer (boolByte bullet.active)
  let writer := writeU8 writer (boolByte bullet.fromPlayer)
  writer

/-- Embeds `serializeBulletState` (Protocol.cpp:388-399). -/
def serializeBulletState (bullet : BulletState) (sequence : SequenceNumber)
    (timestamp : Timestamp) : List Nat :=
  serializePacket PacketType.BulletState sequence timestamp (payloadBulletState bullet)

/-- Embeds `deserializeBulletState` (Protocol.cpp:401-415): the second read into
`fromPlayer` overwrites the first. -/
def deserializeBulletState (payload : List Nat) (size : Nat) : Option BulletState × List Nat :=
  Decoder.run (do
    let id <- readU32
    let x <- readF32
    let y <- readF32
    let weaponType <- readU8
    let _fromPlayer <- readU8
    let active <- readU8
    let fromPlayer <- readU8
    return { id := id, x := x, y := y, weaponType := weaponType,
             fromPlayer := fromPlayer != 0, active := active != 0 }) payload size

/-- The payload that `serializeCreateRoom` builds (Protocol.cpp:481-486). -/
def payloadCreateRoom (room : CreateRoom) : List Nat :=
  writeBytes [] room.roomName 32

/-- Embeds `serializeCreateRoom` (Protocol.cpp:481-486). -/
def serializeCreateRoom (room : CreateRoom) (sequence : SequenceNumber)
    (timestamp : Timestamp) : List Nat :=
  serializePacket PacketType.CreateRoom sequence timestamp (payloadCreateRoom room)

/-- Embeds `deserializeCreateRoom` (Protocol.cpp:488-495). -/
def deserializeCreateRoom (payload : List Nat) (size : Nat) : Option CreateRoom × List Nat :=
  if size < 32 then (none, [])
  else
    Decoder.run (do
      let roomName <- memcpyFrom 0 32
      return { roomName := roomName.set 31 0 }) payload size

/-- The payload that `serializeRoomCreated` builds (Protocol.cpp:536-544). -/
def payloadRoomCreated (created : RoomCreated) : List Nat :=
  let writer : List Nat := []
  let writer := writeU32 writer created.roomId
  let writer := writeBytes writer created.roomName 32
  let writer := writeU8 writer created.hostId
  let writer := writeU8 writer created.playerId
  writer

/-- Embeds `serializeRoomCreated` (Protocol.cpp:536-544). -/
def serializeRoomCreated (created : RoomCreated) (sequence : SequenceNumber)
    (timestamp : Timestamp) : List Nat :=
  serializePacket PacketType.RoomCreated sequence timestamp (payloadRoomCreated created)

/-- Embeds `deserializeRoomCreated` (Protocol.cpp:546-557). -/
def deserializeRoomCreated (payload : List Nat) (size : Nat) : Option RoomCreated × List Nat :=
  if size < 38 then (none, [])
  else
    Decoder.run (do
      let roomId <- readU32
      let roomName <- memcpyFrom 4 32
      let roomName := roomName.set 31 0
      BinaryReader.construct 36 (size - 36)
      let hostId <- readU8
      let playerId <- readU8
      return { roomId := roomId, roomName := roomName, hostId := hostId,
               playerId := playerId }) payload size

/-- The payload that `serializeRoomJoined` builds (Protocol.cpp:559-568). -/
def payloadRoomJoined (joined : RoomJoined) : List Nat :=
  let writer : List Nat := []
  let writer := writeU32 writer joined.roomId
  let writer := writeBytes writer joined.roomName 32
  let writer := writeU8 writer joined.hostId
  let writer := writeU8 writer joined.playerCount
  let writer := writeU8 writer joined.playerId
  writer

/-- Embeds `serializeRoomJoined` (Protocol.cpp:559-568). -/
def serializeRoomJoined (joined : RoomJoined) (sequence : SequenceNumber)
    (timestamp : Timestamp) : List Nat :=
  serializePacket PacketType.RoomJoined sequence timestamp (payloadRoomJoined joined)

/-- Embeds `deserializeRoomJoined` (Protocol.cpp:570-581). -/
def deserializeRoomJoined (payload : List Nat) (size : Nat) : Option RoomJoined × List Nat :=
  if size < 39 then (none, [])
  else
    Decoder.run (do
      let roomId <- readU32
      let roomName <- memcpyFrom 4 32
      let roomName := roomName.set 31 0
      BinaryReader.construct 36 (size - 36)
      let hostId <- readU8
      let playerCount <- readU8
      let playerId <- readU8
      return { roomId := roomId, roomName := roomName, hostId := hostId,
               playerCount := playerCount, playerId := playerId }) payload size

/-- One pass of the loop body of `serializeRoomListResponse` (Protocol.cpp:615-621). -/
def writeRoomListEntry (writer : List Nat) (entry : RoomListEntry) : List Nat :=
  let writer := writeU32 writer entry.roomId
  let writer := writeBytes writer entry.roomName 32
  let writer := writeU8 writer entry.hostId
  let writer := writeU8 writer entry.playerCount
  let writer := writeU8 writer entry.maxPlayers
  let writer := writeU8 writer entry.state
  writer

/-- The payload that `serializeRoomListResponse` builds (Protocol.cpp:609-624):
the count byte, then the entries `rooms[i]` for `i < roomCount && i < 16`. -/
def payloadRoomListResponse (list : RoomListResponse) : List Nat :=
  let writer := writeU8 [] list.roomCount
  (list.rooms.take (min (list.roomCount % 256) 16)).foldl writeRoomListEntry writer

/-- Embeds `serializeRoomListResponse` (Protocol.cpp:609-624). -/
def serializeRoomListResponse (list : RoomListResponse) (sequence : SequenceNumber)
    (timestamp : Timestamp) : List Nat :=
  serializePacket PacketType.RoomListResponse sequence timestamp (payloadRoomListResponse list)

/-- The loop of `deserializeRoomListResponse` (Protocol.cpp:633-654) with
`remaining` iterations still to run and the local `offset`. -/
def readRoomListEntries (size : Nat) : Nat -> Nat -> Decoder (List RoomListEntry)
  | 0, _ => pure []
  | remaining + 1, offset => do
      if offset + 40 > size then Decoder.fail
      else do
        BinaryReader.construct offset (size - offset)
        let roomId <- readU32
        let roomName <- memcpyFrom (offset + 4) 32
        let roomName := roomName.set 31 0
        BinaryReader.construct (offset + 36) (size - offset - 36)
        let hostId <- readU8
        let playerCount <- readU8
        let maxPlayers <- readU8
        let state <- readU8
        let rest <- readRoomListEntries size remaining (offset + 40)
        return { roomId := roomId, roomName := roomName, hostId := hostId,
                 playerCount := playerCount, maxPlayers := maxPlayers, state := state } :: rest

/-- Embeds `deserializeRoomListResponse` (Protocol.cpp:626-656). -/
def deserializeRoomListResponse (payload : List Nat) (size : Nat) :
    Option RoomListResponse × List Nat :=
  Decoder.run (do
    let roomCount <- readU8
    let rooms <- readRoomListEntries size (min roomCount 16) 1
    return { roomCount := roomCount, rooms := rooms }) payload size

/-- The payload that `serializeRoomError` builds (Protocol.cpp:658-664). -/
def payloadRoomError (error : RoomError) : List Nat :=
  let writer : List Nat := []
  let writer := writeU8 writer error.errorCode
  let writer := writeBytes writer error.message 64
  writer

/-- Embeds `serializeRoomError` (Protocol.cpp:658-664). -/
def serializeRoomError (error : RoomError) (sequence : SequenceNumber)
    (timestamp : Timestamp) : List Nat :=
  serializePacket PacketType.RoomError sequence timestamp (payloadRoomError error)

/-- Embeds `deserializeRoomError` (Protocol.cpp:666-676). -/
def deserializeRoomError (payload : List Nat) (size : Nat) : Option RoomError × List Nat :=
  if size < 65 then (none, [])
  else
    Decoder.run (do
      let errorCode <- readU8
      let message <- memcpyFrom 1 64
      return { errorCode := errorCode, message := message.set 63 0 }) payload size

/-- The payload that `serializeAllPlayersDead` builds (Protocol.cpp:678-683). -/
def payloadAllPlayersDead (msg : AllPlayersDead) : List Nat :=
  writeU32 [] msg.roomId

/-- Embeds `serializeAllPlayersDead` (Protocol.cpp:678-683). -/
def serializeAllPlayersDead (msg : AllPlayersDead) (sequence : SequenceNumber)
    (timestamp : Timestamp) : List Nat :=
  serializePacket PacketType.AllPlayersDead sequence timestamp (payloadAllPlayersDead msg)

/-- Embeds `deserializeAllPlayersDead` (Protocol.cpp:685-691). -/
def deserializeAllPlayersDead (payload : List Nat) (size : Nat) :
    Option AllPlayersDead × List Nat :=
  if size < 4 then (none, [])
  else
    Decoder.run (do
      let roomId <- readU32
      return { roomId := roomId }) payload size

/-- The payload that `serializeSpectatorMode` builds (Protocol.cpp:693-699). -/
def payloadSpectatorMode (spec : SpectatorMode) : List Nat :=
  let writer : List Nat := []
  let writer := writeU8 writer spec.playerId
  let writer := writeU8 writer (boolByte spec.enabled)
  writer

/-- Embeds `serializeSpectatorMode` (Protocol.cpp:693-699). -/
def serializeSpectatorMode (spec : SpectatorMode) (sequence : SequenceNumber)
    (timestamp : Timestamp) : List Nat :=
  serializePacket PacketType.SpectatorMode sequence timestamp (payloadSpectatorMode spec)

/-- Embeds `deserializeSpectatorMode` (Protocol.cpp:701-713). -/
def deserializeSpectatorMode (payload : List Nat) (size : Nat) :
    Option SpectatorMode × List Nat :=
  if size < 2 then (none, [])
  else
    Decoder.run (do
      let playerId <- readU8
      let enabled <- readU8
      return { playerId := playerId, enabled := enabled != 0 }) payload size

/-- The payload that `serializeHostChanged` builds (Protocol.cpp:715-721). -/
def payloadHostChanged (msg : HostChanged) : List Nat :=
  let writer : List Nat := []
  let writer := writeU32 writer msg.roomId
  let writer := writeU8 writer msg.newHostId
  writer

/-- Embeds `serializeHostChanged` (Protocol.cpp:715-721). -/
def serializeHostChanged (msg : HostChanged) (sequence : SequenceNumber)
    (timestamp : Timestamp) : List Nat :=
  serializePacket PacketType.HostChanged sequence timestamp (payloadHostChanged msg)

/-- Embeds `deserializeHostChanged` (Protocol.cpp:723-731). -/
def deserializeHostChanged (payload : List Nat) (size : Nat) : Option HostChanged × List Nat :=
  if size < 5 then (none, [])
  else
    Decoder.run (do
      let roomId <- readU32
      let newHostId <- readU8
      return { roomId := roomId, newHostId := newHostId }) payload size

/-- What it means for a decoded `char[n]` text buffer to have been filled from
the `n`-byte field of the payload that starts at index `start`: it has `n`
bytes, the byte at its last index is 0, and each earlier byte is the payload
byte at the same position of the field (so nothing outside the field
`payload[start .. start + n)` went into it). -/
def TextFieldDecoded (buffer payload : List Nat) (start n : Nat) : Prop :=
  buffer.length = n ∧ buffer[n - 1]? = some 0 ∧
    ∀ i : Nat, i < n - 1 -> buffer[i]? = some (payload.getD (start + i) 0)

/-- The text buffer after a round trip: unchanged up to the last index, which
is forced to 0 (a text that fills the whole buffer loses its last byte). -/
def truncateText (buffer : List Nat) (n : Nat) : List Nat :=
  buffer.set (n - 1) 0

/-- The text "Room" in a zero padded `char[32]`. -/
def exampleRoomName : List Nat := [82, 111, 111, 109] ++ List.replicate 28 0

/-- A text of 32 characters `A`: it fills the buffer and leaves no room for
the terminator. -/
def exampleLongName : List Nat := List.replicate 32 65

/-- The entry that one pass of the loop of `deserializeRoomListResponse`
(Protocol.cpp:633-654) builds from the 40 payload bytes at `offset`. -/
def roomListEntryAt (payload : List Nat) (offset : Nat) : RoomListEntry :=
  { roomId := ntohl (bytesAt payload offset 4),
    roomName := (bytesAt payload (offset + 4) 32).set 31 0,
    hostId := payload.getD (offset + 36) 0,
    playerCount := payload.getD (offset + 37) 0,
    maxPlayers := payload.getD (offset + 38) 0,
    state := payload.getD (offset + 39) 0 }

/-- A room list with two rooms, "Room" and a name of 32 characters, in an
array of 16 entries. -/
def exampleRoomList : RoomListResponse :=
  { roomCount := 2,
    rooms :=
      [{ roomId := 1, roomName := exampleRoomName, hostId := 0, playerCount := 1,
         maxPlayers := 4, state := 0 },
       { roomId := 2, roomName := exampleLongName, hostId := 3, playerCount := 2,
         maxPlayers := 4, state := 1 }] ++
      List.replicate 14
        { roomId := 0, roomName := List.replicate 32 0, hostId := 0, playerCount := 0,
          maxPlayers := 0, state := 0 } }

/-- The message kinds whose payload has a fixed size and that have a typed
decoder: every kind of Protocol.cpp except `RoomListResponse`, whose length
depends on its count byte (`Handshake` and `RoomList` have no payload codec). -/
inductive FixedKind where
  | PlayerInput
  | PlayerState
  | MonsterSpawn
  | MonsterState
  | MonsterDeath
  | ShieldSpawn
  | ShieldState
  | ShieldDeath
  | PlayerDeath
  | BulletFired
  | BulletState
  | Disconnect
  | PlayerAssignment
  | PowerUpState
  | LevelBegin
  | CreateRoom
  | JoinRoom
  | LeaveRoom
  | StartGame
  | RoomCreated
  | RoomJoined
  | RoomLeft
  | GameStarted
  | RoomError
  | AllPlayersDead
  | SpectatorMode
  | HostChanged
  deriving DecidableEq, Repr

/-- The C++ struct of a kind. -/
def FixedKind.Message : FixedKind -> Type
  | FixedKind.PlayerInput => net.PlayerInput
  | FixedKind.PlayerState => net.PlayerState
  | FixedKind.MonsterSpawn => net.MonsterSpawn
  | FixedKind.MonsterState => net.MonsterState
  | FixedKind.MonsterDeath => net.MonsterDeath
  | FixedKind.ShieldSpawn => net.ShieldSpawn
  | FixedKind.ShieldState => net.ShieldState
  | FixedKind.ShieldDeath => net.ShieldDeath
  | FixedKind.PlayerDeath => net.PlayerDeath
  | FixedKind.BulletFired => net.BulletFired
  | FixedKind.BulletState => net.BulletState
  | FixedKind.Disconnect => net.DisconnectNotice
  | FixedKind.PlayerAssignment => net.PlayerAssignment
  | FixedKind.PowerUpState => net.PowerUpState
  | FixedKind.LevelBegin => net.LevelBegin
  | FixedKind.CreateRoom => net.CreateRoom
  | FixedKind.JoinRoom => net.JoinRoom
  | FixedKind.LeaveRoom => net.LeaveRoom
  | FixedKind.StartGame => net.StartGame
  | FixedKind.RoomCreated => net.RoomCreated
  | FixedKind.RoomJoined => net.RoomJoined
  | FixedKind.RoomLeft => net.RoomLeft
  | FixedKind.GameStarted => net.GameStarted
  | FixedKind.RoomError => net.RoomError
  | FixedKind.AllPlayersDead => net.AllPlayersDead
  | FixedKind.SpectatorMode => net.SpectatorMode
  | FixedKind.HostChanged => net.HostChanged

/-- The payload the serializer of a kind writes for a message. -/
def FixedKind.payload : (k : FixedKind) -> k.Message -> List Nat
  | FixedKind.PlayerInput => payloadPlayerInput
  | FixedKind.PlayerState => payloadPlayerState
  | FixedKind.MonsterSpawn => payloadMonsterSpawn
  | FixedKind.MonsterState => payloadMonsterState
  | FixedKind.MonsterDeath => payloadMonsterDeath
  | FixedKind.ShieldSpawn => payloadShieldSpawn
  | FixedKind.ShieldState => payloadShieldState
  | FixedKind.ShieldDeath => payloadShieldDeath
  | FixedKind.PlayerDeath => payloadPlayerDeath
  | FixedKind.BulletFired => payloadBulletFired
  | FixedKind.BulletState => payloadBulletState
  | FixedKind.Disconnect => payloadDisconnect
  | FixedKind.PlayerAssignment => payloadPlayerAssignment
  | FixedKind.PowerUpState => payloadPowerUpState
  | FixedKind.LevelBegin => payloadLevelBegin
  | FixedKind.CreateRoom => payloadCreateRoom
  | FixedKind.JoinRoom => payloadJoinRoom
  | FixedKind.LeaveRoom => payloadLeaveRoom
  | FixedKind.StartGame => payloadStartGame
  | FixedKind.RoomCreated => payloadRoomCreated
  | FixedKind.RoomJoined => payloadRoomJoined
  | FixedKind.RoomLeft => payloadRoomLeft
  | FixedKind.GameStarted => payloadGameStarted
  | FixedKind.RoomError => payloadRoomError
  | FixedKind.AllPlayersDead => payloadAllPlayersDead
  | FixedKind.SpectatorMode => payloadSpectatorMode
  | FixedKind.HostChanged => payloadHostChanged

/-- The typed decoder of a kind. -/
def FixedKind.deserialize : (k : FixedKind) -> List Nat -> Nat -> Option k.Message × List Nat
  | FixedKind.PlayerInput => deserializePlayerInput
  | FixedKind.PlayerState => deserializePlayerState
  | FixedKind.MonsterSpawn => deserializeMonsterSpawn
  | FixedKind.MonsterState => deserializeMonsterState
  | FixedKind.MonsterDeath => deserializeMonsterDeath
  | FixedKind.ShieldSpawn => deserializeShieldSpawn
  | FixedKind.ShieldState => deserializeShieldState
  | FixedKind.ShieldDeath => deserializeShieldDeath
  | FixedKind.PlayerDeath => deserializePlayerDeath
  | FixedKind.BulletFired => deserializeBulletFired
  | FixedKind.BulletState => deserializeBulletState
  | FixedKind.Disconnect => deserializeDisconnect
  | FixedKind.PlayerAssignment => deserializePlayerAssignment
  | FixedKind.PowerUpState => deserializePowerUpState
  | FixedKind.LevelBegin => deserializeLevelBegin
  | FixedKind.CreateRoom => deserializeCreateRoom
  | FixedKind.JoinRoom => deserializeJoinRoom
  | FixedKind.LeaveRoom => deserializeLeaveRoom
  | FixedKind.StartGame => deserializeStartGame
  | FixedKind.RoomCreated => deserializeRoomCreated
  | FixedKind.RoomJoined => deserializeRoomJoined
  | FixedKind.RoomLeft => deserializeRoomLeft
  | FixedKind.GameStarted => deserializeGameStarted
  | FixedKind.RoomError => deserializeRoomError
  | FixedKind.AllPlayersDead => deserializeAllPlayersDead
  | FixedKind.SpectatorMode => deserializeSpectatorMode
  | FixedKind.HostChanged => deserializeHostChanged

end net

end rtype

namespace rtype

namespace server

open engine

/-! ## Rooms and the room directory (Room.hpp, Room.cpp, RoomManager.cpp)

A `std::shared_ptr<Room>` held in `RoomManager::_rooms` is modelled by the
`Room` value stored in the map: every mutation made through the pointer
replaces the value under the same key.  The mutex of `RoomManager` serialises
its operations; each operation is one atomic function on the state.  An
endpoint (`std::unique_ptr<network::IEndpoint>`) is represented by its key. -/

/-- Embeds `using RoomId = std::uint32_t;` -/
abbrev RoomId := Nat

/-- Embeds `enum class RoomState`. -/
inductive RoomState where
  | Waiting
  | Playing
  | Finished
  deriving DecidableEq, Repr

/-- Embeds `class ClientHandler` (ClientHandler.hpp). -/
structure ClientHandler where
  id : Nat
  endpoint : String
  lastSeen : Nat
  entityId : Nat
  deriving DecidableEq, Repr

/-- What the room code uses of `config::GameConfig`.  The component values
that `EntityFactory::spawnPlayer` attaches are computed from the configuration
with float arithmetic; they are taken as given here, as the list of
(component type hash, value) pairs in the order of the `addComponent` calls
(Transform, Velocity, PlayerComponent, Health, FireCooldown, WeaponComponent,
PlayerPowerUpStatus, Collider, Hurtbox and, without friendly fire,
TeamComponent).  `initialRegistry` is the registry of a `GameLogicHandler`
after its constructor ran `initializeSystems` (which spawns the configured
monsters). -/
structure GameConfig (V : Type) where
  playerComponents : PlayerId -> List (Nat × V)
  initialRegistry : Registry V

/-- The members of `class GameLogicHandler` that the room code reaches. -/
structure GameLogicHandler (V : Type) where
  registry : Registry V
  toDestroySet : Finset EntityId
  prevLevel : Int
  currentLevel : Int
  levelChanged : Bool

/-- Embeds `GameLogicHandler::GameLogicHandler` (GameLogicHandler.cpp:31-37). -/
def GameLogicHandler.create {V : Type} (config : GameConfig V) : GameLogicHandler V :=
  { registry := config.initialRegistry, toDestroySet := ∅, prevLevel := 0, currentLevel := 0,
    levelChanged := false }

/-- Embeds `EntityFactory::spawnPlayer` (EntityFactory.cpp:22-41): `createEntity`, then
one `addComponent` per configured component. -/
def EntityFactory.spawnPlayer {V : Type} (config : GameConfig V) (registry : Registry V)
    (id : PlayerId) : EntityId × Registry V :=
  let created := registry.createEntity
  (created.1,
    (config.playerComponents id).foldl (fun r c => r.addComponent c.1 created.1 c.2) created.2)

/-- Embeds `GameLogicHandler::spawnPlayer` (GameLogicHandler.cpp:131-137). -/
def GameLogicHandler.spawnPlayer {V : Type} (config : GameConfig V) (g : GameLogicHandler V)
    (playerId : PlayerId) : EntityId × GameLogicHandler V :=
  let spawned := EntityFactory.spawnPlayer config g.registry playerId
  (spawned.1, { g with registry := spawned.2 })

/-- Embeds `GameLogicHandler::destroyEntity` (GameLogicHandler.cpp:159-162). -/
def GameLogicHandler.destroyEntity {V : Type} (g : GameLogicHandler V) (id : EntityId) :
    GameLogicHandler V :=
  { g with registry := g.registry.destroyEntity id }

/-- Embeds `std::unordered_map::emplace`: inserts only when the key is absent. -/
def emplace {K : Type} [DecidableEq K] {B : Type} (m : AList (fun _ : K => B)) (k : K) (b : B) :
    AList (fun _ : K => B) :=
  if k ∈ m then m else m.insert k b

/-- The member variables of `class Room`. -/
structure Room (V : Type) where
  roomId : RoomId
  roomName : String
  hostId : PlayerId
  state : RoomState
  clients : AList (fun _ : PlayerId => ClientHandler)
  gameLogic : GameLogicHandler V
  deadPlayers : AList (fun _ : PlayerId => Bool)
  allPlayersDeadNotified : Bool

namespace Room

variable {V : Type}

/-- Embeds `Room::kMaxPlayersPerRoom`. -/
def kMaxPlayersPerRoom : Nat := 4

/-- Embeds `Room::Room` (Room.cpp:14-24). -/
def create (id : RoomId) (hostId : PlayerId) (roomName : String) (config : GameConfig V) :
    Room V :=
  { roomId := id, roomName := roomName, hostId := hostId, state := RoomState.Waiting,
    clients := ∅, gameLogic := GameLogicHandler.create config, deadPlayers := ∅,
    allPlayersDeadNotified := false }

/-- Embeds `Room::getPlayerCount`: `_clients.size()`. -/
def getPlayerCount (room : Room V) : Nat :=
  room.clients.entries.length

/-- Embeds `Room::isFull`. -/
def isFull (room : Room V) : Bool :=
  decide (room.getPlayerCount ≥ kMaxPlayersPerRoom)

/-- Embeds `Room::isEmpty`. -/
def isEmpty (room : Room V) : Bool :=
  room.clients.entries.isEmpty

/-- Embeds `Room::hasPlayer` (Room.cpp:75-78). -/
def hasPlayer (room : Room V) (playerId : PlayerId) : Bool :=
  decide (playerId ∈ room.clients)

/-- Embeds `Room::getPlayerIds` (Room.cpp:107-116). -/
def getPlayerIds (room : Room V) : List PlayerId :=
  room.clients.keys

/-- Embeds `Room::addPlayer` (Room.cpp:26-49): the returned flag and the room afterwards. -/
def addPlayer (config : GameConfig V) (room : Room V) (playerId : PlayerId) (endpoint : String)
    (now : Timestamp) : Bool × Room V :=
  if room.isFull then (false, room)
  else if room.state ≠ RoomState.Waiting then (false, room)
  else
    let spawned := room.gameLogic.spawnPlayer config playerId
    (true,
      { room with
        gameLogic := spawned.2,
        clients := emplace room.clients playerId
          { id := playerId, endpoint := endpoint, lastSeen := now, entityId := spawned.1 } })

/-- Embeds `Room::removePlayer` (Room.cpp:51-73). -/
def removePlayer (room : Room V) (playerId : PlayerId) : Room V :=
  match room.clients.lookup playerId with
  | none => room
  | some client =>
      let gameLogic := room.gameLogic.destroyEntity client.entityId
      let clients := room.clients.erase playerId
      let hostId :=
        if playerId = room.hostId ∧ ¬ clients.entries.isEmpty then
          match clients.keys with
          | first :: _ => first
          | [] => room.hostId
        else room.hostId
      { room with gameLogic := gameLogic, clients := clients, hostId := hostId }

/-- Embeds `Room::startGame` (Room.cpp:80-96). -/
def startGame (room : Room V) : Room V :=
  if room.state ≠ RoomState.Waiting then room
  else if room.clients.entries.isEmpty then room
  else { room with state := RoomState.Playing }

end Room

/-- The member variables of `class RoomManager` (the configuration is passed
to the operations that use it). -/
structure RoomManager (V : Type) where
  rooms : AList (fun _ : RoomId => Room V)
  playerToRoom : AList (fun _ : PlayerId => RoomId)
  nextRoomId : RoomId

namespace RoomManager

variable {V : Type}

/-- Embeds `RoomManager::RoomManager` (RoomManager.cpp:15-18). -/
def create : RoomManager V :=
  { rooms := ∅, playerToRoom := ∅, nextRoomId := 1 }

/-- Embeds `RoomManager::createRoom` (RoomManager.cpp:20-30). -/
def createRoom (config : GameConfig V) (rm : RoomManager V) (roomName : String)
    (hostId : PlayerId) : RoomId × RoomManager V :=
  let roomId := rm.nextRoomId
  let room := Room.create roomId hostId roomName config
  (roomId, { rm with nextRoomId := (rm.nextRoomId + 1) % 2 ^ 32,
                     rooms := emplace rm.rooms roomId room })

/-- Embeds `RoomManager::deleteRoom` (RoomManager.cpp:32-48). -/
def deleteRoom (rm : RoomManager V) (roomId : RoomId) : Bool × RoomManager V :=
  match rm.rooms.lookup roomId with
  | none => (false, rm)
  | some room =>
      (true, { rm with
        playerToRoom := room.getPlayerIds.foldl (fun index p => index.erase p) rm.playerToRoom,
        rooms := rm.rooms.erase roomId })

/-- Embeds `RoomManager::getRoom` (RoomManager.cpp:50-59). -/
def getRoom (rm : RoomManager V) (roomId : RoomId) : Option (Room V) :=
  rm.rooms.lookup roomId

/-- Embeds `RoomManager::getRoomByPlayer` (RoomManager.cpp:61-74). -/
def getRoomByPlayer (rm : RoomManager V) (playerId : PlayerId) : Option (Room V) :=
  match rm.playerToRoom.lookup playerId with
  | none => none
  | some roomId => rm.rooms.lookup roomId

/-- Embeds `RoomManager::joinRoom` (RoomManager.cpp:76-102). -/
def joinRoom (config : GameConfig V) (rm : RoomManager V) (roomId : RoomId)
    (playerId : PlayerId) (endpoint : String) (now : Timestamp) : Bool × RoomManager V :=
  match rm.playerToRoom.lookup playerId with
  | some _ => (false, rm)
  | none =>
      match rm.rooms.lookup roomId with
      | none => (false, rm)
      | some room =>
          let added := room.addPlayer config playerId endpoint now
          if added.1 then
            (true, { rm with rooms := rm.rooms.replace roomId added.2,
                             playerToRoom := rm.playerToRoom.insert playerId roomId })
          else (false, { rm with rooms := rm.rooms.replace roomId added.2 })

/-- Embeds `RoomManager::leaveRoom` (RoomManager.cpp:104-120). -/
def leaveRoom (rm : RoomManager V) (playerId : PlayerId) : RoomManager V :=
  match rm.playerToRoom.lookup playerId with
  | none => rm
  | some roomId =>
      let rooms :=
        match rm.rooms.lookup roomId with
        | some room => rm.rooms.replace roomId (room.removePlayer playerId)
        | none => rm.rooms
      { rm with rooms := rooms, playerToRoom := rm.playerToRoom.erase playerId }

/-- Embeds `RoomManager::cleanupEmptyRooms` (RoomManager.cpp:154-172). -/
def cleanupEmptyRooms (rm : RoomManager V) : RoomManager V :=
  let toDelete := (rm.rooms.entries.filter (fun e => e.2.isEmpty)).map (fun e => e.1)
  { rm with rooms := toDelete.foldl (fun rooms id => rooms.erase id) rm.rooms }

/-- One operation on the room directory: the five operations of `RoomManager`
that change it, and the changes `GameServer` makes to a room through the
pointer it got from `getRoom` / `getRoomByPlayer`: `Room::startGame`
(GameServer.cpp:420), `Room::removePlayer` (GameServer.cpp:802), and anything
that only changes the simulation of a room (`updateGame`, `manageInputs`,
`destroyEntityDestructionList`), taken as an arbitrary new `GameLogicHandler`. -/
inductive Op (V : Type) where
  | createRoom (roomName : String) (hostId : PlayerId)
  | deleteRoom (roomId : RoomId)
  | joinRoom (roomId : RoomId) (playerId : PlayerId) (endpoint : String) (now : Timestamp)
  | leaveRoom (playerId : PlayerId)
  | cleanupEmptyRooms
  | startGame (roomId : RoomId)
  | removePlayer (roomId : RoomId) (playerId : PlayerId)
  | simulate (roomId : RoomId) (gameLogic : GameLogicHandler V)

/-- Apply a change to the room stored under `roomId`, if there is one. -/
def onRoom (rm : RoomManager V) (roomId : RoomId) (f : Room V -> Room V) : RoomManager V :=
  match rm.rooms.lookup roomId with
  | none => rm
  | some room => { rm with rooms := rm.rooms.replace roomId (f room) }

/-- The state after one operation. -/
def step (config : GameConfig V) (rm : RoomManager V) : Op V -> RoomManager V
  | Op.createRoom roomName hostId => (rm.createRoom config roomName hostId).2
  | Op.deleteRoom roomId => (rm.deleteRoom roomId).2
  | Op.joinRoom roomId playerId endpoint now => (rm.joinRoom config roomId playerId endpoint now).2
  | Op.leaveRoom playerId => rm.leaveRoom playerId
  | Op.cleanupEmptyRooms => rm.cleanupEmptyRooms
  | Op.startGame roomId => rm.onRoom roomId Room.startGame
  | Op.removePlayer roomId playerId => rm.onRoom roomId (fun room => room.removePlayer playerId)
  | Op.simulate roomId gameLogic => rm.onRoom roomId (fun room => { room with gameLogic := gameLogic })

/-- The state after a sequence of operations on a new `RoomManager`. -/
def run (config : GameConfig V) (ops : List (Op V)) : RoomManager V :=
  ops.foldl (step config) create

end RoomManager

/-- A configuration for examples: one component per player, no monsters. -/
def exampleConfig : GameConfig Unit :=
  { playerComponents := fun _ => [(1, ())], initialRegistry := Registry.fresh }

/-- The directory after player 1 created room 1 and players 1, 2, 3 joined it. -/
def exampleDirectory3 : RoomManager Unit :=
  RoomManager.run exampleConfig
    [RoomManager.Op.createRoom "room" 1, RoomManager.Op.joinRoom 1 1 "a" 0,
     RoomManager.Op.joinRoom 1 2 "b" 0, RoomManager.Op.joinRoom 1 3 "c" 0]

/-- The directory after a fourth player joined room 1. -/
def exampleDirectory4 : RoomManager Unit :=
  (exampleDirectory3.joinRoom exampleConfig 1 4 "d" 0).2

/-- Room 1 of a directory (a new room when there is none). -/
def exampleRoom (rm : RoomManager Unit) : Room Unit :=
  (rm.rooms.lookup 1).getD (Room.create 0 0 "" exampleConfig)

end server

end rtype

namespace rtype

namespace server

open engine

/-! ## The session handlers of the server (GameServer.cpp)

The handlers run on the game thread, one packet at a time.  Every call of
`flushSends(packet, target)` is recorded in `sent`, oldest first, as the key
of the target endpoint and the bytes of the packet.  The reading of the clock
(`nowMilliseconds()`) is an argument `now` of each handler.  A handler that
dereferences `_playerEndpoints[playerId]` returns an `Option`: `none` when the
entry is missing, where the C++ dereferences a null pointer. -/

/-- The members of `class GameServer` used by the session handlers. -/
structure GameServer (V : Type) where
  /-- The map `_endpointToPlayer`. -/
  endpointToPlayer : AList (fun _ : String => PlayerId)
  /-- The map `_playerEndpoints`; an endpoint is represented by its key. -/
  playerEndpoints : AList (fun _ : PlayerId => String)
  /-- The directory `*_roomManager`. -/
  roomManager : RoomManager V
  /-- The counter `_sequence{1}`. -/
  sequence : Nat
  /-- The counter `_nextPlayerId{0}`. -/
  nextPlayerId : Nat
  /-- Every `flushSends(data, target)` so far: target key and bytes. -/
  sent : List (String × List Nat)

namespace GameServer

variable {V : Type}

/-- A `GameServer` right after construction. -/
def create : GameServer V :=
  { endpointToPlayer := ∅, playerEndpoints := ∅, roomManager := RoomManager.create,
    sequence := 1, nextPlayerId := 0, sent := [] }

/-- Embeds `GameServer::flushSends` (GameServer.cpp:729-732). -/
def flushSends (gs : GameServer V) (data : List Nat) (target : String) : GameServer V :=
  { gs with sent := gs.sent ++ [(target, data)] }

/-- Embeds `_sequence++`: the value used, and the server with the counter advanced. -/
def nextSequence (gs : GameServer V) : Nat × GameServer V :=
  (gs.sequence, { gs with sequence := (gs.sequence + 1) % 2 ^ 32 })

/-- Embeds `*_playerEndpoints[playerId]` and `_playerEndpoints[playerId]->...`:
the key of the endpoint stored for a player.  For a player without an entry,
`operator[]` inserts a null `unique_ptr` and the dereference is undefined:
`none`. -/
def endpointOf (gs : GameServer V) (playerId : PlayerId) : Option String :=
  gs.playerEndpoints.lookup playerId

/-- Send one packet to every client of a room, in the iteration order of
`_clients`. -/
def sendToClients (gs : GameServer V) (packet : List Nat)
    (clients : List (Sigma fun _ : PlayerId => ClientHandler)) : GameServer V :=
  clients.foldl (fun g c => g.flushSends packet c.2.endpoint) gs

/-- Embeds `std::string(name)` for a `char[]` buffer: the bytes before the first
zero byte, one character per byte. -/
def stringOfBuffer (buffer : List Nat) : String :=
  String.mk ((buffer.takeWhile (fun b => b != 0)).map Char.ofNat)

/-- Embeds `std::strncpy(dst, s.c_str(), n - 1); dst[n - 1] = 0` into a zeroed
`char[n]`: at most `n - 1` characters, zero padded to `n` bytes. -/
def bufferOfString (s : String) (n : Nat) : List Nat :=
  let bytes := (s.data.map Char.toNat).take (n - 1)
  bytes ++ List.replicate (n - bytes.length) 0

/-- Embeds `GameServer::getOrCreatePlayer` (GameServer.cpp:217-235).  The
assignment is sent to `*_playerEndpoints[playerId]`, the endpoint that was
stored under `playerId` two statements before: the sender. -/
def getOrCreatePlayer (gs : GameServer V) (endpointKey : String) (now : Timestamp) :
    PlayerId × GameServer V :=
  match gs.endpointToPlayer.lookup endpointKey with
  | some playerId => (playerId, gs)
  | none =>
      let playerId := gs.nextPlayerId
      let gs1 : GameServer V :=
        { gs with nextPlayerId := (gs.nextPlayerId + 1) % 256,
                  endpointToPlayer := gs.endpointToPlayer.insert endpointKey playerId,
                  playerEndpoints := gs.playerEndpoints.insert playerId endpointKey }
      let seq := gs1.nextSequence
      let packet := net.serializePlayerAssignment { playerId := playerId } seq.1 now
      (playerId, seq.2.flushSends packet endpointKey)

/-- Embeds `GameServer::handleCreateRoom` (GameServer.cpp:249-282); `none` is
undefined behaviour (the dereference of a null `_playerEndpoints` entry). -/
def handleCreateRoom (config : GameConfig V) (gs : GameServer V) (createRoom : net.CreateRoom)
    (senderKey : String) (now : Timestamp) : Option (GameServer V) :=
  let player := gs.getOrCreatePlayer senderKey now
  let playerId := player.1
  let gs1 := player.2
  let roomName := stringOfBuffer createRoom.roomName
  let created := gs1.roomManager.createRoom config roomName playerId
  let roomId := created.1
  let gs2 : GameServer V := { gs1 with roomManager := created.2 }
  match gs2.roomManager.getRoom roomId with
  | none => some gs2
  | some _ =>
      match gs2.endpointOf playerId with
      | none => none
      | some endpoint =>
          let joined := gs2.roomManager.joinRoom config roomId playerId endpoint now
          let gs3 : GameServer V := { gs2 with roomManager := joined.2 }
          if joined.1 = false then some gs3
          else
            let response : net.RoomCreated :=
              { roomId := roomId, roomName := bufferOfString roomName 32, hostId := playerId,
                playerId := playerId }
            let seq := gs3.nextSequence
            let packet := net.serializeRoomCreated response seq.1 now
            match seq.2.endpointOf playerId with
            | none => none
            | some target => some (seq.2.flushSends packet target)

/-- The `RoomError` sent by `handleStartGame` to a requester that is not the
host (GameServer.cpp:411-414). -/
def notHostError : net.RoomError :=
  { errorCode := 3, message := bufferOfString "Only host can start game" 64 }

/-- Embeds `GameServer::handleStartGame` (GameServer.cpp:392-434); `none` is
undefined behaviour (the dereference of a null `_playerEndpoints` entry). -/
def handleStartGame (gs : GameServer V) (startGame : net.StartGame) (endpointKey : String)
    (now : Timestamp) : Option (GameServer V) :=
  match gs.endpointToPlayer.lookup endpointKey with
  | none => some gs
  | some playerId =>
      match gs.roomManager.getRoom startGame.roomId with
      | none => some gs
      | some room =>
          if room.hostId ≠ playerId then
            let seq := gs.nextSequence
            let packet := net.serializeRoomError notHostError seq.1 now
            match seq.2.endpointOf playerId with
            | none => none
            | some target => some (seq.2.flushSends packet target)
          else
            let started := room.startGame
            let gs1 : GameServer V :=
              { gs with roomManager :=
                  { gs.roomManager with
                    rooms := gs.roomManager.rooms.replace startGame.roomId started } }
            let seq := gs1.nextSequence
            let packet := net.serializeGameStarted { roomId := startGame.roomId } seq.1 now
            some (seq.2.sendToClients packet started.clients.entries)

/-- Embeds `GameServer::handleDisconnect` (GameServer.cpp:494-519). -/
def handleDisconnect (gs : GameServer V) (notice : net.DisconnectNotice) (endpointKey : String)
    (now : Timestamp) : GameServer V :=
  match gs.endpointToPlayer.lookup endpointKey with
  | none => gs
  | some playerId =>
      let gs1 : GameServer V :=
        match gs.roomManager.getRoomByPlayer playerId with
        | none => gs
        | some room =>
            let seq := gs.nextSequence
            let packet := net.serializeDisconnect notice seq.1 now
            let gs2 := seq.2.sendToClients packet
              (room.clients.entries.filter (fun c => c.1 != playerId))
            { gs2 with roomManager := gs2.roomManager.leaveRoom playerId }
      { gs1 with playerEndpoints := gs1.playerEndpoints.erase playerId,
                 endpointToPlayer := gs1.endpointToPlayer.erase endpointKey }

/-- Embeds `now - lastSeen` on `Timestamp` (32-bit unsigned) values. -/
def elapsed (now lastSeen : Timestamp) : Nat :=
  (now % 2 ^ 32 + 2 ^ 32 - lastSeen % 2 ^ 32) % 2 ^ 32

/-- The clients that the first loop of `checkClientTimeouts` finds timed out
(GameServer.cpp:764-791), in the order of the rooms and of their clients: the
key under which the client is stored, and the client. -/
def timedOutClients (rm : RoomManager V) (now timeoutMs : Nat) :
    List (Sigma fun _ : PlayerId => ClientHandler) :=
  (rm.rooms.entries.map (fun r =>
    r.2.clients.entries.filter (fun c => decide (elapsed now c.2.lastSeen > timeoutMs)))).flatten

/-- The inner loop of the removal pass of `checkClientTimeouts`
(GameServer.cpp:797-809): the first listed room that has the player loses it,
through `Room::removePlayer`. -/
def removeTimedOutPlayer (rm : RoomManager V) : List RoomId -> PlayerId -> RoomManager V
  | [], _ => rm
  | roomId :: rest, playerId =>
      match rm.getRoom roomId with
      | some room =>
          if room.hasPlayer playerId then
            { rm with rooms := rm.rooms.replace roomId (room.removePlayer playerId) }
          else removeTimedOutPlayer rm rest playerId
      | none => removeTimedOutPlayer rm rest playerId

/-- Embeds `GameServer::checkClientTimeouts` (GameServer.cpp:757-810); `timeoutMs`
is `static_cast<Timestamp>(_config.network.clientTimeout * 1000.0f)`. -/
def checkClientTimeouts (gs : GameServer V) (now timeoutMs : Nat) : GameServer V :=
  let roomIds := gs.roomManager.rooms.keys
  let timedOut := timedOutClients gs.roomManager now timeoutMs
  let gs1 := timedOut.foldl (fun g c =>
    let seq := g.nextSequence
    let packet := net.serializeDisconnect { player := c.1 } seq.1 now
    seq.2.flushSends packet c.2.endpoint) gs
  { gs1 with roomManager :=
      timedOut.foldl (fun rm c => removeTimedOutPlayer rm roomIds c.1) gs1.roomManager }

end GameServer

end server

end rtype

namespace rtype

/-! ## Components (Components.hpp)

A `float` of the simulation (positions, radii, timers, the tick length) is a
rational number, the value it holds.  `CollisionSystem::circleVsCircle` and
`ShootingSystem::computeRocketDamage` compute with the rounding operations of
`float` (`Float32`); the other comparisons and sums of the systems are taken
exactly. -/

/-- Embeds `struct Transform`. -/
structure Transform where
  x : ℚ
  y : ℚ
  deriving DecidableEq

/-- Embeds `struct Velocity`. -/
structure Velocity where
  vx : ℚ
  vy : ℚ
  deriving DecidableEq

/-- Embeds `struct Health`; `hp` is a `std::uint8_t`. -/
structure Health where
  hp : Nat
  alive : Bool
  deriving DecidableEq

/-- Embeds `struct PlayerPowerUpStatus`; `startTime` stands for the
`steady_clock::time_point`. -/
structure PlayerPowerUpStatus where
  type : Nat
  startTime : Nat
  deriving DecidableEq

/-- Embeds `struct PlayerComponent`. -/
structure PlayerComponent where
  id : Nat
  deriving DecidableEq

/-- Embeds `struct MonsterComponent`. -/
structure MonsterComponent where
  type : Nat
  deriving DecidableEq

/-- Embeds `enum class WeaponType`. -/
inductive WeaponType where
  | kWeaponBasicType
  | kWeaponLaserType
  | kWeaponRocketType
  deriving DecidableEq, Repr

/-- Embeds `struct Projectile`; `damage` is a `std::uint8_t`. -/
structure Projectile where
  owner : Nat
  fromPlayer : Bool
  lifetime : ℚ
  damage : Nat
  weaponType : WeaponType
  persistent : Bool
  damageTickTimer : ℚ
  deriving DecidableEq

/-- Embeds `struct WeaponComponent`. -/
structure WeaponComponent where
  weaponType : WeaponType
  weaponLevel : Nat
  laserActive : Bool
  activeLaserId : Nat
  laserUnlocked : Bool
  rocketUnlocked : Bool
  powerUpsCollected : Nat
  deriving DecidableEq

/-- Embeds `struct PowerUp`. -/
structure PowerUp where
  type : Nat
  value : Nat
  deriving DecidableEq

/-- Embeds `struct FireCooldown`. -/
structure FireCooldown where
  timer : ℚ
  cooldownTime : ℚ
  deriving DecidableEq

/-- Embeds `enum class Team`. -/
inductive Team where
  | Player
  | Monster
  | Neutral
  deriving DecidableEq, Repr

/-- Embeds `struct TeamComponent`. -/
structure TeamComponent where
  team : Team
  deriving DecidableEq

/-- Embeds `struct Hurtbox`; `none` is the empty `std::optional`. -/
structure Hurtbox where
  collidedWith : Option Nat
  deriving DecidableEq

/-- Embeds `struct Hitbox`. -/
structure Hitbox where
  destroyOnHit : Bool
  deriving DecidableEq

/-- Embeds `struct Collider`. -/
structure Collider where
  radius : ℚ
  deriving DecidableEq

/-- Embeds `struct BeamCollider`. -/
structure BeamCollider where
  length : ℚ
  halfHeight : ℚ
  deriving DecidableEq

/-- Embeds `struct ShieldComponent`. -/
structure ShieldComponent where
  parentMonster : Nat
  offsetX : ℚ
  offsetY : ℚ
  deriving DecidableEq

/-- Embeds `struct Direction` (Types.hpp). -/
structure Direction where
  dx : ℚ
  dy : ℚ
  deriving DecidableEq

/-- Embeds `struct AutomaticShooting`. -/
structure AutomaticShooting where
  shootingDirections : List Direction
  deriving DecidableEq

/-- Embeds `struct PlayerInputComponent`. -/
structure PlayerInputComponent where
  left : Bool
  right : Bool
  up : Bool
  down : Bool
  fire : Bool
  swapWeapon : Bool
  deriving DecidableEq

/-- Embeds `struct Boss2Behavior`. -/
structure Boss2Behavior where
  oscillationTimer : ℚ
  oscillationSpeed : ℚ
  oscillationAmplitude : ℚ
  baseY : ℚ
  visibilityTimer : ℚ
  visibleDuration : ℚ
  invisibleDuration : ℚ
  visible : Bool
  deriving DecidableEq

/-- A component value of any of the types above: the value type of the
registry of the game. -/
inductive Component where
  | transform (c : Transform)
  | velocity (c : Velocity)
  | health (c : Health)
  | playerPowerUpStatus (c : PlayerPowerUpStatus)
  | player (c : PlayerComponent)
  | monster (c : MonsterComponent)
  | projectile (c : Projectile)
  | weapon (c : WeaponComponent)
  | powerUp (c : PowerUp)
  | fireCooldown (c : FireCooldown)
  | team (c : TeamComponent)
  | hurtbox (c : Hurtbox)
  | hitbox (c : Hitbox)
  | collider (c : Collider)
  | beamCollider (c : BeamCollider)
  | shield (c : ShieldComponent)
  | automaticShooting (c : AutomaticShooting)
  | playerInput (c : PlayerInputComponent)
  | boss2Behavior (c : Boss2Behavior)
  deriving DecidableEq

/-- The component types, standing for `typeid(T)`. -/
inductive ComponentType where
  | Transform
  | Velocity
  | Health
  | PlayerPowerUpStatus
  | PlayerComponent
  | MonsterComponent
  | Projectile
  | WeaponComponent
  | PowerUp
  | FireCooldown
  | TeamComponent
  | Hurtbox
  | Hitbox
  | Collider
  | BeamCollider
  | ShieldComponent
  | AutomaticShooting
  | PlayerInputComponent
  | Boss2Behavior
  deriving DecidableEq, Repr

/-- Embeds `typeid(T).hash_code()`: one number per component type. -/
def ComponentType.hash : ComponentType -> Nat
  | ComponentType.Transform => 0
  | ComponentType.Velocity => 1
  | ComponentType.Health => 2
  | ComponentType.PlayerPowerUpStatus => 3
  | ComponentType.PlayerComponent => 4
  | ComponentType.MonsterComponent => 5
  | ComponentType.Projectile => 6
  | ComponentType.WeaponComponent => 7
  | ComponentType.PowerUp => 8
  | ComponentType.FireCooldown => 9
  | ComponentType.TeamComponent => 10
  | ComponentType.Hurtbox => 11
  | ComponentType.Hitbox => 12
  | ComponentType.Collider => 13
  | ComponentType.BeamCollider => 14
  | ComponentType.ShieldComponent => 15
  | ComponentType.AutomaticShooting => 16
  | ComponentType.PlayerInputComponent => 17
  | ComponentType.Boss2Behavior => 18

namespace engine

namespace Registry

/-- The registry of the game: component values are `Component`s. -/
abbrev World := Registry Component

/-- Embeds `registry.getComponent<T>(id)` / `registry.get<T>(id)` as a lookup in the
storage of `T`: the stored value, if any. -/
def find (r : World) (t : ComponentType) (id : EntityId) : Option Component :=
  r.getComponent t.hash id

/-- Embeds `*ptr = value` through a pointer or reference to the component of type
`t` of entity `id`: the value is replaced in place, the storage keeps its
keys and their order.  Nothing happens when the entity has no such component. -/
def assign (r : World) (t : ComponentType) (id : EntityId) (c : Component) : World :=
  { r with componentStorages :=
      r.componentStorages.map (fun ts => if ts.1 = t.hash then (ts.1, ts.2.replace id c) else ts) }

/-- Embeds `registry.get<Transform>(id)`. -/
def getTransform (r : World) (id : EntityId) : Option Transform :=
  match r.find ComponentType.Transform id with
  | some (Component.transform c) => some c
  | _ => none

/-- Embeds `registry.get<Health>(id)`. -/
def getHealth (r : World) (id : EntityId) : Option Health :=
  match r.find ComponentType.Health id with
  | some (Component.health c) => some c
  | _ => none

/-- Embeds `registry.get<Projectile>(id)`. -/
def getProjectile (r : World) (id : EntityId) : Option Projectile :=
  match r.find ComponentType.Projectile id with
  | some (Component.projectile c) => some c
  | _ => none

/-- Embeds `registry.get<TeamComponent>(id)`. -/
def getTeam (r : World) (id : EntityId) : Option TeamComponent :=
  match r.find ComponentType.TeamComponent id with
  | some (Component.team c) => some c
  | _ => none

/-- Embeds `registry.get<Collider>(id)`. -/
def getCollider (r : World) (id : EntityId) : Option Collider :=
  match r.find ComponentType.Collider id with
  | some (Component.collider c) => some c
  | _ => none

/-- Embeds `registry.get<BeamCollider>(id)`. -/
def getBeamCollider (r : World) (id : EntityId) : Option BeamCollider :=
  match r.find ComponentType.BeamCollider id with
  | some (Component.beamCollider c) => some c
  | _ => none

/-- Embeds `registry.get<Hurtbox>(id)`. -/
def getHurtbox (r : World) (id : EntityId) : Option Hurtbox :=
  match r.find ComponentType.Hurtbox id with
  | some (Component.hurtbox c) => some c
  | _ => none

/-- Embeds `registry.get<Hitbox>(id)`. -/
def getHitbox (r : World) (id : EntityId) : Option Hitbox :=
  match r.find ComponentType.Hitbox id with
  | some (Component.hitbox c) => some c
  | _ => none

/-- Embeds `registry.get<PlayerPowerUpStatus>(id)`. -/
def getPlayerPowerUpStatus (r : World) (id : EntityId) : Option PlayerPowerUpStatus :=
  match r.find ComponentType.PlayerPowerUpStatus id with
  | some (Component.playerPowerUpStatus c) => some c
  | _ => none

/-- Embeds `registry.get<Velocity>(id)`. -/
def getVelocity (r : World) (id : EntityId) : Option Velocity :=
  match r.find ComponentType.Velocity id with
  | some (Component.velocity c) => some c
  | _ => none

/-- Embeds `registry.get<PlayerComponent>(id)`. -/
def getPlayerComponent (r : World) (id : EntityId) : Option PlayerComponent :=
  match r.find ComponentType.PlayerComponent id with
  | some (Component.player c) => some c
  | _ => none

/-- Embeds `registry.get<MonsterComponent>(id)`. -/
def getMonsterComponent (r : World) (id : EntityId) : Option MonsterComponent :=
  match r.find ComponentType.MonsterComponent id with
  | some (Component.monster c) => some c
  | _ => none

/-- Embeds `registry.get<WeaponComponent>(id)`. -/
def getWeapon (r : World) (id : EntityId) : Option WeaponComponent :=
  match r.find ComponentType.WeaponComponent id with
  | some (Component.weapon c) => some c
  | _ => none

/-- Embeds `registry.get<PowerUp>(id)`. -/
def getPowerUp (r : World) (id : EntityId) : Option PowerUp :=
  match r.find ComponentType.PowerUp id with
  | some (Component.powerUp c) => some c
  | _ => none

/-- Embeds `registry.get<FireCooldown>(id)`. -/
def getFireCooldown (r : World) (id : EntityId) : Option FireCooldown :=
  match r.find ComponentType.FireCooldown id with
  | some (Component.fireCooldown c) => some c
  | _ => none

/-- Embeds `registry.get<ShieldComponent>(id)`. -/
def getShield (r : World) (id : EntityId) : Option ShieldComponent :=
  match r.find ComponentType.ShieldComponent id with
  | some (Component.shield c) => some c
  | _ => none

/-- Embeds `registry.get<AutomaticShooting>(id)`. -/
def getAutomaticShooting (r : World) (id : EntityId) : Option AutomaticShooting :=
  match r.find ComponentType.AutomaticShooting id with
  | some (Component.automaticShooting c) => some c
  | _ => none

/-- Embeds `registry.get<PlayerInputComponent>(id)`. -/
def getPlayerInput (r : World) (id : EntityId) : Option PlayerInputComponent :=
  match r.find ComponentType.PlayerInputComponent id with
  | some (Component.playerInput c) => some c
  | _ => none

/-- Embeds `registry.get<Boss2Behavior>(id)`. -/
def getBoss2Behavior (r : World) (id : EntityId) : Option Boss2Behavior :=
  match r.find ComponentType.Boss2Behavior id with
  | some (Component.boss2Behavior c) => some c
  | _ => none

/-- The ids that `forEach<T>` (mutable, Registry.hpp:345-362) collects before
it calls the callback: the keys of the storage of `T`, in iteration order. -/
def idsOf (r : World) (t : ComponentType) : List EntityId :=
  ((r.getStorage t.hash).getD ∅).keys

end Registry

end engine

end rtype

namespace rtype

/-! ## Arithmetic of the C++ type `float` (IEEE-754 binary32)

A result of a `float` operation is the exact result rounded to the nearest
binary32 value, ties to the value with an even significand; a result of
magnitude `2 ^ 128` or more after rounding is an infinity.  Every operation
rounds on its own (no fused multiply-add, no wider intermediate format).  The
two zeros are one value here: addition, subtraction, multiplication and `<` do
not tell them apart. -/

/-- A value of the type `float`: a finite value, an infinity with its sign, or
a NaN. -/
inductive Float32 where
  | finite (value : ℚ)
  | infinity (negative : Bool)
  | nan
  deriving DecidableEq

namespace Float32

/-- Halving `n` until it is below 2: the number of halvings, at most `fuel`. -/
def halvings : Nat -> Nat -> Nat
  | 0, _ => 0
  | fuel + 1, n => if n < 2 then 0 else halvings fuel (n / 2) + 1

/-- The position of the leading bit of `n`, that is `⌊log2 n⌋`, for positive `n`. -/
def leadingBit (n : Nat) : Nat :=
  halvings n n

/-- The exponent of `n / d`, that is `⌊log2 (n / d)⌋`, for positive `n`, `d`. -/
def floorLog2 (n d : Nat) : Int :=
  let e : Int := (leadingBit n : Int) - (leadingBit d : Int)
  if 0 ≤ e then
    if d * 2 ^ e.toNat ≤ n then e else e - 1
  else
    if d ≤ n * 2 ^ (-e).toNat then e else e - 1

/-- The integer nearest to `n / d`, a tie going to the even one. -/
def roundHalfEven (n d : Nat) : Nat :=
  let k := n / d
  let r := n % d
  if 2 * r < d then k
  else if d < 2 * r then k + 1
  else if k % 2 = 0 then k
  else k + 1

/-- The binary32 value of the positive rational `n / d`: 24 significant bits
from the exponent of the value on, the spacing `2 ^ -149` of the subnormal
range below `2 ^ -126`. -/
def roundPos (n d : Nat) : Float32 :=
  let e := floorLog2 n d
  let p := max e (-126) - 23
  if 0 ≤ p then
    let m := roundHalfEven n (d * 2 ^ p.toNat)
    if 2 ^ 128 ≤ m * 2 ^ p.toNat then infinity false
    else finite ((m * 2 ^ p.toNat : Nat) : ℚ)
  else
    let m := roundHalfEven (n * 2 ^ (-p).toNat) d
    finite ((m : ℚ) / ((2 ^ (-p).toNat : Nat) : ℚ))

/-- Unary minus. -/
def neg : Float32 -> Float32
  | finite value => finite (-value)
  | infinity negative => infinity (!negative)
  | nan => nan

/-- The binary32 value of an exact result `q`. -/
def round (q : ℚ) : Float32 :=
  if q = 0 then finite 0
  else if 0 < q then roundPos q.num.natAbs q.den
  else neg (roundPos q.num.natAbs q.den)

/-- The operator `+` of `float`. -/
def add : Float32 -> Float32 -> Float32
  | finite x, finite y => round (x + y)
  | finite _, infinity negative => infinity negative
  | infinity negative, finite _ => infinity negative
  | infinity s, infinity t => if s = t then infinity s else nan
  | _, _ => nan

/-- The operator `-` of `float`. -/
def sub (a b : Float32) : Float32 :=
  add a (neg b)

/-- The operator `*` of `float`. -/
def mul : Float32 -> Float32 -> Float32
  | finite x, finite y => round (x * y)
  | finite x, infinity negative =>
      if x = 0 then nan else infinity (xor (decide (x < 0)) negative)
  | infinity negative, finite y =>
      if y = 0 then nan else infinity (xor negative (decide (y < 0)))
  | infinity s, infinity t => infinity (xor s t)
  | _, _ => nan

/-- The operator `<` of `float`. -/
def lt : Float32 -> Float32 -> Bool
  | finite x, finite y => decide (x < y)
  | finite _, infinity negative => !negative
  | infinity negative, finite _ => negative
  | infinity s, infinity t => s && !t
  | _, _ => false

/-- The operation whose exact result is `q` returns `q` itself: no rounding
takes place. -/
def Exact (q : ℚ) : Prop :=
  round q = finite q

instance (q : ℚ) : Decidable (Exact q) :=
  inferInstanceAs (Decidable (round q = finite q))

end Float32

end rtype

namespace rtype

namespace server

open engine engine.Registry

/-! ## Gameplay systems (CollisionSystem.cpp, WeaponDamageSystem.cpp,
ShootingSystem.cpp, LevelSystem.cpp)

A system works on the registry and on the per-tick destroy set
(`std::unordered_set<EntityId>`, a `Finset`).  Where the C++ reaches a
component through the mutable accessors (`get<T>`, `getComponent<T>`,
`forEach<T>`, `view<...>` on a non-const registry), the storage of `T` is
created when it is missing; `touch` is that effect.  A callback that writes
through a reference to a component is a function that replaces the value in
place (`assign`). -/

/-- The effect of `getOrCreateStorage<T>()` on the registry. -/
def touch (r : World) (t : ComponentType) : World :=
  (r.getOrCreateStorage t.hash).2

/-- The fields of `config::GameplayConfig`, `GameRenderConfig` and
`SystemsConfig` that the systems below read.  `bulletVx`, `bulletVy` are what
`getDirectionVelocity(bulletDirection, vx, vy, bulletSpeed)` returns. -/
structure GameplayConfig where
  weaponDamageBasic : Nat
  weaponDamageLaser : Nat
  weaponDamageMissile : Nat
  rocketDamageMultiplier : ℚ
  bulletSpawnOffsetX : ℚ
  bulletSpawnOffsetY : ℚ
  bulletVx : ℚ
  bulletVy : ℚ
  bulletSize : ℚ
  worldWidth : ℚ
  boundaryMargin : ℚ
  monsterSpawnDelay : ℚ
  numberOfLevels : Int
  monsterPerLevel : Int
  bossMonsterType : Int
  bossLevel : Int
  boss2MonsterType : Int
  boss2Level : Int

namespace CollisionSystem

/-- Embeds `CollisionSystem::circleVsCircle` (CollisionSystem.cpp:62-69): the
subtractions, the products and the sums are the operations of `float`, each
rounding its result. -/
def circleVsCircle (a : Transform) (ra : ℚ) (b : Transform) (rb : ℚ) : Bool :=
  let dx := Float32.sub (Float32.finite a.x) (Float32.finite b.x)
  let dy := Float32.sub (Float32.finite a.y) (Float32.finite b.y)
  Float32.lt (Float32.add (Float32.mul dx dx) (Float32.mul dy dy))
    (Float32.mul (Float32.add (Float32.finite ra) (Float32.finite rb))
      (Float32.add (Float32.finite ra) (Float32.finite rb)))

/-- No operation of `circleVsCircle(a, ra, b, rb)` rounds: the seven exact
results (`dx`, `dy`, their squares, the sum of the squares, the sum of the
radii and its square) are values of `float`. -/
def circleVsCircleExact (a : Transform) (ra : ℚ) (b : Transform) (rb : ℚ) : Prop :=
  Float32.Exact (a.x - b.x) ∧ Float32.Exact (a.y - b.y) ∧
  Float32.Exact ((a.x - b.x) * (a.x - b.x)) ∧ Float32.Exact ((a.y - b.y) * (a.y - b.y)) ∧
  Float32.Exact ((a.x - b.x) * (a.x - b.x) + (a.y - b.y) * (a.y - b.y)) ∧
  Float32.Exact (ra + rb) ∧ Float32.Exact ((ra + rb) * (ra + rb))

instance (a : Transform) (ra : ℚ) (b : Transform) (rb : ℚ) :
    Decidable (circleVsCircleExact a ra b rb) := by
  unfold circleVsCircleExact
  infer_instance

/-- Embeds `CollisionSystem::beamVsCircle` (CollisionSystem.cpp:50-60). -/
def beamVsCircle (projectileTransform : Transform) (beamLength beamHalfHeight : ℚ)
    (monsterTransform : Transform) (monsterRadius : ℚ) : Bool :=
  let beamStartX := projectileTransform.x
  let beamEndX := beamLength + beamStartX
  let overlapsX := decide (monsterTransform.x - monsterRadius ≤ beamEndX) &&
    decide (monsterTransform.x + monsterRadius ≥ beamStartX)
  let overlapsY := decide (|monsterTransform.y - projectileTransform.y|
    ≤ beamHalfHeight + monsterRadius)
  overlapsX && overlapsY

/-- The two statements run on a hit (CollisionSystem.cpp:30-33 and 38-41):
`hurtbox.collidedWith = hitboxId` and, for a destroy-on-hit hitbox,
`toDestroySet.insert(hitboxId)`. -/
def recordHit (hitboxId hurtboxId : EntityId) (hitbox : Hitbox) (hurtbox : Hurtbox)
    (st : World × Finset EntityId) : World × Finset EntityId :=
  let hit : Hurtbox := { hurtbox with collidedWith := some hitboxId }
  (st.1.assign ComponentType.Hurtbox hurtboxId (Component.hurtbox hit),
    if hitbox.destroyOnHit then insert hitboxId st.2 else st.2)

/-- The body of the inner callback of `CollisionSystem::update`
(CollisionSystem.cpp:19-44) for one hitbox entity and one hurtbox entity.
`none` stands for the undefined behaviour of `hurtboxCircleCollider->radius`
when the hurtbox entity has no `Collider` (a null pointer is dereferenced). -/
def onPair (hitboxId hurtboxId : EntityId) (st : World × Finset EntityId) :
    Option (World × Finset EntityId) :=
  match st.1.getHitbox hitboxId, st.1.getTransform hitboxId,
      st.1.getHurtbox hurtboxId, st.1.getTransform hurtboxId with
  | some hitbox, some hitboxTransform, some hurtbox, some hurtboxTransform =>
      let r := touch st.1 ComponentType.TeamComponent
      let hitboxTeam := r.getTeam hitboxId
      let hurtboxTeam := r.getTeam hurtboxId
      let sameTeam :=
        match hitboxTeam, hurtboxTeam with
        | some a, some b => decide (a.team = b.team)
        | _, _ => false
      if hitboxId = hurtboxId ∨ sameTeam = true then some (r, st.2)
      else
        let r := touch r ComponentType.Collider
        match r.getCollider hitboxId with
        | some hitboxCircle =>
            match r.getCollider hurtboxId with
            | none => none
            | some hurtboxCircle =>
                if circleVsCircle hitboxTransform hitboxCircle.radius hurtboxTransform
                    hurtboxCircle.radius then
                  some (recordHit hitboxId hurtboxId hitbox hurtbox (r, st.2))
                else some (r, st.2)
        | none =>
            let r := touch r ComponentType.BeamCollider
            match r.getBeamCollider hitboxId with
            | none => some (r, st.2)
            | some beam =>
                match r.getCollider hurtboxId with
                | none => none
                | some hurtboxCircle =>
                    if beamVsCircle hitboxTransform beam.length beam.halfHeight
                        hurtboxTransform hurtboxCircle.radius then
                      some (recordHit hitboxId hurtboxId hitbox hurtbox (r, st.2))
                    else some (r, st.2)
  | _, _, _, _ => some st

/-- Run a callback over a list of ids, stopping at undefined behaviour. -/
def forIds (ids : List EntityId)
    (f : EntityId -> World × Finset EntityId -> Option (World × Finset EntityId))
    (st : World × Finset EntityId) : Option (World × Finset EntityId) :=
  ids.foldlM (fun s id => f id s) st

/-- The inner `registry.view<Hurtbox, Transform>` of `CollisionSystem::update` for
one hitbox entity: the ids are those `view` visits in the current registry
(the callback changes no key of a storage). -/
def onHitbox (hitboxId : EntityId) (st : World × Finset EntityId) :
    Option (World × Finset EntityId) :=
  let v := st.1.view ComponentType.Hurtbox.hash ComponentType.Transform.hash
  forIds (visitedIds v.1) (onPair hitboxId) (v.2, st.2)

/-- Embeds `CollisionSystem::update` (CollisionSystem.cpp:16-46). -/
def update (registry : World) (toDestroySet : Finset EntityId) :
    Option (World × Finset EntityId) :=
  let v := registry.view ComponentType.Hitbox.hash ComponentType.Transform.hash
  forIds (visitedIds v.1) onHitbox (v.2, toDestroySet)

end CollisionSystem

namespace WeaponDamageSystem

/-- Embeds `WeaponDamageSystem::dealDamage` (WeaponDamageSystem.cpp:12-19):
`damage` is a `std::uint8_t`, `health.hp - damage` is computed in `int`. -/
def dealDamage (damage : Nat) (health : Health) : Health :=
  let damage := if damage % 256 < 1 then 1 else damage % 256
  let hp := (max ((health.hp : Int) - (damage : Int)) 0).toNat % 256
  { hp := hp, alive := if hp = 0 then false else health.alive }

/-- The constant `laserDamageInterval = 0.08f`: the value of `float` nearest to
8/100, which is `5368709 / 2 ^ 26`. -/
def laserDamageInterval : ℚ := 5368709 / 67108864

/-- The last statement of the callback, `hurtbox.collidedWith = std::nullopt`
(WeaponDamageSystem.cpp:72). -/
def clearSlot (r : World) (id : EntityId) (hurtbox : Hurtbox) : World :=
  r.assign ComponentType.Hurtbox id (Component.hurtbox { hurtbox with collidedWith := none })

/-- The body of the callback of `WeaponDamageSystem::update`
(WeaponDamageSystem.cpp:25-73) for the hurtbox entity `id`. -/
def onHurtbox (deltaTime : ℚ) (id : EntityId) (st : World × Finset EntityId) :
    World × Finset EntityId :=
  match st.1.getHurtbox id with
  | none => st
  | some hurtbox =>
    match hurtbox.collidedWith with
    | none => st
    | some projectileId =>
      if projectileId = id then st
      else if projectileId ∈ st.2 then st
      else
        let r := touch st.1 ComponentType.Projectile
        match r.getProjectile projectileId with
        | none => (r, st.2)
        | some projectile =>
          if projectile.weaponType = WeaponType.kWeaponLaserType then
            let ticked : Projectile :=
              { projectile with damageTickTimer := projectile.damageTickTimer + deltaTime }
            let r := r.assign ComponentType.Projectile projectileId (Component.projectile ticked)
            if ticked.damageTickTimer < laserDamageInterval ∨ ticked.persistent = false then
              (r, st.2)
            else
              let r := touch r ComponentType.Health
              match r.getHealth id with
              | none => (r, st.2)
              | some health =>
                if health.alive = false then (r, st.2)
                else
                  let damaged := dealDamage ticked.damage health
                  let r := r.assign ComponentType.Health id (Component.health damaged)
                  let r := r.assign ComponentType.Projectile projectileId
                    (Component.projectile { ticked with damageTickTimer := 0 })
                  let toDestroy := if damaged.alive = false then insert id st.2 else st.2
                  (clearSlot r id hurtbox, toDestroy)
          else
            if id ∈ st.2 then (r, st.2)
            else
              let r := touch r ComponentType.Health
              match r.getHealth id with
              | none => (r, st.2)
              | some health =>
                if health.alive = false then (r, st.2)
                else
                  let shielded :=
                    if r.hasComponent ComponentType.PlayerPowerUpStatus.hash id then
                      match (touch r ComponentType.PlayerPowerUpStatus).getPlayerPowerUpStatus id with
                      | some status => decide (status.type = PlayerPowerUpType.Shield)
                      | none => false
                    else false
                  let r :=
                    if r.hasComponent ComponentType.PlayerPowerUpStatus.hash id then
                      touch r ComponentType.PlayerPowerUpStatus
                    else r
                  if shielded then (clearSlot r id hurtbox, st.2)
                  else
                    let damaged := dealDamage projectile.damage health
                    let r := r.assign ComponentType.Health id (Component.health damaged)
                    let toDestroy := if damaged.alive = false then insert id st.2 else st.2
                    (clearSlot r id hurtbox, toDestroy)

/-- Embeds `WeaponDamageSystem::update` (WeaponDamageSystem.cpp:23-74): `forEach<Hurtbox>`
collects the ids of the storage, then calls the callback for each id that is
still in it. -/
def update (deltaTime : ℚ) (registry : World) (toDestroy : Finset EntityId) :
    World × Finset EntityId :=
  let r := touch registry ComponentType.Hurtbox
  (r.idsOf ComponentType.Hurtbox).foldl (fun st id => onHurtbox deltaTime id st) (r, toDestroy)

end WeaponDamageSystem

/-- The two systems in the order of the pipeline, on one destroy set
(GameLogicHandler.cpp:61-64 and 82-83; the systems that run between them do
not write `Hurtbox`, `Health` or `Projectile::damage`, and only add to the
destroy set). -/
def collisionThenDamage (deltaTime : ℚ) (registry : World) (toDestroySet : Finset EntityId) :
    Option (World × Finset EntityId) :=
  match CollisionSystem.update registry toDestroySet with
  | none => none
  | some st => some (WeaponDamageSystem.update deltaTime st.1 st.2)

namespace ShootingSystem

/-- Embeds `ShootingSystem::computeLaserDamage` (ShootingSystem.cpp:70-82). -/
def computeLaserDamage (config : GameplayConfig) (weaponLevel : Nat) : Nat :=
  let level := if weaponLevel % 256 < 1 then 1 else weaponLevel % 256
  let baseDamage := (config.weaponDamageLaser % 256 * level) % 2 ^ 32
  let reduced := baseDamage / 3
  let reduced := if reduced < 1 then 1 else reduced
  let reduced := if reduced > 255 then 255 else reduced
  reduced % 256

/-- Embeds `std::round` on a non-negative value, then the cast to `std::uint32_t`. -/
def roundToU32 (x : ℚ) : Nat :=
  (⌊x + 1 / 2⌋).toNat % 2 ^ 32

/-- Embeds `ShootingSystem::computeRocketDamage` (ShootingSystem.cpp:84-97).  The
two products are the products of `float`, each rounding its result;
`std::max(a, b)` is `(a < b) ? b : a`.  The cast of a rounded value of
`2 ^ 32` or more is not defined in C++: the low 32 bits are taken here, and 0
for an infinity. -/
def computeRocketDamage (config : GameplayConfig) (weaponLevel : Nat) : Nat :=
  let multiplier : ℚ :=
    if 1 < config.rocketDamageMultiplier then config.rocketDamageMultiplier else 1
  let level := max (weaponLevel % 256) 1
  let referenceBase : Float32 :=
    Float32.mul (Float32.finite ((config.weaponDamageBasic % 256 : Nat) : ℚ))
      (Float32.finite multiplier)
  let configuredBase : Float32 :=
    if config.weaponDamageMissile % 256 > 0 then
      Float32.finite ((config.weaponDamageMissile % 256 : Nat) : ℚ)
    else referenceBase
  let perLevelDamage : Float32 :=
    if Float32.lt referenceBase configuredBase then configuredBase else referenceBase
  let rawDamage := Float32.mul perLevelDamage (Float32.finite ((level : Nat) : ℚ))
  let damage :=
    match rawDamage with
    | Float32.finite value => roundToU32 value
    | _ => 0
  (min (max damage 1) 255) % 256

/-- The `switch` of `ShootingSystem::shootProjectile` (ShootingSystem.cpp:102-124):
the `damage` handed to `spawnBullet`. -/
def shotDamage (config : GameplayConfig) (weapon : WeaponComponent) : Nat :=
  match weapon.weaponType with
  | WeaponType.kWeaponBasicType =>
      let level := max (weapon.weaponLevel % 256) 1
      let scaled := (config.weaponDamageBasic % 256 * level) % 2 ^ 32
      (min (max scaled 1) 255) % 256
  | WeaponType.kWeaponLaserType => computeLaserDamage config weapon.weaponLevel
  | WeaponType.kWeaponRocketType => computeRocketDamage config weapon.weaponLevel

/-- Embeds `EntityFactory::spawnBullet` (EntityFactory.cpp:161-197): the id of the
bullet and the registry afterwards. -/
def spawnBullet (config : GameplayConfig) (registry : World) (owner : EntityId)
    (fromPlayer : Bool) (x y vx vy : ℚ) (weaponType : WeaponType) (damage : Nat) :
    EntityId × World :=
  let created := registry.createEntity
  let entity := created.1
  let r := created.2
  let r := r.addComponent ComponentType.Transform.hash entity (Component.transform ⟨x, y⟩)
  let r := r.addComponent ComponentType.Velocity.hash entity (Component.velocity ⟨vx, vy⟩)
  let r := r.addComponent ComponentType.Projectile.hash entity
    (Component.projectile
      { owner := owner, fromPlayer := fromPlayer, lifetime := 0, damage := damage % 256,
        weaponType := weaponType,
        persistent := decide (weaponType = WeaponType.kWeaponLaserType),
        damageTickTimer := 0 })
  let r := touch r ComponentType.TeamComponent
  let r :=
    match r.getTeam owner with
    | some ownerTeam =>
        r.addComponent ComponentType.TeamComponent.hash entity (Component.team ⟨ownerTeam.team⟩)
    | none => r
  if weaponType = WeaponType.kWeaponLaserType then
    let length := config.worldWidth + config.boundaryMargin
    let beamHalfHeight := config.bulletSize * (3 / 2)
    let r := r.addComponent ComponentType.BeamCollider.hash entity
      (Component.beamCollider ⟨length, beamHalfHeight⟩)
    (entity, r.addComponent ComponentType.Hitbox.hash entity (Component.hitbox ⟨false⟩))
  else
    let bulletRadius :=
      if weaponType = WeaponType.kWeaponRocketType then config.bulletSize * 2
      else config.bulletSize
    let r := r.addComponent ComponentType.Collider.hash entity (Component.collider ⟨bulletRadius⟩)
    (entity, r.addComponent ComponentType.Hitbox.hash entity (Component.hitbox ⟨true⟩))

/-- Embeds `ShootingSystem::shootProjectile` (ShootingSystem.cpp:99-150). -/
def shootProjectile (config : GameplayConfig) (weapon : WeaponComponent) (entity : EntityId)
    (registry : World) : EntityId × World :=
  let damage := shotDamage config weapon
  let r := touch registry ComponentType.Transform
  let playerTransform := r.getTransform entity
  let offsetX :=
    if config.bulletVx < 0 then -config.bulletSpawnOffsetX else config.bulletSpawnOffsetX
  let offsetY :=
    if config.bulletVy < 0 then -config.bulletSpawnOffsetY else config.bulletSpawnOffsetY
  let startX := match playerTransform with
    | some t => t.x + offsetX
    | none => 0
  let startY := match playerTransform with
    | some t => t.y + offsetY
    | none => 0
  spawnBullet config r entity true startX startY config.bulletVx config.bulletVy
    weapon.weaponType damage

end ShootingSystem

/-- The members of `class MonsterSpawnerSystem` (LevelSystem.hpp:32-36). -/
structure MonsterSpawnerSystem where
  monstersToSpawn : Int
  monstersSpawned : Int
  spawnTimer : ℚ
  deriving DecidableEq

/-- What the spawner does to the registry.  `spawnMonster` and `spawnBoss`
draw from the random generator and compute positions in floating point; their
effect on the registry is taken as given. -/
structure SpawnEffects where
  spawnMonster : World -> World
  spawnBoss : Nat -> World -> World

namespace MonsterSpawnerSystem

/-- Embeds `MonsterSpawnerSystem::isSpawningComplete` (LevelSystem.hpp:27). -/
def isSpawningComplete (s : MonsterSpawnerSystem) : Bool :=
  decide (s.monstersSpawned ≥ s.monstersToSpawn)

/-- Embeds `MonsterSpawnerSystem::startSpawning` (LevelSystem.cpp:43-50). -/
def startSpawning (_s : MonsterSpawnerSystem) (monstersToSpawn : Int) : MonsterSpawnerSystem :=
  { monstersToSpawn := monstersToSpawn, monstersSpawned := 0, spawnTimer := 0 }

/-- Embeds `MonsterSpawnerSystem::update` (LevelSystem.cpp:26-41). -/
def update (config : GameplayConfig) (effects : SpawnEffects) (s : MonsterSpawnerSystem)
    (deltaTime : ℚ) (registry : World) : MonsterSpawnerSystem × World :=
  if s.monstersSpawned ≥ s.monstersToSpawn then (s, registry)
  else
    let timer := s.spawnTimer + deltaTime
    if timer ≥ config.monsterSpawnDelay then
      ({ s with spawnTimer := 0, monstersSpawned := s.monstersSpawned + 1 },
        effects.spawnMonster registry)
    else ({ s with spawnTimer := timer }, registry)

end MonsterSpawnerSystem

/-- The members of `class LevelSystem` (LevelSystem.hpp:57-60). -/
structure LevelSystem where
  spawner : MonsterSpawnerSystem
  waveChanged : Bool
  deriving DecidableEq

namespace LevelSystem

/-- The test made by the callback of `LevelSystem::isWaveComplete` for one
monster entity: `health && health->alive`. -/
def isLivingMonster (r : World) (id : EntityId) : Bool :=
  match r.getHealth id with
  | some health => health.alive
  | none => false

/-- Embeds `LevelSystem::isWaveComplete` (LevelSystem.cpp:182-193): the result and
the registry afterwards (storages may have been created). -/
def isWaveComplete (registry : World) : Bool × World :=
  let r := touch registry ComponentType.MonsterComponent
  let ids := r.idsOf ComponentType.MonsterComponent
  let r1 := if ids.isEmpty then r else touch r ComponentType.Health
  (!(ids.any (fun id => isLivingMonster r1 id)), r1)

/-- Embeds `LevelSystem::startWave` (LevelSystem.cpp:148-180): the system, the new
`currentLevel` and the registry. -/
def startWave (config : GameplayConfig) (effects : SpawnEffects) (ls : LevelSystem)
    (waveNumber : Int) (registry : World) : LevelSystem × Int × World :=
  let monstersToSpawn := config.monsterPerLevel * waveNumber
  if waveNumber = config.bossLevel then
    let r := effects.spawnBoss (config.bossMonsterType % 256).toNat registry
    ({ ls with spawner := ls.spawner.startSpawning config.monsterPerLevel }, waveNumber, r)
  else if waveNumber = config.boss2Level then
    let r := effects.spawnBoss (config.boss2MonsterType % 256).toNat registry
    ({ ls with spawner := ls.spawner.startSpawning (config.monsterPerLevel * 2) }, waveNumber, r)
  else ({ ls with spawner := ls.spawner.startSpawning monstersToSpawn }, waveNumber, registry)

/-- Embeds `LevelSystem::update` (LevelSystem.cpp:129-146): the system, the value of
`currentLevel` and the registry after the call. -/
def update (config : GameplayConfig) (effects : SpawnEffects) (ls : LevelSystem)
    (deltaTime : ℚ) (currentLevel : Int) (registry : World) : LevelSystem × Int × World :=
  let st : LevelSystem × Int × World :=
    if ls.spawner.isSpawningComplete then
      let complete := isWaveComplete registry
      if complete.1 then
        let nextWave := currentLevel + 1
        if nextWave ≤ config.numberOfLevels then startWave config effects ls nextWave complete.2
        else (ls, currentLevel, complete.2)
      else (ls, currentLevel, complete.2)
    else (ls, currentLevel, registry)
  let spawned := st.1.spawner.update config effects deltaTime st.2.2
  ({ st.1 with spawner := spawned.1 }, st.2.1, spawned.2)

end LevelSystem

end server

end rtype

namespace rtype

namespace server

open engine engine.Registry

/-! ## Predicates and example states used by the theorems -/

variable {V : Type}

/-- The operations of `RoomManager` itself: `createRoom`, `deleteRoom`, `joinRoom`,
`leaveRoom` and `cleanupEmptyRooms`. -/
def RoomManager.Op.isManagerOp : RoomManager.Op V -> Bool
  | RoomManager.Op.createRoom _ _ => true
  | RoomManager.Op.deleteRoom _ => true
  | RoomManager.Op.joinRoom _ _ _ _ => true
  | RoomManager.Op.leaveRoom _ => true
  | RoomManager.Op.cleanupEmptyRooms => true
  | _ => false

/-- The reverse index agrees with the membership of the rooms. -/
def RoomManager.indexMatches (rm : RoomManager V) : Prop :=
  ∀ (p : PlayerId) (r : RoomId),
    rm.playerToRoom.lookup p = some r ↔
      ∃ room : Room V, rm.rooms.lookup r = some room ∧ p ∈ room.clients

/-- The server after the endpoint "a" sent a CreateRoom request. -/
def exampleFirstCreate : GameServer Unit :=
  (GameServer.handleCreateRoom exampleConfig GameServer.create
    { roomName := GameServer.bufferOfString "room" 32 } "a" 0).get (by decide)

/-- The server after the same endpoint sent a second CreateRoom request. -/
def exampleSecondCreate : GameServer Unit :=
  (GameServer.handleCreateRoom exampleConfig exampleFirstCreate
    { roomName := GameServer.bufferOfString "room" 32 } "a" 1).get (by decide)

/-- The server after the endpoint "a" (player 0) created room 1 and the
endpoint "b" was registered as player 1. -/
def exampleLobby : GameServer Unit :=
  (exampleFirstCreate.getOrCreatePlayer "b" 2).2

/-- The example lobby without the `_playerEndpoints` entry of player 1: what
`handleDisconnect` leaves when a second endpoint registered under the id 1
(given twice once the id counter wrapped) disconnects. -/
def exampleLostEndpoint : GameServer Unit :=
  { exampleLobby with playerEndpoints := exampleLobby.playerEndpoints.erase 1 }

/-- The server after "a" (player 0) created room 1 at time 0 and "b" (player 1)
created room 2 at time 50000. -/
def exampleTwoRooms : GameServer Unit :=
  (GameServer.handleCreateRoom exampleConfig exampleFirstCreate
    { roomName := GameServer.bufferOfString "other" 32 } "b" 50000).get (by decide)

/-- The maintenance pass at time 60000 with a timeout of 30000 ms. -/
def exampleAfterTimeout : GameServer Unit :=
  exampleTwoRooms.checkClientTimeouts 60000 30000

/-- An explicit Disconnect from "a" at time 60000 instead. -/
def exampleAfterDisconnect : GameServer Unit :=
  exampleTwoRooms.handleDisconnect { player := 0 } "a" 60000

/-- A spawner for examples: a spawned monster (or boss) is a new entity with a
`MonsterComponent` and a living `Health`. -/
def exampleSpawnEffects : SpawnEffects :=
  { spawnMonster := fun r =>
      let c := r.createEntity
      (c.2.addComponent ComponentType.MonsterComponent.hash c.1 (Component.monster ⟨0⟩)).addComponent
        ComponentType.Health.hash c.1 (Component.health ⟨3, true⟩),
    spawnBoss := fun type r =>
      let c := r.createEntity
      (c.2.addComponent ComponentType.MonsterComponent.hash c.1 (Component.monster ⟨type⟩)).addComponent
        ComponentType.Health.hash c.1 (Component.health ⟨50, true⟩) }

/-- A gameplay configuration for examples. -/
def exampleGameplay : GameplayConfig :=
  { weaponDamageBasic := 10, weaponDamageLaser := 10, weaponDamageMissile := 20,
    rocketDamageMultiplier := 2, bulletSpawnOffsetX := 0, bulletSpawnOffsetY := 0,
    bulletVx := 1, bulletVy := 0, bulletSize := 1, worldWidth := 100, boundaryMargin := 10,
    monsterSpawnDelay := 1, numberOfLevels := 3, monsterPerLevel := 2, bossMonsterType := 0,
    bossLevel := 5, boss2MonsterType := 0, boss2Level := 10 }

/-- A world whose only monster (entity 1) is dead. -/
def exampleDeadMonsterWorld : World :=
  let c := (Registry.fresh : World).createEntity
  (c.2.addComponent ComponentType.MonsterComponent.hash c.1 (Component.monster ⟨0⟩)).addComponent
    ComponentType.Health.hash c.1 (Component.health ⟨0, false⟩)

/-- A level system whose spawner has a quota of `quota` and has spawned `spawned`. -/
def exampleLevelSystem (quota spawned : Int) : LevelSystem :=
  { spawner := { monstersToSpawn := quota, monstersSpawned := spawned, spawnTimer := 0 },
    waveChanged := false }

/-- A weapon of the given type and level, otherwise as `WeaponComponent{}`. -/
def exampleWeapon (weaponType : WeaponType) (weaponLevel : Nat) : WeaponComponent :=
  { weaponType := weaponType, weaponLevel := weaponLevel, laserActive := false,
    activeLaserId := 0, laserUnlocked := false, rocketUnlocked := false, powerUpsCollected := 0 }

/-- A world with a monster (entity 1: at (1,0), radius 1, 100 hp, team Monster,
empty hurtbox slot) and a shooter (entity 2: at (0,0), team Player). -/
def exampleTargetWorld : World :=
  let victim := (Registry.fresh : World).createEntity
  let r := victim.2
  let r := r.addComponent ComponentType.Transform.hash victim.1 (Component.transform ⟨1, 0⟩)
  let r := r.addComponent ComponentType.Health.hash victim.1 (Component.health ⟨100, true⟩)
  let r := r.addComponent ComponentType.TeamComponent.hash victim.1 (Component.team ⟨Team.Monster⟩)
  let r := r.addComponent ComponentType.Hurtbox.hash victim.1 (Component.hurtbox ⟨none⟩)
  let r := r.addComponent ComponentType.Collider.hash victim.1 (Component.collider ⟨1⟩)
  let shooter := r.createEntity
  let r := shooter.2
  let r := r.addComponent ComponentType.Transform.hash shooter.1 (Component.transform ⟨0, 0⟩)
  r.addComponent ComponentType.TeamComponent.hash shooter.1 (Component.team ⟨Team.Player⟩)

/-- The shooter fired a Basic bullet of damage 10 from (0,0): entity 3, made by
`spawnBullet` (radius 1, destroy-on-hit, team Player). -/
def exampleBasicHitWorld : World :=
  (ShootingSystem.spawnBullet exampleGameplay exampleTargetWorld 2 true 0 0 1 0
    WeaponType.kWeaponBasicType 10).2

/-- A world with a shielded player (entity 1: at (1,0), radius 1, 100 hp,
`PlayerPowerUpStatus` of type Shield, empty hurtbox slot) and a second player
(entity 2 at (0,0)); friendly fire is on, so neither has a `TeamComponent`. -/
def exampleShieldedWorld : World :=
  let victim := (Registry.fresh : World).createEntity
  let r := victim.2
  let r := r.addComponent ComponentType.Transform.hash victim.1 (Component.transform ⟨1, 0⟩)
  let r := r.addComponent ComponentType.Health.hash victim.1 (Component.health ⟨100, true⟩)
  let r := r.addComponent ComponentType.PlayerPowerUpStatus.hash victim.1
    (Component.playerPowerUpStatus ⟨PlayerPowerUpType.Shield, 0⟩)
  let r := r.addComponent ComponentType.Hurtbox.hash victim.1 (Component.hurtbox ⟨none⟩)
  let r := r.addComponent ComponentType.Collider.hash victim.1 (Component.collider ⟨1⟩)
  let shooter := r.createEntity
  let r := shooter.2
  r.addComponent ComponentType.Transform.hash shooter.1 (Component.transform ⟨0, 0⟩)

/-- The second player fired a weapon of the given type at level 1 from (0,0):
entity 3, made by `spawnBullet` with the damage `shotDamage` computes. -/
def exampleShieldedHitWorld (weaponType : WeaponType) : World :=
  (ShootingSystem.spawnBullet exampleGameplay exampleShieldedWorld 2 true 0 0 0 0 weaponType
    (ShootingSystem.shotDamage exampleGameplay (exampleWeapon weaponType 1))).2

/-- What a test reads of entity 1 after a tick: its health, its hurtbox slot,
and whether entity 3 is in the destroy set. -/
def observeVictim (st : World × Finset EntityId) : Option Health × Option Hurtbox × Bool :=
  (st.1.getHealth 1, st.1.getHurtbox 1, decide (3 ∈ st.2))

end server

end rtype

namespace rtype

namespace server

/-! ## The rest of the configuration (GameConfig.hpp, GameConfig.cpp) -/

/-- Embeds `enum class ScrollDirection`. -/
inductive ScrollDirection where
  | LeftToRight
  | RightToLeft
  | TopToBottom
  | BottomToTop
  deriving DecidableEq, Repr

/-- Embeds `enum class PlayerDirection`. -/
inductive PlayerDirection where
  | LeftToRight
  | TopToBottom
  | All
  deriving DecidableEq, Repr

/-- Embeds `struct MonsterType` (GameConfig.hpp:28-44), without the sprite file. -/
structure MonsterType where
  size : ℚ
  collisionSize : ℚ
  HP : Nat
  speed : ℚ
  SpawnWeight : Nat
  color : Nat × Nat × Nat
  hasShield : Bool
  shieldHP : Nat
  team : Team
  canShoot : Bool
  defaultPositions : List (ℚ × ℚ)
  deriving DecidableEq

/-- The value of `gameplay.MonstersType[typeIndex]` for a new key: the members
without an initialiser are zero. -/
def MonsterType.zero : MonsterType :=
  { size := 0, collisionSize := 1, HP := 0, speed := 0, SpawnWeight := 0, color := (0, 0, 0),
    hasShield := false, shieldHP := 0, team := Team.Monster, canShoot := true,
    defaultPositions := [] }

/-- Embeds `struct SystemsConfig` (the margin is `GameplayConfig.boundaryMargin`). -/
structure SystemsConfig where
  movementSystem : Bool
  fireCooldownSystem : Bool
  projectileLifetimeSystem : Bool
  collisionSystem : Bool
  boundarySystem : Bool
  cleanupSystem : Bool
  monsterSpawnerSystem : Bool
  levelSystem : Bool
  deriving DecidableEq

/-- The members of `config::GameConfig` read by the server: the fields of
`GameplayConfig` above, and the fields of `config::GameplayConfig`,
`GameRenderConfig` and `SystemsConfig` that the other systems, the entity
factory and `GameLogicHandler` read. -/
structure SimulationConfig where
  gameplay : GameplayConfig
  systems : SystemsConfig
  scrollSpeed : ℚ
  playerSpeed : ℚ
  playerStartHP : Nat
  playerFireCooldown : ℚ
  playerSpawnX : ℚ
  playerSpawnYBase : ℚ
  playerSpawnYSpacing : ℚ
  playerMovementDirection : PlayerDirection
  friendlyfire : Bool
  bulletSpeed : ℚ
  bulletLifetime : ℚ
  powerUpsForLaser : Nat
  powerUpsForRocket : Nat
  rocketFireCooldown : ℚ
  monsterHP : Nat
  monsterSpawnSide : ScrollDirection
  monsterMovement : ScrollDirection
  MonstersType : AList (fun _ : Int => MonsterType)
  powerUpSpawnDelay : ℚ
  powerUpsEnabled : Bool
  powerUpSpawnSide : ScrollDirection
  powerUpSpeedMultiplier : ℚ
  powerUpSize : ℚ
  powerUpSpawnCenterX : ℚ
  powerUpSpawnCenterY : ℚ
  powerUpSpawnRandomRange : ℚ
  powerUpSpawnMargin : ℚ
  powerUpBoundaryMargin : ℚ
  shieldDuration : Int
  worldHeight : ℚ
  playerSize : ℚ

/-- Embeds `GameConfig::getDirectionVelocity` (GameConfig.cpp:632-652): the pair `(vx, vy)`. -/
def getDirectionVelocity (dir : ScrollDirection) (speed : ℚ) : ℚ × ℚ :=
  match dir with
  | ScrollDirection.LeftToRight => (speed, 0)
  | ScrollDirection.RightToLeft => (-speed, 0)
  | ScrollDirection.TopToBottom => (0, speed)
  | ScrollDirection.BottomToTop => (0, -speed)

/-- Embeds `WeaponComponent{}`. -/
def defaultWeapon : WeaponComponent :=
  { weaponType := WeaponType.kWeaponBasicType, weaponLevel := 1, laserActive := false,
    activeLaserId := 0, laserUnlocked := false, rocketUnlocked := false, powerUpsCollected := 0 }

namespace ShootingSystem

/-- Embeds `kWeaponOrder` of `ShootingSystem::cycleEquippedWeapon`. -/
def kWeaponOrder : List WeaponType :=
  [WeaponType.kWeaponBasicType, WeaponType.kWeaponLaserType, WeaponType.kWeaponRocketType]

/-- The `for` loop of `ShootingSystem::cycleEquippedWeapon` (ShootingSystem.cpp:180-193)
over the offsets still to try; an empty list is the end of the loop. -/
def cycleLoop (weapon : WeaponComponent) (startIndex : Nat) : List Nat -> WeaponComponent
  | [] => weapon
  | offset :: rest =>
      let candidateIndex := (startIndex + offset) % kWeaponOrder.length
      let candidate := kWeaponOrder.getD candidateIndex WeaponType.kWeaponBasicType
      if candidate = WeaponType.kWeaponLaserType ∧ weapon.laserUnlocked = false then
        cycleLoop weapon startIndex rest
      else if candidate = WeaponType.kWeaponRocketType ∧ weapon.rocketUnlocked = false then
        cycleLoop weapon startIndex rest
      else
        { weapon with
          weaponType := candidate,
          weaponLevel := if candidate ≠ WeaponType.kWeaponLaserType then 1 else weapon.weaponLevel }

/-- Embeds `ShootingSystem::cycleEquippedWeapon` (ShootingSystem.cpp:174-194); `std::find`
in `kWeaponOrder` always succeeds on a `WeaponType`. -/
def cycleEquippedWeapon (weapon : WeaponComponent) : WeaponComponent :=
  let startIndex := kWeaponOrder.indexOf weapon.weaponType
  let startIndex := if startIndex = kWeaponOrder.length then 0 else startIndex
  cycleLoop weapon startIndex [1, 2, 3]

/-- The tier after a tier in the cyclic order Basic, Laser, Rocket, Basic. -/
def nextTier : WeaponType -> WeaponType
  | WeaponType.kWeaponBasicType => WeaponType.kWeaponLaserType
  | WeaponType.kWeaponLaserType => WeaponType.kWeaponRocketType
  | WeaponType.kWeaponRocketType => WeaponType.kWeaponBasicType

/-- Whether a tier is available to a weapon: Basic always, Laser when
`laserUnlocked`, Rocket when `rocketUnlocked`. -/
def tierUnlocked (weapon : WeaponComponent) : WeaponType -> Bool
  | WeaponType.kWeaponBasicType => true
  | WeaponType.kWeaponLaserType => weapon.laserUnlocked
  | WeaponType.kWeaponRocketType => weapon.rocketUnlocked

/-- The first unlocked tier among the three that follow the current one in the
cyclic order (the third is the current one again). -/
def firstUnlockedAfter (weapon : WeaponComponent) : WeaponType :=
  (([nextTier weapon.weaponType, nextTier (nextTier weapon.weaponType),
      nextTier (nextTier (nextTier weapon.weaponType))].find? (tierUnlocked weapon)).getD
    weapon.weaponType)

end ShootingSystem

namespace PowerUpSystem

/-- Embeds the lambda `clampThreshold` of `incrementPowerUpProgress`
(PowerUpSystem.cpp:118-120) on a `std::uint16_t`. -/
def clampThreshold (value : Nat) : Nat :=
  max (value % 65536) 1

/-- Embeds `PowerUpSystem::incrementPowerUpProgress` (PowerUpSystem.cpp:113-143). -/
def incrementPowerUpProgress (config : SimulationConfig) (weapon : WeaponComponent) :
    WeaponComponent :=
  let counted : WeaponComponent :=
    if weapon.powerUpsCollected < 65535 then
      { weapon with powerUpsCollected := weapon.powerUpsCollected + 1 }
    else weapon
  let laserThreshold := clampThreshold (config.powerUpsForLaser % 256)
  let withLaser : WeaponComponent :=
    if counted.laserUnlocked = false ∧ counted.powerUpsCollected ≥ laserThreshold then
      if counted.weaponType = WeaponType.kWeaponBasicType then
        { counted with laserUnlocked := true, weaponType := WeaponType.kWeaponLaserType, weaponLevel := max (counted.weaponLevel % 256) 1 }
      else { counted with laserUnlocked := true }
    else counted
  let rocketThreshold := clampThreshold (config.powerUpsForRocket % 256)
  if withLaser.rocketUnlocked = false ∧ withLaser.powerUpsCollected ≥ rocketThreshold then
    if withLaser.weaponType = WeaponType.kWeaponBasicType then
      { withLaser with rocketUnlocked := true, weaponType := WeaponType.kWeaponRocketType, weaponLevel := max (withLaser.weaponLevel % 256) 1 }
    else { withLaser with rocketUnlocked := true }
  else withLaser

/-- The `case PowerUpTypes::WeaponUpgrade` of `PowerUpSystem::update`
(PowerUpSystem.cpp:82-95) on the weapon of the player that took the pickup. -/
def applyWeaponUpgrade (config : SimulationConfig) (weapon : WeaponComponent) : WeaponComponent :=
  let hadLaser := weapon.laserUnlocked
  let upgraded := incrementPowerUpProgress config weapon
  if upgraded.laserUnlocked = true ∧ hadLaser = true ∧
      upgraded.weaponType = WeaponType.kWeaponLaserType then
    if upgraded.weaponLevel < 3 then
      { upgraded with weaponLevel := (upgraded.weaponLevel + 1) % 256 }
    else upgraded
  else upgraded

end PowerUpSystem

/-- What happens to the weapon of a player: it takes a weapon-upgrade pickup, or
the player swaps weapons (`stopActiveLaser`, then `cycleEquippedWeapon`,
ShootingSystem.cpp:202-206). -/
inductive WeaponEvent where
  | pickup
  | swap
  deriving DecidableEq, Repr

/-- The weapon after one event. -/
def WeaponEvent.apply (config : SimulationConfig) (weapon : WeaponComponent) :
    WeaponEvent -> WeaponComponent
  | WeaponEvent.pickup => PowerUpSystem.applyWeaponUpgrade config weapon
  | WeaponEvent.swap =>
      ShootingSystem.cycleEquippedWeapon { weapon with activeLaserId := 0, laserActive := false }

/-- The weapon of a new player (`WeaponComponent{}`) after a sequence of events. -/
def weaponAfter (config : SimulationConfig) (events : List WeaponEvent) : WeaponComponent :=
  events.foldl (WeaponEvent.apply config) defaultWeapon

/-- The number of pickups among the events. -/
def pickupCount (events : List WeaponEvent) : Nat :=
  events.count WeaponEvent.pickup

end server

end rtype

namespace rtype

namespace net

/-! ### Tables over the message kinds -/

/-- Whether the payload of a kind has only numeric and boolean fields (no text
buffer). -/
def FixedKind.numericOnly : FixedKind -> Bool
  | FixedKind.PlayerInput => true
  | FixedKind.PlayerState => true
  | FixedKind.MonsterSpawn => true
  | FixedKind.MonsterState => true
  | FixedKind.MonsterDeath => true
  | FixedKind.ShieldSpawn => true
  | FixedKind.ShieldState => true
  | FixedKind.ShieldDeath => true
  | FixedKind.PlayerDeath => true
  | FixedKind.BulletFired => true
  | FixedKind.BulletState => true
  | FixedKind.Disconnect => true
  | FixedKind.PlayerAssignment => true
  | FixedKind.PowerUpState => true
  | FixedKind.LevelBegin => true
  | FixedKind.CreateRoom => false
  | FixedKind.JoinRoom => true
  | FixedKind.LeaveRoom => true
  | FixedKind.StartGame => true
  | FixedKind.RoomCreated => false
  | FixedKind.RoomJoined => false
  | FixedKind.RoomLeft => true
  | FixedKind.GameStarted => true
  | FixedKind.RoomError => false
  | FixedKind.AllPlayersDead => true
  | FixedKind.SpectatorMode => true
  | FixedKind.HostChanged => true

/-- The type code that the serializer of a kind puts in the header. -/
def FixedKind.typeCode : FixedKind -> PacketType
  | FixedKind.PlayerInput => PacketType.PlayerInput
  | FixedKind.PlayerState => PacketType.PlayerState
  | FixedKind.MonsterSpawn => PacketType.MonsterSpawn
  | FixedKind.MonsterState => PacketType.MonsterState
  | FixedKind.MonsterDeath => PacketType.MonsterDeath
  | FixedKind.ShieldSpawn => PacketType.ShieldSpawn
  | FixedKind.ShieldState => PacketType.ShieldState
  | FixedKind.ShieldDeath => PacketType.ShieldDeath
  | FixedKind.PlayerDeath => PacketType.PlayerDeath
  | FixedKind.BulletFired => PacketType.BulletFired
  | FixedKind.BulletState => PacketType.BulletState
  | FixedKind.Disconnect => PacketType.Disconnect
  | FixedKind.PlayerAssignment => PacketType.PlayerAssignment
  | FixedKind.PowerUpState => PacketType.PowerUpState
  | FixedKind.LevelBegin => PacketType.LevelBegin
  | FixedKind.CreateRoom => PacketType.CreateRoom
  | FixedKind.JoinRoom => PacketType.JoinRoom
  | FixedKind.LeaveRoom => PacketType.LeaveRoom
  | FixedKind.StartGame => PacketType.StartGame
  | FixedKind.RoomCreated => PacketType.RoomCreated
  | FixedKind.RoomJoined => PacketType.RoomJoined
  | FixedKind.RoomLeft => PacketType.RoomLeft
  | FixedKind.GameStarted => PacketType.GameStarted
  | FixedKind.RoomError => PacketType.RoomError
  | FixedKind.AllPlayersDead => PacketType.AllPlayersDead
  | FixedKind.SpectatorMode => PacketType.SpectatorMode
  | FixedKind.HostChanged => PacketType.HostChanged

/-- The serializer of a kind. -/
def FixedKind.serialize : (k : FixedKind) -> k.Message -> SequenceNumber -> Timestamp -> List Nat
  | FixedKind.PlayerInput => serializePlayerInput
  | FixedKind.PlayerState => serializePlayerState
  | FixedKind.MonsterSpawn => serializeMonsterSpawn
  | FixedKind.MonsterState => serializeMonsterState
  | FixedKind.MonsterDeath => serializeMonsterDeath
  | FixedKind.ShieldSpawn => serializeShieldSpawn
  | FixedKind.ShieldState => serializeShieldState
  | FixedKind.ShieldDeath => serializeShieldDeath
  | FixedKind.PlayerDeath => serializePlayerDeath
  | FixedKind.BulletFired => serializeBulletFired
  | FixedKind.BulletState => serializeBulletState
  | FixedKind.Disconnect => serializeDisconnect
  | FixedKind.PlayerAssignment => serializePlayerAssignment
  | FixedKind.PowerUpState => serializePowerUpState
  | FixedKind.LevelBegin => serializeLevelBegin
  | FixedKind.CreateRoom => serializeCreateRoom
  | FixedKind.JoinRoom => serializeJoinRoom
  | FixedKind.LeaveRoom => serializeLeaveRoom
  | FixedKind.StartGame => serializeStartGame
  | FixedKind.RoomCreated => serializeRoomCreated
  | FixedKind.RoomJoined => serializeRoomJoined
  | FixedKind.RoomLeft => serializeRoomLeft
  | FixedKind.GameStarted => serializeGameStarted
  | FixedKind.RoomError => serializeRoomError
  | FixedKind.AllPlayersDead => serializeAllPlayersDead
  | FixedKind.SpectatorMode => serializeSpectatorMode
  | FixedKind.HostChanged => serializeHostChanged

/-- Every numeric field of a message is in the range of its C++ type (`std::uint8_t`,
`std::uint16_t`, `std::uint32_t`, or the 32 bits of a `float`). -/
def FixedKind.numericFieldsFit : (k : FixedKind) -> k.Message -> Bool
  | FixedKind.PlayerInput => fun m => decide (m.player < 256)
  | FixedKind.PlayerState => fun m => decide (m.player < 256) && decide (m.x < 4294967296) && decide (m.y < 4294967296) && decide (m.hp < 256) && decide (m.score < 65536) && decide (m.powerUpType < 256)
  | FixedKind.MonsterSpawn => fun m => decide (m.id < 4294967296) && decide (m.x < 4294967296) && decide (m.y < 4294967296) && decide (m.monsterType < 256)
  | FixedKind.MonsterState => fun m => decide (m.id < 4294967296) && decide (m.type < 256) && decide (m.x < 4294967296) && decide (m.y < 4294967296) && decide (m.vx < 4294967296) && decide (m.vy < 4294967296)
  | FixedKind.MonsterDeath => fun m => decide (m.id < 4294967296) && decide (m.killer < 256)
  | FixedKind.ShieldSpawn => fun m => decide (m.id < 4294967296) && decide (m.x < 4294967296) && decide (m.y < 4294967296) && decide (m.shieldType < 256)
  | FixedKind.ShieldState => fun m => decide (m.id < 4294967296) && decide (m.type < 256) && decide (m.x < 4294967296) && decide (m.y < 4294967296) && decide (m.vx < 4294967296) && decide (m.vy < 4294967296)
  | FixedKind.ShieldDeath => fun m => decide (m.id < 4294967296)
  | FixedKind.PlayerDeath => fun m => decide (m.player < 256)
  | FixedKind.BulletFired => fun m => decide (m.id < 4294967296) && decide (m.owner < 256) && decide (m.x < 4294967296) && decide (m.y < 4294967296) && decide (m.vx < 4294967296) && decide (m.vy < 4294967296)
  | FixedKind.BulletState => fun m => decide (m.id < 4294967296) && decide (m.x < 4294967296) && decide (m.y < 4294967296) && decide (m.weaponType < 256)
  | FixedKind.Disconnect => fun m => decide (m.player < 256)
  | FixedKind.PlayerAssignment => fun m => decide (m.playerId < 256)
  | FixedKind.PowerUpState => fun m => decide (m.id < 4294967296) && decide (m.type < 256) && decide (m.value < 256) && decide (m.x < 4294967296) && decide (m.y < 4294967296)
  | FixedKind.LevelBegin => fun m => decide (m.levelNumber < 256)
  | FixedKind.CreateRoom => fun _ => true
  | FixedKind.JoinRoom => fun m => decide (m.roomId < 4294967296)
  | FixedKind.LeaveRoom => fun m => decide (m.roomId < 4294967296)
  | FixedKind.StartGame => fun m => decide (m.roomId < 4294967296)
  | FixedKind.RoomCreated => fun m => decide (m.roomId < 4294967296) && decide (m.hostId < 256) && decide (m.playerId < 256)
  | FixedKind.RoomJoined => fun m => decide (m.roomId < 4294967296) && decide (m.hostId < 256) && decide (m.playerCount < 256) && decide (m.playerId < 256)
  | FixedKind.RoomLeft => fun m => decide (m.roomId < 4294967296)
  | FixedKind.GameStarted => fun m => decide (m.roomId < 4294967296)
  | FixedKind.RoomError => fun m => decide (m.errorCode < 256)
  | FixedKind.AllPlayersDead => fun m => decide (m.roomId < 4294967296)
  | FixedKind.SpectatorMode => fun m => decide (m.playerId < 256)
  | FixedKind.HostChanged => fun m => decide (m.roomId < 4294967296) && decide (m.newHostId < 256)

/-- A `HostChanged` message for examples. -/
def exampleHostChanged : HostChanged :=
  { roomId := 7, newHostId := 2 }

end net

end rtype

namespace rtype

namespace server

open engine engine.Registry

/-! ## Monster types of the configuration and the entity factory
(GameConfig.cpp, EntityFactory.cpp) -/

/-- One `MonsterType<index><Field>=<value>` line of the configuration file after
the key and the value were parsed (`std::stoi`, `std::stof`, `parseBool`,
`parseColor`, `parsePositionList`, `parseTeam`). -/
inductive MonsterField where
  | Size (value : ℚ)
  | CollisionSize (value : ℚ)
  | HP (value : Int)
  | Speed (value : ℚ)
  | SpawnWeight (value : Int)
  | Color (r g b : Nat)
  | HasShield (value : Bool)
  | DefaultPosition (value : List (ℚ × ℚ))
  | Team (value : Team)
  | CanShoot (value : Bool)

/-- The assignment that `GameConfig::addMonsterToConfig` makes to
`gameplay.MonstersType[typeIndex]` for one field (GameConfig.cpp:378-413). -/
def MonsterType.setField (monsterType : MonsterType) : MonsterField -> MonsterType
  | MonsterField.Size value => { monsterType with size := value }
  | MonsterField.CollisionSize value => { monsterType with collisionSize := value }
  | MonsterField.HP value =>
      let hp := (value % 256).toNat
      if monsterType.hasShield then { monsterType with HP := hp, shieldHP := hp / 2 }
      else { monsterType with HP := hp }
  | MonsterField.Speed value => { monsterType with speed := value }
  | MonsterField.SpawnWeight value => { monsterType with SpawnWeight := (value % 256).toNat }
  | MonsterField.Color r g b => { monsterType with color := (r % 256, g % 256, b % 256) }
  | MonsterField.HasShield value =>
      if value = true ∧ monsterType.HP > 0 then
        { monsterType with hasShield := value, shieldHP := monsterType.HP / 2 }
      else { monsterType with hasShield := value }
  | MonsterField.DefaultPosition value => { monsterType with defaultPositions := value }
  | MonsterField.Team value => { monsterType with team := value }
  | MonsterField.CanShoot value => { monsterType with canShoot := value }

/-- Embeds `GameConfig::addMonsterToConfig` (GameConfig.cpp:355-414) on the table
`gameplay.MonstersType`: `operator[]` creates the entry of a new index. -/
def addMonsterToConfig (types : AList (fun _ : Int => MonsterType)) (typeIndex : Int)
    (field : MonsterField) : AList (fun _ : Int => MonsterType) :=
  let monsterType := (types.lookup typeIndex).getD MonsterType.zero
  types.insert typeIndex (monsterType.setField field)

/-- The test of `GameConfig::checkMonsterTypes` for an invalid type
(GameConfig.cpp:433-434). -/
def MonsterType.isInvalid (monsterType : MonsterType) : Bool :=
  decide (monsterType.size ≤ 0) || decide (monsterType.HP = 0) ||
    decide (monsterType.color = (0, 0, 0)) || decide (monsterType.speed ≤ 0)

/-- Embeds `GameConfig::checkMonsterTypes` (GameConfig.cpp:417-475) on the table: the
invalid types are erased. -/
def checkMonsterTypes (types : AList (fun _ : Int => MonsterType)) :
    AList (fun _ : Int => MonsterType) :=
  let invalidTypes := (types.entries.filter (fun e => e.2.isInvalid)).map (fun e => e.1)
  invalidTypes.foldl (fun table typeIndex => table.erase typeIndex) types

/-- The functions of the floating point library that the server calls. -/
structure FloatLib where
  sqrt : ℚ -> ℚ
  sin : ℚ -> ℚ

namespace EntityFactory

/-- Embeds `EntityFactory::addTransformAndVelocity` (EntityFactory.cpp:16-20). -/
def addTransformAndVelocity (registry : World) (entity : EntityId) (x y vx vy : ℚ) : World :=
  let r := registry.addComponent ComponentType.Transform.hash entity (Component.transform ⟨x, y⟩)
  r.addComponent ComponentType.Velocity.hash entity (Component.velocity ⟨vx, vy⟩)

/-- The components that `EntityFactory::spawnPlayer` (EntityFactory.cpp:22-41) adds,
in the order of its `addComponent` calls; `now` is the reading of the clock
stored in the new `PlayerPowerUpStatus`. -/
def playerComponents (config : SimulationConfig) (now : Nat) (id : PlayerId) (x y : ℚ) :
    List (Nat × Component) :=
  [(ComponentType.Transform.hash, Component.transform ⟨x, y⟩),
   (ComponentType.Velocity.hash, Component.velocity ⟨0, 0⟩),
   (ComponentType.PlayerComponent.hash, Component.player ⟨id % 256⟩),
   (ComponentType.Health.hash, Component.health ⟨config.playerStartHP % 256, true⟩),
   (ComponentType.FireCooldown.hash, Component.fireCooldown ⟨0, 1 / 4⟩),
   (ComponentType.WeaponComponent.hash, Component.weapon defaultWeapon),
   (ComponentType.PlayerPowerUpStatus.hash,
     Component.playerPowerUpStatus ⟨PlayerPowerUpType.Nothing, now⟩),
   (ComponentType.Collider.hash, Component.collider ⟨config.playerSize * (1 / 2)⟩),
   (ComponentType.Hurtbox.hash, Component.hurtbox ⟨none⟩)] ++
  (if config.friendlyfire then []
   else [(ComponentType.TeamComponent.hash, Component.team ⟨Team.Player⟩)])

/-- The components that `EntityFactory::spawnShield` (EntityFactory.cpp:147-154) adds
before it looks at the team of the parent, in the order of its `addComponent`
calls. -/
def shieldComponents (config : SimulationConfig) (parentMonster : EntityId) (type : Nat)
    (x y vx vy : ℚ) : List (Nat × Component) :=
  let found := config.MonstersType.lookup (type : Int)
  let shieldHP := match found with
    | some monsterType => monsterType.shieldHP
    | none => 1
  let size := match found with
    | some monsterType => monsterType.size
    | none => 24
  let shieldRadius := size * (2 / 5)
  [(ComponentType.Transform.hash, Component.transform ⟨x, y⟩),
   (ComponentType.Velocity.hash, Component.velocity ⟨vx, vy⟩),
   (ComponentType.Health.hash, Component.health ⟨shieldHP % 256, true⟩),
   (ComponentType.ShieldComponent.hash, Component.shield ⟨parentMonster, 0, 0⟩),
   (ComponentType.Collider.hash, Component.collider ⟨shieldRadius⟩),
   (ComponentType.Hurtbox.hash, Component.hurtbox ⟨none⟩)]

/-- Embeds `EntityFactory::spawnShield` (EntityFactory.cpp:131-159). -/
def spawnShield (config : SimulationConfig) (registry : World) (parentMonster : EntityId)
    (type : Nat) (x y vx vy : ℚ) : EntityId × World :=
  let created := registry.createEntity
  let r := (shieldComponents config parentMonster type x y vx vy).foldl
    (fun r c => r.addComponent c.1 created.1 c.2) created.2
  let r := touch r ComponentType.TeamComponent
  match r.getTeam parentMonster with
  | some parentTeam =>
      (created.1, r.addComponent ComponentType.TeamComponent.hash created.1
        (Component.team ⟨parentTeam.team⟩))
  | none => (created.1, r)

/-- The lambda `normalize` of `EntityFactory::spawnMonster` (EntityFactory.cpp:96-102). -/
def normalize (lib : FloatLib) (speed : ℚ) (d : Direction) : Direction :=
  let len := lib.sqrt (d.dx * d.dx + d.dy * d.dy)
  if len > 0 then ⟨d.dx / len * speed, d.dy / len * speed⟩ else d

/-- The directions that `EntityFactory::spawnMonster` gives the `AutomaticShooting`
of a monster (EntityFactory.cpp:80-111). -/
def shootingDirections (config : SimulationConfig) (lib : FloatLib) (type : Nat) :
    List Direction :=
  let bulletVx := config.gameplay.bulletVx
  let bulletVy := config.gameplay.bulletVy
  if type = 6 then
    let fx := bulletVx
    let fy := bulletVy
    let lx := -fy
    let ly := -fx
    let speed := config.bulletSpeed
    [normalize lib speed ⟨-fx, -fy⟩, normalize lib speed ⟨-fx + lx, -fy + ly⟩,
      normalize lib speed ⟨lx, ly⟩]
  else [⟨-bulletVx, -bulletVy⟩]

/-- The components that `EntityFactory::spawnMonster` (EntityFactory.cpp:60-113) adds, in
the order of its `addComponent` calls; `type` is a `std::uint8_t`. -/
def monsterComponents (config : SimulationConfig) (lib : FloatLib) (type : Nat)
    (canShoot : Bool) (team : Team) (x y vx vy : ℚ) : List (Nat × Component) :=
  let found := config.MonstersType.lookup (type : Int)
  let hp := match found with
    | some monsterType => monsterType.HP
    | none => config.monsterHP
  let size := match found with
    | some monsterType => monsterType.size
    | none => 24
  let collisionSize := match found with
    | some monsterType => monsterType.collisionSize
    | none => 1
  let monsterRadius := size * (1 / 2) * collisionSize
  [(ComponentType.Transform.hash, Component.transform ⟨x, y⟩),
   (ComponentType.Velocity.hash, Component.velocity ⟨vx, vy⟩),
   (ComponentType.MonsterComponent.hash, Component.monster ⟨type⟩),
   (ComponentType.Health.hash, Component.health ⟨hp % 256, true⟩),
   (ComponentType.Collider.hash, Component.collider ⟨monsterRadius⟩),
   (ComponentType.WeaponComponent.hash, Component.weapon defaultWeapon)] ++
  (if type = 5 then [(ComponentType.Hitbox.hash, Component.hitbox ⟨true⟩)] else []) ++
  (if canShoot then [(ComponentType.FireCooldown.hash, Component.fireCooldown ⟨0, 2⟩)]
   else []) ++
  [(ComponentType.Hurtbox.hash, Component.hurtbox ⟨none⟩),
   (ComponentType.AutomaticShooting.hash,
     Component.automaticShooting ⟨shootingDirections config lib type⟩),
   (ComponentType.TeamComponent.hash, Component.team ⟨team⟩)]

/-- Embeds `EntityFactory::spawnMonster` (EntityFactory.cpp:44-129). -/
def spawnMonster (config : SimulationConfig) (lib : FloatLib) (registry : World) (type : Nat)
    (canShoot : Bool) (team : Team) (x y vx vy : ℚ) : EntityId × World :=
  let created := registry.createEntity
  let r := (monsterComponents config lib type canShoot team x y vx vy).foldl
    (fun r c => r.addComponent c.1 created.1 c.2) created.2
  match config.MonstersType.lookup (type : Int) with
  | some monsterType =>
      if monsterType.hasShield then
        let shieldOffsetX :=
          if vx < 0 then -(monsterType.size * (3 / 5)) else monsterType.size * (3 / 5)
        (created.1, (spawnShield config r created.1 type (x + shieldOffsetX) y vx vy).2)
      else (created.1, r)
  | none => (created.1, r)

/-- Embeds `EntityFactory::spawnPowerUp` (EntityFactory.cpp:199-216). -/
def spawnPowerUp (config : SimulationConfig) (registry : World) (type : Nat) (x y vx vy : ℚ) :
    EntityId × World :=
  let created := registry.createEntity
  let entity := created.1
  let r := addTransformAndVelocity created.2 entity x y vx vy
  let r := r.addComponent ComponentType.PowerUp.hash entity
    (Component.powerUp ⟨type % 256, 0⟩)
  (entity, r.addComponent ComponentType.Collider.hash entity
    (Component.collider ⟨config.powerUpSize⟩))

end EntityFactory

end server

end rtype

namespace rtype

namespace server

open engine engine.Registry

/-! ## The other systems and the pipeline (MovementSystem.cpp, LaserBeamSystem.cpp,
FireCooldownSystem.cpp, ProjectileLifetimeSystem.cpp, BoundarySystem.cpp,
CleanupSystem.cpp, PlayerInputSystem.cpp, ShootingSystem.cpp, PowerUpSystem.cpp,
LevelSystem.cpp, Boss2BehaviorSystem.cpp, ShieldFollowSystem.cpp,
SystemPipeline.cpp, GameLogicHandler.cpp)

A callback that holds a reference to a component and writes it several times
is a function that computes the final value and stores it once (`assign`);
between the writes the C++ reads no component of that type.  A result `none`
is undefined behaviour of the C++ (a null pointer or an end iterator is
dereferenced). -/

/-- What one tick takes from outside the simulation: the library functions,
the readings of `std::chrono::steady_clock::now()` (in nanoseconds; one per
callback that reads the clock) and the values drawn from the random
generators (`_rng`, `std::rand`) if the tick draws them. -/
structure TickEnv where
  lib : FloatLib
  inputClock : EntityId -> Nat
  pickupClock : EntityId -> EntityId -> Nat
  powerUpRandom : ℚ
  powerUpType : Nat
  spawnRandom : ℚ
  spawnRoll : Int
  bossRandom : EntityId -> ℚ

/-- Embeds `Registry::forEach<T>` on a non-const registry (Registry.hpp:345-362): the
ids of the storage are collected, then the callback runs for each id that is
still in the storage.  The callback reads the component itself. -/
def forEach (t : ComponentType)
    (body : EntityId -> World × Finset EntityId -> World × Finset EntityId)
    (st : World × Finset EntityId) : World × Finset EntityId :=
  let r := touch st.1 t
  (r.idsOf t).foldl (fun s id => if s.1.hasComponent t.hash id then body id s else s) (r, st.2)

/-- Embeds `Registry::forEach<T>` as `forEach`, for a callback that may run into
undefined behaviour. -/
def forEachM (t : ComponentType)
    (body : EntityId -> World × Finset EntityId -> Option (World × Finset EntityId))
    (st : World × Finset EntityId) : Option (World × Finset EntityId) :=
  let r := touch st.1 t
  CollisionSystem.forIds (r.idsOf t)
    (fun id s => if s.1.hasComponent t.hash id then body id s else some s) (r, st.2)

/-- Embeds `Registry::view<C1,C2,C3>` (Registry.hpp:410-420): `forEach<C1>`, the
other two components probed with the mutable `getComponent`. -/
def view3 (t1 t2 t3 : ComponentType)
    (body : EntityId -> World × Finset EntityId -> World × Finset EntityId)
    (st : World × Finset EntityId) : World × Finset EntityId :=
  forEach t1
    (fun id s =>
      let r := touch (touch s.1 t2) t3
      if r.hasComponent t2.hash id && r.hasComponent t3.hash id then body id (r, s.2)
      else (r, s.2)) st

/-- Embeds `Registry::view<C1,C2,C3>` as `view3`, for a callback that may run into
undefined behaviour. -/
def view3M (t1 t2 t3 : ComponentType)
    (body : EntityId -> World × Finset EntityId -> Option (World × Finset EntityId))
    (st : World × Finset EntityId) : Option (World × Finset EntityId) :=
  forEachM t1
    (fun id s =>
      let r := touch (touch s.1 t2) t3
      if r.hasComponent t2.hash id && r.hasComponent t3.hash id then body id (r, s.2)
      else some (r, s.2)) st

/-- Embeds `Registry::view<C1,C2>` (Registry.hpp:387-408) with a callback that changes no
key of the two storages: the callback runs for the ids `view` visits. -/
def view2 (t1 t2 : ComponentType)
    (body : EntityId -> World × Finset EntityId -> World × Finset EntityId)
    (st : World × Finset EntityId) : World × Finset EntityId :=
  let v := st.1.view t1.hash t2.hash
  (visitedIds v.1).foldl (fun s id => body id s) (v.2, st.2)

/-- Embeds `Registry::view<C1,C2>` as `view2`, for a callback that may run into
undefined behaviour. -/
def view2M (t1 t2 : ComponentType)
    (body : EntityId -> World × Finset EntityId -> Option (World × Finset EntityId))
    (st : World × Finset EntityId) : Option (World × Finset EntityId) :=
  let v := st.1.view t1.hash t2.hash
  CollisionSystem.forIds (visitedIds v.1) body (v.2, st.2)

namespace MovementSystem

/-- The callback of `MovementSystem::update` (MovementSystem.cpp:17-23). -/
def onTransform (deltaTime : ℚ) (id : EntityId) (st : World × Finset EntityId) :
    World × Finset EntityId :=
  match st.1.getTransform id with
  | none => st
  | some transform =>
      let r := touch st.1 ComponentType.Velocity
      match r.getVelocity id with
      | some velocity =>
          (r.assign ComponentType.Transform id
            (Component.transform
              ⟨transform.x + velocity.vx * deltaTime, transform.y + velocity.vy * deltaTime⟩),
            st.2)
      | none => (r, st.2)

/-- Embeds `MovementSystem::update` (MovementSystem.cpp:15-24). -/
def update (deltaTime : ℚ) (st : World × Finset EntityId) : World × Finset EntityId :=
  forEach ComponentType.Transform (onTransform deltaTime) st

end MovementSystem

namespace LaserBeamSystem

/-- Embeds `LaserBeamSystem::stopLaser` (LaserBeamSystem.cpp:48-54) followed by the
`return` of the callback: the weapon is stored. -/
def stopLaser (playerId : EntityId) (weapon : WeaponComponent) (st : World × Finset EntityId) :
    World × Finset EntityId :=
  let toDestroySet :=
    if weapon.activeLaserId ≠ 0 ∧ st.1.entityExists weapon.activeLaserId = true then
      insert weapon.activeLaserId st.2
    else st.2
  (st.1.assign ComponentType.WeaponComponent playerId
      (Component.weapon { weapon with activeLaserId := 0, laserActive := false }),
    toDestroySet)

/-- The callback of `LaserBeamSystem::update` (LaserBeamSystem.cpp:14-45). -/
def onPlayer (config : SimulationConfig) (playerId : EntityId) (st : World × Finset EntityId) :
    World × Finset EntityId :=
  let r := touch st.1 ComponentType.WeaponComponent
  match r.getWeapon playerId with
  | none => (r, st.2)
  | some weapon =>
    if weapon.laserActive = false then (r, st.2)
    else
      let r := touch r ComponentType.Transform
      let r := touch r ComponentType.Health
      let deadOwner :=
        match r.getHealth playerId with
        | some health => !health.alive
        | none => false
      match r.getTransform playerId with
      | none => stopLaser playerId weapon (r, st.2)
      | some playerTransform =>
        if deadOwner then stopLaser playerId weapon (r, st.2)
        else if weapon.activeLaserId = 0 then
          (r.assign ComponentType.WeaponComponent playerId
            (Component.weapon { weapon with laserActive := false }), st.2)
        else
          let r := touch r ComponentType.Velocity
          let r := touch r ComponentType.Projectile
          match r.getTransform weapon.activeLaserId, r.getProjectile weapon.activeLaserId with
          | some _, some _ =>
              let r := r.assign ComponentType.Transform weapon.activeLaserId
                (Component.transform
                  ⟨playerTransform.x + config.gameplay.bulletSpawnOffsetX,
                    playerTransform.y + config.gameplay.bulletSpawnOffsetY⟩)
              match r.getVelocity weapon.activeLaserId with
              | some _ =>
                  (r.assign ComponentType.Velocity weapon.activeLaserId
                    (Component.velocity ⟨0, 0⟩), st.2)
              | none => (r, st.2)
          | _, _ => stopLaser playerId weapon (r, st.2)

/-- Embeds `LaserBeamSystem::update` (LaserBeamSystem.cpp:12-46). -/
def update (config : SimulationConfig) (st : World × Finset EntityId) :
    World × Finset EntityId :=
  forEach ComponentType.PlayerComponent (onPlayer config) st

end LaserBeamSystem

namespace FireCooldownSystem

/-- The callback of `FireCooldownSystem::update` (FireCooldownSystem.cpp:17-24). -/
def onCooldown (deltaTime : ℚ) (id : EntityId) (st : World × Finset EntityId) :
    World × Finset EntityId :=
  match st.1.getFireCooldown id with
  | none => st
  | some cooldown =>
      if cooldown.timer > 0 then
        let timer := cooldown.timer - deltaTime
        let timer := if timer < 0 then 0 else timer
        (st.1.assign ComponentType.FireCooldown id
          (Component.fireCooldown { cooldown with timer := timer }), st.2)
      else st

/-- Embeds `FireCooldownSystem::update` (FireCooldownSystem.cpp:15-25). -/
def update (deltaTime : ℚ) (st : World × Finset EntityId) : World × Finset EntityId :=
  forEach ComponentType.FireCooldown (onCooldown deltaTime) st

end FireCooldownSystem

namespace ProjectileLifetimeSystem

/-- The callback of `ProjectileLifetimeSystem::update` (ProjectileLifetimeSystem.cpp:21-29);
`_maxLifetime` is `bulletLifetime`. -/
def onProjectile (config : SimulationConfig) (deltaTime : ℚ) (id : EntityId)
    (st : World × Finset EntityId) : World × Finset EntityId :=
  match st.1.getProjectile id with
  | none => st
  | some projectile =>
      if projectile.persistent then st
      else
        let lifetime := projectile.lifetime + deltaTime
        let r := st.1.assign ComponentType.Projectile id
          (Component.projectile { projectile with lifetime := lifetime })
        (r, if lifetime > config.bulletLifetime then insert id st.2 else st.2)

/-- Embeds `ProjectileLifetimeSystem::update` (ProjectileLifetimeSystem.cpp:19-30). -/
def update (config : SimulationConfig) (deltaTime : ℚ) (st : World × Finset EntityId) :
    World × Finset EntityId :=
  forEach ComponentType.Projectile (onProjectile config deltaTime) st

end ProjectileLifetimeSystem

namespace BoundarySystem

/-- The callback of `BoundarySystem::update` (BoundarySystem.cpp:21-35); `_worldWidth`,
`_worldHeight` and `_margin` are copies of the configuration. -/
def onTransform (config : SimulationConfig) (id : EntityId) (st : World × Finset EntityId) :
    World × Finset EntityId :=
  match st.1.getTransform id with
  | none => st
  | some transform =>
      let worldWidth := config.gameplay.worldWidth
      let worldHeight := config.worldHeight
      let margin := config.gameplay.boundaryMargin
      if st.1.hasComponent ComponentType.PlayerComponent.hash id then
        let x := if transform.x < 0 then 0 else transform.x
        let x := if x > worldWidth then worldWidth else x
        let y := if transform.y < 0 then 0 else transform.y
        let y := if y > worldHeight then worldHeight else y
        (st.1.assign ComponentType.Transform id (Component.transform ⟨x, y⟩), st.2)
      else if transform.x < -margin ∨ transform.x > worldWidth + margin ∨
          transform.y < -margin ∨ transform.y > worldHeight + margin then
        (st.1, insert id st.2)
      else st

/-- Embeds `BoundarySystem::update` (BoundarySystem.cpp:19-36). -/
def update (config : SimulationConfig) (st : World × Finset EntityId) :
    World × Finset EntityId :=
  forEach ComponentType.Transform (onTransform config) st

end BoundarySystem

namespace CleanupSystem

/-- The callback of `CleanupSystem::update` (CleanupSystem.cpp:16-20). -/
def onHealth (id : EntityId) (st : World × Finset EntityId) : World × Finset EntityId :=
  match st.1.getHealth id with
  | none => st
  | some health =>
      if health.alive = false ∨ health.hp = 0 then (st.1, insert id st.2) else st

/-- Embeds `CleanupSystem::update` (CleanupSystem.cpp:14-21). -/
def update (st : World × Finset EntityId) : World × Finset EntityId :=
  forEach ComponentType.Health onHealth st

end CleanupSystem

namespace PlayerInputSystem

/-- The callback of `PlayerInputSystem::update` (PlayerInputSystem.cpp:16-41). -/
def onInput (config : SimulationConfig) (env : TickEnv) (id : EntityId)
    (st : World × Finset EntityId) : World × Finset EntityId :=
  match st.1.getPlayerInput id, st.1.getVelocity id, st.1.getPlayerPowerUpStatus id with
  | some input, some _, some powerUpStatus =>
      let vx : ℚ := 0
      let vy : ℚ := 0
      let vx := if input.left then vx - config.playerSpeed else vx
      let vx := if input.right then vx + config.playerSpeed else vx
      let vy := if input.up then vy - config.playerSpeed else vy
      let vy := if input.down then vy + config.playerSpeed else vy
      let vy := if config.playerMovementDirection = PlayerDirection.LeftToRight then 0 else vy
      let vx := if config.playerMovementDirection = PlayerDirection.TopToBottom then 0 else vx
      let r := st.1.assign ComponentType.Velocity id (Component.velocity ⟨vx, vy⟩)
      if powerUpStatus.type ≠ PlayerPowerUpType.Nothing ∧
          (env.inputClock id : Int) - (powerUpStatus.startTime : Int)
            > config.shieldDuration * 1000000000 then
        (r.assign ComponentType.PlayerPowerUpStatus id
          (Component.playerPowerUpStatus { powerUpStatus with type := PlayerPowerUpType.Nothing }),
          st.2)
      else (r, st.2)
  | _, _, _ => st

/-- Embeds `PlayerInputSystem::update` (PlayerInputSystem.cpp:14-42). -/
def update (config : SimulationConfig) (env : TickEnv) (st : World × Finset EntityId) :
    World × Finset EntityId :=
  view3 ComponentType.PlayerInputComponent ComponentType.Velocity
    ComponentType.PlayerPowerUpStatus (onInput config env) st

end PlayerInputSystem

namespace ShootingSystem

/-- The constant `kLaserReleaseFadeDuration = 0.18f`. -/
def kLaserReleaseFadeDuration : ℚ := 18 / 100

/-- Embeds `ShootingSystem::stopActiveLaser` (ShootingSystem.cpp:152-172): the weapon
afterwards and the state. -/
def stopActiveLaser (config : SimulationConfig) (weapon : WeaponComponent)
    (st : World × Finset EntityId) : WeaponComponent × (World × Finset EntityId) :=
  let stopped : WeaponComponent := { weapon with activeLaserId := 0, laserActive := false }
  if weapon.activeLaserId ≠ 0 then
    let r := touch st.1 ComponentType.Projectile
    match r.getProjectile weapon.activeLaserId with
    | some projectile =>
        let fadeLifetime := config.bulletLifetime - kLaserReleaseFadeDuration
        let fadeLifetime := if fadeLifetime < 0 then 0 else fadeLifetime
        let r := r.assign ComponentType.Projectile weapon.activeLaserId
          (Component.projectile
            { projectile with persistent := false, damageTickTimer := 0,
                              lifetime := fadeLifetime })
        (stopped,
          (r, if config.systems.projectileLifetimeSystem then st.2
              else insert weapon.activeLaserId st.2))
    | none => (stopped, (r, insert weapon.activeLaserId st.2))
  else (stopped, st)

/-- Embeds `ShootingSystem::startLaserBeam` (ShootingSystem.cpp:17-58): the weapon, the
cooldown and the registry afterwards. -/
def startLaserBeam (config : SimulationConfig) (entity : EntityId) (weapon : WeaponComponent)
    (cooldown : FireCooldown) (registry : World) : WeaponComponent × FireCooldown × World :=
  let r := touch registry ComponentType.Transform
  match r.getTransform entity with
  | none => (weapon, cooldown, r)
  | some playerTransform =>
      let offsetX :=
        if config.gameplay.bulletVx < 0 then -config.gameplay.bulletSpawnOffsetX
        else config.gameplay.bulletSpawnOffsetX
      let offsetY :=
        if config.gameplay.bulletVy < 0 then -config.gameplay.bulletSpawnOffsetY
        else config.gameplay.bulletSpawnOffsetY
      let startX := playerTransform.x + offsetX
      let startY := playerTransform.y + offsetY
      let damage := computeLaserDamage config.gameplay weapon.weaponLevel
      let spawned := spawnBullet config.gameplay r entity true startX startY 0 0
        weapon.weaponType damage
      let beamId := spawned.1
      let r := touch spawned.2 ComponentType.Projectile
      let r :=
        match r.getProjectile beamId with
        | some projectile =>
            r.assign ComponentType.Projectile beamId
              (Component.projectile
                { projectile with persistent := true, lifetime := 0, damageTickTimer := 0 })
        | none => r
      ({ weapon with laserActive := true, activeLaserId := beamId },
        { cooldown with timer := 0 }, r)

/-- Embeds `ShootingSystem::handleLaserFireInput` (ShootingSystem.cpp:61-68). -/
def handleLaserFireInput (config : SimulationConfig) (entity : EntityId)
    (weapon : WeaponComponent) (cooldown : FireCooldown) (registry : World) :
    WeaponComponent × FireCooldown × World :=
  if weapon.laserActive = false then startLaserBeam config entity weapon cooldown registry
  else (weapon, cooldown, registry)

/-- The end of the first callback of `ShootingSystem::update`: the weapon and the
cooldown written through the references are in the storages. -/
def store (entity : EntityId) (weapon : WeaponComponent) (cooldown : FireCooldown)
    (st : World × Finset EntityId) : World × Finset EntityId :=
  ((st.1.assign ComponentType.WeaponComponent entity (Component.weapon weapon)).assign
      ComponentType.FireCooldown entity (Component.fireCooldown cooldown), st.2)

/-- The first callback of `ShootingSystem::update` (ShootingSystem.cpp:200-238), for an
entity with input, weapon and cooldown.  `none` is `*player` on a null pointer
(line 225). -/
def onInput (config : SimulationConfig) (entity : EntityId) (st : World × Finset EntityId) :
    Option (World × Finset EntityId) :=
  match st.1.getPlayerInput entity, st.1.getWeapon entity, st.1.getFireCooldown entity with
  | some input, some weapon, some cooldown =>
      let swapped : WeaponComponent × (World × Finset EntityId) :=
        if input.swapWeapon then
          let stopped := stopActiveLaser config weapon st
          (cycleEquippedWeapon stopped.1, stopped.2)
        else (weapon, st)
      if input.fire = false then
        let released :=
          if swapped.1.laserActive then stopActiveLaser config swapped.1 swapped.2 else swapped
        some (store entity released.1 cooldown released.2)
      else
        let cooldown : FireCooldown :=
          { cooldown with
            cooldownTime :=
              if swapped.1.weaponType = WeaponType.kWeaponRocketType then config.rocketFireCooldown
              else config.playerFireCooldown }
        if swapped.1.weaponType = WeaponType.kWeaponLaserType then
          let r := touch swapped.2.1 ComponentType.PlayerComponent
          match r.getPlayerComponent entity with
          | none => none
          | some _ =>
              let started := handleLaserFireInput config entity swapped.1 cooldown r
              some (store entity started.1 started.2.1 (started.2.2, swapped.2.2))
        else
          let released :=
            if swapped.1.laserActive then stopActiveLaser config swapped.1 swapped.2 else swapped
          if cooldown.timer ≤ 0 then
            let shot := shootProjectile config.gameplay released.1 entity released.2.1
            some (store entity released.1 { cooldown with timer := cooldown.cooldownTime }
              (shot.2, released.2.2))
          else some (store entity released.1 cooldown released.2)
  | _, _, _ => some st

/-- One round of the loop over `shooting.shootingDirections`
(ShootingSystem.cpp:252-267): `monsterTransform` is read through the pointer. -/
def shootDirection (config : SimulationConfig) (entity : EntityId) (r : World)
    (direction : Direction) : World :=
  let offsetX :=
    if direction.dx < 0 then -config.gameplay.bulletSpawnOffsetX
    else config.gameplay.bulletSpawnOffsetX
  let offsetY :=
    if direction.dy < 0 then -config.gameplay.bulletSpawnOffsetY
    else config.gameplay.bulletSpawnOffsetY
  let startX := match r.getTransform entity with
    | some t => t.x + offsetX
    | none => 0
  let startY := match r.getTransform entity with
    | some t => t.y + offsetY
    | none => 0
  (spawnBullet config.gameplay r entity false startX startY direction.dx direction.dy
    WeaponType.kWeaponBasicType 1).2

/-- The second callback of `ShootingSystem::update` (ShootingSystem.cpp:239-270). -/
def onAutomaticShooting (config : SimulationConfig) (entity : EntityId)
    (st : World × Finset EntityId) : World × Finset EntityId :=
  match st.1.getAutomaticShooting entity, st.1.getWeapon entity,
      st.1.getFireCooldown entity with
  | some shooting, some _, some cooldown =>
      if cooldown.timer ≤ 0 then
        let r := touch st.1 ComponentType.Transform
        let r := shooting.shootingDirections.foldl (shootDirection config entity) r
        (r.assign ComponentType.FireCooldown entity
          (Component.fireCooldown { cooldown with timer := cooldown.cooldownTime }), st.2)
      else st
  | _, _, _ => st

/-- Embeds `ShootingSystem::update` (ShootingSystem.cpp:198-271). -/
def update (config : SimulationConfig) (st : World × Finset EntityId) :
    Option (World × Finset EntityId) :=
  match view3M ComponentType.PlayerInputComponent ComponentType.WeaponComponent
      ComponentType.FireCooldown (onInput config) st with
  | none => none
  | some s =>
      some (view3 ComponentType.AutomaticShooting ComponentType.WeaponComponent
        ComponentType.FireCooldown (onAutomaticShooting config) s)

end ShootingSystem

/-- The member `_powerUpSpawnTimer` of `class PowerUpSystem` (PowerUpSystem.hpp:16). -/
structure PowerUpSystem where
  powerUpSpawnTimer : ℚ
  deriving DecidableEq

namespace PowerUpSystem

/-- Embeds `std::clamp(v, lo, hi)`: `(v < lo) ? lo : (hi < v) ? hi : v`. -/
def clamp (v lo hi : ℚ) : ℚ :=
  if v < lo then lo else if hi < v then hi else v

/-- The spawn of a power-up (PowerUpSystem.cpp:20-46) with the values drawn. -/
def spawn (config : SimulationConfig) (env : TickEnv) (registry : World) : World :=
  let randomValue := env.powerUpRandom
  let spawnX := config.gameplay.worldWidth * config.powerUpSpawnCenterX +
    (randomValue - 1 / 2) * config.powerUpSpawnRandomRange
  let spawnY := config.worldHeight * config.powerUpSpawnCenterY +
    (randomValue - 1 / 2) * config.powerUpSpawnRandomRange
  let spawnX := clamp spawnX config.powerUpSpawnMargin
    (config.gameplay.worldWidth - config.powerUpSpawnMargin)
  let spawnY := clamp spawnY config.powerUpSpawnMargin
    (config.worldHeight - config.powerUpSpawnMargin)
  let v := getDirectionVelocity config.powerUpSpawnSide config.scrollSpeed
  (EntityFactory.spawnPowerUp config registry (env.powerUpType % 256) spawnX spawnY
    (v.1 * config.powerUpSpeedMultiplier) (v.2 * config.powerUpSpeedMultiplier)).2

/-- The inner callback of `PowerUpSystem::update` (PowerUpSystem.cpp:63-109) for one
player.  `none` is `power_up_status->type` on a null pointer (line 100). -/
def onPlayer (config : SimulationConfig) (env : TickEnv) (powerUpId : EntityId)
    (powerUp : PowerUp) (powerUpTransform : Transform) (playerId : EntityId)
    (st : World × Finset EntityId) : Option (World × Finset EntityId) :=
  if powerUpId ∈ st.2 then some st
  else
    let r := touch st.1 ComponentType.Transform
    match r.getTransform playerId with
    | none => some (r, st.2)
    | some playerTransform =>
      let r := touch r ComponentType.Collider
      let playerRadius := match r.getCollider playerId with
        | some c => c.radius
        | none => 10
      let powerUpRadius := match r.getCollider powerUpId with
        | some c => c.radius
        | none => 8
      let combinedRadius := playerRadius + powerUpRadius
      let dx := playerTransform.x - powerUpTransform.x
      let dy := playerTransform.y - powerUpTransform.y
      if dx * dx + dy * dy < combinedRadius * combinedRadius then
        if powerUp.type = 1 then
          let r := touch r ComponentType.WeaponComponent
          let weapon := (r.getWeapon playerId).getD defaultWeapon
          let r :=
            match r.getWeapon playerId with
            | some _ => r
            | none =>
                r.addComponent ComponentType.WeaponComponent.hash playerId
                  (Component.weapon defaultWeapon)
          some (r.assign ComponentType.WeaponComponent playerId
            (Component.weapon (applyWeaponUpgrade config weapon)), insert powerUpId st.2)
        else if powerUp.type = 2 then
          let r := touch r ComponentType.PlayerPowerUpStatus
          match r.getPlayerPowerUpStatus playerId with
          | none => none
          | some _ =>
              some (r.assign ComponentType.PlayerPowerUpStatus playerId
                (Component.playerPowerUpStatus
                  ⟨PlayerPowerUpType.Shield, env.pickupClock powerUpId playerId⟩),
                insert powerUpId st.2)
        else some (r, insert powerUpId st.2)
      else some (r, st.2)

/-- The callback of `registry.view<PowerUp, Transform>` (PowerUpSystem.cpp:51-110). -/
def onPowerUp (config : SimulationConfig) (env : TickEnv) (powerUpId : EntityId)
    (st : World × Finset EntityId) : Option (World × Finset EntityId) :=
  match st.1.getPowerUp powerUpId, st.1.getTransform powerUpId with
  | some powerUp, some powerUpTransform =>
      let powerMargin := config.powerUpBoundaryMargin
      if powerUpTransform.x < -powerMargin ∨
          powerUpTransform.x > config.gameplay.worldWidth + powerMargin ∨
          powerUpTransform.y < -powerMargin ∨
          powerUpTransform.y > config.worldHeight + powerMargin then
        some (st.1, insert powerUpId st.2)
      else
        forEachM ComponentType.PlayerComponent
          (onPlayer config env powerUpId powerUp powerUpTransform) st
  | _, _ => some st

/-- Embeds `PowerUpSystem::update` (PowerUpSystem.cpp:15-111). -/
def update (config : SimulationConfig) (env : TickEnv) (system : PowerUpSystem) (dt : ℚ)
    (st : World × Finset EntityId) : Option (PowerUpSystem × (World × Finset EntityId)) :=
  let timer := system.powerUpSpawnTimer + dt
  let spawned : PowerUpSystem × World :=
    if config.powerUpsEnabled = true ∧ timer ≥ config.powerUpSpawnDelay then
      ({ powerUpSpawnTimer := 0 }, spawn config env st.1)
    else ({ powerUpSpawnTimer := timer }, st.1)
  match view2M ComponentType.PowerUp ComponentType.Transform (onPowerUp config env)
      (spawned.2, st.2) with
  | none => none
  | some s => some (spawned.1, s)

end PowerUpSystem

namespace Boss2BehaviorSystem

/-- The callback of `Boss2BehaviorSystem::update` (Boss2BehaviorSystem.cpp:17-43). -/
def onBoss (config : SimulationConfig) (env : TickEnv) (deltaTime : ℚ) (id : EntityId)
    (st : World × Finset EntityId) : World × Finset EntityId :=
  match st.1.getBoss2Behavior id, st.1.getTransform id with
  | some behavior, some transform =>
      let moved : Boss2Behavior × Transform :=
        if behavior.visible then
          let timer := behavior.oscillationTimer + deltaTime * behavior.oscillationSpeed
          let offset := env.lib.sin timer * behavior.oscillationAmplitude
          ({ behavior with oscillationTimer := timer },
            { transform with y := behavior.baseY + offset })
        else (behavior, transform)
      let timed : Boss2Behavior :=
        { moved.1 with visibilityTimer := moved.1.visibilityTimer + deltaTime }
      let currentDuration :=
        if timed.visible then timed.visibleDuration else timed.invisibleDuration
      let final : Boss2Behavior × Transform :=
        if timed.visibilityTimer ≥ currentDuration then
          let flipped : Boss2Behavior :=
            { timed with visibilityTimer := 0, visible := !timed.visible }
          if flipped.visible then
            let minY := config.worldHeight * (15 / 100)
            let maxY := config.worldHeight * (85 / 100)
            let baseY := minY + env.bossRandom id * (maxY - minY)
            ({ flipped with baseY := baseY, oscillationTimer := 0 },
              { moved.2 with y := baseY })
          else (flipped, moved.2)
        else (timed, moved.2)
      ((st.1.assign ComponentType.Boss2Behavior id (Component.boss2Behavior final.1)).assign
        ComponentType.Transform id (Component.transform final.2), st.2)
  | _, _ => st

/-- Embeds `Boss2BehaviorSystem::update` (Boss2BehaviorSystem.cpp:15-44). -/
def update (config : SimulationConfig) (env : TickEnv) (deltaTime : ℚ)
    (st : World × Finset EntityId) : World × Finset EntityId :=
  view2 ComponentType.Boss2Behavior ComponentType.Transform (onBoss config env deltaTime) st

end Boss2BehaviorSystem

namespace ShieldFollowSystem

/-- The callback of `ShieldFollowSystem::update` (ShieldFollowSystem.cpp:20-93). -/
def onShield (config : SimulationConfig) (shieldId : EntityId) (st : World × Finset EntityId) :
    World × Finset EntityId :=
  match st.1.getShield shieldId with
  | none => st
  | some shieldComp =>
    let r := touch st.1 ComponentType.Transform
    match r.getTransform shieldId with
    | none => (r, st.2)
    | some _ =>
      if shieldComp.parentMonster ∈ st.2 then (r, insert shieldId st.2)
      else
        let r := touch r ComponentType.Health
        match r.getTransform shieldComp.parentMonster, r.getHealth shieldComp.parentMonster with
        | some parentTransform, some parentHealth =>
          if parentHealth.alive = false then (r, insert shieldId st.2)
          else
            let r := touch r ComponentType.MonsterComponent
            match r.getMonsterComponent shieldComp.parentMonster with
            | none => (r, st.2)
            | some monsterComp =>
              let size : ℚ :=
                match config.MonstersType.lookup (monsterComp.type : Int) with
                | some monsterType => monsterType.size
                | none => 24
              let r := touch r ComponentType.Velocity
              let parentVelocity := r.getVelocity shieldComp.parentMonster
              let shieldOffset : ℚ × ℚ :=
                match parentVelocity with
                | some v =>
                    if |v.vx| > |v.vy| then
                      (if v.vx < 0 then -(size * (3 / 5)) else size * (3 / 5), 0)
                    else (0, if v.vy < 0 then -(size * (3 / 5)) else size * (3 / 5))
                | none => (0, 0)
              let r := r.assign ComponentType.Transform shieldId
                (Component.transform
                  ⟨parentTransform.x + shieldOffset.1 + shieldComp.offsetX,
                    parentTransform.y + shieldOffset.2 + shieldComp.offsetY⟩)
              let r :=
                match r.getVelocity shieldId, parentVelocity with
                | some _, some v =>
                    r.assign ComponentType.Velocity shieldId (Component.velocity ⟨v.vx, v.vy⟩)
                | _, _ => r
              match r.getHealth shieldId with
              | some shieldHealth =>
                  if shieldHealth.alive = false then (r, insert shieldId st.2) else (r, st.2)
              | none => (r, st.2)
        | _, _ => (r, insert shieldId st.2)

/-- Embeds `ShieldFollowSystem::update` (ShieldFollowSystem.cpp:17-94). -/
def update (config : SimulationConfig) (st : World × Finset EntityId) :
    World × Finset EntityId :=
  forEach ComponentType.ShieldComponent (onShield config) st

end ShieldFollowSystem

/-- Embeds `GameConfig::getSpawnPosition` (GameConfig.cpp:654-675): the pair `(x, y)`. -/
def getSpawnPosition (config : SimulationConfig) (randomValue : ℚ) : ℚ × ℚ :=
  match config.monsterSpawnSide with
  | ScrollDirection.RightToLeft =>
      (config.gameplay.worldWidth + 40, 40 + randomValue * (config.worldHeight - 80))
  | ScrollDirection.LeftToRight => (-40, 40 + randomValue * (config.worldHeight - 80))
  | ScrollDirection.BottomToTop =>
      (40 + randomValue * (config.gameplay.worldWidth - 80), config.worldHeight + 40)
  | ScrollDirection.TopToBottom => (40 + randomValue * (config.gameplay.worldWidth - 80), -40)

/-- The second loop of `MonsterSpawnerSystem::spawnMonster` (LevelSystem.cpp:70-77) over
the entries of `MonstersType` still to visit. -/
def pickMonsterType : List (Sigma fun _ : Int => MonsterType) -> Int -> Int -> Nat
  | [], _, _ => 0
  | e :: rest, cumulative, roll =>
      if roll < cumulative + (e.2.SpawnWeight : Int) then (e.1 % 256).toNat
      else pickMonsterType rest (cumulative + (e.2.SpawnWeight : Int)) roll

/-- The type that `MonsterSpawnerSystem::spawnMonster` picks for the roll of the tick. -/
def MonsterSpawnerSystem.monsterType (config : SimulationConfig) (env : TickEnv) : Nat :=
  pickMonsterType config.MonstersType.entries 0 env.spawnRoll

/-- Whether `MonsterSpawnerSystem::spawnMonster` is defined for this tick: the total
weight is positive (`typeDist(0, totalWeight - 1)`) and the picked type is in
`MonstersType` (`find(monsterType)->second`, LevelSystem.cpp:81-85). -/
def MonsterSpawnerSystem.spawnDefined (config : SimulationConfig) (env : TickEnv) : Bool :=
  decide (0 < (config.MonstersType.entries.map (fun e => e.2.SpawnWeight)).sum) &&
    (config.MonstersType.lookup (MonsterSpawnerSystem.monsterType config env : Int)).isSome

/-- Embeds `MonsterSpawnerSystem::spawnMonster` (LevelSystem.cpp:52-86) where it is
defined (`spawnDefined`); the registry is returned as it is otherwise. -/
def MonsterSpawnerSystem.spawnMonster (config : SimulationConfig) (env : TickEnv)
    (registry : World) : World :=
  let position := getSpawnPosition config env.spawnRandom
  let monsterType := MonsterSpawnerSystem.monsterType config env
  match config.MonstersType.lookup (monsterType : Int) with
  | none => registry
  | some found =>
      let v := getDirectionVelocity config.monsterMovement (config.scrollSpeed * found.speed)
      (EntityFactory.spawnMonster config env.lib registry monsterType found.canShoot found.team
        position.1 position.2 v.1 v.2).2

/-- Embeds `MonsterSpawnerSystem::spawnBoss` (LevelSystem.cpp:88-121). -/
def MonsterSpawnerSystem.spawnBoss (config : SimulationConfig) (env : TickEnv) (bossType : Nat)
    (registry : World) : World :=
  let spawnX := config.gameplay.worldWidth - 200
  let spawnY := config.worldHeight * (3 / 4)
  let spawned := EntityFactory.spawnMonster config env.lib registry bossType true Team.Monster
    spawnX spawnY 0 0
  let bossId := spawned.1
  if bossType = (config.gameplay.boss2MonsterType % 256).toNat then
    let behavior : Boss2Behavior :=
      { oscillationTimer := 0, oscillationSpeed := 3 / 2, oscillationAmplitude := 120,
        baseY := spawnY, visibilityTimer := 0, visibleDuration := 4, invisibleDuration := 2,
        visible := true }
    let r := spawned.2.addComponent ComponentType.Boss2Behavior.hash bossId
      (Component.boss2Behavior behavior)
    let r := touch r ComponentType.FireCooldown
    match r.getFireCooldown bossId with
    | some cooldown =>
        r.assign ComponentType.FireCooldown bossId
          (Component.fireCooldown { cooldown with cooldownTime := 2 })
    | none => r
  else spawned.2

/-- The spawns of the spawner of a `LevelSystem` for one tick. -/
def LevelSystem.effects (config : SimulationConfig) (env : TickEnv) : SpawnEffects :=
  { spawnMonster := MonsterSpawnerSystem.spawnMonster config env,
    spawnBoss := MonsterSpawnerSystem.spawnBoss config env }

/-- Embeds `LevelSystem::LevelSystem` (LevelSystem.cpp:124-127) in a configuration with
`levelSystem` set: the spawner starts with nothing to spawn. -/
def LevelSystem.create : LevelSystem :=
  { spawner := { monstersToSpawn := 0, monstersSpawned := 0, spawnTimer := 0 },
    waveChanged := false }

/-- A system of the pipeline (`std::unique_ptr<engine::ISystem>`), with the members
that change while it runs. -/
inductive ISystem where
  | MovementSystem
  | LaserBeamSystem
  | FireCooldownSystem
  | ProjectileLifetimeSystem
  | CollisionSystem
  | BoundarySystem
  | CleanupSystem
  | PlayerInputSystem
  | ShootingSystem
  | WeaponDamageSystem
  | PowerUpSystem (system : PowerUpSystem)
  | LevelSystem (system : LevelSystem)
  | Boss2BehaviorSystem
  | ShieldFollowSystem
  deriving DecidableEq

/-- The class of a system of the pipeline. -/
inductive SystemKind where
  | MovementSystem
  | LaserBeamSystem
  | FireCooldownSystem
  | ProjectileLifetimeSystem
  | CollisionSystem
  | BoundarySystem
  | CleanupSystem
  | PlayerInputSystem
  | ShootingSystem
  | WeaponDamageSystem
  | PowerUpSystem
  | LevelSystem
  | Boss2BehaviorSystem
  | ShieldFollowSystem
  deriving DecidableEq, Repr

/-- The class of a system. -/
def ISystem.kind : ISystem -> SystemKind
  | ISystem.MovementSystem => SystemKind.MovementSystem
  | ISystem.LaserBeamSystem => SystemKind.LaserBeamSystem
  | ISystem.FireCooldownSystem => SystemKind.FireCooldownSystem
  | ISystem.ProjectileLifetimeSystem => SystemKind.ProjectileLifetimeSystem
  | ISystem.CollisionSystem => SystemKind.CollisionSystem
  | ISystem.BoundarySystem => SystemKind.BoundarySystem
  | ISystem.CleanupSystem => SystemKind.CleanupSystem
  | ISystem.PlayerInputSystem => SystemKind.PlayerInputSystem
  | ISystem.ShootingSystem => SystemKind.ShootingSystem
  | ISystem.WeaponDamageSystem => SystemKind.WeaponDamageSystem
  | ISystem.PowerUpSystem _ => SystemKind.PowerUpSystem
  | ISystem.LevelSystem _ => SystemKind.LevelSystem
  | ISystem.Boss2BehaviorSystem => SystemKind.Boss2BehaviorSystem
  | ISystem.ShieldFollowSystem => SystemKind.ShieldFollowSystem

/-- Embeds the virtual call `system->update(deltaTime, currentLevel, registry,
toDestroySet)`: the system, `currentLevel` and the state afterwards.  For a
`LevelSystem` the result is `none` when the spawn of this tick is not defined. -/
def ISystem.update (config : SimulationConfig) (env : TickEnv) (deltaTime : ℚ)
    (system : ISystem) (currentLevel : Int) (st : World × Finset EntityId) :
    Option (ISystem × Int × (World × Finset EntityId)) :=
  match system with
  | ISystem.MovementSystem => some (system, currentLevel, MovementSystem.update deltaTime st)
  | ISystem.LaserBeamSystem => some (system, currentLevel, LaserBeamSystem.update config st)
  | ISystem.FireCooldownSystem =>
      some (system, currentLevel, FireCooldownSystem.update deltaTime st)
  | ISystem.ProjectileLifetimeSystem =>
      some (system, currentLevel, ProjectileLifetimeSystem.update config deltaTime st)
  | ISystem.CollisionSystem =>
      (CollisionSystem.update st.1 st.2).map (fun s => (system, currentLevel, s))
  | ISystem.BoundarySystem => some (system, currentLevel, BoundarySystem.update config st)
  | ISystem.CleanupSystem => some (system, currentLevel, CleanupSystem.update st)
  | ISystem.PlayerInputSystem =>
      some (system, currentLevel, PlayerInputSystem.update config env st)
  | ISystem.ShootingSystem =>
      (ShootingSystem.update config st).map (fun s => (system, currentLevel, s))
  | ISystem.WeaponDamageSystem =>
      some (system, currentLevel, WeaponDamageSystem.update deltaTime st.1 st.2)
  | ISystem.PowerUpSystem powerUps =>
      (PowerUpSystem.update config env powerUps deltaTime st).map
        (fun out => (ISystem.PowerUpSystem out.1, currentLevel, out.2))
  | ISystem.LevelSystem levels =>
      if MonsterSpawnerSystem.spawnDefined config env then
        let out := LevelSystem.update config.gameplay (LevelSystem.effects config env) levels
          deltaTime currentLevel st.1
        some (ISystem.LevelSystem out.1, out.2.1, (out.2.2, st.2))
      else none
  | ISystem.Boss2BehaviorSystem =>
      some (system, currentLevel, Boss2BehaviorSystem.update config env deltaTime st)
  | ISystem.ShieldFollowSystem =>
      some (system, currentLevel, ShieldFollowSystem.update config st)

/-- Embeds `SystemPipeline::update` (SystemPipeline.cpp:21-28) on the vector `_systems`:
the systems, `currentLevel` and the state afterwards. -/
def SystemPipeline.update (config : SimulationConfig) (env : TickEnv) (deltaTime : ℚ) :
    List ISystem -> Int -> World × Finset EntityId ->
      Option (List ISystem × Int × (World × Finset EntityId))
  | [], currentLevel, st => some ([], currentLevel, st)
  | system :: rest, currentLevel, st =>
      match system.update config env deltaTime currentLevel st with
      | none => none
      | some out =>
          match SystemPipeline.update config env deltaTime rest out.2.1 out.2.2 with
          | none => none
          | some others => some (out.1 :: others.1, others.2)

/-- The calls of `addSystem` in `GameLogicHandler::initializeSystems`
(GameLogicHandler.cpp:43-103): the vector `_systems` of the pipeline. -/
def GameLogicHandler.initializeSystems (config : SimulationConfig) : List ISystem :=
  (if config.systems.movementSystem then [ISystem.MovementSystem] else []) ++
  [ISystem.LaserBeamSystem] ++
  (if config.systems.fireCooldownSystem then [ISystem.FireCooldownSystem] else []) ++
  (if config.systems.projectileLifetimeSystem then [ISystem.ProjectileLifetimeSystem] else []) ++
  (if config.systems.collisionSystem then [ISystem.CollisionSystem] else []) ++
  (if config.systems.boundarySystem then [ISystem.BoundarySystem] else []) ++
  (if config.systems.cleanupSystem then [ISystem.CleanupSystem] else []) ++
  [ISystem.PlayerInputSystem, ISystem.ShootingSystem, ISystem.WeaponDamageSystem,
    ISystem.PowerUpSystem { powerUpSpawnTimer := 0 }] ++
  (if config.systems.levelSystem then [ISystem.LevelSystem LevelSystem.create] else []) ++
  [ISystem.Boss2BehaviorSystem, ISystem.ShieldFollowSystem]

/-- The spawns at the end of `GameLogicHandler::initializeSystems`
(GameLogicHandler.cpp:105-112) on the new registry. -/
def GameLogicHandler.initialRegistry (config : SimulationConfig) (lib : FloatLib) : World :=
  config.MonstersType.entries.foldl
    (fun registry monsters =>
      monsters.2.defaultPositions.foldl
        (fun r positions =>
          let v := getDirectionVelocity config.monsterMovement monsters.2.speed
          (EntityFactory.spawnMonster config lib r (monsters.1 % 256).toNat monsters.2.canShoot
            monsters.2.team positions.1 positions.2 v.1 v.2).2)
        registry)
    Registry.fresh

/-- Embeds `GameLogicHandler::updateGame` (GameLogicHandler.cpp:164-174) on the members of
the handler and on its pipeline. -/
def GameLogicHandler.updateGame (config : SimulationConfig) (env : TickEnv) (dt : ℚ)
    (g : GameLogicHandler Component) (systemPipeline : List ISystem) :
    Option (GameLogicHandler Component × List ISystem) :=
  match SystemPipeline.update config env dt systemPipeline g.currentLevel (g.registry, ∅) with
  | none => none
  | some out =>
      some
        ({ registry := out.2.2.1, toDestroySet := out.2.2.2, currentLevel := out.2.1,
           prevLevel := if out.2.1 ≠ g.prevLevel then out.2.1 else g.prevLevel,
           levelChanged := if out.2.1 ≠ g.prevLevel then true else g.levelChanged },
          out.1)

/-- Embeds `GameLogicHandler::destroyEntityDestructionList` (GameLogicHandler.cpp:176-180).
The order in which an `unordered_set` is walked is not specified; the ids are
taken in increasing order. -/
def GameLogicHandler.destroyEntityDestructionList {V : Type} (g : GameLogicHandler V) :
    GameLogicHandler V :=
  (g.toDestroySet.sort (fun a b => a ≤ b)).foldl (fun h id => h.destroyEntity id) g

/-- Embeds `GameLogicHandler::manageInputs` (GameLogicHandler.cpp:140-151). -/
def GameLogicHandler.manageInputs (g : GameLogicHandler Component)
    (input : PlayerInputComponent) (entity : EntityId) : GameLogicHandler Component :=
  if g.registry.hasComponent ComponentType.PlayerComponent.hash entity then
    let r := touch g.registry ComponentType.PlayerInputComponent
    let r :=
      match r.getPlayerInput entity with
      | some _ => r
      | none =>
          r.addComponent ComponentType.PlayerInputComponent.hash entity
            (Component.playerInput ⟨false, false, false, false, false, false⟩)
    { g with
      registry := r.assign ComponentType.PlayerInputComponent entity (Component.playerInput input) }
  else g

/-- The configuration as the room code uses it: the components of a new player
(`GameLogicHandler::spawnPlayer`, GameLogicHandler.cpp:131-137) and the registry of a new
`GameLogicHandler`; `now` is the reading of the clock in a new
`PlayerPowerUpStatus`. -/
def SimulationConfig.toGameConfig (config : SimulationConfig) (lib : FloatLib) (now : Nat) :
    GameConfig Component :=
  { playerComponents := fun playerId =>
      EntityFactory.playerComponents config now playerId config.playerSpawnX
        (config.playerSpawnYBase + config.playerSpawnYSpacing * ((playerId % 256 : Nat) : ℚ)),
    initialRegistry := GameLogicHandler.initialRegistry config lib }

/-- Embeds `Room::areAllPlayersDead` (Room.cpp:142-163). -/
def Room.areAllPlayersDead (room : Room Component) : Bool :=
  if room.clients.entries.isEmpty then false
  else
    !(room.clients.entries.any
      (fun e =>
        (room.gameLogic.registry.find ComponentType.PlayerComponent e.2.entityId).isSome &&
          (match room.gameLogic.registry.getHealth e.2.entityId with
           | some health => health.alive
           | none => false)))

/-- Embeds `Room::updateGame` (Room.cpp:98-105) on the room and the pipeline of its
`GameLogicHandler`. -/
def Room.updateGame (config : SimulationConfig) (env : TickEnv) (dt : ℚ)
    (room : Room Component) (systemPipeline : List ISystem) :
    Option (Room Component × List ISystem) :=
  if room.state = RoomState.Playing ∧ room.areAllPlayersDead = false then
    (room.gameLogic.updateGame config env dt systemPipeline).map
      (fun out => ({ room with gameLogic := out.1 }, out.2))
  else some (room, systemPipeline)

/-- One round of the game loop for a room: `Room::updateGame`, then, for a room that
is playing, after the states were sent, `destroyEntityDestructionList`
(GameServer.cpp:566-567 and 726). -/
def Room.tick (config : SimulationConfig) (env : TickEnv) (dt : ℚ)
    (room : Room Component) (systemPipeline : List ISystem) :
    Option (Room Component × List ISystem) :=
  (room.updateGame config env dt systemPipeline).map
    (fun out =>
      if out.1.state = RoomState.Playing then
        ({ out.1 with gameLogic := out.1.gameLogic.destroyEntityDestructionList }, out.2)
      else out)

/-- Between two states of a tick no entity leaves the store and no destruction
request is withdrawn. -/
def Keeps (s s' : World × Finset EntityId) : Prop :=
  s.1.activeEntities ⊆ s'.1.activeEntities ∧ s.2 ⊆ s'.2

end server

end rtype

namespace rtype

namespace server

open engine engine.Registry

/-! ## Further example states -/

/-- A full configuration for examples: the defaults of GameConfig.hpp where the
examples do not need other values, every configurable system enabled, no
monster type. -/
def exampleSimulation : SimulationConfig :=
  { gameplay := exampleGameplay,
    systems :=
      { movementSystem := true, fireCooldownSystem := true, projectileLifetimeSystem := true,
        collisionSystem := true, boundarySystem := true, cleanupSystem := true,
        monsterSpawnerSystem := true, levelSystem := true },
    scrollSpeed := 90, playerSpeed := 220, playerStartHP := 3, playerFireCooldown := 1 / 4,
    playerSpawnX := 80, playerSpawnYBase := 120, playerSpawnYSpacing := 80,
    playerMovementDirection := PlayerDirection.All, friendlyfire := false, bulletSpeed := 380,
    bulletLifetime := 3, powerUpsForLaser := 5, powerUpsForRocket := 10,
    rocketFireCooldown := 3 / 5, monsterHP := 1, monsterSpawnSide := ScrollDirection.RightToLeft,
    monsterMovement := ScrollDirection.RightToLeft,
    MonstersType := ∅, powerUpSpawnDelay := 10, powerUpsEnabled := true,
    powerUpSpawnSide := ScrollDirection.RightToLeft, powerUpSpeedMultiplier := 1 / 4,
    powerUpSize := 8, powerUpSpawnCenterX := 3 / 5, powerUpSpawnCenterY := 1 / 2,
    powerUpSpawnRandomRange := 120, powerUpSpawnMargin := 80, powerUpBoundaryMargin := 200, shieldDuration := 5, worldHeight := 720,
    playerSize := 20 }

/-- The example configuration with `PowerUpsForLaser=5` and `PowerUpsForRocket=2`. -/
def exampleRocketFirst : SimulationConfig :=
  { exampleSimulation with powerUpsForLaser := 5, powerUpsForRocket := 2 }

/-- First contacts from a list of endpoint keys, in order: the player id that
`getOrCreatePlayer` returns for each, and the server afterwards. -/
def GameServer.firstContacts {V : Type} (gs : GameServer V) :
    List String -> List PlayerId × GameServer V
  | [] => ([], gs)
  | key :: rest =>
      let contact := gs.getOrCreatePlayer key 0
      let others := GameServer.firstContacts contact.2 rest
      (contact.1 :: others.1, others.2)

/-- The keys of 257 distinct endpoints: "", "a", "aa", ... -/
def exampleEndpointKeys : List String :=
  (List.range 257).map (fun n => String.mk (List.replicate n 'a'))

/-- Library functions for examples that do not call them on values that matter. -/
def exampleFloatLib : FloatLib :=
  { sqrt := fun x => x, sin := fun _ => 0 }

/-- The table `MonstersType` after the configuration lines `MonsterType1Size=24`,
`MonsterType1HP=1`, `MonsterType1Speed=1`, `MonsterType1SpawnWeight=1`,
`MonsterType1Color=255,0,0` and `MonsterType1HasShield=true`, then
`checkMonsterTypes`. -/
def exampleShieldTypes : AList (fun _ : Int => MonsterType) :=
  checkMonsterTypes
    ([MonsterField.Size 24, MonsterField.HP 1, MonsterField.Speed 1,
        MonsterField.SpawnWeight 1, MonsterField.Color 255 0 0,
        MonsterField.HasShield true].foldl
      (fun types field => addMonsterToConfig types 1 field) ∅)

/-- The example configuration with the monster types of `exampleShieldTypes`. -/
def exampleShieldSimulation : SimulationConfig :=
  { exampleSimulation with MonstersType := exampleShieldTypes }

/-- A new registry after `spawnMonster(1, true, Team::Monster, 100, 100, -1, 0)` under
`exampleShieldSimulation`: the monster is entity 1, its shield entity 2. -/
def exampleShieldedMonsterWorld : World :=
  (EntityFactory.spawnMonster exampleShieldSimulation exampleFloatLib Registry.fresh 1 true
    Team.Monster 100 100 (-1) 0).2

/-- The handler at the end of the tick in which the Basic bullet of
`exampleBasicHitWorld` hit the monster: Collision, then WeaponDamage, from an
empty destroy set. -/
def exampleHitHandler : Option (GameLogicHandler Component) :=
  (collisionThenDamage (1 / 60) exampleBasicHitWorld ∅).map
    (fun st =>
      { registry := st.1, toDestroySet := st.2, prevLevel := 0, currentLevel := 0,
        levelChanged := false })

/-- The registry in the next tick, after the sweep and after the shooter fired
again: the new bullet (damage 10) is spawned at (50, 50), far from the monster. -/
def exampleNextTickWorld : Option (EntityId × World) :=
  exampleHitHandler.map
    (fun g =>
      ShootingSystem.spawnBullet exampleGameplay g.destroyEntityDestructionList.registry 2 true
        50 50 1 0 WeaponType.kWeaponBasicType 10)

/-- An environment for examples: the clock reads 0 and every draw is in the
middle of its range (the power-up type drawn is WeaponUpgrade, the roll 0). -/
def exampleTickEnv : TickEnv :=
  { lib := exampleFloatLib, inputClock := fun _ => 0, pickupClock := fun _ _ => 0,
    powerUpRandom := 1 / 2, powerUpType := 1, spawnRandom := 1 / 2, spawnRoll := 0,
    bossRandom := fun _ => 1 / 2 }

/-- A handler whose registry is `exampleShieldedMonsterWorld`. -/
def exampleShieldedGame : GameLogicHandler Component :=
  { registry := exampleShieldedMonsterWorld, toDestroySet := ∅, prevLevel := 0,
    currentLevel := 0, levelChanged := false }

/-- Embeds `GameServer::handlePlayerInput` (GameServer.cpp:461-492) for a player of this
room, at time `now`. -/
def Room.handlePlayerInput (room : Room Component) (playerId : PlayerId)
    (input : PlayerInputComponent) (now : Timestamp) : Room Component :=
  match room.clients.lookup playerId with
  | none => room
  | some client =>
      { room with
        clients := room.clients.replace playerId { client with lastSeen := now },
        gameLogic := room.gameLogic.manageInputs input client.entityId }

/-- One round of `GameServer::updateGameLoop` (GameServer.cpp:521-548) seen from one room:
the inputs received are handled, then the room is updated and swept. -/
def Room.round (config : SimulationConfig) (env : TickEnv) (dt : ℚ)
    (st : Room Component × List ISystem) (inputs : List (PlayerId × PlayerInputComponent)) :
    Option (Room Component × List ISystem) :=
  Room.tick config env dt (inputs.foldl (fun room i => room.handlePlayerInput i.1 i.2 0) st.1)
    st.2

/-- A configuration with the default values of GameConfig.hpp except
`FriendlyFire=true`, `PlayerStartHP=1` and `PlayerSpawnYSpacing=0`; the level
system is off, as it is by default, and there is no monster type. -/
def exampleFriendlyFire : SimulationConfig :=
  { gameplay :=
      { weaponDamageBasic := 1, weaponDamageLaser := 2, weaponDamageMissile := 3,
        rocketDamageMultiplier := 3, bulletSpawnOffsetX := 30, bulletSpawnOffsetY := 0,
        bulletVx := 380, bulletVy := 0, bulletSize := 4, worldWidth := 1280,
        boundaryMargin := 100, monsterSpawnDelay := 2, numberOfLevels := 2,
        monsterPerLevel := 10, bossMonsterType := 6, bossLevel := 5, boss2MonsterType := 7,
        boss2Level := 15 },
    systems :=
      { movementSystem := true, fireCooldownSystem := true, projectileLifetimeSystem := true,
        collisionSystem := true, boundarySystem := true, cleanupSystem := true,
        monsterSpawnerSystem := true, levelSystem := false },
    scrollSpeed := 90, playerSpeed := 220, playerStartHP := 1, playerFireCooldown := 1 / 4,
    playerSpawnX := 80, playerSpawnYBase := 120, playerSpawnYSpacing := 0,
    playerMovementDirection := PlayerDirection.All, friendlyfire := true, bulletSpeed := 380,
    bulletLifetime := 3, powerUpsForLaser := 5, powerUpsForRocket := 10,
    rocketFireCooldown := 3 / 5, monsterHP := 1, monsterSpawnSide := ScrollDirection.LeftToRight,
    monsterMovement := ScrollDirection.LeftToRight, MonstersType := ∅, powerUpSpawnDelay := 10,
    powerUpsEnabled := true, powerUpSpawnSide := ScrollDirection.LeftToRight,
    powerUpSpeedMultiplier := 1 / 4, powerUpSize := 8, powerUpSpawnCenterX := 3 / 5,
    powerUpSpawnCenterY := 1 / 2, powerUpSpawnRandomRange := 120, powerUpSpawnMargin := 80,
    powerUpBoundaryMargin := 200, shieldDuration := 5, worldHeight := 720, playerSize := 20 }

/-- The input `right`. -/
def inputRight : PlayerInputComponent := ⟨false, true, false, false, false, false⟩

/-- The input `fire`. -/
def inputFire : PlayerInputComponent := ⟨false, false, false, false, true, false⟩

/-- The input with no key pressed. -/
def inputNone : PlayerInputComponent := ⟨false, false, false, false, false, false⟩

/-- A room under `exampleFriendlyFire` joined by players 1 and 2 (ships: entities 1
and 2), started, with the pipeline of its handler. -/
def exampleDuelRoom : Room Component × List ISystem :=
  let gc := exampleFriendlyFire.toGameConfig exampleFloatLib 0
  let room := Room.create 1 1 "duel" gc
  let room := (room.addPlayer gc 1 "a" 0).2
  let room := (room.addPlayer gc 2 "b" 0).2
  (room.startGame, GameLogicHandler.initializeSystems exampleFriendlyFire)

/-- The inputs of eleven rounds of 1/10 s: player 1 moves right for three rounds
and stops; player 2 fires once (round 5), then holds fire from round 7 on. -/
def exampleDuelInputs : List (List (PlayerId × PlayerInputComponent)) :=
  [[(1, inputRight)], [], [], [(1, inputNone)], [(2, inputFire)], [(2, inputNone)],
   [(2, inputFire)], [], [], [], []]

/-- The room after the first `n` rounds of `exampleDuelInputs`. -/
def exampleDuel (n : Nat) : Option (Room Component × List ISystem) :=
  (exampleDuelInputs.take n).foldlM (Room.round exampleFriendlyFire exampleTickEnv (1 / 10))
    exampleDuelRoom

end server

end rtype
/-! ## Theorems -/

namespace rtype

namespace engine

namespace Registry

variable {V : Type}

theorem lookup_map_erase (l : List (Nat × ComponentStorage V)) (t : Nat) (id : EntityId) :
    (l.map (fun ts => (ts.1, ts.2.erase id))).lookup t = (l.lookup t).map (fun s => s.erase id) := by
  induction l with
  | nil => rfl
  | cons hd tl ih =>
    obtain ⟨k, s⟩ := hd
    simp only [List.map_cons, List.lookup_cons]
    cases h : (t == k) <;> simp [ih]

theorem getStorage_destroyEntity (r : Registry V) (id : EntityId) (t : Nat) :
    (r.destroyEntity id).getStorage t = (r.getStorage t).map (fun s => s.erase id) := by
  simp [getStorage, destroyEntity, lookup_map_erase]

/-- C1 (evaluation at the failing input): create, destroy 1, destroy 1, create,
create.  The second destroy of id 1 pushes 1 onto the recycling pool a second
time, so the last `createEntity` returns id 1 while entity 1 is alive. -/
theorem createEntity_returns_live_id_after_double_destroy :
    (fresh : Registry Unit).createEntity.1 = 1 ∧
    createsOnlyDeadIds
      [Call.create, Call.destroy 1, Call.destroy 1, Call.create, Call.create]
      (fresh : Registry Unit) = false := by
  decide

/-- C2 (evaluation at the failing input): on the registry in which entity 1 was
created and destroyed, destroying id 1 again leaves the alive set and the
component storages as they were but appends 1 to the recycling pool, which
then holds the id twice. -/
theorem destroyEntity_twice_grows_pool :
    ((fresh : Registry Unit).createEntity.2.destroyEntity 1).entityExists 1 = false ∧
    ((fresh : Registry Unit).createEntity.2.destroyEntity 1).freeEntityIds = [1] ∧
    (((fresh : Registry Unit).createEntity.2.destroyEntity 1).destroyEntity 1).activeEntities
      = ((fresh : Registry Unit).createEntity.2.destroyEntity 1).activeEntities ∧
    (((fresh : Registry Unit).createEntity.2.destroyEntity 1).destroyEntity 1).componentStorages
      = ((fresh : Registry Unit).createEntity.2.destroyEntity 1).componentStorages ∧
    (((fresh : Registry Unit).createEntity.2.destroyEntity 1).destroyEntity 1).freeEntityIds
      = [1, 1] := by
  decide

/-- C3: after `destroyEntity id` the id does not exist and every component type
reports it absent (`hasComponent` false, `getComponent` null), while every
other entity keeps its alive status and its component of every type. -/
theorem destroyEntity_clears_id_and_frames_others (r : Registry V) (id : EntityId) :
    (r.destroyEntity id).entityExists id = false ∧
    (∀ t : Nat, (r.destroyEntity id).hasComponent t id = false ∧
      (r.destroyEntity id).getComponent t id = none) ∧
    (∀ e : EntityId, e ≠ id →
      (r.destroyEntity id).entityExists e = r.entityExists e ∧
      ∀ t : Nat, (r.destroyEntity id).hasComponent t e = r.hasComponent t e ∧
        (r.destroyEntity id).getComponent t e = r.getComponent t e) := by
  refine ⟨?_, ?_, ?_⟩
  · simp [entityExists, destroyEntity]
  · intro t
    unfold hasComponent getComponent
    rw [getStorage_destroyEntity]
    cases h : r.getStorage t with
    | none => simp
    | some s =>
      simp only [Option.map_some', AList.lookup_erase, and_true, decide_eq_false_iff_not]
      rw [← AList.mem_keys, AList.mem_erase]
      simp
  · intro e he
    refine ⟨?_, ?_⟩
    · simp [entityExists, destroyEntity, he]
    · intro t
      unfold hasComponent getComponent
      rw [getStorage_destroyEntity]
      cases h : r.getStorage t with
      | none => simp
      | some s =>
        simp only [Option.map_some', AList.lookup_erase_ne he, and_true, decide_eq_decide]
        rw [← AList.mem_keys, ← AList.mem_keys, AList.mem_erase]
        simp [he]


theorem getOrCreateStorage_lookup_self (r : Registry V) (t : Nat) :
    (r.getOrCreateStorage t).2.componentStorages.lookup t = some (r.getOrCreateStorage t).1 := by
  unfold getOrCreateStorage
  cases h : r.componentStorages.lookup t with
  | none => simp [List.lookup_append, h, List.lookup_cons]
  | some s => simp [h]

theorem getOrCreateStorage_fst (r : Registry V) (t : Nat) :
    (r.getOrCreateStorage t).1 = (r.getStorage t).getD ∅ := by
  unfold getOrCreateStorage getStorage
  cases h : r.componentStorages.lookup t <;> simp

theorem getOrCreateStorage_lookup_keep (r : Registry V) (t t' : Nat) (s : ComponentStorage V)
    (h : r.componentStorages.lookup t' = some s) :
    (r.getOrCreateStorage t).2.componentStorages.lookup t' = some s := by
  unfold getOrCreateStorage
  cases h2 : r.componentStorages.lookup t with
  | none => simp [List.lookup_append, h]
  | some s => simp [h]

theorem getOrCreateStorage_getD (r : Registry V) (t t' : Nat) :
    ((r.getOrCreateStorage t).2.getStorage t').getD ∅ = (r.getStorage t').getD ∅ := by
  unfold getOrCreateStorage getStorage
  cases h2 : r.componentStorages.lookup t with
  | none => 
    simp only [List.lookup_append]
    cases h3 : r.componentStorages.lookup t' with
    | none => 
      simp [List.lookup_cons]
      cases h4 : (t' == t) <;> simp
    | some s' => simp
  | some s => simp

theorem getComponentMut_of_lookup (r : Registry V) (t : Nat) (s : ComponentStorage V) (id : EntityId)
    (h : r.componentStorages.lookup t = some s) :
    r.getComponentMut t id = (s.lookup id, r) := by
  simp [getComponentMut, getOrCreateStorage, h]

theorem viewLoopFirst_eq (r : Registry V) (t2 : Nat) (s2 : ComponentStorage V)
    (h : r.componentStorages.lookup t2 = some s2)
    (es : List (Sigma fun _ : EntityId => V)) (acc : List (ViewCall V)) :
    viewLoopFirst t2 es (acc, r) =
      (acc ++ es.filterMap (fun e => (s2.lookup e.1).map (fun c2 => (e.1, e.2, c2))), r) := by
  induction es generalizing acc with
  | nil => simp [viewLoopFirst]
  | cons e rest ih =>
    simp only [viewLoopFirst, getComponentMut_of_lookup r t2 s2 e.1 h]
    cases hl : s2.lookup e.1 with
    | none => simp [ih, hl]
    | some c => simp [ih, hl]

theorem viewLoopSecond_eq (r : Registry V) (t1 : Nat) (s1 : ComponentStorage V)
    (h : r.componentStorages.lookup t1 = some s1)
    (es : List (Sigma fun _ : EntityId => V)) (acc : List (ViewCall V)) :
    viewLoopSecond t1 es (acc, r) =
      (acc ++ es.filterMap (fun e => (s1.lookup e.1).map (fun c1 => (e.1, c1, e.2))), r) := by
  induction es generalizing acc with
  | nil => simp [viewLoopSecond]
  | cons e rest ih =>
    simp only [viewLoopSecond, getComponentMut_of_lookup r t1 s1 e.1 h]
    cases hl : s1.lookup e.1 with
    | none => simp [ih, hl]
    | some c => simp [ih, hl]

theorem visitedIds_probe (sa sb : ComponentStorage V) (f : EntityId → V → V → ViewCall V)
    (hf : ∀ i a b, (f i a b).1 = i) :
    visitedIds (sa.entries.filterMap (fun e => (sb.lookup e.1).map (fun c => f e.1 e.2 c))) =
      sa.keys.filter (fun i => decide (i ∈ sb.keys)) := by
  have hk : sa.keys = sa.entries.map Sigma.fst := rfl
  rw [hk]
  unfold visitedIds
  generalize sa.entries = l
  induction l with
  | nil => rfl
  | cons e rest ih =>
    simp only [List.filterMap_cons, List.map_cons, List.filter_cons]
    cases hl : sb.lookup e.1 with
    | none =>
      have : e.1 ∉ sb := AList.lookup_eq_none.mp hl
      rw [AList.mem_keys] at this
      simp [this, ih]
    | some c =>
      have : e.1 ∈ sb := by
        rw [← AList.lookup_isSome, hl]; rfl
      rw [AList.mem_keys] at this
      simp [this, ih, hf]

theorem hasComponent_eq (r : Registry V) (t : Nat) (id : EntityId) :
    r.hasComponent t id = decide (id ∈ ((r.getStorage t).getD ∅).keys) := by
  unfold hasComponent
  cases h : r.getStorage t <;> simp

theorem view_eq (r : Registry V) (t1 t2 : Nat) :
    visitedIds (viewLoopFirst t2 (r.getOrCreateStorage t1).1.entries
        ([], ((r.getOrCreateStorage t1).2.getOrCreateStorage t2).2)).1 =
      ((r.getStorage t1).getD ∅).keys.filter (fun i => decide (i ∈ ((r.getStorage t2).getD ∅).keys)) ∧
    visitedIds (viewLoopSecond t1 ((r.getOrCreateStorage t1).2.getOrCreateStorage t2).1.entries
        ([], ((r.getOrCreateStorage t1).2.getOrCreateStorage t2).2)).1 =
      ((r.getStorage t2).getD ∅).keys.filter (fun i => decide (i ∈ ((r.getStorage t1).getD ∅).keys)) := by
  have h2 := getOrCreateStorage_lookup_self (r.getOrCreateStorage t1).2 t2
  have h1 := getOrCreateStorage_lookup_keep (r.getOrCreateStorage t1).2 t2 t1 _
    (getOrCreateStorage_lookup_self r t1)
  have e1 : (r.getOrCreateStorage t1).1 = (r.getStorage t1).getD ∅ := getOrCreateStorage_fst r t1
  have e2 : ((r.getOrCreateStorage t1).2.getOrCreateStorage t2).1 = (r.getStorage t2).getD ∅ := by
    rw [getOrCreateStorage_fst, getOrCreateStorage_getD]
  constructor
  · rw [viewLoopFirst_eq _ t2 _ h2]
    simp only [List.nil_append]
    rw [visitedIds_probe _ _ (fun i a b => (i, a, b)) (fun _ _ _ => rfl), e1, e2]
  · rw [viewLoopSecond_eq _ t1 _ h1]
    simp only [List.nil_append]
    rw [visitedIds_probe _ _ (fun i a b => (i, b, a)) (fun _ _ _ => rfl), e1, e2]

/-- C4: `view<C1,C2>` with a non-mutating callback invokes the callback exactly
once for every id holding both a `C1` and a `C2` component and never for
another id; and the two branches of `view` (probe the `C1` storage against
`C2`, or the `C2` storage against `C1`) visit the same set of ids, so the
result does not depend on which collection is the smaller one. -/
theorem view_visits_exactly_joint_holders (r : Registry V) (t1 t2 : Nat) :
    (∀ id : EntityId, (visitedIds (r.view t1 t2).1).count id =
      if r.hasComponent t1 id = true ∧ r.hasComponent t2 id = true then 1 else 0) ∧
    (∀ id : EntityId,
      id ∈ visitedIds (viewLoopFirst t2 (r.getOrCreateStorage t1).1.entries
          ([], ((r.getOrCreateStorage t1).2.getOrCreateStorage t2).2)).1 ↔
      id ∈ visitedIds (viewLoopSecond t1 ((r.getOrCreateStorage t1).2.getOrCreateStorage t2).1.entries
          ([], ((r.getOrCreateStorage t1).2.getOrCreateStorage t2).2)).1) := by
  obtain ⟨hA, hB⟩ := view_eq r t1 t2
  constructor
  · intro id
    have n1 : (((r.getStorage t1).getD ∅).keys.filter
        (fun i => decide (i ∈ ((r.getStorage t2).getD ∅).keys))).Nodup :=
      (AList.keys_nodup _).filter _
    have n2 : (((r.getStorage t2).getD ∅).keys.filter
        (fun i => decide (i ∈ ((r.getStorage t1).getD ∅).keys))).Nodup :=
      (AList.keys_nodup _).filter _
    unfold view
    simp only
    split
    · rw [hA, List.count_eq_of_nodup n1]
      simp [hasComponent_eq, List.mem_filter]
    · rw [hB, List.count_eq_of_nodup n2]
      simp [hasComponent_eq, List.mem_filter, and_comm]
  · intro id
    rw [hA, hB]
    simp [List.mem_filter, and_comm]

end Registry

end engine

end rtype

namespace rtype

namespace net

open BinaryReader

/-! ### Evaluation rules of the decoder steps -/

@[simp] theorem Decoder.bind_eq {α β : Type} (m : Decoder α) (f : α → Decoder β) :
    (m >>= f) = Decoder.bind m f := rfl

@[simp] theorem Decoder.pure_eq {α : Type} (a : α) :
    (Pure.pure a : Decoder α) = Decoder.pure a := rfl

@[simp] theorem Decoder.continueWith_some {α β : Type} (a : α) (s : DecodeState)
    (f : α → Decoder β) : Decoder.continueWith (some a, s) f = f a s := rfl

@[simp] theorem Decoder.continueWith_none {α β : Type} (s : DecodeState) (f : α → Decoder β) :
    Decoder.continueWith ((none : Option α), s) f = (none, s) := rfl

@[simp] theorem Decoder.continueWith_ite {α β : Type} (c : Prop) [Decidable c]
    (x y : Option α × DecodeState) (f : α → Decoder β) :
    Decoder.continueWith (if c then x else y) f =
      if c then Decoder.continueWith x f else Decoder.continueWith y f := by
  split <;> rfl

@[simp] theorem Decoder.bind_apply {α β : Type} (m : Decoder α) (f : α → Decoder β)
    (s : DecodeState) : Decoder.bind m f s = Decoder.continueWith (m s) f := rfl

@[simp] theorem Decoder.pure_apply {α : Type} (a : α) (s : DecodeState) :
    Decoder.pure a s = (some a, s) := rfl

@[simp] theorem Decoder.fail_apply {α : Type} (s : DecodeState) :
    (Decoder.fail : Decoder α) s = (none, s) := rfl

@[simp] theorem read_apply (n : Nat) (s : DecodeState) :
    BinaryReader.read n s =
      if s.offset + n > s.size then (none, s)
      else (some (bytesAt s.data (s.base + s.offset) n),
        { s with offset := s.offset + n,
                 reads := s.reads ++ indexRange (s.base + s.offset) n }) := rfl

@[simp] theorem construct_apply (base size : Nat) (s : DecodeState) :
    BinaryReader.construct base size s =
      (some (), { s with base := base, size := size, offset := 0 }) := rfl

@[simp] theorem memcpyFrom_apply (start n : Nat) (s : DecodeState) :
    memcpyFrom start n s =
      (some (bytesAt s.data start n), { s with reads := s.reads ++ indexRange start n }) := rfl

@[simp] theorem bytesAt_length (data : List Nat) (start n : Nat) :
    (bytesAt data start n).length = n := by
  induction n generalizing start with
  | zero => rfl
  | succ k ih => simp [bytesAt, ih]

theorem bytesAt_getD (data : List Nat) (start n i : Nat) (h : i < n) :
    (bytesAt data start n).getD i 0 = data.getD (start + i) 0 := by
  induction n generalizing start i with
  | zero => omega
  | succ k ih =>
    cases i with
    | zero => simp [bytesAt]
    | succ j =>
      simp only [bytesAt, List.getD_cons_succ]
      rw [ih (start + 1) j (by omega)]
      congr 1
      omega

@[simp] theorem mem_indexRange (start n i : Nat) :
    i ∈ indexRange start n ↔ start ≤ i ∧ i < start + n := by
  induction n generalizing start with
  | zero => simp [indexRange]
  | succ k ih =>
    simp only [indexRange, List.mem_cons, ih]
    omega

/-! ### Per kind: payload size, rejection of short payloads, bounds of the reads -/

theorem payloadPlayerInput_length (m : PlayerInput) : (payloadPlayerInput m).length = 7 := by
  simp [payloadPlayerInput, writeU8, writeU16, writeU32, writeF32, writeBytes]

theorem deserializePlayerInput_short (data : List Nat) (size : Nat) (h : size < 7) :
    (deserializePlayerInput data size).1 = none := by
  simp only [deserializePlayerInput, Decoder.run, readU8, readU16, readU32, readF32, Decoder.bind_eq,
    Decoder.pure_eq, Decoder.bind_apply, Decoder.pure_apply, read_apply, construct_apply,
    memcpyFrom_apply, Decoder.continueWith_ite, Decoder.continueWith_some,
    Decoder.continueWith_none]
  simp only [Nat.zero_add, Nat.reduceAdd]
  split_ifs <;> rfl

theorem deserializePlayerInput_reads (data : List Nat) (size : Nat) :
    ∀ i ∈ (deserializePlayerInput data size).2, i < size := by
  intro i hi
  simp only [deserializePlayerInput, Decoder.run, readU8, readU16, readU32, readF32, Decoder.bind_eq,
    Decoder.pure_eq, Decoder.bind_apply, Decoder.pure_apply, read_apply, construct_apply,
    memcpyFrom_apply, Decoder.continueWith_ite, Decoder.continueWith_some,
    Decoder.continueWith_none] at hi
  simp only [Nat.zero_add, Nat.reduceAdd] at hi
  split_ifs at hi
  all_goals simp only [List.nil_append, List.mem_append, mem_indexRange, List.not_mem_nil] at hi
  all_goals omega

theorem payloadPlayerState_length (m : PlayerState) : (payloadPlayerState m).length = 14 := by
  simp [payloadPlayerState, writeU8, writeU16, writeU32, writeF32, writeBytes]

theorem deserializePlayerState_short (data : List Nat) (size : Nat) (h : size < 14) :
    (deserializePlayerState data size).1 = none := by
  simp only [deserializePlayerState, Decoder.run, readU8, readU16, readU32, readF32, Decoder.bind_eq,
    Decoder.pure_eq, Decoder.bind_apply, Decoder.pure_apply, read_apply, construct_apply,
    memcpyFrom_apply, Decoder.continueWith_ite, Decoder.continueWith_some,
    Decoder.continueWith_none]
  simp only [Nat.zero_add, Nat.reduceAdd]
  split_ifs <;> rfl

theorem deserializePlayerState_reads (data : List Nat) (size : Nat) :
    ∀ i ∈ (deserializePlayerState data size).2, i < size := by
  intro i hi
  simp only [deserializePlayerState, Decoder.run, readU8, readU16, readU32, readF32, Decoder.bind_eq,
    Decoder.pure_eq, Decoder.bind_apply, Decoder.pure_apply, read_apply, construct_apply,
    memcpyFrom_apply, Decoder.continueWith_ite, Decoder.continueWith_some,
    Decoder.continueWith_none] at hi
  simp only [Nat.zero_add, Nat.reduceAdd] at hi
  split_ifs at hi
  all_goals simp only [List.nil_append, List.mem_append, mem_indexRange, List.not_mem_nil] at hi
  all_goals omega

theorem payloadMonsterSpawn_length (m : MonsterSpawn) : (payloadMonsterSpawn m).length = 13 := by
  simp [payloadMonsterSpawn, writeU8, writeU16, writeU32, writeF32, writeBytes]

theorem deserializeMonsterSpawn_short (data : List Nat) (size : Nat) (h : size < 13) :
    (deserializeMonsterSpawn data size).1 = none := by
  simp only [deserializeMonsterSpawn, Decoder.run, readU8, readU16, readU32, readF32, Decoder.bind_eq,
    Decoder.pure_eq, Decoder.bind_apply, Decoder.pure_apply, read_apply, construct_apply,
    memcpyFrom_apply, Decoder.continueWith_ite, Decoder.continueWith_some,
    Decoder.continueWith_none]
  simp only [Nat.zero_add, Nat.reduceAdd]
  split_ifs <;> rfl

theorem deserializeMonsterSpawn_reads (data : List Nat) (size : Nat) :
    ∀ i ∈ (deserializeMonsterSpawn data size).2, i < size := by
  intro i hi
  simp only [deserializeMonsterSpawn, Decoder.run, readU8, readU16, readU32, readF32, Decoder.bind_eq,
    Decoder.pure_eq, Decoder.bind_apply, Decoder.pure_apply, read_apply, construct_apply,
    memcpyFrom_apply, Decoder.continueWith_ite, Decoder.continueWith_some,
    Decoder.continueWith_none] at hi
  simp only [Nat.zero_add, Nat.reduceAdd] at hi
  split_ifs at hi
  all_goals simp only [List.nil_append, List.mem_append, mem_indexRange, List.not_mem_nil] at hi
  all_goals omega

theorem payloadMonsterState_length (m : MonsterState) : (payloadMonsterState m).length = 22 := by
  simp [payloadMonsterState, writeU8, writeU16, writeU32, writeF32, writeBytes]

theorem deserializeMonsterState_short (data : List Nat) (size : Nat) (h : size < 22) :
    (deserializeMonsterState data size).1 = none := by
  simp only [deserializeMonsterState, Decoder.run, readU8, readU16, readU32, readF32, Decoder.bind_eq,
    Decoder.pure_eq, Decoder.bind_apply, Decoder.pure_apply, read_apply, construct_apply,
    memcpyFrom_apply, Decoder.continueWith_ite, Decoder.continueWith_some,
    Decoder.continueWith_none]
  simp only [Nat.zero_add, Nat.reduceAdd]
  split_ifs <;> rfl

theorem deserializeMonsterState_reads (data : List Nat) (size : Nat) :
    ∀ i ∈ (deserializeMonsterState data size).2, i < size := by
  intro i hi
  simp only [deserializeMonsterState, Decoder.run, readU8, readU16, readU32, readF32, Decoder.bind_eq,
    Decoder.pure_eq, Decoder.bind_apply, Decoder.pure_apply, read_apply, construct_apply,
    memcpyFrom_apply, Decoder.continueWith_ite, Decoder.continueWith_some,
    Decoder.continueWith_none] at hi
  simp only [Nat.zero_add, Nat.reduceAdd] at hi
  split_ifs at hi
  all_goals simp only [List.nil_append, List.mem_append, mem_indexRange, List.not_mem_nil] at hi
  all_goals omega

theorem payloadMonsterDeath_length (m : MonsterDeath) : (payloadMonsterDeath m).length = 5 := by
  simp [payloadMonsterDeath, writeU8, writeU16, writeU32, writeF32, writeBytes]

theorem deserializeMonsterDeath_short (data : List Nat) (size : Nat) (h : size < 5) :
    (deserializeMonsterDeath data size).1 = none := by
  simp only [deserializeMonsterDeath, Decoder.run, readU8, readU16, readU32, readF32, Decoder.bind_eq,
    Decoder.pure_eq, Decoder.bind_apply, Decoder.pure_apply, read_apply, construct_apply,
    memcpyFrom_apply, Decoder.continueWith_ite, Decoder.continueWith_some,
    Decoder.continueWith_none]
  simp only [Nat.zero_add, Nat.reduceAdd]
  split_ifs <;> rfl

theorem deserializeMonsterDeath_reads (data : List Nat) (size : Nat) :
    ∀ i ∈ (deserializeMonsterDeath data size).2, i < size := by
  intro i hi
  simp only [deserializeMonsterDeath, Decoder.run, readU8, readU16, readU32, readF32, Decoder.bind_eq,
    Decoder.pure_eq, Decoder.bind_apply, Decoder.pure_apply, read_apply, construct_apply,
    memcpyFrom_apply, Decoder.continueWith_ite, Decoder.continueWith_some,
    Decoder.continueWith_none] at hi
  simp only [Nat.zero_add, Nat.reduceAdd] at hi
  split_ifs at hi
  all_goals simp only [List.nil_append, List.mem_append, mem_indexRange, List.not_mem_nil] at hi
  all_goals omega

theorem payloadShieldSpawn_length (m : ShieldSpawn) : (payloadShieldSpawn m).length = 13 := by
  simp [payloadShieldSpawn, writeU8, writeU16, writeU32, writeF32, writeBytes]

theorem deserializeShieldSpawn_short (data : List Nat) (size : Nat) (h : size < 13) :
    (deserializeShieldSpawn data size).1 = none := by
  simp only [deserializeShieldSpawn, Decoder.run, readU8, readU16, readU32, readF32, Decoder.bind_eq,
    Decoder.pure_eq, Decoder.bind_apply, Decoder.pure_apply, read_apply, construct_apply,
    memcpyFrom_apply, Decoder.continueWith_ite, Decoder.continueWith_some,
    Decoder.continueWith_none]
  simp only [Nat.zero_add, Nat.reduceAdd]
  split_ifs <;> rfl

theorem deserializeShieldSpawn_reads (data : List Nat) (size : Nat) :
    ∀ i ∈ (deserializeShieldSpawn data size).2, i < size := by
  intro i hi
  simp only [deserializeShieldSpawn, Decoder.run, readU8, readU16, readU32, readF32, Decoder.bind_eq,
    Decoder.pure_eq, Decoder.bind_apply, Decoder.pure_apply, read_apply, construct_apply,
    memcpyFrom_apply, Decoder.continueWith_ite, Decoder.continueWith_some,
    Decoder.continueWith_none] at hi
  simp only [Nat.zero_add, Nat.reduceAdd] at hi
  split_ifs at hi
  all_goals simp only [List.nil_append, List.mem_append, mem_indexRange, List.not_mem_nil] at hi
  all_goals omega

theorem payloadShieldState_length (m : ShieldState) : (payloadShieldState m).length = 22 := by
  simp [payloadShieldState, writeU8, writeU16, writeU32, writeF32, writeBytes]

theorem deserializeShieldState_short (data : List Nat) (size : Nat) (h : size < 22) :
    (deserializeShieldState data size).1 = none := by
  simp only [deserializeShieldState, Decoder.run, readU8, readU16, readU32, readF32, Decoder.bind_eq,
    Decoder.pure_eq, Decoder.bind_apply, Decoder.pure_apply, read_apply, construct_apply,
    memcpyFrom_apply, Decoder.continueWith_ite, Decoder.continueWith_some,
    Decoder.continueWith_none]
  simp only [Nat.zero_add, Nat.reduceAdd]
  split_ifs <;> rfl

theorem deserializeShieldState_reads (data : List Nat) (size : Nat) :
    ∀ i ∈ (deserializeShieldState data size).2, i < size := by
  intro i hi
  simp only [deserializeShieldState, Decoder.run, readU8, readU16, readU32, readF32, Decoder.bind_eq,
    Decoder.pure_eq, Decoder.bind_apply, Decoder.pure_apply, read_apply, construct_apply,
    memcpyFrom_apply, Decoder.continueWith_ite, Decoder.continueWith_some,
    Decoder.continueWith_none] at hi
  simp only [Nat.zero_add, Nat.reduceAdd] at hi
  split_ifs at hi
  all_goals simp only [List.nil_append, List.mem_append, mem_indexRange, List.not_mem_nil] at hi
  all_goals omega

theorem payloadShieldDeath_length (m : ShieldDeath) : (payloadShieldDeath m).length = 4 := by
  simp [payloadShieldDeath, writeU8, writeU16, writeU32, writeF32, writeBytes]

theorem deserializeShieldDeath_short (data : List Nat) (size : Nat) (h : size < 4) :
    (deserializeShieldDeath data size).1 = none := by
  simp only [deserializeShieldDeath, Decoder.run, readU8, readU16, readU32, readF32, Decoder.bind_eq,
    Decoder.pure_eq, Decoder.bind_apply, Decoder.pure_apply, read_apply, construct_apply,
    memcpyFrom_apply, Decoder.continueWith_ite, Decoder.continueWith_some,
    Decoder.continueWith_none]
  simp only [Nat.zero_add, Nat.reduceAdd]
  split_ifs <;> rfl

theorem deserializeShieldDeath_reads (data : List Nat) (size : Nat) :
    ∀ i ∈ (deserializeShieldDeath data size).2, i < size := by
  intro i hi
  simp only [deserializeShieldDeath, Decoder.run, readU8, readU16, readU32, readF32, Decoder.bind_eq,
    Decoder.pure_eq, Decoder.bind_apply, Decoder.pure_apply, read_apply, construct_apply,
    memcpyFrom_apply, Decoder.continueWith_ite, Decoder.continueWith_some,
    Decoder.continueWith_none] at hi
  simp only [Nat.zero_add, Nat.reduceAdd] at hi
  split_ifs at hi
  all_goals simp only [List.nil_append, List.mem_append, mem_indexRange, List.not_mem_nil] at hi
  all_goals omega

theorem payloadPlayerDeath_length (m : PlayerDeath) : (payloadPlayerDeath m).length = 1 := by
  simp [payloadPlayerDeath, writeU8, writeU16, writeU32, writeF32, writeBytes]

theorem deserializePlayerDeath_short (data : List Nat) (size : Nat) (h : size < 1) :
    (deserializePlayerDeath data size).1 = none := by
  simp only [deserializePlayerDeath, Decoder.run, readU8, readU16, readU32, readF32, Decoder.bind_eq,
    Decoder.pure_eq, Decoder.bind_apply, Decoder.pure_apply, read_apply, construct_apply,
    memcpyFrom_apply, Decoder.continueWith_ite, Decoder.continueWith_some,
    Decoder.continueWith_none]
  simp only [Nat.zero_add, Nat.reduceAdd]
  split_ifs <;> rfl

theorem deserializePlayerDeath_reads (data : List Nat) (size : Nat) :
    ∀ i ∈ (deserializePlayerDeath data size).2, i < size := by
  intro i hi
  simp only [deserializePlayerDeath, Decoder.run, readU8, readU16, readU32, readF32, Decoder.bind_eq,
    Decoder.pure_eq, Decoder.bind_apply, Decoder.pure_apply, read_apply, construct_apply,
    memcpyFrom_apply, Decoder.continueWith_ite, Decoder.continueWith_some,
    Decoder.continueWith_none] at hi
  simp only [Nat.zero_add, Nat.reduceAdd] at hi
  split_ifs at hi
  all_goals simp only [List.nil_append, List.mem_append, mem_indexRange, List.not_mem_nil] at hi
  all_goals omega

theorem payloadBulletFired_length (m : BulletFired) : (payloadBulletFired m).length = 22 := by
  simp [payloadBulletFired, writeU8, writeU16, writeU32, writeF32, writeBytes]

theorem deserializeBulletFired_short (data : List Nat) (size : Nat) (h : size < 22) :
    (deserializeBulletFired data size).1 = none := by
  simp only [deserializeBulletFired, Decoder.run, readU8, readU16, readU32, readF32, Decoder.bind_eq,
    Decoder.pure_eq, Decoder.bind_apply, Decoder.pure_apply, read_apply, construct_apply,
    memcpyFrom_apply, Decoder.continueWith_ite, Decoder.continueWith_some,
    Decoder.continueWith_none]
  simp only [Nat.zero_add, Nat.reduceAdd]
  split_ifs <;> rfl

theorem deserializeBulletFired_reads (data : List Nat) (size : Nat) :
    ∀ i ∈ (deserializeBulletFired data size).2, i < size := by
  intro i hi
  simp only [deserializeBulletFired, Decoder.run, readU8, readU16, readU32, readF32, Decoder.bind_eq,
    Decoder.pure_eq, Decoder.bind_apply, Decoder.pure_apply, read_apply, construct_apply,
    memcpyFrom_apply, Decoder.continueWith_ite, Decoder.continueWith_some,
    Decoder.continueWith_none] at hi
  simp only [Nat.zero_add, Nat.reduceAdd] at hi
  split_ifs at hi
  all_goals simp only [List.nil_append, List.mem_append, mem_indexRange, List.not_mem_nil] at hi
  all_goals omega

theorem payloadBulletState_length (m : BulletState) : (payloadBulletState m).length = 16 := by
  simp [payloadBulletState, writeU8, writeU16, writeU32, writeF32, writeBytes]

theorem deserializeBulletState_short (data : List Nat) (size : Nat) (h : size < 16) :
    (deserializeBulletState data size).1 = none := by
  simp only [deserializeBulletState, Decoder.run, readU8, readU16, readU32, readF32, Decoder.bind_eq,
    Decoder.pure_eq, Decoder.bind_apply, Decoder.pure_apply, read_apply, construct_apply,
    memcpyFrom_apply, Decoder.continueWith_ite, Decoder.continueWith_some,
    Decoder.continueWith_none]
  simp only [Nat.zero_add, Nat.reduceAdd]
  split_ifs <;> rfl

theorem deserializeBulletState_reads (data : List Nat) (size : Nat) :
    ∀ i ∈ (deserializeBulletState data size).2, i < size := by
  intro i hi
  simp only [deserializeBulletState, Decoder.run, readU8, readU16, readU32, readF32, Decoder.bind_eq,
    Decoder.pure_eq, Decoder.bind_apply, Decoder.pure_apply, read_apply, construct_apply,
    memcpyFrom_apply, Decoder.continueWith_ite, Decoder.continueWith_some,
    Decoder.continueWith_none] at hi
  simp only [Nat.zero_add, Nat.reduceAdd] at hi
  split_ifs at hi
  all_goals simp only [List.nil_append, List.mem_append, mem_indexRange, List.not_mem_nil] at hi
  all_goals omega

theorem payloadDisconnect_length (m : DisconnectNotice) : (payloadDisconnect m).length = 1 := by
  simp [payloadDisconnect, writeU8, writeU16, writeU32, writeF32, writeBytes]

theorem deserializeDisconnect_short (data : List Nat) (size : Nat) (h : size < 1) :
    (deserializeDisconnect data size).1 = none := by
  simp only [deserializeDisconnect, Decoder.run, readU8, readU16, readU32, readF32, Decoder.bind_eq,
    Decoder.pure_eq, Decoder.bind_apply, Decoder.pure_apply, read_apply, construct_apply,
    memcpyFrom_apply, Decoder.continueWith_ite, Decoder.continueWith_some,
    Decoder.continueWith_none]
  simp only [Nat.zero_add, Nat.reduceAdd]
  split_ifs <;> rfl

theorem deserializeDisconnect_reads (data : List Nat) (size : Nat) :
    ∀ i ∈ (deserializeDisconnect data size).2, i < size := by
  intro i hi
  simp only [deserializeDisconnect, Decoder.run, readU8, readU16, readU32, readF32, Decoder.bind_eq,
    Decoder.pure_eq, Decoder.bind_apply, Decoder.pure_apply, read_apply, construct_apply,
    memcpyFrom_apply, Decoder.continueWith_ite, Decoder.continueWith_some,
    Decoder.continueWith_none] at hi
  simp only [Nat.zero_add, Nat.reduceAdd] at hi
  split_ifs at hi
  all_goals simp only [List.nil_append, List.mem_append, mem_indexRange, List.not_mem_nil] at hi
  all_goals omega

theorem payloadPlayerAssignment_length (m : PlayerAssignment) : (payloadPlayerAssignment m).length = 1 := by
  simp [payloadPlayerAssignment, writeU8, writeU16, writeU32, writeF32, writeBytes]

theorem deserializePlayerAssignment_short (data : List Nat) (size : Nat) (h : size < 1) :
    (deserializePlayerAssignment data size).1 = none := by
  simp only [deserializePlayerAssignment, Decoder.run, readU8, readU16, readU32, readF32, Decoder.bind_eq,
    Decoder.pure_eq, Decoder.bind_apply, Decoder.pure_apply, read_apply, construct_apply,
    memcpyFrom_apply, Decoder.continueWith_ite, Decoder.continueWith_some,
    Decoder.continueWith_none]
  simp only [Nat.zero_add, Nat.reduceAdd]
  split_ifs <;> rfl

theorem deserializePlayerAssignment_reads (data : List Nat) (size : Nat) :
    ∀ i ∈ (deserializePlayerAssignment data size).2, i < size := by
  intro i hi
  simp only [deserializePlayerAssignment, Decoder.run, readU8, readU16, readU32, readF32, Decoder.bind_eq,
    Decoder.pure_eq, Decoder.bind_apply, Decoder.pure_apply, read_apply, construct_apply,
    memcpyFrom_apply, Decoder.continueWith_ite, Decoder.continueWith_some,
    Decoder.continueWith_none] at hi
  simp only [Nat.zero_add, Nat.reduceAdd] at hi
  split_ifs at hi
  all_goals simp only [List.nil_append, List.mem_append, mem_indexRange, List.not_mem_nil] at hi
  all_goals omega

theorem payloadPowerUpState_length (m : PowerUpState) : (payloadPowerUpState m).length = 15 := by
  simp [payloadPowerUpState, writeU8, writeU16, writeU32, writeF32, writeBytes]

theorem deserializePowerUpState_short (data : List Nat) (size : Nat) (h : size < 15) :
    (deserializePowerUpState data size).1 = none := by
  simp only [deserializePowerUpState, Decoder.run, readU8, readU16, readU32, readF32, Decoder.bind_eq,
    Decoder.pure_eq, Decoder.bind_apply, Decoder.pure_apply, read_apply, construct_apply,
    memcpyFrom_apply, Decoder.continueWith_ite, Decoder.continueWith_some,
    Decoder.continueWith_none]
  simp only [Nat.zero_add, Nat.reduceAdd]
  split_ifs <;> rfl

theorem deserializePowerUpState_reads (data : List Nat) (size : Nat) :
    ∀ i ∈ (deserializePowerUpState data size).2, i < size := by
  intro i hi
  simp only [deserializePowerUpState, Decoder.run, readU8, readU16, readU32, readF32, Decoder.bind_eq,
    Decoder.pure_eq, Decoder.bind_apply, Decoder.pure_apply, read_apply, construct_apply,
    memcpyFrom_apply, Decoder.continueWith_ite, Decoder.continueWith_some,
    Decoder.continueWith_none] at hi
  simp only [Nat.zero_add, Nat.reduceAdd] at hi
  split_ifs at hi
  all_goals simp only [List.nil_append, List.mem_append, mem_indexRange, List.not_mem_nil] at hi
  all_goals omega

theorem payloadLevelBegin_length (m : LevelBegin) : (payloadLevelBegin m).length = 1 := by
  simp [payloadLevelBegin, writeU8, writeU16, writeU32, writeF32, writeBytes]

theorem deserializeLevelBegin_short (data : List Nat) (size : Nat) (h : size < 1) :
    (deserializeLevelBegin data size).1 = none := by
  simp only [deserializeLevelBegin, Decoder.run, readU8, readU16, readU32, readF32, Decoder.bind_eq,
    Decoder.pure_eq, Decoder.bind_apply, Decoder.pure_apply, read_apply, construct_apply,
    memcpyFrom_apply, Decoder.continueWith_ite, Decoder.continueWith_some,
    Decoder.continueWith_none]
  simp only [Nat.zero_add, Nat.reduceAdd]
  split_ifs <;> rfl

theorem deserializeLevelBegin_reads (data : List Nat) (size : Nat) :
    ∀ i ∈ (deserializeLevelBegin data size).2, i < size := by
  intro i hi
  simp only [deserializeLevelBegin, Decoder.run, readU8, readU16, readU32, readF32, Decoder.bind_eq,
    Decoder.pure_eq, Decoder.bind_apply, Decoder.pure_apply, read_apply, construct_apply,
    memcpyFrom_apply, Decoder.continueWith_ite, Decoder.continueWith_some,
    Decoder.continueWith_none] at hi
  simp only [Nat.zero_add, Nat.reduceAdd] at hi
  split_ifs at hi
  all_goals simp only [List.nil_append, List.mem_append, mem_indexRange, List.not_mem_nil] at hi
  all_goals omega

theorem payloadCreateRoom_length (m : CreateRoom) : (payloadCreateRoom m).length = 32 := by
  simp [payloadCreateRoom, writeU8, writeU16, writeU32, writeF32, writeBytes]

theorem deserializeCreateRoom_short (data : List Nat) (size : Nat) (h : size < 32) :
    (deserializeCreateRoom data size).1 = none := by
  simp [deserializeCreateRoom, h]

theorem deserializeCreateRoom_reads (data : List Nat) (size : Nat) :
    ∀ i ∈ (deserializeCreateRoom data size).2, i < size := by
  intro i hi
  unfold deserializeCreateRoom at hi
  split at hi
  · simp at hi
  · simp only [Decoder.run, Decoder.bind_eq, Decoder.pure_eq, Decoder.bind_apply,
      Decoder.pure_apply, memcpyFrom_apply, Decoder.continueWith_some] at hi
    simp only [List.nil_append, mem_indexRange] at hi
    omega

theorem payloadJoinRoom_length (m : JoinRoom) : (payloadJoinRoom m).length = 4 := by
  simp [payloadJoinRoom, writeU8, writeU16, writeU32, writeF32, writeBytes]

theorem deserializeJoinRoom_short (data : List Nat) (size : Nat) (h : size < 4) :
    (deserializeJoinRoom data size).1 = none := by
  simp only [deserializeJoinRoom, Decoder.run, readU8, readU16, readU32, readF32, Decoder.bind_eq,
    Decoder.pure_eq, Decoder.bind_apply, Decoder.pure_apply, read_apply, construct_apply,
    memcpyFrom_apply, Decoder.continueWith_ite, Decoder.continueWith_some,
    Decoder.continueWith_none]
  simp only [Nat.zero_add, Nat.reduceAdd]
  split_ifs <;> rfl

theorem deserializeJoinRoom_reads (data : List Nat) (size : Nat) :
    ∀ i ∈ (deserializeJoinRoom data size).2, i < size := by
  intro i hi
  simp only [deserializeJoinRoom, Decoder.run, readU8, readU16, readU32, readF32, Decoder.bind_eq,
    Decoder.pure_eq, Decoder.bind_apply, Decoder.pure_apply, read_apply, construct_apply,
    memcpyFrom_apply, Decoder.continueWith_ite, Decoder.continueWith_some,
    Decoder.continueWith_none] at hi
  simp only [Nat.zero_add, Nat.reduceAdd] at hi
  split_ifs at hi
  all_goals simp only [List.nil_append, List.mem_append, mem_indexRange, List.not_mem_nil] at hi
  all_goals omega

theorem payloadLeaveRoom_length (m : LeaveRoom) : (payloadLeaveRoom m).length = 4 := by
  simp [payloadLeaveRoom, writeU8, writeU16, writeU32, writeF32, writeBytes]

theorem deserializeLeaveRoom_short (data : List Nat) (size : Nat) (h : size < 4) :
    (deserializeLeaveRoom data size).1 = none := by
  simp only [deserializeLeaveRoom, Decoder.run, readU8, readU16, readU32, readF32, Decoder.bind_eq,
    Decoder.pure_eq, Decoder.bind_apply, Decoder.pure_apply, read_apply, construct_apply,
    memcpyFrom_apply, Decoder.continueWith_ite, Decoder.continueWith_some,
    Decoder.continueWith_none]
  simp only [Nat.zero_add, Nat.reduceAdd]
  split_ifs <;> rfl

theorem deserializeLeaveRoom_reads (data : List Nat) (size : Nat) :
    ∀ i ∈ (deserializeLeaveRoom data size).2, i < size := by
  intro i hi
  simp only [deserializeLeaveRoom, Decoder.run, readU8, readU16, readU32, readF32, Decoder.bind_eq,
    Decoder.pure_eq, Decoder.bind_apply, Decoder.pure_apply, read_apply, construct_apply,
    memcpyFrom_apply, Decoder.continueWith_ite, Decoder.continueWith_some,
    Decoder.continueWith_none] at hi
  simp only [Nat.zero_add, Nat.reduceAdd] at hi
  split_ifs at hi
  all_goals simp only [List.nil_append, List.mem_append, mem_indexRange, List.not_mem_nil] at hi
  all_goals omega

theorem payloadStartGame_length (m : StartGame) : (payloadStartGame m).length = 4 := by
  simp [payloadStartGame, writeU8, writeU16, writeU32, writeF32, writeBytes]

theorem deserializeStartGame_short (data : List Nat) (size : Nat) (h : size < 4) :
    (deserializeStartGame data size).1 = none := by
  simp only [deserializeStartGame, Decoder.run, readU8, readU16, readU32, readF32, Decoder.bind_eq,
    Decoder.pure_eq, Decoder.bind_apply, Decoder.pure_apply, read_apply, construct_apply,
    memcpyFrom_apply, Decoder.continueWith_ite, Decoder.continueWith_some,
    Decoder.continueWith_none]
  simp only [Nat.zero_add, Nat.reduceAdd]
  split_ifs <;> rfl

theorem deserializeStartGame_reads (data : List Nat) (size : Nat) :
    ∀ i ∈ (deserializeStartGame data size).2, i < size := by
  intro i hi
  simp only [deserializeStartGame, Decoder.run, readU8, readU16, readU32, readF32, Decoder.bind_eq,
    Decoder.pure_eq, Decoder.bind_apply, Decoder.pure_apply, read_apply, construct_apply,
    memcpyFrom_apply, Decoder.continueWith_ite, Decoder.continueWith_some,
    Decoder.continueWith_none] at hi
  simp only [Nat.zero_add, Nat.reduceAdd] at hi
  split_ifs at hi
  all_goals simp only [List.nil_append, List.mem_append, mem_indexRange, List.not_mem_nil] at hi
  all_goals omega

theorem payloadRoomCreated_length (m : RoomCreated) : (payloadRoomCreated m).length = 38 := by
  simp [payloadRoomCreated, writeU8, writeU16, writeU32, writeF32, writeBytes]

theorem deserializeRoomCreated_short (data : List Nat) (size : Nat) (h : size < 38) :
    (deserializeRoomCreated data size).1 = none := by
  simp [deserializeRoomCreated, h]

theorem deserializeRoomCreated_reads (data : List Nat) (size : Nat) :
    ∀ i ∈ (deserializeRoomCreated data size).2, i < size := by
  intro i hi
  unfold deserializeRoomCreated at hi
  split at hi
  · simp at hi
  · simp only [Decoder.run, readU8, readU16, readU32, readF32, Decoder.bind_eq,
      Decoder.pure_eq, Decoder.bind_apply, Decoder.pure_apply, read_apply, construct_apply,
      memcpyFrom_apply, Decoder.continueWith_ite, Decoder.continueWith_some,
      Decoder.continueWith_none] at hi
    simp only [Nat.zero_add, Nat.reduceAdd] at hi
    split_ifs at hi
    all_goals simp only [List.nil_append, List.mem_append, mem_indexRange, List.not_mem_nil] at hi
    all_goals omega

theorem payloadRoomJoined_length (m : RoomJoined) : (payloadRoomJoined m).length = 39 := by
  simp [payloadRoomJoined, writeU8, writeU16, writeU32, writeF32, writeBytes]

theorem deserializeRoomJoined_short (data : List Nat) (size : Nat) (h : size < 39) :
    (deserializeRoomJoined data size).1 = none := by
  simp [deserializeRoomJoined, h]

theorem deserializeRoomJoined_reads (data : List Nat) (size : Nat) :
    ∀ i ∈ (deserializeRoomJoined data size).2, i < size := by
  intro i hi
  unfold deserializeRoomJoined at hi
  split at hi
  · simp at hi
  · simp only [Decoder.run, readU8, readU16, readU32, readF32, Decoder.bind_eq,
      Decoder.pure_eq, Decoder.bind_apply, Decoder.pure_apply, read_apply, construct_apply,
      memcpyFrom_apply, Decoder.continueWith_ite, Decoder.continueWith_some,
      Decoder.continueWith_none] at hi
    simp only [Nat.zero_add, Nat.reduceAdd] at hi
    split_ifs at hi
    all_goals simp only [List.nil_append, List.mem_append, mem_indexRange, List.not_mem_nil] at hi
    all_goals omega

theorem payloadRoomLeft_length (m : RoomLeft) : (payloadRoomLeft m).length = 4 := by
  simp [payloadRoomLeft, writeU8, writeU16, writeU32, writeF32, writeBytes]

theorem deserializeRoomLeft_short (data : List Nat) (size : Nat) (h : size < 4) :
    (deserializeRoomLeft data size).1 = none := by
  simp only [deserializeRoomLeft, Decoder.run, readU8, readU16, readU32, readF32, Decoder.bind_eq,
    Decoder.pure_eq, Decoder.bind_apply, Decoder.pure_apply, read_apply, construct_apply,
    memcpyFrom_apply, Decoder.continueWith_ite, Decoder.continueWith_some,
    Decoder.continueWith_none]
  simp only [Nat.zero_add, Nat.reduceAdd]
  split_ifs <;> rfl

theorem deserializeRoomLeft_reads (data : List Nat) (size : Nat) :
    ∀ i ∈ (deserializeRoomLeft data size).2, i < size := by
  intro i hi
  simp only [deserializeRoomLeft, Decoder.run, readU8, readU16, readU32, readF32, Decoder.bind_eq,
    Decoder.pure_eq, Decoder.bind_apply, Decoder.pure_apply, read_apply, construct_apply,
    memcpyFrom_apply, Decoder.continueWith_ite, Decoder.continueWith_some,
    Decoder.continueWith_none] at hi
  simp only [Nat.zero_add, Nat.reduceAdd] at hi
  split_ifs at hi
  all_goals simp only [List.nil_append, List.mem_append, mem_indexRange, List.not_mem_nil] at hi
  all_goals omega

theorem payloadGameStarted_length (m : GameStarted) : (payloadGameStarted m).length = 4 := by
  simp [payloadGameStarted, writeU8, writeU16, writeU32, writeF32, writeBytes]

theorem deserializeGameStarted_short (data : List Nat) (size : Nat) (h : size < 4) :
    (deserializeGameStarted data size).1 = none := by
  simp only [deserializeGameStarted, Decoder.run, readU8, readU16, readU32, readF32, Decoder.bind_eq,
    Decoder.pure_eq, Decoder.bind_apply, Decoder.pure_apply, read_apply, construct_apply,
    memcpyFrom_apply, Decoder.continueWith_ite, Decoder.continueWith_some,
    Decoder.continueWith_none]
  simp only [Nat.zero_add, Nat.reduceAdd]
  split_ifs <;> rfl

theorem deserializeGameStarted_reads (data : List Nat) (size : Nat) :
    ∀ i ∈ (deserializeGameStarted data size).2, i < size := by
  intro i hi
  simp only [deserializeGameStarted, Decoder.run, readU8, readU16, readU32, readF32, Decoder.bind_eq,
    Decoder.pure_eq, Decoder.bind_apply, Decoder.pure_apply, read_apply, construct_apply,
    memcpyFrom_apply, Decoder.continueWith_ite, Decoder.continueWith_some,
    Decoder.continueWith_none] at hi
  simp only [Nat.zero_add, Nat.reduceAdd] at hi
  split_ifs at hi
  all_goals simp only [List.nil_append, List.mem_append, mem_indexRange, List.not_mem_nil] at hi
  all_goals omega

theorem payloadRoomError_length (m : RoomError) : (payloadRoomError m).length = 65 := by
  simp [payloadRoomError, writeU8, writeU16, writeU32, writeF32, writeBytes]

theorem deserializeRoomError_short (data : List Nat) (size : Nat) (h : size < 65) :
    (deserializeRoomError data size).1 = none := by
  simp [deserializeRoomError, h]

theorem deserializeRoomError_reads (data : List Nat) (size : Nat) :
    ∀ i ∈ (deserializeRoomError data size).2, i < size := by
  intro i hi
  unfold deserializeRoomError at hi
  split at hi
  · simp at hi
  · simp only [Decoder.run, readU8, readU16, readU32, readF32, Decoder.bind_eq,
      Decoder.pure_eq, Decoder.bind_apply, Decoder.pure_apply, read_apply, construct_apply,
      memcpyFrom_apply, Decoder.continueWith_ite, Decoder.continueWith_some,
      Decoder.continueWith_none] at hi
    simp only [Nat.zero_add, Nat.reduceAdd] at hi
    split_ifs at hi
    all_goals simp only [List.nil_append, List.mem_append, mem_indexRange, List.not_mem_nil] at hi
    all_goals omega

theorem payloadAllPlayersDead_length (m : AllPlayersDead) : (payloadAllPlayersDead m).length = 4 := by
  simp [payloadAllPlayersDead, writeU8, writeU16, writeU32, writeF32, writeBytes]

theorem deserializeAllPlayersDead_short (data : List Nat) (size : Nat) (h : size < 4) :
    (deserializeAllPlayersDead data size).1 = none := by
  simp [deserializeAllPlayersDead, h]

theorem deserializeAllPlayersDead_reads (data : List Nat) (size : Nat) :
    ∀ i ∈ (deserializeAllPlayersDead data size).2, i < size := by
  intro i hi
  unfold deserializeAllPlayersDead at hi
  split at hi
  · simp at hi
  · simp only [Decoder.run, readU8, readU16, readU32, readF32, Decoder.bind_eq,
      Decoder.pure_eq, Decoder.bind_apply, Decoder.pure_apply, read_apply, construct_apply,
      memcpyFrom_apply, Decoder.continueWith_ite, Decoder.continueWith_some,
      Decoder.continueWith_none] at hi
    simp only [Nat.zero_add, Nat.reduceAdd] at hi
    split_ifs at hi
    all_goals simp only [List.nil_append, List.mem_append, mem_indexRange, List.not_mem_nil] at hi
    all_goals omega

theorem payloadSpectatorMode_length (m : SpectatorMode) : (payloadSpectatorMode m).length = 2 := by
  simp [payloadSpectatorMode, writeU8, writeU16, writeU32, writeF32, writeBytes]

theorem deserializeSpectatorMode_short (data : List Nat) (size : Nat) (h : size < 2) :
    (deserializeSpectatorMode data size).1 = none := by
  simp [deserializeSpectatorMode, h]

theorem deserializeSpectatorMode_reads (data : List Nat) (size : Nat) :
    ∀ i ∈ (deserializeSpectatorMode data size).2, i < size := by
  intro i hi
  unfold deserializeSpectatorMode at hi
  split at hi
  · simp at hi
  · simp only [Decoder.run, readU8, readU16, readU32, readF32, Decoder.bind_eq,
      Decoder.pure_eq, Decoder.bind_apply, Decoder.pure_apply, read_apply, construct_apply,
      memcpyFrom_apply, Decoder.continueWith_ite, Decoder.continueWith_some,
      Decoder.continueWith_none] at hi
    simp only [Nat.zero_add, Nat.reduceAdd] at hi
    split_ifs at hi
    all_goals simp only [List.nil_append, List.mem_append, mem_indexRange, List.not_mem_nil] at hi
    all_goals omega

theorem payloadHostChanged_length (m : HostChanged) : (payloadHostChanged m).length = 5 := by
  simp [payloadHostChanged, writeU8, writeU16, writeU32, writeF32, writeBytes]

theorem deserializeHostChanged_short (data : List Nat) (size : Nat) (h : size < 5) :
    (deserializeHostChanged data size).1 = none := by
  simp [deserializeHostChanged, h]

theorem deserializeHostChanged_reads (data : List Nat) (size : Nat) :
    ∀ i ∈ (deserializeHostChanged data size).2, i < size := by
  intro i hi
  unfold deserializeHostChanged at hi
  split at hi
  · simp at hi
  · simp only [Decoder.run, readU8, readU16, readU32, readF32, Decoder.bind_eq,
      Decoder.pure_eq, Decoder.bind_apply, Decoder.pure_apply, read_apply, construct_apply,
      memcpyFrom_apply, Decoder.continueWith_ite, Decoder.continueWith_some,
      Decoder.continueWith_none] at hi
    simp only [Nat.zero_add, Nat.reduceAdd] at hi
    split_ifs at hi
    all_goals simp only [List.nil_append, List.mem_append, mem_indexRange, List.not_mem_nil] at hi
    all_goals omega

end net

end rtype

namespace rtype

namespace net

open BinaryReader

/-! ### Reads of the header, of the packet splitter and of the room list decoder -/

theorem Decoder.continueWith_pure_snd {α β : Type} (r : Option α × DecodeState) (g : α → β) :
    (Decoder.continueWith r (fun a => Decoder.pure (g a))).2 = r.2 := by
  obtain ⟨o, s⟩ := r
  cases o <;> rfl

theorem readRoomListEntries_reads (size : Nat) (remaining offset : Nat) (s : DecodeState)
    (hs : ∀ i ∈ s.reads, i < size) :
    ∀ i ∈ (readRoomListEntries size remaining offset s).2.reads, i < size := by
  induction remaining generalizing offset s with
  | zero =>
    intro i hi
    exact hs i hi
  | succ k ih =>
    intro i hi
    rw [readRoomListEntries] at hi
    by_cases hc : offset + 40 > size
    · simp only [hc, if_true, Decoder.fail_apply] at hi
      exact hs i hi
    · simp only [hc, if_false, Decoder.run, readU8, readU16, readU32, readF32, Decoder.bind_eq,
        Decoder.pure_eq, Decoder.bind_apply, Decoder.pure_apply, read_apply, construct_apply,
        memcpyFrom_apply, Decoder.continueWith_ite, Decoder.continueWith_some,
        Decoder.continueWith_none] at hi
      simp only [Nat.zero_add, Nat.reduceAdd] at hi
      split_ifs at hi
      all_goals try (rw [Decoder.continueWith_pure_snd] at hi; revert i; apply ih; intro i hi)
      all_goals simp only [List.nil_append, List.mem_append, mem_indexRange, List.not_mem_nil] at hi
      all_goals by_cases hm : i ∈ s.reads
      all_goals first | exact hs i hm | (simp only [hm, false_or] at hi <;> omega)

theorem deserializeRoomListResponse_reads (data : List Nat) (size : Nat) :
    ∀ i ∈ (deserializeRoomListResponse data size).2, i < size := by
  intro i hi
  simp only [deserializeRoomListResponse, Decoder.run, readU8, Decoder.bind_eq,
    Decoder.pure_eq, Decoder.bind_apply, Decoder.pure_apply, read_apply,
    Decoder.continueWith_ite, Decoder.continueWith_some, Decoder.continueWith_none] at hi
  simp only [Nat.zero_add, Nat.reduceAdd] at hi
  split_ifs at hi with h1
  · simp at hi
  · rw [Decoder.continueWith_pure_snd] at hi
    revert i
    apply readRoomListEntries_reads
    intro i hi
    simp only [List.nil_append, mem_indexRange] at hi
    omega

theorem deserializeHeader_reads (data : List Nat) (size : Nat) :
    ∀ i ∈ (deserializeHeader data size).2, i < size := by
  intro i hi
  simp only [deserializeHeader, Decoder.run, readU8, readU16, readU32, readF32, Decoder.bind_eq,
    Decoder.pure_eq, Decoder.bind_apply, Decoder.pure_apply, read_apply, construct_apply,
    memcpyFrom_apply, Decoder.continueWith_ite, Decoder.continueWith_some,
    Decoder.continueWith_none] at hi
  simp only [Nat.zero_add, Nat.reduceAdd] at hi
  split_ifs at hi
  all_goals simp only [List.nil_append, List.mem_append, mem_indexRange, List.not_mem_nil] at hi
  all_goals omega

theorem deserializePayload_reads (packet : List Nat) (packetSize : Nat) :
    ∀ i ∈ (deserializePayload packet packetSize).2, i < packetSize := by
  intro i hi
  have hk : kHeaderSize = 12 := by decide
  have hh := deserializeHeader_reads packet kHeaderSize i
  unfold deserializePayload at hi
  split at hi
  · simp at hi
  · rename_i hsz
    dsimp only at hi
    cases hp : (deserializeHeader packet kHeaderSize).1 with
    | none =>
      simp only [hp] at hi
      have := hh hi
      omega
    | some header =>
      simp only [hp] at hi
      split at hi
      · have := hh hi
        omega
      · simp only [List.mem_append, mem_indexRange] at hi
        rcases hi with hi | hi
        · have := hh hi
          omega
        · omega

end net

end rtype

namespace rtype

namespace net

open BinaryReader

/-! ### Packets: header layout, splitting, and the PlayerState round trip -/

theorem bytesAt_eq_take_drop (data : List Nat) (start n : Nat) (h : start + n ≤ data.length) :
    bytesAt data start n = (data.drop start).take n := by
  induction n generalizing start with
  | zero => simp [bytesAt]
  | succ k ih =>
    have hlt : start < data.length := by omega
    rw [bytesAt, ih (start + 1) (by omega)]
    rw [List.drop_eq_getElem_cons hlt, List.take_succ_cons]
    simp [List.getElem?_eq_getElem hlt]

theorem bytesAt_append_right (a b : List Nat) : bytesAt (a ++ b) a.length b.length = b := by
  rw [bytesAt_eq_take_drop _ _ _ (by simp)]
  simp

theorem serializePacket_eq (type seq ts : Nat) (payload : List Nat) :
    serializePacket type seq ts payload =
      [type % 65536 / 256 % 256, type % 65536 % 256,
       payload.length % 65536 / 256 % 256, payload.length % 65536 % 256,
       seq / 16777216 % 256, seq / 65536 % 256, seq / 256 % 256, seq % 256,
       ts / 16777216 % 256, ts / 65536 % 256, ts / 256 % 256, ts % 256] ++ payload := by
  simp [serializePacket, writeU16, writeU32]

theorem deserializeHeader_cons (b0 b1 b2 b3 b4 b5 b6 b7 b8 b9 b10 b11 : Nat) (rest : List Nat)
    (size : Nat) (hsize : 12 ≤ size) :
    (deserializeHeader (b0 :: b1 :: b2 :: b3 :: b4 :: b5 :: b6 :: b7 :: b8 :: b9 :: b10 :: b11 :: rest)
        size).1 =
      some { type := b0 * 256 + b1, payloadSize := b2 * 256 + b3,
             sequence := b4 * 16777216 + b5 * 65536 + b6 * 256 + b7,
             timestamp := b8 * 16777216 + b9 * 65536 + b10 * 256 + b11 } := by
  simp only [deserializeHeader, Decoder.run, readU8,
    readU16, readU32, readF32, Decoder.bind_eq,
    Decoder.pure_eq, Decoder.bind_apply, Decoder.pure_apply, read_apply,
    Decoder.continueWith_ite, Decoder.continueWith_some, Decoder.continueWith_none]
  simp only [Nat.zero_add, Nat.reduceAdd]
  split_ifs
  all_goals first | omega | simp [bytesAt, ntohs, ntohl]

theorem deserializeHeader_serializePacket (type seq ts : Nat) (payload : List Nat) :
    (deserializeHeader (serializePacket type seq ts payload) kHeaderSize).1 =
      some { type := type % 65536, payloadSize := payload.length % 65536,
             sequence := seq % 4294967296, timestamp := ts % 4294967296 } := by
  rw [serializePacket_eq]
  simp only [List.cons_append, List.nil_append]
  rw [deserializeHeader_cons _ _ _ _ _ _ _ _ _ _ _ _ _ _ (by decide)]
  simp only [Option.some.injEq, PacketHeader.mk.injEq]
  refine ⟨?_, ?_, ?_, ?_⟩
  all_goals show (_ : Nat) = (_ : Nat)
  all_goals omega

theorem deserializePayload_serializePacket (type seq ts : Nat) (payload : List Nat)
    (hlen : payload.length < 65536) :
    (deserializePayload (serializePacket type seq ts payload)
        (serializePacket type seq ts payload).length).1 =
      some ({ type := type % 65536, payloadSize := payload.length,
              sequence := seq % 4294967296, timestamp := ts % 4294967296 }, payload) := by
  have hk : kHeaderSize = 12 := by decide
  have hl : (serializePacket type seq ts payload).length = 12 + payload.length := by
    rw [serializePacket_eq]; simp; omega
  unfold deserializePayload
  dsimp only
  rw [deserializeHeader_serializePacket, hl, hk]
  have hm : payload.length % 65536 = payload.length := Nat.mod_eq_of_lt hlen
  simp only [hm]
  rw [if_neg (by omega), if_neg (by omega)]
  simp only [Option.some.injEq, Prod.mk.injEq, true_and]
  rw [serializePacket_eq]
  exact bytesAt_append_right [_, _, _, _, _, _, _, _, _, _, _, _] payload

theorem boolByte_ne_zero (b : Bool) : (boolByte b % 256 != 0) = b := by
  cases b <;> decide

theorem deserializePlayerState_payload (s : PlayerState) (size : Nat) (hsize : 14 ≤ size)
    (hplayer : s.player < 256) (hx : s.x < 4294967296) (hy : s.y < 4294967296)
    (hhp : s.hp < 256) (hscore : s.score < 65536) (hpow : s.powerUpType < 256) :
    (deserializePlayerState (payloadPlayerState s) size).1 = some s := by
  obtain ⟨player, x, y, hp, score, alive, powerUpType⟩ := s
  simp only at hplayer hx hy hhp hscore hpow
  simp only [deserializePlayerState, Decoder.run, readU8,
    readU16, readU32, readF32, Decoder.bind_eq,
    Decoder.pure_eq, Decoder.bind_apply, Decoder.pure_apply, read_apply,
    Decoder.continueWith_ite, Decoder.continueWith_some, Decoder.continueWith_none]
  simp only [Nat.zero_add, Nat.reduceAdd]
  split_ifs
  all_goals try omega
  simp only [payloadPlayerState, writeU8, writeU16, writeU32, writeF32, List.nil_append,
    List.cons_append, bytesAt, ntohs, ntohl, List.getD_cons_zero, List.getD_cons_succ, Nat.reduceAdd,
    boolByte_ne_zero, Option.some.injEq, PlayerState.mk.injEq, true_and, and_true]
  refine ⟨?_, ?_, ?_, ?_, ?_, ?_⟩
  all_goals show (_ : Nat) = (_ : Nat)
  all_goals omega

/-- C5: for every `PlayerState` whose fields fit their C++ types, splitting the
packet built by `serializePlayerState` with `deserializePayload` succeeds, and
`deserializePlayerState` on the payload it returns succeeds and yields the
state again, field for field (the floats `x`, `y` as bit patterns). -/
theorem playerState_roundtrip (s : PlayerState) (seq ts : Nat)
    (hplayer : s.player < 256) (hx : s.x < 2 ^ 32) (hy : s.y < 2 ^ 32)
    (hhp : s.hp < 256) (hscore : s.score < 65536) (hpow : s.powerUpType < 256) :
    ∃ (header : PacketHeader) (payload : List Nat),
      (deserializePayload (serializePlayerState s seq ts)
        (serializePlayerState s seq ts).length).1 = some (header, payload) ∧
      header.type = PacketType.PlayerState ∧
      (deserializePlayerState payload payload.length).1 = some s := by
  have hl := payloadPlayerState_length s
  refine ⟨{ type := PacketType.PlayerState % 65536, payloadSize := (payloadPlayerState s).length,
             sequence := seq % 4294967296, timestamp := ts % 4294967296 },
    payloadPlayerState s, ?_, ?_, ?_⟩
  · exact deserializePayload_serializePacket PacketType.PlayerState seq ts (payloadPlayerState s)
      (by omega)
  · exact (by decide : PacketType.PlayerState % 65536 = PacketType.PlayerState)
  · exact deserializePlayerState_payload s _ (by omega) hplayer (by simpa using hx)
      (by simpa using hy) hhp hscore hpow

/-- C5, witness: the state of the specification,
player 2, x = 10.5 (bits 0x41280000), y = -3.25 (bits 0xC0500000), hp 2,
score 100, alive, power-up Shield. -/
theorem playerState_roundtrip_witness :
    ∃ (header : PacketHeader) (payload : List Nat),
      (deserializePayload (serializePlayerState examplePlayerState 7 9)
        (serializePlayerState examplePlayerState 7 9).length).1 = some (header, payload) ∧
      header.type = PacketType.PlayerState ∧
      (deserializePlayerState payload payload.length).1 = some examplePlayerState :=
  playerState_roundtrip examplePlayerState 7 9 (by decide) (by decide) (by decide) (by decide)
    (by decide) (by decide)

end net

end rtype

namespace rtype

namespace net

open BinaryReader

/-- C6: for every message kind with a fixed payload size, a payload shorter
than what the serializer of that kind writes makes the typed decoder return
false; and every index read by a typed decoder, by the room list decoder, by
`deserializeHeader` or by `deserializePayload` is below the size it was given,
whatever the buffer and the size are. -/
theorem short_payload_rejected_and_reads_in_bounds :
    (∀ (k : FixedKind) (m : k.Message) (data : List Nat) (size : Nat),
      size < (k.payload m).length → (k.deserialize data size).1 = none) ∧
    (∀ (k : FixedKind) (data : List Nat) (size : Nat),
      ∀ i ∈ (k.deserialize data size).2, i < size) ∧
    (∀ (data : List Nat) (size : Nat), ∀ i ∈ (deserializeRoomListResponse data size).2, i < size) ∧
    (∀ (data : List Nat) (size : Nat), ∀ i ∈ (deserializeHeader data size).2, i < size) ∧
    (∀ (packet : List Nat) (packetSize : Nat),
      ∀ i ∈ (deserializePayload packet packetSize).2, i < packetSize) := by
  refine ⟨?_, ?_, deserializeRoomListResponse_reads, deserializeHeader_reads,
    deserializePayload_reads⟩
  · intro k m data size h
    cases k
    · exact deserializePlayerInput_short data size (by have := payloadPlayerInput_length m; exact this ▸ h)
    · exact deserializePlayerState_short data size (by have := payloadPlayerState_length m; exact this ▸ h)
    · exact deserializeMonsterSpawn_short data size (by have := payloadMonsterSpawn_length m; exact this ▸ h)
    · exact deserializeMonsterState_short data size (by have := payloadMonsterState_length m; exact this ▸ h)
    · exact deserializeMonsterDeath_short data size (by have := payloadMonsterDeath_length m; exact this ▸ h)
    · exact deserializeShieldSpawn_short data size (by have := payloadShieldSpawn_length m; exact this ▸ h)
    · exact deserializeShieldState_short data size (by have := payloadShieldState_length m; exact this ▸ h)
    · exact deserializeShieldDeath_short data size (by have := payloadShieldDeath_length m; exact this ▸ h)
    · exact deserializePlayerDeath_short data size (by have := payloadPlayerDeath_length m; exact this ▸ h)
    · exact deserializeBulletFired_short data size (by have := payloadBulletFired_length m; exact this ▸ h)
    · exact deserializeBulletState_short data size (by have := payloadBulletState_length m; exact this ▸ h)
    · exact deserializeDisconnect_short data size (by have := payloadDisconnect_length m; exact this ▸ h)
    · exact deserializePlayerAssignment_short data size (by have := payloadPlayerAssignment_length m; exact this ▸ h)
    · exact deserializePowerUpState_short data size (by have := payloadPowerUpState_length m; exact this ▸ h)
    · exact deserializeLevelBegin_short data size (by have := payloadLevelBegin_length m; exact this ▸ h)
    · exact deserializeCreateRoom_short data size (by have := payloadCreateRoom_length m; exact this ▸ h)
    · exact deserializeJoinRoom_short data size (by have := payloadJoinRoom_length m; exact this ▸ h)
    · exact deserializeLeaveRoom_short data size (by have := payloadLeaveRoom_length m; exact this ▸ h)
    · exact deserializeStartGame_short data size (by have := payloadStartGame_length m; exact this ▸ h)
    · exact deserializeRoomCreated_short data size (by have := payloadRoomCreated_length m; exact this ▸ h)
    · exact deserializeRoomJoined_short data size (by have := payloadRoomJoined_length m; exact this ▸ h)
    · exact deserializeRoomLeft_short data size (by have := payloadRoomLeft_length m; exact this ▸ h)
    · exact deserializeGameStarted_short data size (by have := payloadGameStarted_length m; exact this ▸ h)
    · exact deserializeRoomError_short data size (by have := payloadRoomError_length m; exact this ▸ h)
    · exact deserializeAllPlayersDead_short data size (by have := payloadAllPlayersDead_length m; exact this ▸ h)
    · exact deserializeSpectatorMode_short data size (by have := payloadSpectatorMode_length m; exact this ▸ h)
    · exact deserializeHostChanged_short data size (by have := payloadHostChanged_length m; exact this ▸ h)
  · intro k data size
    cases k
    · exact deserializePlayerInput_reads data size
    · exact deserializePlayerState_reads data size
    · exact deserializeMonsterSpawn_reads data size
    · exact deserializeMonsterState_reads data size
    · exact deserializeMonsterDeath_reads data size
    · exact deserializeShieldSpawn_reads data size
    · exact deserializeShieldState_reads data size
    · exact deserializeShieldDeath_reads data size
    · exact deserializePlayerDeath_reads data size
    · exact deserializeBulletFired_reads data size
    · exact deserializeBulletState_reads data size
    · exact deserializeDisconnect_reads data size
    · exact deserializePlayerAssignment_reads data size
    · exact deserializePowerUpState_reads data size
    · exact deserializeLevelBegin_reads data size
    · exact deserializeCreateRoom_reads data size
    · exact deserializeJoinRoom_reads data size
    · exact deserializeLeaveRoom_reads data size
    · exact deserializeStartGame_reads data size
    · exact deserializeRoomCreated_reads data size
    · exact deserializeRoomJoined_reads data size
    · exact deserializeRoomLeft_reads data size
    · exact deserializeGameStarted_reads data size
    · exact deserializeRoomError_reads data size
    · exact deserializeAllPlayersDead_reads data size
    · exact deserializeSpectatorMode_reads data size
    · exact deserializeHostChanged_reads data size

/-- C6, witness: a `PlayerState` payload cut to 13 bytes (one short of 14) is
rejected, and the last byte read from it is at index 12. -/
theorem short_payload_rejected_witness :
    13 < (FixedKind.payload FixedKind.PlayerState examplePlayerState).length ∧
    (FixedKind.deserialize FixedKind.PlayerState
      ((payloadPlayerState examplePlayerState).take 13) 13).1 = none ∧
    12 ∈ (FixedKind.deserialize FixedKind.PlayerState
      ((payloadPlayerState examplePlayerState).take 13) 13).2 ∧
    12 < 13 :=
  ⟨by decide,
   short_payload_rejected_and_reads_in_bounds.1 FixedKind.PlayerState examplePlayerState
     ((payloadPlayerState examplePlayerState).take 13) 13 (by decide),
   by decide,
   short_payload_rejected_and_reads_in_bounds.2.1 FixedKind.PlayerState
     ((payloadPlayerState examplePlayerState).take 13) 13 12 (by decide)⟩

end net

end rtype

namespace rtype

namespace net

open BinaryReader

theorem deserializeHeader_eq (data : List Nat) (size : Nat) (hsize : 12 ≤ size) :
    (deserializeHeader data size).1 =
      some { type := data.getD 0 0 * 256 + data.getD 1 0,
             payloadSize := data.getD 2 0 * 256 + data.getD 3 0,
             sequence := data.getD 4 0 * 16777216 + data.getD 5 0 * 65536
               + data.getD 6 0 * 256 + data.getD 7 0,
             timestamp := data.getD 8 0 * 16777216 + data.getD 9 0 * 65536
               + data.getD 10 0 * 256 + data.getD 11 0 } := by
  simp only [deserializeHeader, Decoder.run, readU8,
    readU16, readU32, readF32, Decoder.bind_eq,
    Decoder.pure_eq, Decoder.bind_apply, Decoder.pure_apply, read_apply,
    Decoder.continueWith_ite, Decoder.continueWith_some, Decoder.continueWith_none]
  simp only [Nat.zero_add, Nat.reduceAdd]
  split_ifs
  all_goals try omega
  simp only [bytesAt, ntohs, ntohl, List.getD_cons_zero, List.getD_cons_succ, Nat.reduceAdd]

/-- C7 (counterexample): a 13-byte packet whose header announces a payload of
0 bytes although one byte follows the 12 header bytes.  `deserializePayload`
accepts it, so acceptance is not equivalent to "at least 10 bytes and
payloadSize = packetSize - 10" (here 0 against 13 - 10 = 3), and a packet whose
payloadSize is smaller than the bytes that follow the header is not rejected. -/
theorem deserializePayload_accepts_trailing_byte :
    (deserializePayload [0, 10, 0, 0, 0, 0, 0, 0, 0, 0, 0, 0, 99] 13).1 =
      some ({ type := 10, payloadSize := 0, sequence := 0, timestamp := 0 }, []) ∧
    ¬ (((deserializePayload [0, 10, 0, 0, 0, 0, 0, 0, 0, 0, 0, 0, 99] 13).1.isSome = true) ↔
        (10 ≤ 13 ∧ 0 = 13 - 10)) := by
  decide

/-- C7 (amended): `deserializePayload` accepts a packet if and only if it holds
at least the 12 header bytes and the header's payloadSize is at most the
number of bytes that follow the header; the payload it returns is the first
payloadSize bytes after the header (further bytes are ignored), and a packet
whose payloadSize exceeds the bytes that follow is rejected. -/
theorem deserializePayload_accepts_iff (packet : List Nat) :
    (((deserializePayload packet packet.length).1.isSome = true) ↔
      (12 ≤ packet.length ∧
        12 + (packet.getD 2 0 * 256 + packet.getD 3 0) ≤ packet.length)) ∧
    (∀ (header : PacketHeader) (payload : List Nat),
      (deserializePayload packet packet.length).1 = some (header, payload) →
        header.payloadSize = packet.getD 2 0 * 256 + packet.getD 3 0 ∧
        payload = (packet.drop 12).take header.payloadSize) ∧
    (packet.length - 12 < packet.getD 2 0 * 256 + packet.getD 3 0 →
      (deserializePayload packet packet.length).1 = none) := by
  have hk : kHeaderSize = 12 := by decide
  by_cases hlen : packet.length < 12
  · have hnone : (deserializePayload packet packet.length).1 = none := by
      unfold deserializePayload
      rw [hk, if_pos hlen]
    refine ⟨?_, ?_, ?_⟩
    · rw [hnone]
      simp only [Option.isSome_none, Bool.false_eq_true, false_iff, not_and]
      omega
    · intro header payload h
      rw [hnone] at h
      cases h
    · intro _
      exact hnone
  · have hh := deserializeHeader_eq packet 12 (le_refl 12)
    by_cases hps : packet.length < 12 + (packet.getD 2 0 * 256 + packet.getD 3 0)
    · have hnone : (deserializePayload packet packet.length).1 = none := by
        unfold deserializePayload
        dsimp only
        rw [hk, if_neg hlen, hh]
        dsimp only
        rw [if_pos hps]
      refine ⟨?_, ?_, ?_⟩
      · rw [hnone]
        simp only [Option.isSome_none, Bool.false_eq_true, false_iff, not_and]
        omega
      · intro header payload h
        rw [hnone] at h
        cases h
      · intro _
        exact hnone
    · have hsome : (deserializePayload packet packet.length).1 =
          some ({ type := packet.getD 0 0 * 256 + packet.getD 1 0,
                  payloadSize := packet.getD 2 0 * 256 + packet.getD 3 0,
                  sequence := packet.getD 4 0 * 16777216 + packet.getD 5 0 * 65536
                    + packet.getD 6 0 * 256 + packet.getD 7 0,
                  timestamp := packet.getD 8 0 * 16777216 + packet.getD 9 0 * 65536
                    + packet.getD 10 0 * 256 + packet.getD 11 0 },
                bytesAt packet 12 (packet.getD 2 0 * 256 + packet.getD 3 0)) := by
        unfold deserializePayload
        dsimp only
        rw [hk, if_neg hlen, hh]
        dsimp only
        rw [if_neg hps]
      refine ⟨?_, ?_, ?_⟩
      · rw [hsome]
        simp only [Option.isSome_some, true_iff]
        omega
      · intro header payload h
        rw [hsome] at h
        simp only [Option.some.injEq, Prod.mk.injEq] at h
        obtain ⟨h1, h2⟩ := h
        subst h1
        refine ⟨rfl, ?_⟩
        rw [← h2]
        exact bytesAt_eq_take_drop packet 12 _ (by omega)
      · intro hlt
        omega

/-- C7, witness: the 13-byte packet with payloadSize 0 is accepted with an
empty payload; the 13-byte packet with payloadSize 2 is rejected. -/
theorem deserializePayload_accepts_iff_witness :
    (deserializePayload [0, 10, 0, 0, 0, 0, 0, 0, 0, 0, 0, 0, 99]
        ([0, 10, 0, 0, 0, 0, 0, 0, 0, 0, 0, 0, 99] : List Nat).length).1 =
      some ({ type := 10, payloadSize := 0, sequence := 0, timestamp := 0 }, []) ∧
    ([] : List Nat) = (([0, 10, 0, 0, 0, 0, 0, 0, 0, 0, 0, 0, 99] : List Nat).drop 12).take 0 ∧
    (deserializePayload [0, 10, 0, 2, 0, 0, 0, 0, 0, 0, 0, 0, 99]
        ([0, 10, 0, 2, 0, 0, 0, 0, 0, 0, 0, 0, 99] : List Nat).length).1 = none :=
  ⟨by decide,
   ((deserializePayload_accepts_iff [0, 10, 0, 0, 0, 0, 0, 0, 0, 0, 0, 0, 99]).2.1
      { type := 10, payloadSize := 0, sequence := 0, timestamp := 0 } [] (by decide)).2,
   (deserializePayload_accepts_iff [0, 10, 0, 2, 0, 0, 0, 0, 0, 0, 0, 0, 99]).2.2 (by decide)⟩

end net

end rtype

namespace rtype

namespace net

open BinaryReader

/-- C8 (counterexample): the packet built for an empty payload has 12 bytes,
not 10 + 0: the header is 2 + 2 + 4 + 4 = 12 bytes long. -/
theorem serializePacket_empty_payload_has_12_bytes :
    (serializePacket PacketType.RoomList 0 0 []).length = 12 ∧
    (serializePacket PacketType.RoomList 0 0 []).length ≠ 10 + ([] : List Nat).length := by
  decide

/-- C8 (amended): for a 16-bit type code, 32-bit sequence and timestamp and a
payload of at most 65535 bytes, `serializePacket` returns exactly
12 + |payload| bytes: type and payloadSize = |payload| as 2 bytes each,
sequence and timestamp as 4 bytes each, all most significant byte first,
followed by the payload verbatim; `deserializeHeader` on the first 12 bytes
returns the same four field values. -/
theorem serializePacket_layout (type seq ts : Nat) (payload : List Nat)
    (htype : type < 2 ^ 16) (hseq : seq < 2 ^ 32) (hts : ts < 2 ^ 32)
    (hlen : payload.length ≤ 65535) :
    serializePacket type seq ts payload =
      [type / 256, type % 256,
       payload.length / 256, payload.length % 256,
       seq / 16777216, seq / 65536 % 256, seq / 256 % 256, seq % 256,
       ts / 16777216, ts / 65536 % 256, ts / 256 % 256, ts % 256] ++ payload ∧
    (type / 256 < 256 ∧ payload.length / 256 < 256 ∧ seq / 16777216 < 256 ∧
      ts / 16777216 < 256) ∧
    (type / 256 * 256 + type % 256 = type ∧
      payload.length / 256 * 256 + payload.length % 256 = payload.length ∧
      seq / 16777216 * 16777216 + seq / 65536 % 256 * 65536 + seq / 256 % 256 * 256
        + seq % 256 = seq ∧
      ts / 16777216 * 16777216 + ts / 65536 % 256 * 65536 + ts / 256 % 256 * 256
        + ts % 256 = ts) ∧
    (serializePacket type seq ts payload).length = 12 + payload.length ∧
    (deserializeHeader ((serializePacket type seq ts payload).take 12) 12).1 =
      some { type := type, payloadSize := payload.length, sequence := seq, timestamp := ts } := by
  have h16 : (2 : Nat) ^ 16 = 65536 := by norm_num
  have h32 : (2 : Nat) ^ 32 = 4294967296 := by norm_num
  rw [h16] at htype
  rw [h32] at hseq hts
  have heq : serializePacket type seq ts payload =
      [type / 256, type % 256,
       payload.length / 256, payload.length % 256,
       seq / 16777216, seq / 65536 % 256, seq / 256 % 256, seq % 256,
       ts / 16777216, ts / 65536 % 256, ts / 256 % 256, ts % 256] ++ payload := by
    rw [serializePacket_eq]
    have e1 : type % 65536 / 256 % 256 = type / 256 := by omega
    have e2 : type % 65536 % 256 = type % 256 := by omega
    have e3 : payload.length % 65536 / 256 % 256 = payload.length / 256 := by omega
    have e4 : payload.length % 65536 % 256 = payload.length % 256 := by omega
    have e5 : seq / 16777216 % 256 = seq / 16777216 := by omega
    have e6 : ts / 16777216 % 256 = ts / 16777216 := by omega
    rw [e1, e2, e3, e4, e5, e6]
  refine ⟨heq, ?_, ?_, ?_, ?_⟩
  · omega
  · omega
  · rw [heq]
    simp only [List.length_append, List.length_cons, List.length_nil]
  · rw [heq]
    simp only [List.cons_append, List.nil_append, List.take_succ_cons, List.take_zero]
    rw [deserializeHeader_cons _ _ _ _ _ _ _ _ _ _ _ _ _ _ (le_refl 12)]
    simp only [Option.some.injEq, PacketHeader.mk.injEq]
    omega

/-- C8, witness: a PlayerState packet with sequence 7 and timestamp 9. -/
theorem serializePacket_layout_witness :
    (serializePacket PacketType.PlayerState 7 9 (payloadPlayerState examplePlayerState)).length =
      12 + (payloadPlayerState examplePlayerState).length ∧
    (deserializeHeader
      ((serializePacket PacketType.PlayerState 7 9 (payloadPlayerState examplePlayerState)).take 12)
      12).1 =
      some { type := PacketType.PlayerState,
             payloadSize := (payloadPlayerState examplePlayerState).length,
             sequence := 7, timestamp := 9 } :=
  (serializePacket_layout PacketType.PlayerState 7 9 (payloadPlayerState examplePlayerState)
    (by decide) (by decide) (by decide) (by decide)).2.2.2

end net

end rtype

namespace rtype

namespace net

open BinaryReader

/-! ### Fixed-size text buffers -/

theorem bytesAt_getElem? (data : List Nat) (start n i : Nat) (h : i < n) :
    (bytesAt data start n)[i]? = some (data.getD (start + i) 0) := by
  have hl : i < (bytesAt data start n).length := by simp [h]
  rw [List.getElem?_eq_getElem hl]
  have := bytesAt_getD data start n i h
  rw [List.getD_eq_getElem _ _ hl] at this
  rw [this]

theorem textFieldDecoded_set (payload : List Nat) (start n : Nat) (hn : 1 ≤ n) :
    TextFieldDecoded ((bytesAt payload start n).set (n - 1) 0) payload start n := by
  refine ⟨by simp, ?_, ?_⟩
  · rw [List.getElem?_set_self]
    simp
    omega
  · intro i hi
    rw [List.getElem?_set_ne (by omega)]
    exact bytesAt_getElem? payload start n i (by omega)

theorem deserializeCreateRoom_some (payload : List Nat) (size : Nat) (out : CreateRoom)
    (h : (deserializeCreateRoom payload size).1 = some out) :
    out.roomName = (bytesAt payload 0 32).set 31 0 := by
  unfold deserializeCreateRoom at h
  split at h
  · cases h
  · simp only [Decoder.run, Decoder.bind_eq, Decoder.pure_eq, Decoder.bind_apply,
      Decoder.pure_apply, memcpyFrom_apply, Decoder.continueWith_some, Option.some.injEq] at h
    rw [← h]

theorem deserializeRoomCreated_some (payload : List Nat) (size : Nat) (out : RoomCreated)
    (h : (deserializeRoomCreated payload size).1 = some out) :
    out.roomName = (bytesAt payload 4 32).set 31 0 := by
  unfold deserializeRoomCreated at h
  split at h
  · cases h
  · simp only [Decoder.run, readU8, readU16, readU32, readF32, Decoder.bind_eq,
      Decoder.pure_eq, Decoder.bind_apply, Decoder.pure_apply, read_apply, construct_apply,
      memcpyFrom_apply, Decoder.continueWith_ite, Decoder.continueWith_some,
      Decoder.continueWith_none] at h
    simp only [Nat.zero_add, Nat.reduceAdd] at h
    split_ifs at h
    all_goals (simp only [Option.some.injEq] at h; rw [← h])

theorem deserializeRoomJoined_some (payload : List Nat) (size : Nat) (out : RoomJoined)
    (h : (deserializeRoomJoined payload size).1 = some out) :
    out.roomName = (bytesAt payload 4 32).set 31 0 := by
  unfold deserializeRoomJoined at h
  split at h
  · cases h
  · simp only [Decoder.run, readU8, readU16, readU32, readF32, Decoder.bind_eq,
      Decoder.pure_eq, Decoder.bind_apply, Decoder.pure_apply, read_apply, construct_apply,
      memcpyFrom_apply, Decoder.continueWith_ite, Decoder.continueWith_some,
      Decoder.continueWith_none] at h
    simp only [Nat.zero_add, Nat.reduceAdd] at h
    split_ifs at h
    all_goals (simp only [Option.some.injEq] at h; rw [← h])

theorem deserializeRoomError_some (payload : List Nat) (size : Nat) (out : RoomError)
    (h : (deserializeRoomError payload size).1 = some out) :
    out.message = (bytesAt payload 1 64).set 63 0 := by
  unfold deserializeRoomError at h
  split at h
  · cases h
  · simp only [Decoder.run, readU8, readU16, readU32, readF32, Decoder.bind_eq,
      Decoder.pure_eq, Decoder.bind_apply, Decoder.pure_apply, read_apply, construct_apply,
      memcpyFrom_apply, Decoder.continueWith_ite, Decoder.continueWith_some,
      Decoder.continueWith_none] at h
    simp only [Nat.zero_add, Nat.reduceAdd] at h
    split_ifs at h
    all_goals (simp only [Option.some.injEq] at h; rw [← h])

theorem bytesAt_append_left (a b : List Nat) (start n : Nat) (h : start + n ≤ a.length) :
    bytesAt (a ++ b) start n = bytesAt a start n := by
  induction n generalizing start with
  | zero => rfl
  | succ k ih =>
    rw [bytesAt, bytesAt, ih (start + 1) (by omega)]
    rw [List.getD_append _ _ _ _ (by omega)]

theorem bytesAt_append_right_of_le (a b : List Nat) (start n : Nat) (h : a.length ≤ start) :
    bytesAt (a ++ b) start n = bytesAt b (start - a.length) n := by
  induction n generalizing start with
  | zero => rfl
  | succ k ih =>
    rw [bytesAt, bytesAt, ih (start + 1) (by omega)]
    rw [List.getD_append_right _ _ _ _ h]
    have e : start + 1 - a.length = start - a.length + 1 := by omega
    rw [e]

theorem bytesAt_self (data : List Nat) : bytesAt data 0 data.length = data := by
  rw [bytesAt_eq_take_drop _ _ _ (by omega)]
  simp

theorem truncateText_of_last_zero (buffer : List Nat) (n : Nat)
    (h : buffer[n - 1]? = some 0) : truncateText buffer n = buffer := by
  unfold truncateText
  apply List.ext_getElem?
  intro i
  by_cases hi : i = n - 1
  · subst hi
    rw [h]
    have hl : n - 1 < buffer.length := by
      by_contra hc
      rw [List.getElem?_eq_none (by omega)] at h
      cases h
    rw [List.getElem?_set_self hl]
  · rw [List.getElem?_set_ne (fun e => hi e.symm)]

theorem deserializeCreateRoom_payload (m : CreateRoom) (hname : m.roomName.length = 32) :
    (deserializeCreateRoom (payloadCreateRoom m) (payloadCreateRoom m).length).1 =
      some { roomName := truncateText m.roomName 32 } := by
  have hp : payloadCreateRoom m = m.roomName := by
    unfold payloadCreateRoom writeBytes
    rw [← hname, bytesAt_self]
    rfl
  rw [hp, hname]
  unfold deserializeCreateRoom
  rw [if_neg (by omega)]
  simp only [Decoder.run, Decoder.bind_eq, Decoder.pure_eq, Decoder.bind_apply,
    Decoder.pure_apply, memcpyFrom_apply, Decoder.continueWith_some, Option.some.injEq]
  have := bytesAt_self m.roomName
  rw [hname] at this
  rw [this]
  rfl

theorem deserializeRoomCreated_eval (payload : List Nat) (size : Nat) (hsize : 38 ≤ size) :
    (deserializeRoomCreated payload size).1 =
      some { roomId := ntohl (bytesAt payload 0 4),
             roomName := (bytesAt payload 4 32).set 31 0,
             hostId := (bytesAt payload 36 1).getD 0 0,
             playerId := (bytesAt payload 37 1).getD 0 0 } := by
  unfold deserializeRoomCreated
  rw [if_neg (by omega)]
  simp only [Decoder.run, readU8, readU16, readU32, readF32, Decoder.bind_eq,
    Decoder.pure_eq, Decoder.bind_apply, Decoder.pure_apply, read_apply, construct_apply,
    memcpyFrom_apply, Decoder.continueWith_ite, Decoder.continueWith_some,
    Decoder.continueWith_none]
  simp only [Nat.zero_add, Nat.reduceAdd]
  split_ifs
  all_goals first | omega | rfl

theorem deserializeRoomJoined_eval (payload : List Nat) (size : Nat) (hsize : 39 ≤ size) :
    (deserializeRoomJoined payload size).1 =
      some { roomId := ntohl (bytesAt payload 0 4),
             roomName := (bytesAt payload 4 32).set 31 0,
             hostId := (bytesAt payload 36 1).getD 0 0,
             playerCount := (bytesAt payload 37 1).getD 0 0,
             playerId := (bytesAt payload 38 1).getD 0 0 } := by
  unfold deserializeRoomJoined
  rw [if_neg (by omega)]
  simp only [Decoder.run, readU8, readU16, readU32, readF32, Decoder.bind_eq,
    Decoder.pure_eq, Decoder.bind_apply, Decoder.pure_apply, read_apply, construct_apply,
    memcpyFrom_apply, Decoder.continueWith_ite, Decoder.continueWith_some,
    Decoder.continueWith_none]
  simp only [Nat.zero_add, Nat.reduceAdd]
  split_ifs
  all_goals first | omega | rfl

theorem deserializeRoomError_eval (payload : List Nat) (size : Nat) (hsize : 65 ≤ size) :
    (deserializeRoomError payload size).1 =
      some { errorCode := (bytesAt payload 0 1).getD 0 0,
             message := (bytesAt payload 1 64).set 63 0 } := by
  unfold deserializeRoomError
  rw [if_neg (by omega)]
  simp only [Decoder.run, readU8, readU16, readU32, readF32, Decoder.bind_eq,
    Decoder.pure_eq, Decoder.bind_apply, Decoder.pure_apply, read_apply, construct_apply,
    memcpyFrom_apply, Decoder.continueWith_ite, Decoder.continueWith_some,
    Decoder.continueWith_none]
  simp only [Nat.zero_add, Nat.reduceAdd]
  split_ifs
  all_goals first | omega | rfl

theorem deserializeRoomCreated_payload (m : RoomCreated) (hname : m.roomName.length = 32)
    (hid : m.roomId < 4294967296) (hhost : m.hostId < 256) (hplayer : m.playerId < 256) :
    (deserializeRoomCreated (payloadRoomCreated m) (payloadRoomCreated m).length).1 =
      some { m with roomName := truncateText m.roomName 32 } := by
  obtain ⟨roomId, roomName, hostId, playerId⟩ := m
  simp only at hname hid hhost hplayer
  rw [payloadRoomCreated_length, deserializeRoomCreated_eval _ _ (le_refl 38)]
  have hn : bytesAt roomName 0 32 = roomName := by
    have := bytesAt_self roomName
    rwa [hname] at this
  have hp : payloadRoomCreated ⟨roomId, roomName, hostId, playerId⟩ =
      (([roomId / 16777216 % 256, roomId / 65536 % 256, roomId / 256 % 256, roomId % 256]
        ++ roomName) ++ [hostId % 256]) ++ [playerId % 256] := by
    simp only [payloadRoomCreated, writeU32, writeU8, writeBytes, hn, List.nil_append]
  rw [hp]
  have b0 : bytesAt ((([roomId / 16777216 % 256, roomId / 65536 % 256, roomId / 256 % 256,
      roomId % 256] ++ roomName) ++ [hostId % 256]) ++ [playerId % 256]) 0 4 =
      [roomId / 16777216 % 256, roomId / 65536 % 256, roomId / 256 % 256, roomId % 256] := by
    rw [bytesAt_append_left _ _ _ _ (by simp), bytesAt_append_left _ _ _ _ (by simp),
      bytesAt_append_left _ _ _ _ (by simp)]
    rfl
  have b1 : bytesAt ((([roomId / 16777216 % 256, roomId / 65536 % 256, roomId / 256 % 256,
      roomId % 256] ++ roomName) ++ [hostId % 256]) ++ [playerId % 256]) 4 32 = roomName := by
    rw [bytesAt_append_left _ _ _ _ (by simp [hname]),
      bytesAt_append_left _ _ _ _ (by simp [hname]),
      bytesAt_append_right_of_le _ _ _ _ (by simp)]
    simpa using hn
  have b2 : bytesAt ((([roomId / 16777216 % 256, roomId / 65536 % 256, roomId / 256 % 256,
      roomId % 256] ++ roomName) ++ [hostId % 256]) ++ [playerId % 256]) 36 1 =
      [hostId % 256] := by
    rw [bytesAt_append_left _ _ _ _ (by simp [hname]),
      bytesAt_append_right_of_le _ _ _ _ (by simp [hname])]
    simp [hname, bytesAt]
  have b3 : bytesAt ((([roomId / 16777216 % 256, roomId / 65536 % 256, roomId / 256 % 256,
      roomId % 256] ++ roomName) ++ [hostId % 256]) ++ [playerId % 256]) 37 1 =
      [playerId % 256] := by
    rw [bytesAt_append_right_of_le _ _ _ _ (by simp [hname])]
    simp [hname, bytesAt]
  rw [b0, b1, b2, b3]
  simp only [ntohl, List.getD_cons_zero, List.getD_cons_succ, truncateText, Nat.reduceSub,
    Option.some.injEq, RoomCreated.mk.injEq, true_and]
  refine ⟨?_, ?_, ?_⟩ <;> omega

theorem deserializeRoomJoined_payload (m : RoomJoined) (hname : m.roomName.length = 32)
    (hid : m.roomId < 4294967296) (hhost : m.hostId < 256) (hcount : m.playerCount < 256)
    (hplayer : m.playerId < 256) :
    (deserializeRoomJoined (payloadRoomJoined m) (payloadRoomJoined m).length).1 =
      some { m with roomName := truncateText m.roomName 32 } := by
  obtain ⟨roomId, roomName, hostId, playerCount, playerId⟩ := m
  simp only at hname hid hhost hcount hplayer
  rw [payloadRoomJoined_length, deserializeRoomJoined_eval _ _ (le_refl 39)]
  have hn : bytesAt roomName 0 32 = roomName := by
    have := bytesAt_self roomName
    rwa [hname] at this
  have hp : payloadRoomJoined ⟨roomId, roomName, hostId, playerCount, playerId⟩ =
      ((([roomId / 16777216 % 256, roomId / 65536 % 256, roomId / 256 % 256, roomId % 256]
        ++ roomName) ++ [hostId % 256]) ++ [playerCount % 256]) ++ [playerId % 256] := by
    simp only [payloadRoomJoined, writeU32, writeU8, writeBytes, hn, List.nil_append]
  rw [hp]
  have b0 : bytesAt (((([roomId / 16777216 % 256, roomId / 65536 % 256, roomId / 256 % 256,
      roomId % 256] ++ roomName) ++ [hostId % 256]) ++ [playerCount % 256])
        ++ [playerId % 256]) 0 4 =
      [roomId / 16777216 % 256, roomId / 65536 % 256, roomId / 256 % 256, roomId % 256] := by
    rw [bytesAt_append_left _ _ _ _ (by simp), bytesAt_append_left _ _ _ _ (by simp),
      bytesAt_append_left _ _ _ _ (by simp), bytesAt_append_left _ _ _ _ (by simp)]
    rfl
  have b1 : bytesAt (((([roomId / 16777216 % 256, roomId / 65536 % 256, roomId / 256 % 256,
      roomId % 256] ++ roomName) ++ [hostId % 256]) ++ [playerCount % 256])
        ++ [playerId % 256]) 4 32 = roomName := by
    rw [bytesAt_append_left _ _ _ _ (by simp [hname]),
      bytesAt_append_left _ _ _ _ (by simp [hname]),
      bytesAt_append_left _ _ _ _ (by simp [hname]),
      bytesAt_append_right_of_le _ _ _ _ (by simp)]
    simpa using hn
  have b2 : bytesAt (((([roomId / 16777216 % 256, roomId / 65536 % 256, roomId / 256 % 256,
      roomId % 256] ++ roomName) ++ [hostId % 256]) ++ [playerCount % 256])
        ++ [playerId % 256]) 36 1 = [hostId % 256] := by
    rw [bytesAt_append_left _ _ _ _ (by simp [hname]),
      bytesAt_append_left _ _ _ _ (by simp [hname]),
      bytesAt_append_right_of_le _ _ _ _ (by simp [hname])]
    simp [hname, bytesAt]
  have b3 : bytesAt (((([roomId / 16777216 % 256, roomId / 65536 % 256, roomId / 256 % 256,
      roomId % 256] ++ roomName) ++ [hostId % 256]) ++ [playerCount % 256])
        ++ [playerId % 256]) 37 1 = [playerCount % 256] := by
    rw [bytesAt_append_left _ _ _ _ (by simp [hname]),
      bytesAt_append_right_of_le _ _ _ _ (by simp [hname])]
    simp [hname, bytesAt]
  have b4 : bytesAt (((([roomId / 16777216 % 256, roomId / 65536 % 256, roomId / 256 % 256,
      roomId % 256] ++ roomName) ++ [hostId % 256]) ++ [playerCount % 256])
        ++ [playerId % 256]) 38 1 = [playerId % 256] := by
    rw [bytesAt_append_right_of_le _ _ _ _ (by simp [hname])]
    simp [hname, bytesAt]
  rw [b0, b1, b2, b3, b4]
  simp only [ntohl, List.getD_cons_zero, List.getD_cons_succ, truncateText, Nat.reduceSub,
    Option.some.injEq, RoomJoined.mk.injEq, true_and]
  refine ⟨?_, ?_, ?_, ?_⟩ <;> omega

theorem deserializeRoomError_payload (m : RoomError) (hmsg : m.message.length = 64)
    (hcode : m.errorCode < 256) :
    (deserializeRoomError (payloadRoomError m) (payloadRoomError m).length).1 =
      some { m with message := truncateText m.message 64 } := by
  obtain ⟨errorCode, message⟩ := m
  simp only at hmsg hcode
  rw [payloadRoomError_length, deserializeRoomError_eval _ _ (le_refl 65)]
  have hn : bytesAt message 0 64 = message := by
    have := bytesAt_self message
    rwa [hmsg] at this
  have hp : payloadRoomError ⟨errorCode, message⟩ = [errorCode % 256] ++ message := by
    simp only [payloadRoomError, writeU8, writeBytes, hn, List.nil_append]
  rw [hp]
  have b0 : bytesAt ([errorCode % 256] ++ message) 0 1 = [errorCode % 256] := by
    rw [bytesAt_append_left _ _ _ _ (by simp)]
    rfl
  have b1 : bytesAt ([errorCode % 256] ++ message) 1 64 = message := by
    rw [bytesAt_append_right_of_le _ _ _ _ (by simp)]
    simpa using hn
  rw [b0, b1]
  simp only [List.getD_cons_zero, truncateText, Nat.reduceSub,
    Option.some.injEq, RoomError.mk.injEq, and_true]
  omega

/-! ### The room list -/

theorem bytesAt_one_getD (data : List Nat) (start : Nat) :
    (bytesAt data start 1).getD 0 0 = data.getD start 0 := by
  simp [bytesAt]

theorem readRoomListEntries_eq (size : Nat) (k offset : Nat) (s : DecodeState) :
    (readRoomListEntries size k offset s).1 =
      if k = 0 ∨ offset + 40 * k ≤ size then
        some ((List.range k).map (fun i => roomListEntryAt s.data (offset + 40 * i)))
      else none := by
  induction k generalizing offset s with
  | zero =>
    rw [readRoomListEntries]
    simp
  | succ k ih =>
    rw [readRoomListEntries]
    by_cases hc : offset + 40 > size
    · have hcond : ¬ (k + 1 = 0 ∨ offset + 40 * (k + 1) ≤ size) := by omega
      simp only [hc, if_true, Decoder.fail_apply, if_neg hcond]
    · simp only [hc, if_false, Decoder.run, readU8, readU16, readU32, readF32, Decoder.bind_eq,
        Decoder.pure_eq, Decoder.bind_apply, Decoder.pure_apply, read_apply, construct_apply,
        memcpyFrom_apply, Decoder.continueWith_ite, Decoder.continueWith_some,
        Decoder.continueWith_none]
      simp only [Nat.zero_add, Nat.reduceAdd]
      rw [if_neg (by omega), if_neg (by omega), if_neg (by omega), if_neg (by omega),
        if_neg (by omega)]
      generalize hrec : readRoomListEntries size k (offset + 40) _ = r
      obtain ⟨S, hS, hdata⟩ : ∃ S : DecodeState,
          readRoomListEntries size k (offset + 40) S = r ∧ S.data = s.data := ⟨_, hrec, rfl⟩
      have hih := ih (offset + 40) S
      rw [hS, hdata] at hih
      obtain ⟨o, s2⟩ := r
      simp only at hih
      by_cases hk : k = 0 ∨ offset + 40 + 40 * k ≤ size
      · rw [if_pos hk] at hih
        subst hih
        have hcond : k + 1 = 0 ∨ offset + 40 * (k + 1) ≤ size := by omega
        simp only [Decoder.continueWith_some, Decoder.pure_apply, if_pos hcond,
          Option.some.injEq]
        rw [List.range_succ_eq_map, List.map_cons, List.map_map]
        refine congrArg₂ List.cons ?_ ?_
        · simp only [roomListEntryAt, bytesAt_one_getD, Nat.mul_zero, Nat.add_zero,
            Nat.add_assoc, Nat.reduceAdd]
        · apply List.map_congr_left
          intro i _
          simp only [Function.comp, Nat.succ_eq_add_one]
          congr 1
          omega
      · rw [if_neg hk] at hih
        subst hih
        have hcond : ¬ (k + 1 = 0 ∨ offset + 40 * (k + 1) ≤ size) := by omega
        simp only [Decoder.continueWith_none, if_neg hcond]

theorem deserializeRoomListResponse_eq (payload : List Nat) (size : Nat) :
    (deserializeRoomListResponse payload size).1 =
      if 1 + 40 * min (payload.getD 0 0) 16 ≤ size then
        some { roomCount := payload.getD 0 0,
               rooms := (List.range (min (payload.getD 0 0) 16)).map
                 (fun i => roomListEntryAt payload (1 + 40 * i)) }
      else none := by
  simp only [deserializeRoomListResponse, Decoder.run, readU8, Decoder.bind_eq,
    Decoder.pure_eq, Decoder.bind_apply, Decoder.pure_apply, read_apply,
    Decoder.continueWith_ite, Decoder.continueWith_some, Decoder.continueWith_none]
  simp only [Nat.zero_add, Nat.reduceAdd]
  by_cases h1 : 1 > size
  · rw [if_pos h1, if_neg (by omega)]
  · rw [if_neg h1]
    rw [bytesAt_one_getD]
    generalize hrec : readRoomListEntries size _ 1 _ = r
    have heq := readRoomListEntries_eq size (min (payload.getD 0 0) 16) 1
      { data := payload, base := 0, size := size, offset := 1, reads := [] ++ indexRange 0 1 }
    rw [hrec] at heq
    obtain ⟨o, s2⟩ := r
    simp only at heq
    subst heq
    by_cases hk : 1 + 40 * min (payload.getD 0 0) 16 ≤ size
    · rw [if_pos (Or.inr hk), if_pos hk]
      rfl
    · have hk2 : ¬ (min (payload.getD 0 0) 16 = 0 ∨ 1 + 40 * min (payload.getD 0 0) 16 ≤ size) := by
        omega
      rw [if_neg hk2, if_neg hk]
      rfl

theorem bytesAt_bytesAt (data : List Nat) (start j n m : Nat) (h : j + n ≤ m) :
    bytesAt (bytesAt data start m) j n = bytesAt data (start + j) n := by
  apply List.ext_getElem?
  intro i
  by_cases hi : i < n
  · rw [bytesAt_getElem? _ _ _ _ hi, bytesAt_getElem? _ _ _ _ hi,
      bytesAt_getD _ _ _ _ (by omega), Nat.add_assoc]
  · rw [List.getElem?_eq_none (by simp; omega), List.getElem?_eq_none (by simp; omega)]

theorem roomListEntryAt_window (data : List Nat) (offset : Nat) :
    roomListEntryAt data offset = roomListEntryAt (bytesAt data offset 40) 0 := by
  unfold roomListEntryAt
  rw [bytesAt_bytesAt data offset 0 4 40 (by omega), bytesAt_bytesAt data offset (0 + 4) 32 40
    (by omega), bytesAt_getD data offset 40 (0 + 36) (by omega),
    bytesAt_getD data offset 40 (0 + 37) (by omega), bytesAt_getD data offset 40 (0 + 38)
    (by omega), bytesAt_getD data offset 40 (0 + 39) (by omega)]
  simp only [Nat.zero_add, Nat.add_zero]

theorem writeRoomListEntry_eq (writer : List Nat) (e : RoomListEntry) :
    writeRoomListEntry writer e = writer ++ writeRoomListEntry [] e := by
  simp only [writeRoomListEntry, writeU32, writeU8, writeBytes, List.nil_append,
    List.append_assoc]

theorem writeRoomListEntry_length (e : RoomListEntry) :
    (writeRoomListEntry [] e).length = 40 := by
  simp [writeRoomListEntry, writeU32, writeU8, writeBytes]

theorem foldl_writeRoomListEntry_append (es : List RoomListEntry) (writer : List Nat) :
    ∃ rest : List Nat, es.foldl writeRoomListEntry writer = writer ++ rest := by
  induction es generalizing writer with
  | nil => exact ⟨[], by simp⟩
  | cons e es ih =>
    obtain ⟨rest, hrest⟩ := ih (writeRoomListEntry writer e)
    refine ⟨writeRoomListEntry [] e ++ rest, ?_⟩
    rw [List.foldl_cons, hrest, writeRoomListEntry_eq, List.append_assoc]

theorem foldl_writeRoomListEntry_length (es : List RoomListEntry) (writer : List Nat) :
    (es.foldl writeRoomListEntry writer).length = writer.length + 40 * es.length := by
  induction es generalizing writer with
  | nil => simp
  | cons e es ih =>
    rw [List.foldl_cons, ih, writeRoomListEntry_eq, List.length_append,
      writeRoomListEntry_length, List.length_cons]
    omega

theorem roomListEntryAt_written (e : RoomListEntry) (hname : e.roomName.length = 32)
    (hid : e.roomId < 4294967296) (hhost : e.hostId < 256) (hcount : e.playerCount < 256)
    (hmax : e.maxPlayers < 256) (hstate : e.state < 256) :
    roomListEntryAt (writeRoomListEntry [] e) 0 =
      { e with roomName := truncateText e.roomName 32 } := by
  obtain ⟨roomId, roomName, hostId, playerCount, maxPlayers, state⟩ := e
  simp only at hname hid hhost hcount hmax hstate
  have hn : bytesAt roomName 0 32 = roomName := by
    have := bytesAt_self roomName
    rwa [hname] at this
  have hp : writeRoomListEntry [] ⟨roomId, roomName, hostId, playerCount, maxPlayers, state⟩ =
      [roomId / 16777216 % 256, roomId / 65536 % 256, roomId / 256 % 256, roomId % 256]
        ++ (roomName ++ [hostId % 256, playerCount % 256, maxPlayers % 256, state % 256]) := by
    simp only [writeRoomListEntry, writeU32, writeU8, writeBytes, hn, List.nil_append,
      List.append_assoc, List.singleton_append, List.cons_append]
  rw [hp]
  unfold roomListEntryAt
  have b0 : bytesAt ([roomId / 16777216 % 256, roomId / 65536 % 256, roomId / 256 % 256,
      roomId % 256] ++ (roomName ++ [hostId % 256, playerCount % 256, maxPlayers % 256,
        state % 256])) 0 4 =
      [roomId / 16777216 % 256, roomId / 65536 % 256, roomId / 256 % 256, roomId % 256] := by
    rw [bytesAt_append_left _ _ _ _ (by simp)]
    rfl
  have b1 : bytesAt ([roomId / 16777216 % 256, roomId / 65536 % 256, roomId / 256 % 256,
      roomId % 256] ++ (roomName ++ [hostId % 256, playerCount % 256, maxPlayers % 256,
        state % 256])) (0 + 4) 32 = roomName := by
    rw [bytesAt_append_right_of_le _ _ _ _ (by simp),
      bytesAt_append_left _ _ _ _ (by simp [hname])]
    simpa using hn
  have hget : ∀ j, j < 4 →
      ([roomId / 16777216 % 256, roomId / 65536 % 256, roomId / 256 % 256,
        roomId % 256] ++ (roomName ++ [hostId % 256, playerCount % 256, maxPlayers % 256,
          state % 256])).getD (0 + 36 + j) 0 =
        [hostId % 256, playerCount % 256, maxPlayers % 256, state % 256].getD j 0 := by
    intro j hj
    rw [List.getD_append_right _ _ _ _ (by simp; omega), List.getD_append_right _ _ _ _
      (by simp [hname]; omega)]
    congr 1
    simp [hname]
    omega
  have g0 := hget 0 (by omega)
  have g1 := hget 1 (by omega)
  have g2 := hget 2 (by omega)
  have g3 := hget 3 (by omega)
  simp only [Nat.add_zero, Nat.reduceAdd] at g0 g1 g2 g3
  simp only [Nat.zero_add] at b1 ⊢
  rw [b0, b1, g0, g1, g2, g3]
  simp only [ntohl, List.getD_cons_zero, List.getD_cons_succ, truncateText, Nat.reduceSub,
    RoomListEntry.mk.injEq, true_and]
  refine ⟨?_, ?_, ?_, ?_, ?_⟩ <;> omega

theorem roomListEntries_written (es : List RoomListEntry) (writer : List Nat)
    (hvalid : ∀ e ∈ es, e.roomName.length = 32 ∧ e.roomId < 4294967296 ∧ e.hostId < 256 ∧
      e.playerCount < 256 ∧ e.maxPlayers < 256 ∧ e.state < 256) :
    (List.range es.length).map
        (fun i => roomListEntryAt (es.foldl writeRoomListEntry writer) (writer.length + 40 * i))
      = es.map (fun e => { e with roomName := truncateText e.roomName 32 }) := by
  induction es generalizing writer with
  | nil => rfl
  | cons e es ih =>
    obtain ⟨h1, h2, h3, h4, h5, h6⟩ := hvalid e (List.mem_cons_self _ _)
    rw [List.length_cons, List.range_succ_eq_map, List.map_cons, List.map_map, List.map_cons,
      List.foldl_cons]
    refine congrArg₂ List.cons ?_ ?_
    · obtain ⟨rest, hrest⟩ := foldl_writeRoomListEntry_append es (writeRoomListEntry writer e)
      rw [hrest, writeRoomListEntry_eq, roomListEntryAt_window, Nat.mul_zero, Nat.add_zero,
        List.append_assoc, bytesAt_append_right_of_le _ _ _ _ (le_refl _), Nat.sub_self,
        bytesAt_append_left _ _ _ _ (by rw [writeRoomListEntry_length]),
        ← writeRoomListEntry_length e, bytesAt_self]
      exact roomListEntryAt_written e h1 h2 h3 h4 h5 h6
    · have hih := ih (writeRoomListEntry writer e)
        (fun x hx => hvalid x (List.mem_cons_of_mem _ hx))
      rw [← hih]
      apply List.map_congr_left
      intro i _
      simp only [Function.comp, Nat.succ_eq_add_one]
      congr 1
      rw [writeRoomListEntry_eq, List.length_append, writeRoomListEntry_length]
      omega

theorem deserializeRoomListResponse_payload (list : RoomListResponse)
    (hcount : list.roomCount < 256) (hrooms : min list.roomCount 16 ≤ list.rooms.length)
    (hvalid : ∀ e ∈ list.rooms, e.roomName.length = 32 ∧ e.roomId < 4294967296 ∧
      e.hostId < 256 ∧ e.playerCount < 256 ∧ e.maxPlayers < 256 ∧ e.state < 256) :
    (deserializeRoomListResponse (payloadRoomListResponse list)
        (payloadRoomListResponse list).length).1 =
      some { roomCount := list.roomCount,
             rooms := (list.rooms.take (min list.roomCount 16)).map
               (fun e => { e with roomName := truncateText e.roomName 32 }) } := by
  have hmod : list.roomCount % 256 = list.roomCount := Nat.mod_eq_of_lt hcount
  have hlen : (list.rooms.take (min list.roomCount 16)).length = min list.roomCount 16 := by
    rw [List.length_take]
    exact min_eq_left hrooms
  have hpay : payloadRoomListResponse list =
      (list.rooms.take (min list.roomCount 16)).foldl writeRoomListEntry [list.roomCount] := by
    simp only [payloadRoomListResponse, writeU8, hmod, List.nil_append]
  have hfirst : (payloadRoomListResponse list).getD 0 0 = list.roomCount := by
    obtain ⟨rest, hrest⟩ := foldl_writeRoomListEntry_append
      (list.rooms.take (min list.roomCount 16)) [list.roomCount]
    rw [hpay, hrest]
    rfl
  have hsize : (payloadRoomListResponse list).length = 1 + 40 * min list.roomCount 16 := by
    rw [hpay, foldl_writeRoomListEntry_length, hlen]
    rfl
  rw [deserializeRoomListResponse_eq, hfirst, hsize, if_pos (le_refl _)]
  have hw := roomListEntries_written (list.rooms.take (min list.roomCount 16)) [list.roomCount]
    (fun e he => hvalid e (List.mem_of_mem_take he))
  rw [hlen] at hw
  rw [hpay]
  simp only [List.length_singleton] at hw
  rw [hw]

/-- C9: whenever `deserializeCreateRoom`, `deserializeRoomCreated`,
`deserializeRoomJoined`, `deserializeRoomError` or
`deserializeRoomListResponse` accepts a payload, every text buffer it decoded
(`roomName[32]`, `message[64]`) has its full length, holds 0 at its last
index and, before that, exactly the payload bytes of its fixed field.  The
room list decoder accepts exactly the payloads that hold the count byte and
`min(count, 16)` entries of 40 bytes, and returns that many entries, entry `j`
with the name field at `1 + 40 * j + 4`.  Hence a serialized buffer comes back
with only its last byte forced to 0, for each of the five messages: a text of
at most 31 (63) characters, whose buffer already ends in 0, round-trips
unchanged, and a longer one loses its last byte. -/
theorem decoded_text_buffers_terminated :
    (∀ (payload : List Nat) (size : Nat) (out : CreateRoom),
      (deserializeCreateRoom payload size).1 = some out →
        TextFieldDecoded out.roomName payload 0 32) ∧
    (∀ (payload : List Nat) (size : Nat) (out : RoomCreated),
      (deserializeRoomCreated payload size).1 = some out →
        TextFieldDecoded out.roomName payload 4 32) ∧
    (∀ (payload : List Nat) (size : Nat) (out : RoomJoined),
      (deserializeRoomJoined payload size).1 = some out →
        TextFieldDecoded out.roomName payload 4 32) ∧
    (∀ (payload : List Nat) (size : Nat) (out : RoomError),
      (deserializeRoomError payload size).1 = some out →
        TextFieldDecoded out.message payload 1 64) ∧
    (∀ (payload : List Nat) (size : Nat) (out : RoomListResponse),
      (deserializeRoomListResponse payload size).1 = some out →
        out.roomCount = payload.getD 0 0 ∧ out.rooms.length = min out.roomCount 16 ∧
        1 + 40 * out.rooms.length ≤ size ∧
        ∀ j : Nat, j < out.rooms.length →
          ∃ e : RoomListEntry, out.rooms[j]? = some e ∧
            TextFieldDecoded e.roomName payload (1 + 40 * j + 4) 32) ∧
    (∀ m : CreateRoom, m.roomName.length = 32 →
      (deserializeCreateRoom (payloadCreateRoom m) (payloadCreateRoom m).length).1 =
        some { m with roomName := truncateText m.roomName 32 }) ∧
    (∀ m : RoomCreated, m.roomName.length = 32 → m.roomId < 2 ^ 32 → m.hostId < 256 →
      m.playerId < 256 →
      (deserializeRoomCreated (payloadRoomCreated m) (payloadRoomCreated m).length).1 =
        some { m with roomName := truncateText m.roomName 32 }) ∧
    (∀ m : RoomJoined, m.roomName.length = 32 → m.roomId < 2 ^ 32 → m.hostId < 256 →
      m.playerCount < 256 → m.playerId < 256 →
      (deserializeRoomJoined (payloadRoomJoined m) (payloadRoomJoined m).length).1 =
        some { m with roomName := truncateText m.roomName 32 }) ∧
    (∀ m : RoomError, m.message.length = 64 → m.errorCode < 256 →
      (deserializeRoomError (payloadRoomError m) (payloadRoomError m).length).1 =
        some { m with message := truncateText m.message 64 }) ∧
    (∀ (buffer : List Nat) (n : Nat), buffer[n - 1]? = some 0 →
      truncateText buffer n = buffer) ∧
    (∀ (buffer : List Nat) (n : Nat), 1 ≤ n → buffer.length = n →
      (truncateText buffer n)[n - 1]? = some 0 ∧
      ∀ i : Nat, i ≠ n - 1 → (truncateText buffer n)[i]? = buffer[i]?) ∧
    (∀ (payload : List Nat) (size : Nat), 1 + 40 * min (payload.getD 0 0) 16 ≤ size →
      ∃ out : RoomListResponse, (deserializeRoomListResponse payload size).1 = some out) ∧
    (∀ list : RoomListResponse, list.roomCount < 256 →
      min list.roomCount 16 ≤ list.rooms.length →
      (∀ e ∈ list.rooms, e.roomName.length = 32 ∧ e.roomId < 2 ^ 32 ∧ e.hostId < 256 ∧
        e.playerCount < 256 ∧ e.maxPlayers < 256 ∧ e.state < 256) →
      (deserializeRoomListResponse (payloadRoomListResponse list)
          (payloadRoomListResponse list).length).1 =
        some { roomCount := list.roomCount,
               rooms := (list.rooms.take (min list.roomCount 16)).map
                 (fun e => { e with roomName := truncateText e.roomName 32 }) }) := by
  have h32 : (2 : Nat) ^ 32 = 4294967296 := by norm_num
  refine ⟨?_, ?_, ?_, ?_, ?_, ?_, ?_, ?_, ?_, ?_, ?_, ?_, ?_⟩
  · intro payload size out h
    rw [deserializeCreateRoom_some payload size out h]
    exact textFieldDecoded_set payload 0 32 (by omega)
  · intro payload size out h
    rw [deserializeRoomCreated_some payload size out h]
    exact textFieldDecoded_set payload 4 32 (by omega)
  · intro payload size out h
    rw [deserializeRoomJoined_some payload size out h]
    exact textFieldDecoded_set payload 4 32 (by omega)
  · intro payload size out h
    rw [deserializeRoomError_some payload size out h]
    exact textFieldDecoded_set payload 1 64 (by omega)
  · intro payload size out h
    rw [deserializeRoomListResponse_eq] at h
    by_cases hc : 1 + 40 * min (payload.getD 0 0) 16 ≤ size
    · rw [if_pos hc] at h
      cases h
      refine ⟨rfl, by simp, by simpa using hc, ?_⟩
      intro j hj
      have hj2 : j < min (payload.getD 0 0) 16 := by simpa using hj
      refine ⟨roomListEntryAt payload (1 + 40 * j), ?_, ?_⟩
      · rw [List.getElem?_map, List.getElem?_range hj2]
        rfl
      · exact textFieldDecoded_set payload _ 32 (by omega)
    · rw [if_neg hc] at h
      cases h
  · intro m hname
    exact deserializeCreateRoom_payload m hname
  · intro m hname hid hhost hplayer
    exact deserializeRoomCreated_payload m hname (by omega) hhost hplayer
  · intro m hname hid hhost hcount hplayer
    exact deserializeRoomJoined_payload m hname (by omega) hhost hcount hplayer
  · intro m hmsg hcode
    exact deserializeRoomError_payload m hmsg hcode
  · intro buffer n h
    exact truncateText_of_last_zero buffer n h
  · intro buffer n hn hl
    unfold truncateText
    refine ⟨?_, ?_⟩
    · rw [List.getElem?_set_self (by omega)]
    · intro i hi
      rw [List.getElem?_set_ne (fun e => hi e.symm)]
  · intro payload size hc
    rw [deserializeRoomListResponse_eq, if_pos hc]
    exact ⟨_, rfl⟩
  · intro list hcount hrooms hvalid
    exact deserializeRoomListResponse_payload list hcount hrooms
      (fun e he => by
        obtain ⟨h1, h2, h3⟩ := hvalid e he
        exact ⟨h1, by omega, h3⟩)

/-- C9, witness: the name "Room" round-trips unchanged through CreateRoom; a
name of 32 characters comes back with its last byte replaced by 0; the
buffer decoded from that payload is filled from `payload[0 .. 32)`; and the
room list with these two names comes back with its two entries, the second
name cut in the same way. -/
theorem decoded_text_buffers_terminated_witness :
    (deserializeCreateRoom (payloadCreateRoom { roomName := exampleRoomName })
        (payloadCreateRoom { roomName := exampleRoomName }).length).1 =
      some { roomName := truncateText exampleRoomName 32 } ∧
    truncateText exampleRoomName 32 = exampleRoomName ∧
    (deserializeCreateRoom (payloadCreateRoom { roomName := exampleLongName })
        (payloadCreateRoom { roomName := exampleLongName }).length).1 =
      some { roomName := truncateText exampleLongName 32 } ∧
    TextFieldDecoded (truncateText exampleLongName 32) exampleLongName 0 32 ∧
    (deserializeRoomListResponse (payloadRoomListResponse exampleRoomList)
        (payloadRoomListResponse exampleRoomList).length).1 =
      some { roomCount := exampleRoomList.roomCount,
             rooms := (exampleRoomList.rooms.take (min exampleRoomList.roomCount 16)).map
               (fun e => { e with roomName := truncateText e.roomName 32 }) } ∧
    ((exampleRoomList.rooms.take (min exampleRoomList.roomCount 16)).map
        (fun e => truncateText e.roomName 32)) =
      [exampleRoomName, truncateText exampleLongName 32] :=
  ⟨decoded_text_buffers_terminated.2.2.2.2.2.1 { roomName := exampleRoomName } (by decide),
   decoded_text_buffers_terminated.2.2.2.2.2.2.2.2.2.1 exampleRoomName 32 (by decide),
   decoded_text_buffers_terminated.2.2.2.2.2.1 { roomName := exampleLongName } (by decide),
   decoded_text_buffers_terminated.1 exampleLongName 32
     { roomName := truncateText exampleLongName 32 } (by decide),
   decoded_text_buffers_terminated.2.2.2.2.2.2.2.2.2.2.2.2 exampleRoomList (by decide)
     (by decide) (by decide),
   by decide⟩

end net

end rtype

namespace rtype

namespace net

open BinaryReader

/-! ### Round trips of the kinds without text fields -/

theorem deserializePlayerInput_payload (s : PlayerInput) (size : Nat) (hsize : 7 ≤ size)
    (hplayer : s.player < 256) :
    (deserializePlayerInput (payloadPlayerInput s) size).1 = some s := by
  obtain ⟨aplayer, aup, adown, aleft, aright, afire, aswapWeapon⟩ := s
  simp only at hplayer
  simp only [deserializePlayerInput, Decoder.run, readU8,
    readU16, readU32, readF32, Decoder.bind_eq,
    Decoder.pure_eq, Decoder.bind_apply, Decoder.pure_apply, read_apply,
    Decoder.continueWith_ite, Decoder.continueWith_some, Decoder.continueWith_none]
  simp only [Nat.zero_add, Nat.reduceAdd]
  split_ifs
  all_goals try omega
  simp only [payloadPlayerInput, writeU8, writeU16, writeU32, writeF32, List.nil_append,
    List.cons_append, bytesAt, ntohs, ntohl, List.getD_cons_zero, List.getD_cons_succ, Nat.reduceAdd,
    boolByte_ne_zero, Option.some.injEq, PlayerInput.mk.injEq, true_and, and_true]
  all_goals show (_ : Nat) = (_ : Nat)
  all_goals omega

theorem deserializeMonsterSpawn_payload (s : MonsterSpawn) (size : Nat) (hsize : 13 ≤ size)
    (hid : s.id < 4294967296) (hx : s.x < 4294967296) (hy : s.y < 4294967296) (hmonsterType : s.monsterType < 256) :
    (deserializeMonsterSpawn (payloadMonsterSpawn s) size).1 = some s := by
  obtain ⟨aid, ax, ay, amonsterType⟩ := s
  simp only at hid hx hy hmonsterType
  simp only [deserializeMonsterSpawn, Decoder.run, readU8,
    readU16, readU32, readF32, Decoder.bind_eq,
    Decoder.pure_eq, Decoder.bind_apply, Decoder.pure_apply, read_apply,
    Decoder.continueWith_ite, Decoder.continueWith_some, Decoder.continueWith_none]
  simp only [Nat.zero_add, Nat.reduceAdd]
  split_ifs
  all_goals try omega
  simp only [payloadMonsterSpawn, writeU8, writeU16, writeU32, writeF32, List.nil_append,
    List.cons_append, bytesAt, ntohs, ntohl, List.getD_cons_zero, List.getD_cons_succ, Nat.reduceAdd,
    boolByte_ne_zero, Option.some.injEq, MonsterSpawn.mk.injEq, true_and, and_true]
  repeat' apply And.intro
  all_goals show (_ : Nat) = (_ : Nat)
  all_goals omega

theorem deserializeMonsterState_payload (s : MonsterState) (size : Nat) (hsize : 22 ≤ size)
    (hid : s.id < 4294967296) (htype : s.type < 256) (hx : s.x < 4294967296) (hy : s.y < 4294967296) (hvx : s.vx < 4294967296) (hvy : s.vy < 4294967296) :
    (deserializeMonsterState (payloadMonsterState s) size).1 = some s := by
  obtain ⟨aid, atype, ax, ay, avx, avy, aalive⟩ := s
  simp only at hid htype hx hy hvx hvy
  simp only [deserializeMonsterState, Decoder.run, readU8,
    readU16, readU32, readF32, Decoder.bind_eq,
    Decoder.pure_eq, Decoder.bind_apply, Decoder.pure_apply, read_apply,
    Decoder.continueWith_ite, Decoder.continueWith_some, Decoder.continueWith_none]
  simp only [Nat.zero_add, Nat.reduceAdd]
  split_ifs
  all_goals try omega
  simp only [payloadMonsterState, writeU8, writeU16, writeU32, writeF32, List.nil_append,
    List.cons_append, bytesAt, ntohs, ntohl, List.getD_cons_zero, List.getD_cons_succ, Nat.reduceAdd,
    boolByte_ne_zero, Option.some.injEq, MonsterState.mk.injEq, true_and, and_true]
  repeat' apply And.intro
  all_goals show (_ : Nat) = (_ : Nat)
  all_goals omega

theorem deserializeMonsterDeath_payload (s : MonsterDeath) (size : Nat) (hsize : 5 ≤ size)
    (hid : s.id < 4294967296) (hkiller : s.killer < 256) :
    (deserializeMonsterDeath (payloadMonsterDeath s) size).1 = some s := by
  obtain ⟨aid, akiller⟩ := s
  simp only at hid hkiller
  simp only [deserializeMonsterDeath, Decoder.run, readU8,
    readU16, readU32, readF32, Decoder.bind_eq,
    Decoder.pure_eq, Decoder.bind_apply, Decoder.pure_apply, read_apply,
    Decoder.continueWith_ite, Decoder.continueWith_some, Decoder.continueWith_none]
  simp only [Nat.zero_add, Nat.reduceAdd]
  split_ifs
  all_goals try omega
  simp only [payloadMonsterDeath, writeU8, writeU16, writeU32, writeF32, List.nil_append,
    List.cons_append, bytesAt, ntohs, ntohl, List.getD_cons_zero, List.getD_cons_succ, Nat.reduceAdd,
    boolByte_ne_zero, Option.some.injEq, MonsterDeath.mk.injEq, true_and, and_true]
  repeat' apply And.intro
  all_goals show (_ : Nat) = (_ : Nat)
  all_goals omega

theorem deserializeShieldSpawn_payload (s : ShieldSpawn) (size : Nat) (hsize : 13 ≤ size)
    (hid : s.id < 4294967296) (hx : s.x < 4294967296) (hy : s.y < 4294967296) (hshieldType : s.shieldType < 256) :
    (deserializeShieldSpawn (payloadShieldSpawn s) size).1 = some s := by
  obtain ⟨aid, ax, ay, ashieldType⟩ := s
  simp only at hid hx hy hshieldType
  simp only [deserializeShieldSpawn, Decoder.run, readU8,
    readU16, readU32, readF32, Decoder.bind_eq,
    Decoder.pure_eq, Decoder.bind_apply, Decoder.pure_apply, read_apply,
    Decoder.continueWith_ite, Decoder.continueWith_some, Decoder.continueWith_none]
  simp only [Nat.zero_add, Nat.reduceAdd]
  split_ifs
  all_goals try omega
  simp only [payloadShieldSpawn, writeU8, writeU16, writeU32, writeF32, List.nil_append,
    List.cons_append, bytesAt, ntohs, ntohl, List.getD_cons_zero, List.getD_cons_succ, Nat.reduceAdd,
    boolByte_ne_zero, Option.some.injEq, ShieldSpawn.mk.injEq, true_and, and_true]
  repeat' apply And.intro
  all_goals show (_ : Nat) = (_ : Nat)
  all_goals omega

theorem deserializeShieldState_payload (s : ShieldState) (size : Nat) (hsize : 22 ≤ size)
    (hid : s.id < 4294967296) (htype : s.type < 256) (hx : s.x < 4294967296) (hy : s.y < 4294967296) (hvx : s.vx < 4294967296) (hvy : s.vy < 4294967296) :
    (deserializeShieldState (payloadShieldState s) size).1 = some s := by
  obtain ⟨aid, atype, ax, ay, avx, avy, aalive⟩ := s
  simp only at hid htype hx hy hvx hvy
  simp only [deserializeShieldState, Decoder.run, readU8,
    readU16, readU32, readF32, Decoder.bind_eq,
    Decoder.pure_eq, Decoder.bind_apply, Decoder.pure_apply, read_apply,
    Decoder.continueWith_ite, Decoder.continueWith_some, Decoder.continueWith_none]
  simp only [Nat.zero_add, Nat.reduceAdd]
  split_ifs
  all_goals try omega
  simp only [payloadShieldState, writeU8, writeU16, writeU32, writeF32, List.nil_append,
    List.cons_append, bytesAt, ntohs, ntohl, List.getD_cons_zero, List.getD_cons_succ, Nat.reduceAdd,
    boolByte_ne_zero, Option.some.injEq, ShieldState.mk.injEq, true_and, and_true]
  repeat' apply And.intro
  all_goals show (_ : Nat) = (_ : Nat)
  all_goals omega

theorem deserializeShieldDeath_payload (s : ShieldDeath) (size : Nat) (hsize : 4 ≤ size)
    (hid : s.id < 4294967296) :
    (deserializeShieldDeath (payloadShieldDeath s) size).1 = some s := by
  obtain ⟨aid⟩ := s
  simp only at hid
  simp only [deserializeShieldDeath, Decoder.run, readU8,
    readU16, readU32, readF32, Decoder.bind_eq,
    Decoder.pure_eq, Decoder.bind_apply, Decoder.pure_apply, read_apply,
    Decoder.continueWith_ite, Decoder.continueWith_some, Decoder.continueWith_none]
  simp only [Nat.zero_add, Nat.reduceAdd]
  split_ifs
  all_goals try omega
  simp only [payloadShieldDeath, writeU8, writeU16, writeU32, writeF32, List.nil_append,
    List.cons_append, bytesAt, ntohs, ntohl, List.getD_cons_zero, List.getD_cons_succ, Nat.reduceAdd,
    boolByte_ne_zero, Option.some.injEq, ShieldDeath.mk.injEq, true_and, and_true]
  all_goals show (_ : Nat) = (_ : Nat)
  all_goals omega

theorem deserializePlayerDeath_payload (s : PlayerDeath) (size : Nat) (hsize : 1 ≤ size)
    (hplayer : s.player < 256) :
    (deserializePlayerDeath (payloadPlayerDeath s) size).1 = some s := by
  obtain ⟨aplayer⟩ := s
  simp only at hplayer
  simp only [deserializePlayerDeath, Decoder.run, readU8,
    readU16, readU32, readF32, Decoder.bind_eq,
    Decoder.pure_eq, Decoder.bind_apply, Decoder.pure_apply, read_apply,
    Decoder.continueWith_ite, Decoder.continueWith_some, Decoder.continueWith_none]
  simp only [Nat.zero_add, Nat.reduceAdd]
  split_ifs
  all_goals try omega
  simp only [payloadPlayerDeath, writeU8, writeU16, writeU32, writeF32, List.nil_append,
    List.cons_append, bytesAt, ntohs, ntohl, List.getD_cons_zero, List.getD_cons_succ, Nat.reduceAdd,
    boolByte_ne_zero, Option.some.injEq, PlayerDeath.mk.injEq, true_and, and_true]
  all_goals show (_ : Nat) = (_ : Nat)
  all_goals omega

theorem deserializeBulletFired_payload (s : BulletFired) (size : Nat) (hsize : 22 ≤ size)
    (hid : s.id < 4294967296) (howner : s.owner < 256) (hx : s.x < 4294967296) (hy : s.y < 4294967296) (hvx : s.vx < 4294967296) (hvy : s.vy < 4294967296) :
    (deserializeBulletFired (payloadBulletFired s) size).1 = some s := by
  obtain ⟨aid, aowner, ax, ay, avx, avy, afromPlayer⟩ := s
  simp only at hid howner hx hy hvx hvy
  simp only [deserializeBulletFired, Decoder.run, readU8,
    readU16, readU32, readF32, Decoder.bind_eq,
    Decoder.pure_eq, Decoder.bind_apply, Decoder.pure_apply, read_apply,
    Decoder.continueWith_ite, Decoder.continueWith_some, Decoder.continueWith_none]
  simp only [Nat.zero_add, Nat.reduceAdd]
  split_ifs
  all_goals try omega
  simp only [payloadBulletFired, writeU8, writeU16, writeU32, writeF32, List.nil_append,
    List.cons_append, bytesAt, ntohs, ntohl, List.getD_cons_zero, List.getD_cons_succ, Nat.reduceAdd,
    boolByte_ne_zero, Option.some.injEq, BulletFired.mk.injEq, true_and, and_true]
  repeat' apply And.intro
  all_goals show (_ : Nat) = (_ : Nat)
  all_goals omega

theorem deserializeBulletState_payload (s : BulletState) (size : Nat) (hsize : 16 ≤ size)
    (hid : s.id < 4294967296) (hx : s.x < 4294967296) (hy : s.y < 4294967296) (hweaponType : s.weaponType < 256) :
    (deserializeBulletState (payloadBulletState s) size).1 = some s := by
  obtain ⟨aid, ax, ay, aweaponType, afromPlayer, aactive⟩ := s
  simp only at hid hx hy hweaponType
  simp only [deserializeBulletState, Decoder.run, readU8,
    readU16, readU32, readF32, Decoder.bind_eq,
    Decoder.pure_eq, Decoder.bind_apply, Decoder.pure_apply, read_apply,
    Decoder.continueWith_ite, Decoder.continueWith_some, Decoder.continueWith_none]
  simp only [Nat.zero_add, Nat.reduceAdd]
  split_ifs
  all_goals try omega
  simp only [payloadBulletState, writeU8, writeU16, writeU32, writeF32, List.nil_append,
    List.cons_append, bytesAt, ntohs, ntohl, List.getD_cons_zero, List.getD_cons_succ, Nat.reduceAdd,
    boolByte_ne_zero, Option.some.injEq, BulletState.mk.injEq, true_and, and_true]
  repeat' apply And.intro
  all_goals show (_ : Nat) = (_ : Nat)
  all_goals omega

theorem deserializeDisconnect_payload (s : DisconnectNotice) (size : Nat) (hsize : 1 ≤ size)
    (hplayer : s.player < 256) :
    (deserializeDisconnect (payloadDisconnect s) size).1 = some s := by
  obtain ⟨aplayer⟩ := s
  simp only at hplayer
  simp only [deserializeDisconnect, Decoder.run, readU8,
    readU16, readU32, readF32, Decoder.bind_eq,
    Decoder.pure_eq, Decoder.bind_apply, Decoder.pure_apply, read_apply,
    Decoder.continueWith_ite, Decoder.continueWith_some, Decoder.continueWith_none]
  simp only [Nat.zero_add, Nat.reduceAdd]
  split_ifs
  all_goals try omega
  simp only [payloadDisconnect, writeU8, writeU16, writeU32, writeF32, List.nil_append,
    List.cons_append, bytesAt, ntohs, ntohl, List.getD_cons_zero, List.getD_cons_succ, Nat.reduceAdd,
    boolByte_ne_zero, Option.some.injEq, DisconnectNotice.mk.injEq, true_and, and_true]
  all_goals show (_ : Nat) = (_ : Nat)
  all_goals omega

theorem deserializePlayerAssignment_payload (s : PlayerAssignment) (size : Nat) (hsize : 1 ≤ size)
    (hplayerId : s.playerId < 256) :
    (deserializePlayerAssignment (payloadPlayerAssignment s) size).1 = some s := by
  obtain ⟨aplayerId⟩ := s
  simp only at hplayerId
  simp only [deserializePlayerAssignment, Decoder.run, readU8,
    readU16, readU32, readF32, Decoder.bind_eq,
    Decoder.pure_eq, Decoder.bind_apply, Decoder.pure_apply, read_apply,
    Decoder.continueWith_ite, Decoder.continueWith_some, Decoder.continueWith_none]
  simp only [Nat.zero_add, Nat.reduceAdd]
  split_ifs
  all_goals try omega
  simp only [payloadPlayerAssignment, writeU8, writeU16, writeU32, writeF32, List.nil_append,
    List.cons_append, bytesAt, ntohs, ntohl, List.getD_cons_zero, List.getD_cons_succ, Nat.reduceAdd,
    boolByte_ne_zero, Option.some.injEq, PlayerAssignment.mk.injEq, true_and, and_true]
  all_goals show (_ : Nat) = (_ : Nat)
  all_goals omega

theorem deserializePowerUpState_payload (s : PowerUpState) (size : Nat) (hsize : 15 ≤ size)
    (hid : s.id < 4294967296) (htype : s.type < 256) (hvalue : s.value < 256) (hx : s.x < 4294967296) (hy : s.y < 4294967296) :
    (deserializePowerUpState (payloadPowerUpState s) size).1 = some s := by
  obtain ⟨aid, atype, avalue, ax, ay, aactive⟩ := s
  simp only at hid htype hvalue hx hy
  simp only [deserializePowerUpState, Decoder.run, readU8,
    readU16, readU32, readF32, Decoder.bind_eq,
    Decoder.pure_eq, Decoder.bind_apply, Decoder.pure_apply, read_apply,
    Decoder.continueWith_ite, Decoder.continueWith_some, Decoder.continueWith_none]
  simp only [Nat.zero_add, Nat.reduceAdd]
  split_ifs
  all_goals try omega
  simp only [payloadPowerUpState, writeU8, writeU16, writeU32, writeF32, List.nil_append,
    List.cons_append, bytesAt, ntohs, ntohl, List.getD_cons_zero, List.getD_cons_succ, Nat.reduceAdd,
    boolByte_ne_zero, Option.some.injEq, PowerUpState.mk.injEq, true_and, and_true]
  repeat' apply And.intro
  all_goals show (_ : Nat) = (_ : Nat)
  all_goals omega

theorem deserializeLevelBegin_payload (s : LevelBegin) (size : Nat) (hsize : 1 ≤ size)
    (hlevelNumber : s.levelNumber < 256) :
    (deserializeLevelBegin (payloadLevelBegin s) size).1 = some s := by
  obtain ⟨alevelNumber⟩ := s
  simp only at hlevelNumber
  simp only [deserializeLevelBegin, Decoder.run, readU8,
    readU16, readU32, readF32, Decoder.bind_eq,
    Decoder.pure_eq, Decoder.bind_apply, Decoder.pure_apply, read_apply,
    Decoder.continueWith_ite, Decoder.continueWith_some, Decoder.continueWith_none]
  simp only [Nat.zero_add, Nat.reduceAdd]
  split_ifs
  all_goals try omega
  simp only [payloadLevelBegin, writeU8, writeU16, writeU32, writeF32, List.nil_append,
    List.cons_append, bytesAt, ntohs, ntohl, List.getD_cons_zero, List.getD_cons_succ, Nat.reduceAdd,
    boolByte_ne_zero, Option.some.injEq, LevelBegin.mk.injEq, true_and, and_true]
  all_goals show (_ : Nat) = (_ : Nat)
  all_goals omega

theorem deserializeJoinRoom_payload (s : JoinRoom) (size : Nat) (hsize : 4 ≤ size)
    (hroomId : s.roomId < 4294967296) :
    (deserializeJoinRoom (payloadJoinRoom s) size).1 = some s := by
  obtain ⟨aroomId⟩ := s
  simp only at hroomId
  simp only [deserializeJoinRoom, Decoder.run, readU8,
    readU16, readU32, readF32, Decoder.bind_eq,
    Decoder.pure_eq, Decoder.bind_apply, Decoder.pure_apply, read_apply,
    Decoder.continueWith_ite, Decoder.continueWith_some, Decoder.continueWith_none]
  simp only [Nat.zero_add, Nat.reduceAdd]
  split_ifs
  all_goals try omega
  simp only [payloadJoinRoom, writeU8, writeU16, writeU32, writeF32, List.nil_append,
    List.cons_append, bytesAt, ntohs, ntohl, List.getD_cons_zero, List.getD_cons_succ, Nat.reduceAdd,
    boolByte_ne_zero, Option.some.injEq, JoinRoom.mk.injEq, true_and, and_true]
  all_goals show (_ : Nat) = (_ : Nat)
  all_goals omega

theorem deserializeLeaveRoom_payload (s : LeaveRoom) (size : Nat) (hsize : 4 ≤ size)
    (hroomId : s.roomId < 4294967296) :
    (deserializeLeaveRoom (payloadLeaveRoom s) size).1 = some s := by
  obtain ⟨aroomId⟩ := s
  simp only at hroomId
  simp only [deserializeLeaveRoom, Decoder.run, readU8,
    readU16, readU32, readF32, Decoder.bind_eq,
    Decoder.pure_eq, Decoder.bind_apply, Decoder.pure_apply, read_apply,
    Decoder.continueWith_ite, Decoder.continueWith_some, Decoder.continueWith_none]
  simp only [Nat.zero_add, Nat.reduceAdd]
  split_ifs
  all_goals try omega
  simp only [payloadLeaveRoom, writeU8, writeU16, writeU32, writeF32, List.nil_append,
    List.cons_append, bytesAt, ntohs, ntohl, List.getD_cons_zero, List.getD_cons_succ, Nat.reduceAdd,
    boolByte_ne_zero, Option.some.injEq, LeaveRoom.mk.injEq, true_and, and_true]
  all_goals show (_ : Nat) = (_ : Nat)
  all_goals omega

theorem deserializeStartGame_payload (s : StartGame) (size : Nat) (hsize : 4 ≤ size)
    (hroomId : s.roomId < 4294967296) :
    (deserializeStartGame (payloadStartGame s) size).1 = some s := by
  obtain ⟨aroomId⟩ := s
  simp only at hroomId
  simp only [deserializeStartGame, Decoder.run, readU8,
    readU16, readU32, readF32, Decoder.bind_eq,
    Decoder.pure_eq, Decoder.bind_apply, Decoder.pure_apply, read_apply,
    Decoder.continueWith_ite, Decoder.continueWith_some, Decoder.continueWith_none]
  simp only [Nat.zero_add, Nat.reduceAdd]
  split_ifs
  all_goals try omega
  simp only [payloadStartGame, writeU8, writeU16, writeU32, writeF32, List.nil_append,
    List.cons_append, bytesAt, ntohs, ntohl, List.getD_cons_zero, List.getD_cons_succ, Nat.reduceAdd,
    boolByte_ne_zero, Option.some.injEq, StartGame.mk.injEq, true_and, and_true]
  all_goals show (_ : Nat) = (_ : Nat)
  all_goals omega

theorem deserializeRoomLeft_payload (s : RoomLeft) (size : Nat) (hsize : 4 ≤ size)
    (hroomId : s.roomId < 4294967296) :
    (deserializeRoomLeft (payloadRoomLeft s) size).1 = some s := by
  obtain ⟨aroomId⟩ := s
  simp only at hroomId
  simp only [deserializeRoomLeft, Decoder.run, readU8,
    readU16, readU32, readF32, Decoder.bind_eq,
    Decoder.pure_eq, Decoder.bind_apply, Decoder.pure_apply, read_apply,
    Decoder.continueWith_ite, Decoder.continueWith_some, Decoder.continueWith_none]
  simp only [Nat.zero_add, Nat.reduceAdd]
  split_ifs
  all_goals try omega
  simp only [payloadRoomLeft, writeU8, writeU16, writeU32, writeF32, List.nil_append,
    List.cons_append, bytesAt, ntohs, ntohl, List.getD_cons_zero, List.getD_cons_succ, Nat.reduceAdd,
    boolByte_ne_zero, Option.some.injEq, RoomLeft.mk.injEq, true_and, and_true]
  all_goals show (_ : Nat) = (_ : Nat)
  all_goals omega

theorem deserializeGameStarted_payload (s : GameStarted) (size : Nat) (hsize : 4 ≤ size)
    (hroomId : s.roomId < 4294967296) :
    (deserializeGameStarted (payloadGameStarted s) size).1 = some s := by
  obtain ⟨aroomId⟩ := s
  simp only at hroomId
  simp only [deserializeGameStarted, Decoder.run, readU8,
    readU16, readU32, readF32, Decoder.bind_eq,
    Decoder.pure_eq, Decoder.bind_apply, Decoder.pure_apply, read_apply,
    Decoder.continueWith_ite, Decoder.continueWith_some, Decoder.continueWith_none]
  simp only [Nat.zero_add, Nat.reduceAdd]
  split_ifs
  all_goals try omega
  simp only [payloadGameStarted, writeU8, writeU16, writeU32, writeF32, List.nil_append,
    List.cons_append, bytesAt, ntohs, ntohl, List.getD_cons_zero, List.getD_cons_succ, Nat.reduceAdd,
    boolByte_ne_zero, Option.some.injEq, GameStarted.mk.injEq, true_and, and_true]
  all_goals show (_ : Nat) = (_ : Nat)
  all_goals omega

theorem deserializeAllPlayersDead_payload (s : AllPlayersDead) (size : Nat) (hsize : 4 ≤ size)
    (hroomId : s.roomId < 4294967296) :
    (deserializeAllPlayersDead (payloadAllPlayersDead s) size).1 = some s := by
  obtain ⟨aroomId⟩ := s
  simp only at hroomId
  simp only [deserializeAllPlayersDead, Decoder.run, readU8,
    readU16, readU32, readF32, Decoder.bind_eq,
    Decoder.pure_eq, Decoder.bind_apply, Decoder.pure_apply, read_apply,
    Decoder.continueWith_ite, Decoder.continueWith_some, Decoder.continueWith_none]
  simp only [Nat.zero_add, Nat.reduceAdd]
  split_ifs
  all_goals try omega
  simp only [payloadAllPlayersDead, writeU8, writeU16, writeU32, writeF32, List.nil_append,
    List.cons_append, bytesAt, ntohs, ntohl, List.getD_cons_zero, List.getD_cons_succ, Nat.reduceAdd,
    boolByte_ne_zero, Option.some.injEq, AllPlayersDead.mk.injEq, true_and, and_true]
  all_goals show (_ : Nat) = (_ : Nat)
  all_goals omega

theorem deserializeSpectatorMode_payload (s : SpectatorMode) (size : Nat) (hsize : 2 ≤ size)
    (hplayerId : s.playerId < 256) :
    (deserializeSpectatorMode (payloadSpectatorMode s) size).1 = some s := by
  obtain ⟨aplayerId, aenabled⟩ := s
  simp only at hplayerId
  simp only [deserializeSpectatorMode, Decoder.run, readU8,
    readU16, readU32, readF32, Decoder.bind_eq,
    Decoder.pure_eq, Decoder.bind_apply, Decoder.pure_apply, read_apply,
    Decoder.continueWith_ite, Decoder.continueWith_some, Decoder.continueWith_none]
  simp only [Nat.zero_add, Nat.reduceAdd]
  split_ifs
  all_goals try omega
  simp only [payloadSpectatorMode, writeU8, writeU16, writeU32, writeF32, List.nil_append,
    List.cons_append, bytesAt, ntohs, ntohl, List.getD_cons_zero, List.getD_cons_succ, Nat.reduceAdd,
    boolByte_ne_zero, Option.some.injEq, SpectatorMode.mk.injEq, true_and, and_true]
  all_goals show (_ : Nat) = (_ : Nat)
  all_goals omega

theorem deserializeHostChanged_payload (s : HostChanged) (size : Nat) (hsize : 5 ≤ size)
    (hroomId : s.roomId < 4294967296) (hnewHostId : s.newHostId < 256) :
    (deserializeHostChanged (payloadHostChanged s) size).1 = some s := by
  obtain ⟨aroomId, anewHostId⟩ := s
  simp only at hroomId hnewHostId
  simp only [deserializeHostChanged, Decoder.run, readU8,
    readU16, readU32, readF32, Decoder.bind_eq,
    Decoder.pure_eq, Decoder.bind_apply, Decoder.pure_apply, read_apply,
    Decoder.continueWith_ite, Decoder.continueWith_some, Decoder.continueWith_none]
  simp only [Nat.zero_add, Nat.reduceAdd]
  split_ifs
  all_goals try omega
  simp only [payloadHostChanged, writeU8, writeU16, writeU32, writeF32, List.nil_append,
    List.cons_append, bytesAt, ntohs, ntohl, List.getD_cons_zero, List.getD_cons_succ, Nat.reduceAdd,
    boolByte_ne_zero, Option.some.injEq, HostChanged.mk.injEq, true_and, and_true]
  repeat' apply And.intro
  all_goals show (_ : Nat) = (_ : Nat)
  all_goals omega

/-- C27: for every message kind whose payload has only numeric and boolean
fields, every message `m` of that kind whose numeric fields are in the range
of their C++ types, and every 32-bit `seq` and `ts`: `deserializePayload` on
`serializeX(m, seq, ts)` succeeds with a header holding the type code of the
kind, the length of the payload, `seq` and `ts`, together with the payload;
and `deserializeX` on that payload succeeds and returns `m`. -/
theorem numeric_kinds_roundtrip (k : FixedKind) (m : k.Message) (seq ts : Nat)
    (hk : k.numericOnly = true) (hm : k.numericFieldsFit m = true)
    (hseq : seq < 4294967296) (hts : ts < 4294967296) :
    (deserializePayload (k.serialize m seq ts) (k.serialize m seq ts).length).1
      = some ({ type := k.typeCode, payloadSize := (k.payload m).length, sequence := seq,
                timestamp := ts }, k.payload m) ∧
    (k.deserialize (k.payload m) (k.payload m).length).1 = some m := by
  cases k
  · simp only [FixedKind.numericFieldsFit, Bool.and_eq_true, decide_eq_true_eq, and_assoc] at hm
    have h0 := hm
    have hlen := payloadPlayerInput_length m
    refine ⟨?_, ?_⟩
    · have hp := deserializePayload_serializePacket PacketType.PlayerInput seq ts (payloadPlayerInput m)
        (by rw [hlen]; decide)
      rw [Nat.mod_eq_of_lt hseq, Nat.mod_eq_of_lt hts] at hp
      exact hp
    · exact deserializePlayerInput_payload m _ (Nat.le_of_eq hlen.symm) h0
  · simp only [FixedKind.numericFieldsFit, Bool.and_eq_true, decide_eq_true_eq, and_assoc] at hm
    obtain ⟨h0, h1, h2, h3, h4, h5⟩ := hm
    have hlen := payloadPlayerState_length m
    refine ⟨?_, ?_⟩
    · have hp := deserializePayload_serializePacket PacketType.PlayerState seq ts (payloadPlayerState m)
        (by rw [hlen]; decide)
      rw [Nat.mod_eq_of_lt hseq, Nat.mod_eq_of_lt hts] at hp
      exact hp
    · exact deserializePlayerState_payload m _ (Nat.le_of_eq hlen.symm) h0 h1 h2 h3 h4 h5
  · simp only [FixedKind.numericFieldsFit, Bool.and_eq_true, decide_eq_true_eq, and_assoc] at hm
    obtain ⟨h0, h1, h2, h3⟩ := hm
    have hlen := payloadMonsterSpawn_length m
    refine ⟨?_, ?_⟩
    · have hp := deserializePayload_serializePacket PacketType.MonsterSpawn seq ts (payloadMonsterSpawn m)
        (by rw [hlen]; decide)
      rw [Nat.mod_eq_of_lt hseq, Nat.mod_eq_of_lt hts] at hp
      exact hp
    · exact deserializeMonsterSpawn_payload m _ (Nat.le_of_eq hlen.symm) h0 h1 h2 h3
  · simp only [FixedKind.numericFieldsFit, Bool.and_eq_true, decide_eq_true_eq, and_assoc] at hm
    obtain ⟨h0, h1, h2, h3, h4, h5⟩ := hm
    have hlen := payloadMonsterState_length m
    refine ⟨?_, ?_⟩
    · have hp := deserializePayload_serializePacket PacketType.MonsterState seq ts (payloadMonsterState m)
        (by rw [hlen]; decide)
      rw [Nat.mod_eq_of_lt hseq, Nat.mod_eq_of_lt hts] at hp
      exact hp
    · exact deserializeMonsterState_payload m _ (Nat.le_of_eq hlen.symm) h0 h1 h2 h3 h4 h5
  · simp only [FixedKind.numericFieldsFit, Bool.and_eq_true, decide_eq_true_eq, and_assoc] at hm
    obtain ⟨h0, h1⟩ := hm
    have hlen := payloadMonsterDeath_length m
    refine ⟨?_, ?_⟩
    · have hp := deserializePayload_serializePacket PacketType.MonsterDeath seq ts (payloadMonsterDeath m)
        (by rw [hlen]; decide)
      rw [Nat.mod_eq_of_lt hseq, Nat.mod_eq_of_lt hts] at hp
      exact hp
    · exact deserializeMonsterDeath_payload m _ (Nat.le_of_eq hlen.symm) h0 h1
  · simp only [FixedKind.numericFieldsFit, Bool.and_eq_true, decide_eq_true_eq, and_assoc] at hm
    obtain ⟨h0, h1, h2, h3⟩ := hm
    have hlen := payloadShieldSpawn_length m
    refine ⟨?_, ?_⟩
    · have hp := deserializePayload_serializePacket PacketType.ShieldSpawn seq ts (payloadShieldSpawn m)
        (by rw [hlen]; decide)
      rw [Nat.mod_eq_of_lt hseq, Nat.mod_eq_of_lt hts] at hp
      exact hp
    · exact deserializeShieldSpawn_payload m _ (Nat.le_of_eq hlen.symm) h0 h1 h2 h3
  · simp only [FixedKind.numericFieldsFit, Bool.and_eq_true, decide_eq_true_eq, and_assoc] at hm
    obtain ⟨h0, h1, h2, h3, h4, h5⟩ := hm
    have hlen := payloadShieldState_length m
    refine ⟨?_, ?_⟩
    · have hp := deserializePayload_serializePacket PacketType.ShieldState seq ts (payloadShieldState m)
        (by rw [hlen]; decide)
      rw [Nat.mod_eq_of_lt hseq, Nat.mod_eq_of_lt hts] at hp
      exact hp
    · exact deserializeShieldState_payload m _ (Nat.le_of_eq hlen.symm) h0 h1 h2 h3 h4 h5
  · simp only [FixedKind.numericFieldsFit, Bool.and_eq_true, decide_eq_true_eq, and_assoc] at hm
    have h0 := hm
    have hlen := payloadShieldDeath_length m
    refine ⟨?_, ?_⟩
    · have hp := deserializePayload_serializePacket PacketType.ShieldDeath seq ts (payloadShieldDeath m)
        (by rw [hlen]; decide)
      rw [Nat.mod_eq_of_lt hseq, Nat.mod_eq_of_lt hts] at hp
      exact hp
    · exact deserializeShieldDeath_payload m _ (Nat.le_of_eq hlen.symm) h0
  · simp only [FixedKind.numericFieldsFit, Bool.and_eq_true, decide_eq_true_eq, and_assoc] at hm
    have h0 := hm
    have hlen := payloadPlayerDeath_length m
    refine ⟨?_, ?_⟩
    · have hp := deserializePayload_serializePacket PacketType.PlayerDeath seq ts (payloadPlayerDeath m)
        (by rw [hlen]; decide)
      rw [Nat.mod_eq_of_lt hseq, Nat.mod_eq_of_lt hts] at hp
      exact hp
    · exact deserializePlayerDeath_payload m _ (Nat.le_of_eq hlen.symm) h0
  · simp only [FixedKind.numericFieldsFit, Bool.and_eq_true, decide_eq_true_eq, and_assoc] at hm
    obtain ⟨h0, h1, h2, h3, h4, h5⟩ := hm
    have hlen := payloadBulletFired_length m
    refine ⟨?_, ?_⟩
    · have hp := deserializePayload_serializePacket PacketType.BulletFired seq ts (payloadBulletFired m)
        (by rw [hlen]; decide)
      rw [Nat.mod_eq_of_lt hseq, Nat.mod_eq_of_lt hts] at hp
      exact hp
    · exact deserializeBulletFired_payload m _ (Nat.le_of_eq hlen.symm) h0 h1 h2 h3 h4 h5
  · simp only [FixedKind.numericFieldsFit, Bool.and_eq_true, decide_eq_true_eq, and_assoc] at hm
    obtain ⟨h0, h1, h2, h3⟩ := hm
    have hlen := payloadBulletState_length m
    refine ⟨?_, ?_⟩
    · have hp := deserializePayload_serializePacket PacketType.BulletState seq ts (payloadBulletState m)
        (by rw [hlen]; decide)
      rw [Nat.mod_eq_of_lt hseq, Nat.mod_eq_of_lt hts] at hp
      exact hp
    · exact deserializeBulletState_payload m _ (Nat.le_of_eq hlen.symm) h0 h1 h2 h3
  · simp only [FixedKind.numericFieldsFit, Bool.and_eq_true, decide_eq_true_eq, and_assoc] at hm
    have h0 := hm
    have hlen := payloadDisconnect_length m
    refine ⟨?_, ?_⟩
    · have hp := deserializePayload_serializePacket PacketType.Disconnect seq ts (payloadDisconnect m)
        (by rw [hlen]; decide)
      rw [Nat.mod_eq_of_lt hseq, Nat.mod_eq_of_lt hts] at hp
      exact hp
    · exact deserializeDisconnect_payload m _ (Nat.le_of_eq hlen.symm) h0
  · simp only [FixedKind.numericFieldsFit, Bool.and_eq_true, decide_eq_true_eq, and_assoc] at hm
    have h0 := hm
    have hlen := payloadPlayerAssignment_length m
    refine ⟨?_, ?_⟩
    · have hp := deserializePayload_serializePacket PacketType.PlayerAssignment seq ts (payloadPlayerAssignment m)
        (by rw [hlen]; decide)
      rw [Nat.mod_eq_of_lt hseq, Nat.mod_eq_of_lt hts] at hp
      exact hp
    · exact deserializePlayerAssignment_payload m _ (Nat.le_of_eq hlen.symm) h0
  · simp only [FixedKind.numericFieldsFit, Bool.and_eq_true, decide_eq_true_eq, and_assoc] at hm
    obtain ⟨h0, h1, h2, h3, h4⟩ := hm
    have hlen := payloadPowerUpState_length m
    refine ⟨?_, ?_⟩
    · have hp := deserializePayload_serializePacket PacketType.PowerUpState seq ts (payloadPowerUpState m)
        (by rw [hlen]; decide)
      rw [Nat.mod_eq_of_lt hseq, Nat.mod_eq_of_lt hts] at hp
      exact hp
    · exact deserializePowerUpState_payload m _ (Nat.le_of_eq hlen.symm) h0 h1 h2 h3 h4
  · simp only [FixedKind.numericFieldsFit, Bool.and_eq_true, decide_eq_true_eq, and_assoc] at hm
    have h0 := hm
    have hlen := payloadLevelBegin_length m
    refine ⟨?_, ?_⟩
    · have hp := deserializePayload_serializePacket PacketType.LevelBegin seq ts (payloadLevelBegin m)
        (by rw [hlen]; decide)
      rw [Nat.mod_eq_of_lt hseq, Nat.mod_eq_of_lt hts] at hp
      exact hp
    · exact deserializeLevelBegin_payload m _ (Nat.le_of_eq hlen.symm) h0
  · cases hk
  · simp only [FixedKind.numericFieldsFit, Bool.and_eq_true, decide_eq_true_eq, and_assoc] at hm
    have h0 := hm
    have hlen := payloadJoinRoom_length m
    refine ⟨?_, ?_⟩
    · have hp := deserializePayload_serializePacket PacketType.JoinRoom seq ts (payloadJoinRoom m)
        (by rw [hlen]; decide)
      rw [Nat.mod_eq_of_lt hseq, Nat.mod_eq_of_lt hts] at hp
      exact hp
    · exact deserializeJoinRoom_payload m _ (Nat.le_of_eq hlen.symm) h0
  · simp only [FixedKind.numericFieldsFit, Bool.and_eq_true, decide_eq_true_eq, and_assoc] at hm
    have h0 := hm
    have hlen := payloadLeaveRoom_length m
    refine ⟨?_, ?_⟩
    · have hp := deserializePayload_serializePacket PacketType.LeaveRoom seq ts (payloadLeaveRoom m)
        (by rw [hlen]; decide)
      rw [Nat.mod_eq_of_lt hseq, Nat.mod_eq_of_lt hts] at hp
      exact hp
    · exact deserializeLeaveRoom_payload m _ (Nat.le_of_eq hlen.symm) h0
  · simp only [FixedKind.numericFieldsFit, Bool.and_eq_true, decide_eq_true_eq, and_assoc] at hm
    have h0 := hm
    have hlen := payloadStartGame_length m
    refine ⟨?_, ?_⟩
    · have hp := deserializePayload_serializePacket PacketType.StartGame seq ts (payloadStartGame m)
        (by rw [hlen]; decide)
      rw [Nat.mod_eq_of_lt hseq, Nat.mod_eq_of_lt hts] at hp
      exact hp
    · exact deserializeStartGame_payload m _ (Nat.le_of_eq hlen.symm) h0
  · cases hk
  · cases hk
  · simp only [FixedKind.numericFieldsFit, Bool.and_eq_true, decide_eq_true_eq, and_assoc] at hm
    have h0 := hm
    have hlen := payloadRoomLeft_length m
    refine ⟨?_, ?_⟩
    · have hp := deserializePayload_serializePacket PacketType.RoomLeft seq ts (payloadRoomLeft m)
        (by rw [hlen]; decide)
      rw [Nat.mod_eq_of_lt hseq, Nat.mod_eq_of_lt hts] at hp
      exact hp
    · exact deserializeRoomLeft_payload m _ (Nat.le_of_eq hlen.symm) h0
  · simp only [FixedKind.numericFieldsFit, Bool.and_eq_true, decide_eq_true_eq, and_assoc] at hm
    have h0 := hm
    have hlen := payloadGameStarted_length m
    refine ⟨?_, ?_⟩
    · have hp := deserializePayload_serializePacket PacketType.GameStarted seq ts (payloadGameStarted m)
        (by rw [hlen]; decide)
      rw [Nat.mod_eq_of_lt hseq, Nat.mod_eq_of_lt hts] at hp
      exact hp
    · exact deserializeGameStarted_payload m _ (Nat.le_of_eq hlen.symm) h0
  · cases hk
  · simp only [FixedKind.numericFieldsFit, Bool.and_eq_true, decide_eq_true_eq, and_assoc] at hm
    have h0 := hm
    have hlen := payloadAllPlayersDead_length m
    refine ⟨?_, ?_⟩
    · have hp := deserializePayload_serializePacket PacketType.AllPlayersDead seq ts (payloadAllPlayersDead m)
        (by rw [hlen]; decide)
      rw [Nat.mod_eq_of_lt hseq, Nat.mod_eq_of_lt hts] at hp
      exact hp
    · exact deserializeAllPlayersDead_payload m _ (Nat.le_of_eq hlen.symm) h0
  · simp only [FixedKind.numericFieldsFit, Bool.and_eq_true, decide_eq_true_eq, and_assoc] at hm
    have h0 := hm
    have hlen := payloadSpectatorMode_length m
    refine ⟨?_, ?_⟩
    · have hp := deserializePayload_serializePacket PacketType.SpectatorMode seq ts (payloadSpectatorMode m)
        (by rw [hlen]; decide)
      rw [Nat.mod_eq_of_lt hseq, Nat.mod_eq_of_lt hts] at hp
      exact hp
    · exact deserializeSpectatorMode_payload m _ (Nat.le_of_eq hlen.symm) h0
  · simp only [FixedKind.numericFieldsFit, Bool.and_eq_true, decide_eq_true_eq, and_assoc] at hm
    obtain ⟨h0, h1⟩ := hm
    have hlen := payloadHostChanged_length m
    refine ⟨?_, ?_⟩
    · have hp := deserializePayload_serializePacket PacketType.HostChanged seq ts (payloadHostChanged m)
        (by rw [hlen]; decide)
      rw [Nat.mod_eq_of_lt hseq, Nat.mod_eq_of_lt hts] at hp
      exact hp
    · exact deserializeHostChanged_payload m _ (Nat.le_of_eq hlen.symm) h0 h1

/-- C27, witness: a `HostChanged` message (room 7, new host 2) with sequence 5 and
timestamp 9. -/
theorem numeric_kinds_roundtrip_witness :
    (deserializePayload (serializeHostChanged exampleHostChanged 5 9)
      (serializeHostChanged exampleHostChanged 5 9).length).1
      = some ({ type := PacketType.HostChanged, payloadSize := 5, sequence := 5, timestamp := 9 },
          payloadHostChanged exampleHostChanged) ∧
    (deserializeHostChanged (payloadHostChanged exampleHostChanged) 5).1
      = some exampleHostChanged :=
  numeric_kinds_roundtrip FixedKind.HostChanged exampleHostChanged 5 9 rfl (by decide)
    (by decide) (by decide)

end net

end rtype

namespace rtype

namespace server

open engine

/-! ### Association lists, rooms, and the capacity of a room -/

section alist
variable {K : Type} [DecidableEq K] {B : Type}

theorem lookup_replace_of_mem (s : AList (fun _ : K => B)) (a : K) (b : B) (h : a ∈ s) :
    (s.replace a b).lookup a = some b := by
  obtain ⟨l, nd⟩ := s
  simp only [AList.replace, AList.lookup]
  rw [AList.mem_keys] at h
  simp only [AList.keys] at h
  clear nd
  induction l with
  | nil => simp [List.keys] at h
  | cons e rest ih =>
    obtain ⟨k, v⟩ := e
    by_cases hk : a = k
    · subst hk
      simp [List.kreplace, List.lookmap_cons_some, List.dlookup_cons_eq]
    · have hmem : a ∈ List.keys rest := by
        simp only [List.keys_cons, List.mem_cons] at h
        rcases h with h | h
        · exact absurd h hk
        · exact h
      have := ih hmem
      simp only [List.kreplace] at this ⊢
      rw [List.lookmap_cons_none _ _ (by simp [hk])]
      rw [List.dlookup_cons_ne _ _ hk]
      exact this

theorem lookup_replace_ne (s : AList (fun _ : K => B)) (a a' : K) (b : B) (h : a' ≠ a) :
    (s.replace a b).lookup a' = s.lookup a' := by
  obtain ⟨l, nd⟩ := s
  simp only [AList.replace, AList.lookup]
  clear nd
  induction l with
  | nil => rfl
  | cons e rest ih =>
    obtain ⟨k, v⟩ := e
    by_cases hk : a = k
    · subst hk
      simp only [List.kreplace]
      have hx : (fun s : (Sigma fun _ : K => B) => if a = s.1 then some ⟨a, b⟩ else none)
          ⟨a, v⟩ = some (⟨a, b⟩ : Sigma fun _ : K => B) := by simp
      rw [List.lookmap_cons_some _ _ hx]
      rw [List.dlookup_cons_ne _ _ h, List.dlookup_cons_ne _ _ h]
    · simp only [List.kreplace] at ih ⊢
      rw [List.lookmap_cons_none _ _ (by simp [hk])]
      by_cases hk' : a' = k
      · subst hk'
        simp [List.dlookup_cons_eq]
      · rw [List.dlookup_cons_ne _ _ hk', List.dlookup_cons_ne _ _ hk']
        exact ih

theorem replace_of_lookup (s : AList (fun _ : K => B)) (a : K) (b : B)
    (h : s.lookup a = some b) : s.replace a b = s := by
  apply AList.ext
  simp only [AList.replace]
  apply List.kreplace_self s.nodupKeys
  exact AList.mem_lookup_iff.mp h

theorem lookup_foldl_erase (l : List K) (s : AList (fun _ : K => B)) (a : K) (b : B)
    (h : (l.foldl (fun m k => m.erase k) s).lookup a = some b) : s.lookup a = some b := by
  induction l generalizing s with
  | nil => exact h
  | cons k rest ih =>
    have := ih (s.erase k) h
    by_cases hk : a = k
    · subst hk
      rw [AList.lookup_erase] at this
      cases this
    · rwa [AList.lookup_erase_ne hk] at this

end alist

variable {V : Type}

theorem emplace_of_not_mem {K : Type} [DecidableEq K] {B : Type} (m : AList (fun _ : K => B))
    (k : K) (b : B) (h : k ∉ m) : emplace m k b = m.insert k b := by
  unfold emplace
  rw [if_neg h]

theorem emplace_length_le {K : Type} [DecidableEq K] {B : Type} (m : AList (fun _ : K => B))
    (k : K) (b : B) : (emplace m k b).entries.length ≤ m.entries.length + 1 := by
  unfold emplace
  split
  · omega
  · rename_i h
    rw [AList.insert_entries_of_neg h]
    simp

theorem Room.addPlayer_fst (config : GameConfig V) (room : Room V) (p : PlayerId)
    (endpoint : String) (now : Timestamp) :
    (room.addPlayer config p endpoint now).1 = true ↔
      room.state = RoomState.Waiting ∧ room.getPlayerCount < 4 := by
  unfold Room.addPlayer Room.isFull Room.kMaxPlayersPerRoom
  by_cases hfull : room.getPlayerCount ≥ 4
  · simp only [hfull, decide_True, if_true]
    constructor
    · intro h; cases h
    · intro h; omega
  · simp only [hfull, decide_False, Bool.false_eq_true, if_false]
    by_cases hst : room.state = RoomState.Waiting
    · simp only [hst, ne_eq, not_true_eq_false, if_false, true_and]
      constructor
      · intro _; omega
      · intro _; trivial
    · simp only [ne_eq, hst, not_false_eq_true, if_true, false_and]
      constructor
      · intro h; cases h
      · intro h; exact absurd h (by simp)

theorem Room.addPlayer_false (config : GameConfig V) (room : Room V) (p : PlayerId)
    (endpoint : String) (now : Timestamp)
    (h : (room.addPlayer config p endpoint now).1 = false) :
    (room.addPlayer config p endpoint now).2 = room := by
  unfold Room.addPlayer at h ⊢
  split
  · rfl
  · split
    · rfl
    · rename_i h1 h2
      simp [h1, h2] at h

theorem Room.addPlayer_true (config : GameConfig V) (room : Room V) (p : PlayerId)
    (endpoint : String) (now : Timestamp)
    (h : (room.addPlayer config p endpoint now).1 = true) :
    (room.addPlayer config p endpoint now).2 =
      { room with
        gameLogic := (room.gameLogic.spawnPlayer config p).2,
        clients := emplace room.clients p
          { id := p, endpoint := endpoint, lastSeen := now,
            entityId := (room.gameLogic.spawnPlayer config p).1 } } := by
  unfold Room.addPlayer at h ⊢
  split
  · rename_i h1
    simp [h1] at h
  · split
    · rename_i h1 h2
      simp [h1, h2] at h
    · rfl

theorem Room.addPlayer_count_le (config : GameConfig V) (room : Room V) (p : PlayerId)
    (endpoint : String) (now : Timestamp) (h : room.getPlayerCount ≤ 4) :
    (room.addPlayer config p endpoint now).2.getPlayerCount ≤ 4 := by
  cases hres : (room.addPlayer config p endpoint now).1 with
  | false =>
    rw [Room.addPlayer_false config room p endpoint now hres]
    exact h
  | true =>
    have hlt := ((Room.addPlayer_fst config room p endpoint now).mp hres).2
    rw [Room.addPlayer_true config room p endpoint now hres]
    have := emplace_length_le room.clients p
      { id := p, endpoint := endpoint, lastSeen := now,
        entityId := (room.gameLogic.spawnPlayer config p).1 }
    unfold Room.getPlayerCount at hlt ⊢
    simp only
    omega

theorem Room.removePlayer_count_le (room : Room V) (p : PlayerId) :
    (room.removePlayer p).getPlayerCount ≤ room.getPlayerCount := by
  unfold Room.removePlayer Room.getPlayerCount
  cases h : room.clients.lookup p with
  | none => simp
  | some c =>
    simp only
    have : (room.clients.erase p).entries = List.kerase p room.clients.entries := rfl
    rw [this]
    exact (List.kerase_sublist p room.clients.entries).length_le

theorem Room.startGame_clients (room : Room V) : room.startGame.clients = room.clients := by
  unfold Room.startGame
  split
  · rfl
  · split <;> rfl

theorem capacity_replace (rooms : AList (fun _ : RoomId => Room V))
    (hinv : ∀ id room, rooms.lookup id = some room → room.getPlayerCount ≤ 4)
    (roomId : RoomId) (room1 : Room V) (hmem : roomId ∈ rooms)
    (hc : room1.getPlayerCount ≤ 4) :
    ∀ id room, (rooms.replace roomId room1).lookup id = some room → room.getPlayerCount ≤ 4 := by
  intro id room h
  by_cases hid : id = roomId
  · subst hid
    rw [lookup_replace_of_mem rooms id room1 hmem] at h
    cases h
    exact hc
  · rw [lookup_replace_ne rooms roomId id room1 hid] at h
    exact hinv id room h

theorem capacity_onRoom (rm : RoomManager V)
    (hinv : ∀ id room, rm.rooms.lookup id = some room → room.getPlayerCount ≤ 4)
    (roomId : RoomId) (f : Room V → Room V)
    (hf : ∀ room, (f room).getPlayerCount ≤ room.getPlayerCount) :
    ∀ id room, (rm.onRoom roomId f).rooms.lookup id = some room → room.getPlayerCount ≤ 4 := by
  unfold RoomManager.onRoom
  cases h : rm.rooms.lookup roomId with
  | none => exact hinv
  | some room0 =>
    have hmem : roomId ∈ rm.rooms := by
      rw [← AList.lookup_isSome, h]; rfl
    exact capacity_replace rm.rooms hinv roomId (f room0) hmem
      (le_trans (hf room0) (hinv roomId room0 h))

theorem capacity_step (config : GameConfig V) (rm : RoomManager V) (op : RoomManager.Op V)
    (hinv : ∀ id room, rm.rooms.lookup id = some room → room.getPlayerCount ≤ 4) :
    ∀ id room, (rm.step config op).rooms.lookup id = some room → room.getPlayerCount ≤ 4 := by
  cases op with
  | createRoom roomName hostId =>
    intro id room h
    simp only [RoomManager.step, RoomManager.createRoom, emplace] at h
    split at h
    · exact hinv id room h
    · by_cases hid : id = rm.nextRoomId
      · subst hid
        rw [AList.lookup_insert] at h
        cases h
        simp [Room.getPlayerCount, Room.create]
      · rw [AList.lookup_insert_ne hid] at h
        exact hinv id room h
  | deleteRoom roomId =>
    intro id room h
    simp only [RoomManager.step, RoomManager.deleteRoom] at h
    cases hl : rm.rooms.lookup roomId with
    | none =>
      rw [hl] at h
      exact hinv id room h
    | some room0 =>
      rw [hl] at h
      simp only at h
      by_cases hid : id = roomId
      · subst hid
        rw [AList.lookup_erase] at h
        cases h
      · rw [AList.lookup_erase_ne hid] at h
        exact hinv id room h
  | joinRoom roomId playerId endpoint now =>
    simp only [RoomManager.step, RoomManager.joinRoom]
    cases hp : rm.playerToRoom.lookup playerId with
    | some r => exact hinv
    | none =>
      cases hl : rm.rooms.lookup roomId with
      | none => exact hinv
      | some room0 =>
        have hmem : roomId ∈ rm.rooms := by
          rw [← AList.lookup_isSome, hl]; rfl
        have hc := Room.addPlayer_count_le config room0 playerId endpoint now
          (hinv roomId room0 hl)
        simp only
        split
        · exact capacity_replace rm.rooms hinv roomId _ hmem hc
        · exact capacity_replace rm.rooms hinv roomId _ hmem hc
  | leaveRoom playerId =>
    simp only [RoomManager.step, RoomManager.leaveRoom]
    cases hp : rm.playerToRoom.lookup playerId with
    | none => exact hinv
    | some roomId =>
      simp only
      cases hl : rm.rooms.lookup roomId with
      | none => exact hinv
      | some room0 =>
        have hmem : roomId ∈ rm.rooms := by
          rw [← AList.lookup_isSome, hl]; rfl
        exact capacity_replace rm.rooms hinv roomId _ hmem
          (le_trans (Room.removePlayer_count_le room0 playerId) (hinv roomId room0 hl))
  | cleanupEmptyRooms =>
    intro id room h
    simp only [RoomManager.step, RoomManager.cleanupEmptyRooms] at h
    exact hinv id room (lookup_foldl_erase _ _ _ _ h)
  | startGame roomId =>
    exact capacity_onRoom rm hinv roomId Room.startGame (fun room => by
      unfold Room.getPlayerCount
      rw [Room.startGame_clients])
  | removePlayer roomId playerId =>
    exact capacity_onRoom rm hinv roomId _ (fun room => Room.removePlayer_count_le room playerId)
  | simulate roomId gameLogic =>
    exact capacity_onRoom rm hinv roomId _ (fun room => le_refl _)

theorem capacity_foldl (config : GameConfig V) (ops : List (RoomManager.Op V))
    (rm : RoomManager V)
    (hinv : ∀ id room, rm.rooms.lookup id = some room → room.getPlayerCount ≤ 4) :
    ∀ id room, (ops.foldl (RoomManager.step config) rm).rooms.lookup id = some room →
      room.getPlayerCount ≤ 4 := by
  induction ops generalizing rm with
  | nil => exact hinv
  | cons op rest ih => exact ih (rm.step config op) (capacity_step config rm op hinv)

theorem joinRoom_eq (config : GameConfig V) (rm : RoomManager V) (roomId : RoomId)
    (room : Room V) (p : PlayerId) (endpoint : String) (now : Timestamp)
    (hroom : rm.rooms.lookup roomId = some room) (hindex : p ∉ rm.playerToRoom) :
    rm.joinRoom config roomId p endpoint now =
      if (room.addPlayer config p endpoint now).1 = true then
        (true, { rm with rooms := rm.rooms.replace roomId (room.addPlayer config p endpoint now).2,
                         playerToRoom := rm.playerToRoom.insert p roomId })
      else (false, { rm with
        rooms := rm.rooms.replace roomId (room.addPlayer config p endpoint now).2 }) := by
  have hp : rm.playerToRoom.lookup p = none := AList.lookup_eq_none.mpr hindex
  unfold RoomManager.joinRoom
  rw [hp]
  simp only [hroom]

/-- C10: for a directory state, an existing room `r` and a player `p` that is
in no room (no entry in the reverse index, not a member of `r`),
`joinRoom(r, p)` succeeds if and only if `r` is Waiting and has fewer than 4
members; on success `r` gains exactly the member `p` (one more member, the
others untouched), the index maps `p` to `r`, and every other index entry and
every other room is unchanged; on failure the whole directory (membership,
index, the room's entity store) is unchanged.  And in every state reached
from a new directory no room has more than 4 members. -/
theorem joinRoom_succeeds_iff_waiting_and_not_full (config : GameConfig V) :
    (∀ (rm : RoomManager V) (roomId : RoomId) (room : Room V) (p : PlayerId)
        (endpoint : String) (now : Timestamp),
      rm.rooms.lookup roomId = some room → p ∉ rm.playerToRoom → p ∉ room.clients →
      (((rm.joinRoom config roomId p endpoint now).1 = true ↔
          room.state = RoomState.Waiting ∧ room.getPlayerCount < 4) ∧
       ((rm.joinRoom config roomId p endpoint now).1 = true →
          ∃ room1 : Room V,
            (rm.joinRoom config roomId p endpoint now).2.rooms.lookup roomId = some room1 ∧
            (∀ q : PlayerId, q ∈ room1.clients ↔ q = p ∨ q ∈ room.clients) ∧
            room1.getPlayerCount = room.getPlayerCount + 1 ∧
            (∀ q : PlayerId, q ≠ p → room1.clients.lookup q = room.clients.lookup q) ∧
            (rm.joinRoom config roomId p endpoint now).2.playerToRoom.lookup p = some roomId ∧
            (∀ q : PlayerId, q ≠ p →
              (rm.joinRoom config roomId p endpoint now).2.playerToRoom.lookup q =
                rm.playerToRoom.lookup q) ∧
            (∀ r : RoomId, r ≠ roomId →
              (rm.joinRoom config roomId p endpoint now).2.rooms.lookup r =
                rm.rooms.lookup r)) ∧
       ((rm.joinRoom config roomId p endpoint now).1 = false →
          (rm.joinRoom config roomId p endpoint now).2 = rm))) ∧
    (∀ (ops : List (RoomManager.Op V)) (roomId : RoomId) (room : Room V),
      (RoomManager.run config ops).rooms.lookup roomId = some room →
        room.getPlayerCount ≤ 4) := by
  refine ⟨?_, ?_⟩
  · intro rm roomId room p endpoint now hroom hindex hmember
    have hj := joinRoom_eq config rm roomId room p endpoint now hroom hindex
    have hmem : roomId ∈ rm.rooms := by
      rw [← AList.lookup_isSome, hroom]; rfl
    cases hres : (room.addPlayer config p endpoint now).1 with
    | false =>
      have hne : ¬ ((room.addPlayer config p endpoint now).1 = true) := by
        rw [hres]; simp
      rw [if_neg hne, Room.addPlayer_false config room p endpoint now hres,
        replace_of_lookup rm.rooms roomId room hroom] at hj
      rw [hj]
      refine ⟨?_, ?_, ?_⟩
      · rw [← Room.addPlayer_fst config room p endpoint now, hres]
      · intro h; cases h
      · intro _; rfl
    | true =>
      rw [if_pos hres, Room.addPlayer_true config room p endpoint now hres,
        emplace_of_not_mem room.clients p _ hmember] at hj
      rw [hj]
      refine ⟨?_, ?_, ?_⟩
      · rw [← Room.addPlayer_fst config room p endpoint now, hres]
      · intro _
        refine ⟨_, lookup_replace_of_mem rm.rooms roomId _ hmem, ?_, ?_, ?_, ?_, ?_, ?_⟩
        · intro q
          exact AList.mem_insert room.clients
        · simp only [Room.getPlayerCount]
          rw [AList.insert_entries_of_neg hmember]
          simp
        · intro q hq
          exact AList.lookup_insert_ne hq
        · exact AList.lookup_insert rm.playerToRoom
        · intro q hq
          exact AList.lookup_insert_ne hq
        · intro r hr
          exact lookup_replace_ne rm.rooms roomId r _ hr
      · intro h; cases h
  · intro ops roomId room h
    refine capacity_foldl config ops RoomManager.create ?_ roomId room h
    intro id room0 h0
    simp [RoomManager.create] at h0

/-- C10, witness: in the example directory room 1 is Waiting with 3 members,
so the fourth join succeeds; after it the room has 4 members and the fifth
join fails, leaving the directory unchanged. -/
theorem joinRoom_capacity_witness :
    (exampleRoom exampleDirectory3).getPlayerCount = 3 ∧
    (exampleDirectory3.joinRoom exampleConfig 1 4 "d" 0).1 = true ∧
    (exampleRoom exampleDirectory4).getPlayerCount = 4 ∧
    (exampleDirectory4.joinRoom exampleConfig 1 5 "e" 0).1 = false ∧
    (exampleDirectory4.joinRoom exampleConfig 1 5 "e" 0).2 = exampleDirectory4 :=
  ⟨by decide,
   ((joinRoom_succeeds_iff_waiting_and_not_full exampleConfig).1 exampleDirectory3 1
      (exampleRoom exampleDirectory3) 4 "d" 0 rfl (by decide) (by decide)).1.mpr
      ⟨by decide, by decide⟩,
   by decide,
   Bool.eq_false_iff.mpr (fun h =>
     absurd (((joinRoom_succeeds_iff_waiting_and_not_full exampleConfig).1 exampleDirectory4 1
       (exampleRoom exampleDirectory4) 5 "e" 0 rfl (by decide) (by decide)).1.mp h).2
       (by decide)),
   ((joinRoom_succeeds_iff_waiting_and_not_full exampleConfig).1 exampleDirectory4 1
      (exampleRoom exampleDirectory4) 5 "e" 0 rfl (by decide) (by decide)).2.2
      (Bool.eq_false_iff.mpr (fun h =>
        absurd (((joinRoom_succeeds_iff_waiting_and_not_full exampleConfig).1 exampleDirectory4 1
          (exampleRoom exampleDirectory4) 5 "e" 0 rfl (by decide) (by decide)).1.mp h).2
          (by decide)))⟩

end server

end rtype

namespace rtype

namespace server

open engine

/-! ### The session handlers and the reverse index of the room directory -/

variable {V : Type}

theorem getOrCreatePlayer_roomManager (gs : GameServer V) (key : String) (now : Timestamp) :
    (gs.getOrCreatePlayer key now).2.roomManager = gs.roomManager := by
  unfold GameServer.getOrCreatePlayer
  cases gs.endpointToPlayer.lookup key <;> rfl

/-- C11, counterexample: the endpoint "a" (player 0) sends CreateRoom twice.
The second request is handled and creates room 2, which did not exist, with
host 0 and no member: `joinRoom` refuses player 0 because the index still maps
it to room 1.  The first request sent two packets to "a" (the assignment and
RoomCreated); the second sends nothing. -/
theorem handleCreateRoom_second_request_leaves_empty_room :
    (exampleFirstCreate.getOrCreatePlayer "a" 1).1 = 0 ∧
    (exampleFirstCreate.roomManager.getRoom 2).isNone = true ∧
    (GameServer.handleCreateRoom exampleConfig exampleFirstCreate
      { roomName := GameServer.bufferOfString "room" 32 } "a" 1).isSome = true ∧
    (exampleSecondCreate.roomManager.getRoom 2).map
      (fun room => (room.state, room.hostId, room.getPlayerIds)) =
        some (RoomState.Waiting, 0, []) ∧
    (exampleSecondCreate.roomManager.getRoomByPlayer 0).map (fun room => room.roomId)
      = some 1 ∧
    exampleFirstCreate.sent.map (fun s => s.1) = ["a", "a"] ∧
    exampleSecondCreate.sent = exampleFirstCreate.sent := by
  decide

theorem Room.create_addPlayer (config : GameConfig V) (roomId : RoomId) (name : String)
    (p : PlayerId) (endpoint : String) (now : Timestamp) :
    ((Room.create roomId p name config).addPlayer config p endpoint now).1 = true ∧
    ((Room.create roomId p name config).addPlayer config p endpoint now).2.state
      = RoomState.Waiting ∧
    ((Room.create roomId p name config).addPlayer config p endpoint now).2.hostId = p ∧
    ((Room.create roomId p name config).addPlayer config p endpoint now).2.getPlayerIds = [p] := by
  have h1 : ((Room.create roomId p name config).addPlayer config p endpoint now).1 = true := by
    rw [Room.addPlayer_fst]
    exact ⟨rfl, by show (0 : Nat) < 4; decide⟩
  refine ⟨h1, ?_⟩
  rw [Room.addPlayer_true _ _ _ _ _ h1]
  refine ⟨rfl, rfl, ?_⟩
  rfl

theorem getOrCreatePlayer_endpointOf (gs : GameServer V) (key : String) (now : Timestamp)
    (hendpoint : ∀ q, gs.endpointToPlayer.lookup key = some q → q ∈ gs.playerEndpoints) :
    ∃ endpoint,
      (gs.getOrCreatePlayer key now).2.endpointOf (gs.getOrCreatePlayer key now).1
        = some endpoint := by
  unfold GameServer.getOrCreatePlayer GameServer.endpointOf
  cases h : gs.endpointToPlayer.lookup key with
  | some q =>
    simp only
    exact Option.isSome_iff_exists.mp (AList.lookup_isSome.mpr (hendpoint q h))
  | none =>
    refine ⟨key, ?_⟩
    simp only [GameServer.flushSends, GameServer.nextSequence, AList.lookup_insert]

theorem getOrCreatePlayer_sent (gs : GameServer V) (key : String) (now : Timestamp) :
    (gs.getOrCreatePlayer key now).2.sent = gs.sent ∨
    (gs.getOrCreatePlayer key now).2.sent = gs.sent ++
      [(key, net.serializePlayerAssignment { playerId := (gs.getOrCreatePlayer key now).1 }
        gs.sequence now)] := by
  unfold GameServer.getOrCreatePlayer
  cases gs.endpointToPlayer.lookup key with
  | some q => exact Or.inl rfl
  | none => exact Or.inr rfl

theorem getOrCreatePlayer_known (gs : GameServer V) (key : String) (now : Timestamp)
    (q : PlayerId) (h : gs.endpointToPlayer.lookup key = some q) :
    gs.getOrCreatePlayer key now = (q, gs) := by
  unfold GameServer.getOrCreatePlayer
  rw [h]

/-- A CreateRoom request from a registered endpoint whose player has no
`_playerEndpoints` entry dereferences a null pointer (GameServer.cpp:264). -/
theorem handleCreateRoom_undefined_without_endpoint (config : GameConfig V) (gs : GameServer V)
    (createRoom : net.CreateRoom) (senderKey : String) (now : Timestamp) (q : PlayerId)
    (hid : gs.roomManager.nextRoomId ∉ gs.roomManager.rooms)
    (hplayer : gs.endpointToPlayer.lookup senderKey = some q)
    (hmissing : gs.endpointOf q = none) :
    GameServer.handleCreateRoom config gs createRoom senderKey now = none := by
  have hcreated : (gs.roomManager.createRoom config
      (GameServer.stringOfBuffer createRoom.roomName) q).2.getRoom gs.roomManager.nextRoomId
        = some (Room.create gs.roomManager.nextRoomId q
            (GameServer.stringOfBuffer createRoom.roomName) config) := by
    unfold RoomManager.createRoom RoomManager.getRoom
    simp only
    rw [emplace_of_not_mem _ _ _ hid, AList.lookup_insert]
  unfold GameServer.handleCreateRoom
  simp only [getOrCreatePlayer_known gs senderKey now q hplayer]
  have hidc : (gs.roomManager.createRoom config (GameServer.stringOfBuffer createRoom.roomName)
      q).1 = gs.roomManager.nextRoomId := rfl
  simp only [hidc, hcreated]
  have hm : GameServer.endpointOf
      { gs with roomManager := (gs.roomManager.createRoom config
          (GameServer.stringOfBuffer createRoom.roomName) q).2 } q = none := hmissing
  simp only [hm]

/-- C11, amended: when the next room id of the directory is not in use and a
registered requester has its endpoint stored, handling a CreateRoom request of
player `p` is defined and leaves a new room under that id that is Waiting and
has host `p`.  If `p` has no entry in the player -> room index the room has
exactly the member `p`, the index maps `p` to it, and one packet is added to
the packets sent, the bytes that `serializeRoomCreated` builds for the new
room, addressed to the endpoint of `p`.  If `p` has an entry the room has no
member and no packet is added.  Before that, `getOrCreatePlayer` has sent
nothing for a registered requester and the PlayerAssignment for a new one. -/
theorem handleCreateRoom_new_room (config : GameConfig V) (gs : GameServer V)
    (createRoom : net.CreateRoom) (senderKey : String) (now : Timestamp)
    (hid : gs.roomManager.nextRoomId ∉ gs.roomManager.rooms)
    (hendpoint : ∀ q, gs.endpointToPlayer.lookup senderKey = some q → q ∈ gs.playerEndpoints) :
    ∃ (after : GameServer V) (room : Room V) (endpoint : String),
      GameServer.handleCreateRoom config gs createRoom senderKey now = some after ∧
      (gs.getOrCreatePlayer senderKey now).2.endpointOf (gs.getOrCreatePlayer senderKey now).1
        = some endpoint ∧
      after.roomManager.getRoom gs.roomManager.nextRoomId = some room ∧
      room.state = RoomState.Waiting ∧
      room.hostId = (gs.getOrCreatePlayer senderKey now).1 ∧
      (gs.roomManager.playerToRoom.lookup (gs.getOrCreatePlayer senderKey now).1 = none →
        room.getPlayerIds = [(gs.getOrCreatePlayer senderKey now).1] ∧
        after.roomManager.playerToRoom.lookup (gs.getOrCreatePlayer senderKey now).1
          = some gs.roomManager.nextRoomId ∧
        after.sent = (gs.getOrCreatePlayer senderKey now).2.sent ++
          [(endpoint, net.serializeRoomCreated
            { roomId := gs.roomManager.nextRoomId,
              roomName := GameServer.bufferOfString
                (GameServer.stringOfBuffer createRoom.roomName) 32,
              hostId := (gs.getOrCreatePlayer senderKey now).1,
              playerId := (gs.getOrCreatePlayer senderKey now).1 }
            (gs.getOrCreatePlayer senderKey now).2.sequence now)]) ∧
      (gs.roomManager.playerToRoom.lookup (gs.getOrCreatePlayer senderKey now).1 ≠ none →
        room.getPlayerIds = [] ∧
        after.sent = (gs.getOrCreatePlayer senderKey now).2.sent) ∧
      ((gs.getOrCreatePlayer senderKey now).2.sent = gs.sent ∨
        (gs.getOrCreatePlayer senderKey now).2.sent = gs.sent ++
          [(senderKey, net.serializePlayerAssignment
            { playerId := (gs.getOrCreatePlayer senderKey now).1 } gs.sequence now)]) := by
  obtain ⟨endpoint, hep⟩ := getOrCreatePlayer_endpointOf gs senderKey now hendpoint
  have hsent := getOrCreatePlayer_sent gs senderKey now
  have hrm := getOrCreatePlayer_roomManager gs senderKey now
  unfold GameServer.handleCreateRoom
  simp only [hrm]
  have hidc : ∀ (n : String) (q : PlayerId),
      (gs.roomManager.createRoom config n q).1 = gs.roomManager.nextRoomId := fun _ _ => rfl
  simp only [hidc]
  generalize gs.getOrCreatePlayer senderKey now = player at hep hsent ⊢
  obtain ⟨p, gs1⟩ := player
  simp only at hep hsent ⊢
  generalize GameServer.stringOfBuffer createRoom.roomName = name
  have hcreated : (gs.roomManager.createRoom config name p).2.rooms.lookup
      gs.roomManager.nextRoomId = some (Room.create gs.roomManager.nextRoomId p name config) := by
    unfold RoomManager.createRoom
    simp only
    rw [emplace_of_not_mem _ _ _ hid, AList.lookup_insert]
  have hindex : (gs.roomManager.createRoom config name p).2.playerToRoom
      = gs.roomManager.playerToRoom := rfl
  have hmem : gs.roomManager.nextRoomId ∈ (gs.roomManager.createRoom config name p).2.rooms :=
    AList.lookup_isSome.mp (by rw [hcreated]; rfl)
  obtain ⟨h1, h2, h3, h4⟩ := Room.create_addPlayer config gs.roomManager.nextRoomId name p
    endpoint now
  have hep2 : GameServer.endpointOf
      { gs1 with roomManager := (gs.roomManager.createRoom config name p).2 } p
        = some endpoint := hep
  simp only [RoomManager.getRoom, hcreated, hep2]
  cases hlook : gs.roomManager.playerToRoom.lookup p with
  | some r =>
    have hj : (gs.roomManager.createRoom config name p).2.joinRoom config
        gs.roomManager.nextRoomId p endpoint now
          = (false, (gs.roomManager.createRoom config name p).2) := by
      unfold RoomManager.joinRoom
      rw [hindex, hlook]
    simp only [hj, if_true]
    refine ⟨_, _, endpoint, rfl, hep, hcreated, rfl, rfl, ?_, fun _ => ⟨rfl, rfl⟩, hsent⟩
    intro h
    cases h
  | none =>
    have hnot : p ∉ (gs.roomManager.createRoom config name p).2.playerToRoom := by
      rw [hindex]
      exact AList.lookup_eq_none.mp hlook
    have hj := joinRoom_eq config _ _ _ p endpoint now hcreated hnot
    rw [if_pos h1] at hj
    have hep3 : ∀ rm : RoomManager V, GameServer.endpointOf
        (GameServer.nextSequence { gs1 with roomManager := rm }).2 p = some endpoint :=
      fun _ => hep
    simp only [hj, hep3]
    refine ⟨_, _, endpoint, rfl, hep, lookup_replace_of_mem _ _ _ hmem, h2, h3,
      fun _ => ⟨h4, ?_, rfl⟩, fun h => absurd rfl h, hsent⟩
    show AList.lookup p (gs.roomManager.playerToRoom.insert p gs.roomManager.nextRoomId) = _
    simp only [AList.lookup_insert]

/-- C11, witness: the first CreateRoom request on a new server (room 1, member
and host 0, the answer sent to "a"), and a second request of the same endpoint
(room 2 is left without a member and nothing is sent). -/
theorem handleCreateRoom_new_room_witness :
    (GameServer.create : GameServer Unit).roomManager.nextRoomId = 1 ∧
    (∃ (after : GameServer Unit) (room : Room Unit),
      GameServer.handleCreateRoom exampleConfig GameServer.create
        { roomName := GameServer.bufferOfString "room" 32 } "a" 0 = some after ∧
      after.roomManager.getRoom 1 = some room ∧
      room.state = RoomState.Waiting ∧ room.hostId = 0 ∧ room.getPlayerIds = [0] ∧
      after.sent.map (fun s => s.1) = ["a", "a"]) ∧
    (∃ (after : GameServer Unit) (room : Room Unit),
      GameServer.handleCreateRoom exampleConfig exampleFirstCreate
        { roomName := GameServer.bufferOfString "room" 32 } "a" 1 = some after ∧
      after.roomManager.getRoom 2 = some room ∧
      room.state = RoomState.Waiting ∧ room.hostId = 0 ∧ room.getPlayerIds = [] ∧
      after.sent = exampleFirstCreate.sent) := by
  obtain ⟨after, room, endpoint, h0, hep, h1, h2, h3, h4, _⟩ :=
    handleCreateRoom_new_room exampleConfig
      (GameServer.create : GameServer Unit) { roomName := GameServer.bufferOfString "room" 32 }
      "a" 0 (by decide) (fun q h => by simp [GameServer.create] at h)
  obtain ⟨after2, room2, endpoint2, g0, _, g1, g2, g3, _, g5, _⟩ :=
    handleCreateRoom_new_room exampleConfig exampleFirstCreate
      { roomName := GameServer.bufferOfString "room" 32 } "a" 1 (by decide)
      (fun q h => by
        have hq : exampleFirstCreate.endpointToPlayer.lookup "a" = some 0 := by decide
        rw [hq] at h
        cases h
        decide)
  have hend : endpoint = "a" := by
    have e : ((GameServer.create : GameServer Unit).getOrCreatePlayer "a" 0).2.endpointOf
        ((GameServer.create : GameServer Unit).getOrCreatePlayer "a" 0).1 = some "a" := by decide
    rw [e] at hep
    cases hep
    rfl
  refine ⟨rfl, ⟨after, room, h0, h1, h2, h3, (h4 (by decide)).1, ?_⟩,
    ⟨after2, room2, g0, g1, g2, g3, (g5 (by decide)).1, (g5 (by decide)).2⟩⟩
  rw [(h4 (by decide)).2.2, hend]
  decide

theorem sendToClients_roomManager (gs : GameServer V) (packet : List Nat)
    (clients : List (Sigma fun _ : PlayerId => ClientHandler)) :
    (gs.sendToClients packet clients).roomManager = gs.roomManager := by
  unfold GameServer.sendToClients
  induction clients generalizing gs with
  | nil => rfl
  | cons c rest ih =>
    rw [List.foldl_cons, ih]
    rfl

theorem notHostError_packet (seq now : Nat) :
    ∃ (header : net.PacketHeader) (payload : List Nat) (error : net.RoomError),
      (net.deserializePayload (net.serializeRoomError GameServer.notHostError seq now)
        (net.serializeRoomError GameServer.notHostError seq now).length).1
          = some (header, payload) ∧
      header.type = net.PacketType.RoomError ∧
      header.sequence = seq % 2 ^ 32 ∧
      (net.deserializeRoomError payload payload.length).1 = some error ∧
      error.errorCode = 3 ∧
      GameServer.stringOfBuffer error.message = "Only host can start game" := by
  refine ⟨{ type := net.PacketType.RoomError % 65536,
            payloadSize := (net.payloadRoomError GameServer.notHostError).length,
            sequence := seq % 4294967296, timestamp := now % 4294967296 },
    net.payloadRoomError GameServer.notHostError,
    { GameServer.notHostError with
      message := net.truncateText GameServer.notHostError.message 64 },
    net.deserializePayload_serializePacket net.PacketType.RoomError seq now
      (net.payloadRoomError GameServer.notHostError)
      (by rw [net.payloadRoomError_length]; decide), ?_, rfl,
    net.deserializeRoomError_payload GameServer.notHostError (by decide) (by decide), rfl, ?_⟩
  · show net.PacketType.RoomError % 65536 = net.PacketType.RoomError
    decide
  · decide

/-- The handlers that dereference `_playerEndpoints[playerId]` have no defined
result for a registered endpoint whose player has no entry there. -/
theorem handlers_undefined_without_endpoint :
    exampleLostEndpoint.endpointToPlayer.lookup "b" = some 1 ∧
    exampleLostEndpoint.endpointOf 1 = none ∧
    (exampleLostEndpoint.handleStartGame { roomId := 1 } "b" 3).isNone = true ∧
    (GameServer.handleCreateRoom exampleConfig exampleLostEndpoint
      { roomName := GameServer.bufferOfString "room" 32 } "b" 3).isNone = true := by
  decide

/-- C12: for a StartGame request from a registered endpoint (player `p`) that
names an existing room.  If `p` is not the host and the endpoint of `p` is
stored (`target`), the request is handled, the directory (so the state of
the room) is unchanged, and exactly one packet is sent, to `target`: it
splits into a header of type RoomError carrying the server's sequence number
and a payload that decodes to a RoomError with code 3.  If `p` is the host and
the room is Waiting with at least one member, the request is handled and the
room is Playing afterwards (same host, same members). -/
theorem handleStartGame_host_only (gs : GameServer V) (startGame : net.StartGame)
    (endpointKey : String) (now : Timestamp) (p : PlayerId) (room : Room V)
    (hplayer : gs.endpointToPlayer.lookup endpointKey = some p)
    (hroom : gs.roomManager.getRoom startGame.roomId = some room) :
    (room.hostId ≠ p → ∀ target : String, gs.endpointOf p = some target →
      ∃ (after : GameServer V) (packet : List Nat) (header : net.PacketHeader)
          (payload : List Nat) (error : net.RoomError),
        gs.handleStartGame startGame endpointKey now = some after ∧
        after.roomManager = gs.roomManager ∧
        after.sent = gs.sent ++ [(target, packet)] ∧
        (net.deserializePayload packet packet.length).1 = some (header, payload) ∧
        header.type = net.PacketType.RoomError ∧
        header.sequence = gs.sequence % 2 ^ 32 ∧
        (net.deserializeRoomError payload payload.length).1 = some error ∧
        error.errorCode = 3) ∧
    (room.hostId = p → room.state = RoomState.Waiting → 1 ≤ room.getPlayerCount →
      ∃ (after : GameServer V) (started : Room V),
        gs.handleStartGame startGame endpointKey now = some after ∧
        after.roomManager.getRoom startGame.roomId = some started ∧
        started.state = RoomState.Playing ∧ started.hostId = p ∧
        started.clients = room.clients) := by
  have hmem : startGame.roomId ∈ gs.roomManager.rooms :=
    AList.lookup_isSome.mp (by
      have h : gs.roomManager.rooms.lookup startGame.roomId = some room := hroom
      rw [h]; rfl)
  constructor
  · intro hhost target htarget
    obtain ⟨header, payload, error, h1, h2, h3, h4, h5, _⟩ := notHostError_packet gs.sequence now
    have ht : GameServer.endpointOf gs.nextSequence.2 p = some target := htarget
    refine ⟨gs.nextSequence.2.flushSends
        (net.serializeRoomError GameServer.notHostError gs.sequence now) target,
      net.serializeRoomError GameServer.notHostError gs.sequence now, header, payload, error,
      ?_, ?_, ?_, h1, h2, h3, h4, h5⟩
    · unfold GameServer.handleStartGame
      simp only [hplayer, hroom, ne_eq, hhost, not_false_eq_true, if_true, ht]
      rfl
    · rfl
    · rfl
  · intro hhost hstate hcount
    have hstarted : room.startGame = { room with state := RoomState.Playing } := by
      unfold Room.startGame
      have hne : ¬ (room.clients.entries.isEmpty = true) := by
        unfold Room.getPlayerCount at hcount
        cases hl : room.clients.entries with
        | nil => rw [hl] at hcount; simp at hcount
        | cons _ _ => simp
      simp only [hstate, ne_eq, not_true_eq_false, if_false, hne]
      simp
    have hres : gs.handleStartGame startGame endpointKey now = some
        (GameServer.sendToClients
          (GameServer.nextSequence
            { gs with roomManager :=
                { gs.roomManager with
                  rooms := gs.roomManager.rooms.replace startGame.roomId room.startGame } }).2
          (net.serializeGameStarted { roomId := startGame.roomId } gs.sequence now)
          room.startGame.clients.entries) := by
      unfold GameServer.handleStartGame
      simp only [hplayer, hroom, ne_eq, hhost, not_true_eq_false, if_false]
      rfl
    refine ⟨_, room.startGame, hres, ?_, ?_, ?_, ?_⟩
    · rw [sendToClients_roomManager]
      exact lookup_replace_of_mem _ _ _ hmem
    · rw [hstarted]
    · rw [hstarted]; exact hhost
    · rw [hstarted]

/-- C12, witness: in the example lobby player 1 (endpoint "b") is not the host
of room 1: the room stays Waiting and the one packet sent, to "b", is a
RoomError with code 3.  Player 0 is the host and starts the game. -/
theorem handleStartGame_host_only_witness :
    exampleLobby.endpointOf 1 = some "b" ∧
    (∃ (after : GameServer Unit) (packet : List Nat) (header : net.PacketHeader)
        (payload : List Nat) (error : net.RoomError),
      exampleLobby.handleStartGame { roomId := 1 } "b" 3 = some after ∧
      (after.roomManager.getRoom 1).map (fun room => room.state) = some RoomState.Waiting ∧
      after.sent = exampleLobby.sent ++ [("b", packet)] ∧
      (net.deserializePayload packet packet.length).1 = some (header, payload) ∧
      header.type = net.PacketType.RoomError ∧
      (net.deserializeRoomError payload payload.length).1 = some error ∧
      error.errorCode = 3) ∧
    (∃ after : GameServer Unit,
      exampleLobby.handleStartGame { roomId := 1 } "a" 3 = some after ∧
      (after.roomManager.getRoom 1).map (fun room => room.state) = some RoomState.Playing) := by
  obtain ⟨after, packet, header, payload, error, h1, h2, h3, h4, h5, _, h7, h8⟩ :=
    (handleStartGame_host_only exampleLobby { roomId := 1 } "b" 3 1
      (exampleRoom exampleLobby.roomManager) (by decide) rfl).1 (by decide) "b" (by decide)
  obtain ⟨after2, started, g1, g2, g3, _⟩ :=
    (handleStartGame_host_only exampleLobby { roomId := 1 } "a" 3 0
      (exampleRoom exampleLobby.roomManager) (by decide) rfl).2 (by decide) (by decide)
      (by decide)
  refine ⟨by decide, ⟨after, packet, header, payload, error, h1, ?_, h3, h4, h5, h7, h8⟩,
    ⟨after2, g1, ?_⟩⟩
  · rw [h2]; decide
  · rw [g2]; simp [g3]

/-- C13: for a room whose host is one of its members, `removePlayer(p)` leaves a
room of which `p` is not a member and in which every other player is a member
exactly as before; if `p` was the host and a member remains, the new host is
one of the remaining members; if `p` was not the host, the host is unchanged
(and still a member). -/
theorem removePlayer_members_and_host (room : Room V) (p : PlayerId)
    (hhost : room.hostId ∈ room.clients) :
    p ∉ (room.removePlayer p).clients ∧
    (∀ q : PlayerId, q ≠ p → (room.removePlayer p).clients.lookup q = room.clients.lookup q) ∧
    (p = room.hostId → (room.removePlayer p).isEmpty = false →
      (room.removePlayer p).hostId ∈ (room.removePlayer p).clients ∧
      (room.removePlayer p).hostId ≠ p) ∧
    (p ≠ room.hostId →
      (room.removePlayer p).hostId = room.hostId ∧
      (room.removePlayer p).hostId ∈ (room.removePlayer p).clients) := by
  unfold Room.removePlayer
  cases hl : room.clients.lookup p with
  | none =>
    have hp : p ∉ room.clients := AList.lookup_eq_none.mp hl
    refine ⟨hp, fun _ _ => rfl, ?_, fun _ => ⟨rfl, hhost⟩⟩
    intro h
    rw [h] at hp
    exact absurd hhost hp
  | some client =>
    simp only
    refine ⟨?_, ?_, ?_, ?_⟩
    · rw [AList.mem_erase]
      exact fun h => h.1 rfl
    · intro q hq
      exact AList.lookup_erase_ne hq
    · intro hp hne
      subst hp
      unfold Room.isEmpty at hne
      simp only at hne
      have hne1 : ¬ ((room.clients.erase room.hostId).entries.isEmpty = true) := by
        rw [hne]; simp
      simp only
      rw [if_pos ⟨trivial, hne1⟩]
      cases hk : (room.clients.erase room.hostId).keys with
      | nil =>
        have : (room.clients.erase room.hostId).entries = [] := by
          have := congrArg List.length hk
          simp only [AList.keys, List.keys, List.length_map, List.length_nil] at this
          exact List.length_eq_zero.mp this
        rw [this] at hne
        simp at hne
      | cons first rest =>
        simp only
        have hmem : first ∈ room.clients.erase room.hostId := by
          rw [AList.mem_keys, hk]
          exact List.mem_cons_self _ _
        refine ⟨hmem, ?_⟩
        rw [AList.mem_erase] at hmem
        exact hmem.1
    · intro hp
      simp only [hp, false_and, if_false, true_and]
      rw [AList.mem_erase]
      exact ⟨fun h => hp h.symm, hhost⟩

/-- C13, witness: room 1 of the example directory has members 1, 2, 3 and host
1; after `removePlayer(1)` the host is one of 2, 3. -/
theorem removePlayer_members_and_host_witness :
    (exampleRoom exampleDirectory3).hostId = 1 ∧
    ((exampleRoom exampleDirectory3).removePlayer 1).hostId ∈
      ((exampleRoom exampleDirectory3).removePlayer 1).clients ∧
    ((exampleRoom exampleDirectory3).removePlayer 1).hostId ≠ 1 ∧
    ((exampleRoom exampleDirectory3).removePlayer 2).hostId = 1 :=
  ⟨by decide,
   ((removePlayer_members_and_host (exampleRoom exampleDirectory3) 1 (by decide)).2.2.1
      (by decide) (by decide)).1,
   ((removePlayer_members_and_host (exampleRoom exampleDirectory3) 1 (by decide)).2.2.1
      (by decide) (by decide)).2,
   ((removePlayer_members_and_host (exampleRoom exampleDirectory3) 2 (by decide)).2.2.2
      (by decide)).1⟩

theorem lookup_foldl_erase_eq {K : Type} [DecidableEq K] {B : Type} (l : List K)
    (s : AList (fun _ : K => B)) (a : K) :
    (l.foldl (fun m k => m.erase k) s).lookup a = if a ∈ l then none else s.lookup a := by
  induction l generalizing s with
  | nil => simp
  | cons k rest ih =>
    rw [List.foldl_cons, ih]
    by_cases hr : a ∈ rest
    · simp [hr]
    · by_cases hk : a = k
      · subst hk
        simp [hr, AList.lookup_erase]
      · simp [hr, hk, AList.lookup_erase_ne hk]

theorem mem_of_lookup {K : Type} [DecidableEq K] {B : Type} (s : AList (fun _ : K => B))
    (a : K) (b : B) (h : s.lookup a = some b) : a ∈ s :=
  AList.lookup_isSome.mp (by rw [h]; rfl)

theorem indexMatches_createRoom (config : GameConfig V) (rm : RoomManager V) (name : String)
    (host : PlayerId) (h : rm.indexMatches) : (rm.createRoom config name host).2.indexMatches := by
  intro p r
  unfold RoomManager.createRoom
  simp only
  unfold emplace
  split
  · exact h p r
  · rename_i hnew
    by_cases hr : r = rm.nextRoomId
    · subst hr
      rw [AList.lookup_insert]
      constructor
      · intro hp
        obtain ⟨room, hroom, _⟩ := (h p _).mp hp
        exact absurd (mem_of_lookup _ _ _ hroom) hnew
      · rintro ⟨room, hroom, hp⟩
        simp only [Option.some.injEq] at hroom
        rw [← hroom] at hp
        exact absurd hp (by simp [Room.create])
    · rw [AList.lookup_insert_ne hr]
      exact h p r

theorem indexMatches_deleteRoom (rm : RoomManager V) (roomId : RoomId) (h : rm.indexMatches) :
    (rm.deleteRoom roomId).2.indexMatches := by
  intro p r
  unfold RoomManager.deleteRoom
  cases hl : rm.rooms.lookup roomId with
  | none => exact h p r
  | some room0 =>
    simp only
    rw [lookup_foldl_erase_eq]
    unfold Room.getPlayerIds
    by_cases hp : p ∈ room0.clients.keys
    · rw [if_pos hp]
      constructor
      · intro h0; cases h0
      · rintro ⟨room, hroom, hmem⟩
        by_cases hr : r = roomId
        · subst hr
          rw [AList.lookup_erase] at hroom
          cases hroom
        · rw [AList.lookup_erase_ne hr] at hroom
          have h1 := (h p r).mpr ⟨room, hroom, hmem⟩
          have h2 := (h p roomId).mpr ⟨room0, hl, hp⟩
          rw [h1] at h2
          exact absurd (Option.some.inj h2) hr
    · rw [if_neg hp]
      constructor
      · intro hidx
        obtain ⟨room, hroom, hmem⟩ := (h p r).mp hidx
        have hr : r ≠ roomId := by
          intro hr
          subst hr
          rw [hl] at hroom
          cases hroom
          exact hp hmem
        exact ⟨room, by rw [AList.lookup_erase_ne hr]; exact hroom, hmem⟩
      · rintro ⟨room, hroom, hmem⟩
        by_cases hr : r = roomId
        · subst hr
          rw [AList.lookup_erase] at hroom
          cases hroom
        · rw [AList.lookup_erase_ne hr] at hroom
          exact (h p r).mpr ⟨room, hroom, hmem⟩

theorem indexMatches_joinRoom (config : GameConfig V) (rm : RoomManager V) (roomId : RoomId)
    (q : PlayerId) (endpoint : String) (now : Timestamp) (h : rm.indexMatches) :
    (rm.joinRoom config roomId q endpoint now).2.indexMatches := by
  cases hq : rm.playerToRoom.lookup q with
  | some r0 =>
    have : rm.joinRoom config roomId q endpoint now = (false, rm) := by
      unfold RoomManager.joinRoom
      rw [hq]
    rw [this]
    exact h
  | none =>
    cases hl : rm.rooms.lookup roomId with
    | none =>
      have : rm.joinRoom config roomId q endpoint now = (false, rm) := by
        unfold RoomManager.joinRoom
        rw [hq]
        simp only [hl]
      rw [this]
      exact h
    | some room0 =>
      have hindex : q ∉ rm.playerToRoom := AList.lookup_eq_none.mp hq
      have hmem0 : roomId ∈ rm.rooms := mem_of_lookup _ _ _ hl
      have hnot : ∀ (r : RoomId) (room : Room V), rm.rooms.lookup r = some room →
          q ∉ room.clients := by
        intro r room hroom hmem
        have := (h q r).mpr ⟨room, hroom, hmem⟩
        rw [hq] at this
        cases this
      rw [joinRoom_eq config rm roomId room0 q endpoint now hl hindex]
      cases hres : (room0.addPlayer config q endpoint now).1 with
      | false =>
        rw [if_neg (by simp), Room.addPlayer_false config room0 q endpoint now hres,
          replace_of_lookup rm.rooms roomId room0 hl]
        exact h
      | true =>
        rw [if_pos rfl, Room.addPlayer_true config room0 q endpoint now hres,
          emplace_of_not_mem room0.clients q _ (hnot roomId room0 hl)]
        intro p r
        simp only
        by_cases hp : p = q
        · subst hp
          rw [AList.lookup_insert]
          constructor
          · intro hr
            simp only [Option.some.injEq] at hr
            subst hr
            exact ⟨_, lookup_replace_of_mem _ _ _ hmem0, by simp⟩
          · rintro ⟨room, hroom, hmem⟩
            by_cases hr : r = roomId
            · rw [hr]
            · rw [lookup_replace_ne _ _ _ _ hr] at hroom
              exact absurd hmem (hnot r room hroom)
        · rw [AList.lookup_insert_ne hp]
          by_cases hr : r = roomId
          · subst hr
            rw [lookup_replace_of_mem _ _ _ hmem0]
            constructor
            · intro hidx
              obtain ⟨room, hroom, hmem⟩ := (h p r).mp hidx
              rw [hl] at hroom
              cases hroom
              exact ⟨_, rfl, by simp [hmem]⟩
            · rintro ⟨room, hroom, hmem⟩
              simp only [Option.some.injEq] at hroom
              rw [← hroom] at hmem
              simp only [AList.mem_insert] at hmem
              rcases hmem with hmem | hmem
              · exact absurd hmem hp
              · exact (h p r).mpr ⟨room0, hl, hmem⟩
          · rw [lookup_replace_ne _ _ _ _ hr]
            exact h p r

theorem Room.removePlayer_mem (room : Room V) (q p : PlayerId) :
    p ∈ (room.removePlayer q).clients ↔ p ≠ q ∧ p ∈ room.clients := by
  unfold Room.removePlayer
  cases hl : room.clients.lookup q with
  | none =>
    simp only
    constructor
    · intro hp
      refine ⟨?_, hp⟩
      intro hpq
      subst hpq
      exact absurd hp (AList.lookup_eq_none.mp hl)
    · exact fun hp => hp.2
  | some client =>
    simp only
    exact AList.mem_erase

theorem indexMatches_leaveRoom (rm : RoomManager V) (q : PlayerId) (h : rm.indexMatches) :
    (rm.leaveRoom q).indexMatches := by
  unfold RoomManager.leaveRoom
  cases hq : rm.playerToRoom.lookup q with
  | none => exact h
  | some r0 =>
    obtain ⟨room0, hl, hmem0⟩ := (h q r0).mp hq
    have hin : r0 ∈ rm.rooms := mem_of_lookup _ _ _ hl
    simp only [hl]
    intro p r
    simp only
    by_cases hp : p = q
    · subst hp
      rw [AList.lookup_erase]
      constructor
      · intro h0; cases h0
      · rintro ⟨room, hroom, hmem⟩
        by_cases hr : r = r0
        · subst hr
          rw [lookup_replace_of_mem _ _ _ hin] at hroom
          simp only [Option.some.injEq] at hroom
          rw [← hroom, Room.removePlayer_mem] at hmem
          exact absurd rfl hmem.1
        · rw [lookup_replace_ne _ _ _ _ hr] at hroom
          have := (h p r).mpr ⟨room, hroom, hmem⟩
          rw [hq] at this
          exact absurd (Option.some.inj this).symm hr
    · rw [AList.lookup_erase_ne hp]
      by_cases hr : r = r0
      · subst hr
        rw [lookup_replace_of_mem _ _ _ hin]
        constructor
        · intro hidx
          obtain ⟨room, hroom, hmem⟩ := (h p r).mp hidx
          rw [hl] at hroom
          cases hroom
          exact ⟨_, rfl, (Room.removePlayer_mem _ _ _).mpr ⟨hp, hmem⟩⟩
        · rintro ⟨room, hroom, hmem⟩
          simp only [Option.some.injEq] at hroom
          rw [← hroom, Room.removePlayer_mem] at hmem
          exact (h p r).mpr ⟨room0, hl, hmem.2⟩
      · rw [lookup_replace_ne _ _ _ _ hr]
        exact h p r

theorem indexMatches_cleanupEmptyRooms (rm : RoomManager V) (h : rm.indexMatches) :
    rm.cleanupEmptyRooms.indexMatches := by
  intro p r
  unfold RoomManager.cleanupEmptyRooms
  simp only
  rw [lookup_foldl_erase_eq]
  constructor
  · intro hidx
    obtain ⟨room, hroom, hmem⟩ := (h p r).mp hidx
    refine ⟨room, ?_, hmem⟩
    rw [if_neg, hroom]
    intro hdel
    simp only [List.mem_map, List.mem_filter] at hdel
    obtain ⟨e, ⟨he, hempty⟩, her⟩ := hdel
    have hlook : rm.rooms.lookup e.1 = some e.2 := AList.mem_lookup_iff.mpr he
    rw [her, hroom] at hlook
    simp only [Option.some.injEq] at hlook
    rw [← hlook] at hempty
    unfold Room.isEmpty at hempty
    rw [AList.mem_keys] at hmem
    unfold AList.keys List.keys at hmem
    rw [List.isEmpty_iff.mp hempty] at hmem
    simp at hmem
  · rintro ⟨room, hroom, hmem⟩
    split at hroom
    · cases hroom
    · exact (h p r).mpr ⟨room, hroom, hmem⟩

theorem indexMatches_step (config : GameConfig V) (rm : RoomManager V) (op : RoomManager.Op V)
    (hop : op.isManagerOp = true) (h : rm.indexMatches) : (rm.step config op).indexMatches := by
  cases op with
  | createRoom name host => exact indexMatches_createRoom config rm name host h
  | deleteRoom roomId => exact indexMatches_deleteRoom rm roomId h
  | joinRoom roomId p endpoint now => exact indexMatches_joinRoom config rm roomId p endpoint now h
  | leaveRoom p => exact indexMatches_leaveRoom rm p h
  | cleanupEmptyRooms => exact indexMatches_cleanupEmptyRooms rm h
  | startGame roomId => cases hop
  | removePlayer roomId p => cases hop
  | simulate roomId g => cases hop

theorem indexMatches_foldl (config : GameConfig V) (ops : List (RoomManager.Op V))
    (rm : RoomManager V) (hops : ∀ op ∈ ops, op.isManagerOp = true) (h : rm.indexMatches) :
    (ops.foldl (RoomManager.step config) rm).indexMatches := by
  induction ops generalizing rm with
  | nil => exact h
  | cons op rest ih =>
    exact ih (rm.step config op) (fun o ho => hops o (List.mem_cons_of_mem _ ho))
      (indexMatches_step config rm op (hops op (List.mem_cons_self _ _)) h)

/-- C14: in every state reached from a new `RoomManager` through `createRoom`,
`deleteRoom`, `joinRoom`, `leaveRoom` and `cleanupEmptyRooms`, the reverse index
maps player `p` to room `r` if and only if room `r` exists and `p` is a member
of it; so a player is a member of at most one room, and `getRoomByPlayer(p)`
returns a room exactly when that room is in the directory and holds `p`. -/
theorem index_agrees_with_membership (config : GameConfig V) (ops : List (RoomManager.Op V))
    (hops : ∀ op ∈ ops, op.isManagerOp = true) :
    (∀ (p : PlayerId) (r : RoomId),
      (RoomManager.run config ops).playerToRoom.lookup p = some r ↔
        ∃ room : Room V, (RoomManager.run config ops).rooms.lookup r = some room ∧
          p ∈ room.clients) ∧
    (∀ (p : PlayerId) (r1 r2 : RoomId) (room1 room2 : Room V),
      (RoomManager.run config ops).rooms.lookup r1 = some room1 →
      (RoomManager.run config ops).rooms.lookup r2 = some room2 →
      p ∈ room1.clients → p ∈ room2.clients → r1 = r2) ∧
    (∀ (p : PlayerId) (room : Room V),
      (RoomManager.run config ops).getRoomByPlayer p = some room ↔
        ∃ r : RoomId, (RoomManager.run config ops).rooms.lookup r = some room ∧
          p ∈ room.clients) := by
  have h : (RoomManager.run config ops).indexMatches := by
    refine indexMatches_foldl config ops RoomManager.create hops ?_
    intro p r
    simp [RoomManager.create]
  refine ⟨h, ?_, ?_⟩
  · intro p r1 r2 room1 room2 h1 h2 hm1 hm2
    have e1 := (h p r1).mpr ⟨room1, h1, hm1⟩
    have e2 := (h p r2).mpr ⟨room2, h2, hm2⟩
    rw [e1] at e2
    exact Option.some.inj e2
  · intro p room
    unfold RoomManager.getRoomByPlayer
    constructor
    · intro hget
      cases hidx : (RoomManager.run config ops).playerToRoom.lookup p with
      | none => rw [hidx] at hget; cases hget
      | some r =>
        rw [hidx] at hget
        simp only at hget
        obtain ⟨room1, hroom1, hmem⟩ := (h p r).mp hidx
        rw [hroom1] at hget
        cases hget
        exact ⟨r, hroom1, hmem⟩
    · rintro ⟨r, hroom, hmem⟩
      rw [(h p r).mpr ⟨room, hroom, hmem⟩]
      exact hroom

/-- C14, witness: after player 1 created room 1 and players 1, 2, 3 joined it,
the index maps player 2 to room 1. -/
theorem index_agrees_with_membership_witness :
    exampleDirectory3.playerToRoom.lookup 2 = some 1 ∧
    ∃ room : Room Unit, exampleDirectory3.rooms.lookup 1 = some room ∧ 2 ∈ room.clients :=
  ⟨by decide,
   ((index_agrees_with_membership exampleConfig
      [RoomManager.Op.createRoom "room" 1, RoomManager.Op.joinRoom 1 1 "a" 0,
       RoomManager.Op.joinRoom 1 2 "b" 0, RoomManager.Op.joinRoom 1 3 "c" 0]
      (by decide)).1 2 1).mp (by decide)⟩

theorem removeTimedOutPlayer_playerToRoom (rm : RoomManager V) (roomIds : List RoomId)
    (p : PlayerId) :
    (GameServer.removeTimedOutPlayer rm roomIds p).playerToRoom = rm.playerToRoom := by
  induction roomIds with
  | nil => rfl
  | cons roomId rest ih =>
    unfold GameServer.removeTimedOutPlayer
    cases rm.getRoom roomId with
    | none => exact ih
    | some room =>
      simp only
      split
      · rfl
      · exact ih

theorem checkClientTimeouts_playerToRoom (gs : GameServer V) (now timeoutMs : Nat) :
    (gs.checkClientTimeouts now timeoutMs).roomManager.playerToRoom
      = gs.roomManager.playerToRoom := by
  unfold GameServer.checkClientTimeouts
  simp only
  generalize GameServer.timedOutClients gs.roomManager now timeoutMs = timedOut
  generalize gs.roomManager.rooms.keys = roomIds
  have hsend : ∀ (l : List (Sigma fun _ : PlayerId => ClientHandler)) (g : GameServer V),
      (l.foldl (fun g c =>
        (g.nextSequence.2.flushSends (net.serializeDisconnect { player := c.1 } g.nextSequence.1 now)
          c.2.endpoint)) g).roomManager = g.roomManager := by
    intro l
    induction l with
    | nil => intro g; rfl
    | cons c rest ih => intro g; rw [List.foldl_cons, ih]; rfl
  have hrem : ∀ (l : List (Sigma fun _ : PlayerId => ClientHandler)) (rm : RoomManager V),
      (l.foldl (fun rm c => GameServer.removeTimedOutPlayer rm roomIds c.1) rm).playerToRoom
        = rm.playerToRoom := by
    intro l
    induction l with
    | nil => intro rm; rfl
    | cons c rest ih =>
      intro rm
      rw [List.foldl_cons, ih, removeTimedOutPlayer_playerToRoom]
  rw [hrem, hsend]

/-- C15, evaluation: `checkClientTimeouts` never changes the player -> room index.
In the example player 0 is the only client timed out at time 60000; after the
pass it is no longer a member of room 1, but the index still maps it to room 1
and `joinRoom` refuses it; after an explicit Disconnect from the same state
the index has no entry for it and `joinRoom` accepts it. -/
theorem checkClientTimeouts_keeps_index_entry :
    (∀ (gs : GameServer Unit) (now timeoutMs : Nat),
      (gs.checkClientTimeouts now timeoutMs).roomManager.playerToRoom
        = gs.roomManager.playerToRoom) ∧
    (GameServer.timedOutClients exampleTwoRooms.roomManager 60000 30000).map (fun c => c.1) = [0] ∧
    (exampleAfterTimeout.roomManager.getRoom 1).map (fun room => room.getPlayerIds) = some [] ∧
    exampleAfterTimeout.roomManager.playerToRoom.lookup 0 = some 1 ∧
    (exampleAfterTimeout.roomManager.joinRoom exampleConfig 2 0 "a" 60001).1 = false ∧
    (exampleAfterDisconnect.roomManager.getRoom 1).map (fun room => room.getPlayerIds) = some [] ∧
    exampleAfterDisconnect.roomManager.playerToRoom.lookup 0 = none ∧
    (exampleAfterDisconnect.roomManager.joinRoom exampleConfig 2 0 "a" 60001).1 = true :=
  ⟨fun gs now timeoutMs => checkClientTimeouts_playerToRoom gs now timeoutMs, by decide⟩

end server

end rtype

namespace rtype

namespace server

open engine engine.Registry

/-! ### The gameplay systems -/

theorem getComponent_eq_getD (r : World) (t : Nat) (id : EntityId) :
    r.getComponent t id = ((r.getStorage t).getD ∅).lookup id := by
  unfold getComponent
  cases r.getStorage t <;> rfl

theorem find_touch (r : World) (t t' : ComponentType) (id : EntityId) :
    (touch r t).find t' id = r.find t' id := by
  unfold touch find
  rw [getComponent_eq_getD, getComponent_eq_getD, getOrCreateStorage_getD]

theorem getHealth_touch (r : World) (t : ComponentType) (id : EntityId) :
    (touch r t).getHealth id = r.getHealth id := by
  unfold getHealth
  rw [find_touch]

theorem idsOf_touch (r : World) (t t' : ComponentType) :
    (touch r t).idsOf t' = r.idsOf t' := by
  unfold touch idsOf
  rw [getOrCreateStorage_getD]

theorem isLivingMonster_touch (r : World) (t : ComponentType) (id : EntityId) :
    LevelSystem.isLivingMonster (touch r t) id = LevelSystem.isLivingMonster r id := by
  unfold LevelSystem.isLivingMonster
  rw [getHealth_touch]

theorem isWaveComplete_fst (r : World) :
    (LevelSystem.isWaveComplete r).1 = true ↔
      ∀ id ∈ r.idsOf ComponentType.MonsterComponent, LevelSystem.isLivingMonster r id = false := by
  unfold LevelSystem.isWaveComplete
  simp only [idsOf_touch]
  have hliving : ∀ id, LevelSystem.isLivingMonster
      (if (r.idsOf ComponentType.MonsterComponent).isEmpty = true
        then touch r ComponentType.MonsterComponent
        else touch (touch r ComponentType.MonsterComponent) ComponentType.Health) id
      = LevelSystem.isLivingMonster r id := by
    intro id
    split <;> simp only [isLivingMonster_touch]
  simp only [hliving, Bool.not_eq_true', List.any_eq_false, Bool.not_eq_true]

theorem mem_idsOf (r : World) (t : ComponentType) (id : EntityId) :
    id ∈ r.idsOf t ↔ r.hasComponent t.hash id = true := by
  unfold idsOf hasComponent
  cases r.getStorage t.hash with
  | none => simp
  | some s => simp

theorem isLivingMonster_iff (r : World) (id : EntityId) :
    LevelSystem.isLivingMonster r id = true ↔
      ∃ health : Health, r.getHealth id = some health ∧ health.alive = true := by
  unfold LevelSystem.isLivingMonster
  cases r.getHealth id with
  | none => simp
  | some h => simp

theorem startWave_level (config : GameplayConfig) (effects : SpawnEffects) (ls : LevelSystem)
    (waveNumber : Int) (r : World) :
    (ls.startWave config effects waveNumber r).2.1 = waveNumber := by
  unfold LevelSystem.startWave
  split
  · rfl
  · split <;> rfl

/-- C16: `LevelSystem::update` leaves `currentLevel + 1` in the wave counter if and
only if, at the start of the tick, the spawner has spawned its quota
(`monstersSpawned >= monstersToSpawn`), no entity with a `MonsterComponent` has a
living `Health`, and `currentLevel + 1 <= numberOfLevels`; otherwise the
counter is unchanged.  With a quota `N` and `N - 1` monsters spawned the
counter is unchanged whatever the monsters' health.  (`int` arithmetic is
exact; the ids with a `MonsterComponent` are those of `idsOf`, and a monster
is living when it has a `Health` with `alive` set.) -/
theorem update_advances_wave_iff (config : GameplayConfig) (effects : SpawnEffects)
    (ls : LevelSystem) (deltaTime : ℚ) (currentLevel : Int) (registry : World) :
    ((ls.update config effects deltaTime currentLevel registry).2.1 = currentLevel + 1 ↔
      (ls.spawner.monstersSpawned ≥ ls.spawner.monstersToSpawn ∧
       (∀ id ∈ registry.idsOf ComponentType.MonsterComponent,
          LevelSystem.isLivingMonster registry id = false) ∧
       currentLevel + 1 ≤ config.numberOfLevels)) ∧
    ((ls.update config effects deltaTime currentLevel registry).2.1 = currentLevel ∨
      (ls.update config effects deltaTime currentLevel registry).2.1 = currentLevel + 1) ∧
    (∀ N : Int, ls.spawner.monstersToSpawn = N → ls.spawner.monstersSpawned = N - 1 →
      (ls.update config effects deltaTime currentLevel registry).2.1 = currentLevel) ∧
    (∀ id : EntityId, id ∈ registry.idsOf ComponentType.MonsterComponent ↔
      registry.hasComponent ComponentType.MonsterComponent.hash id = true) ∧
    (∀ id : EntityId, LevelSystem.isLivingMonster registry id = true ↔
      ∃ health : Health, registry.getHealth id = some health ∧ health.alive = true) := by
  have hlevel : (ls.update config effects deltaTime currentLevel registry).2.1 =
      if ls.spawner.monstersSpawned ≥ ls.spawner.monstersToSpawn ∧
          (∀ id ∈ registry.idsOf ComponentType.MonsterComponent,
            LevelSystem.isLivingMonster registry id = false) ∧
          currentLevel + 1 ≤ config.numberOfLevels
      then currentLevel + 1 else currentLevel := by
    unfold LevelSystem.update MonsterSpawnerSystem.isSpawningComplete
    simp only [decide_eq_true_eq]
    by_cases h1 : ls.spawner.monstersSpawned ≥ ls.spawner.monstersToSpawn
    · simp only [h1, if_true, true_and]
      by_cases h2 : (LevelSystem.isWaveComplete registry).1 = true
      · have h2a := (isWaveComplete_fst registry).mp h2
        simp only [h2, if_true]
        by_cases h3 : currentLevel + 1 ≤ config.numberOfLevels
        · rw [if_pos h3, if_pos ⟨h2a, h3⟩, startWave_level]
        · rw [if_neg h3, if_neg (fun h => h3 h.2)]
      · have h2a : ¬ ∀ id ∈ registry.idsOf ComponentType.MonsterComponent,
            LevelSystem.isLivingMonster registry id = false :=
          fun h => h2 ((isWaveComplete_fst registry).mpr h)
        rw [if_neg h2, if_neg (fun h => h2a h.1)]
    · rw [if_neg h1, if_neg (fun h => h1 h.1)]
  refine ⟨?_, ?_, ?_, fun id => mem_idsOf registry _ id, fun id => isLivingMonster_iff registry id⟩
  · rw [hlevel]
    constructor
    · intro h
      by_contra hc
      rw [if_neg hc] at h
      omega
    · intro h
      rw [if_pos h]
  · rw [hlevel]
    split
    · exact Or.inr rfl
    · exact Or.inl rfl
  · intro N hN hS
    rw [hlevel, if_neg]
    intro h
    have := h.1
    omega

/-- C16, witness: three levels, current level 1, the only monster dead.  With a
quota of 3 and 2 spawned the counter stays at 1; with 3 spawned it becomes 2. -/
theorem update_advances_wave_iff_witness :
    ((exampleLevelSystem 3 2).update exampleGameplay exampleSpawnEffects (1 / 60) 1
      exampleDeadMonsterWorld).2.1 = 1 ∧
    ((exampleLevelSystem 3 3).update exampleGameplay exampleSpawnEffects (1 / 60) 1
      exampleDeadMonsterWorld).2.1 = 1 + 1 :=
  ⟨(update_advances_wave_iff exampleGameplay exampleSpawnEffects (exampleLevelSystem 3 2) (1 / 60) 1
      exampleDeadMonsterWorld).2.2.1 3 rfl (by decide),
   (update_advances_wave_iff exampleGameplay exampleSpawnEffects (exampleLevelSystem 3 3) (1 / 60) 1
      exampleDeadMonsterWorld).1.mpr ⟨by decide, by decide, by decide⟩⟩

/-- Values of `Float32.round` against the binary32 format: 0.1f and 1.3f, a tie
(`2 ^ 24 + 1` goes to the even `2 ^ 24`, `2 ^ 24 + 3` to `2 ^ 24 + 4`), the
largest finite value and the overflow threshold `2 ^ 128 - 2 ^ 103`, the
smallest subnormal `2 ^ -149` and half of it. -/
theorem float32_round_values :
    Float32.round (1 / 10) = Float32.finite (13421773 / 134217728) ∧
    Float32.round (13 / 10) = Float32.finite (5452595 / 4194304) ∧
    Float32.round 16777217 = Float32.finite 16777216 ∧
    Float32.round (-16777219) = Float32.finite (-16777220) ∧
    Float32.round (2 ^ 128 - 2 ^ 103 - 1) = Float32.finite (2 ^ 128 - 2 ^ 104) ∧
    Float32.round (2 ^ 128 - 2 ^ 103) = Float32.infinity false ∧
    Float32.round (1 / 2 ^ 149) = Float32.finite (1 / 2 ^ 149) ∧
    Float32.round (1 / 2 ^ 150) = Float32.finite 0 ∧
    Float32.round (3 / 2 ^ 150) = Float32.finite (1 / 2 ^ 148) := by
  refine ⟨?_, ?_, ?_, ?_, ?_, ?_, ?_, ?_, ?_⟩ <;> decide!

theorem float32_neg_neg (a : Float32) : Float32.neg (Float32.neg a) = a := by
  cases a with
  | finite value => simp [Float32.neg]
  | infinity negative => simp [Float32.neg]
  | nan => rfl

theorem float32_round_neg (q : ℚ) : Float32.round (-q) = Float32.neg (Float32.round q) := by
  unfold Float32.round
  rcases lt_trichotomy q 0 with h | h | h
  · have h1 : ¬ (-q = 0) := by
      intro e
      have := neg_eq_zero.mp e
      exact absurd this (ne_of_lt h)
    have h2 : (0 : ℚ) < -q := neg_pos.mpr h
    have h3 : ¬ (q = 0) := ne_of_lt h
    have h4 : ¬ ((0 : ℚ) < q) := not_lt.mpr (le_of_lt h)
    rw [if_neg h1, if_pos h2, if_neg h3, if_neg h4, float32_neg_neg, Rat.num_neg_eq_neg_num,
      Rat.neg_den, Int.natAbs_neg]
  · subst h
    simp [Float32.neg]
  · have h1 : ¬ (-q = 0) := by
      intro e
      have := neg_eq_zero.mp e
      exact absurd this (ne_of_gt h)
    have h2 : ¬ ((0 : ℚ) < -q) := by
      rw [neg_pos]
      exact not_lt.mpr (le_of_lt h)
    have h3 : ¬ (q = 0) := ne_of_gt h
    rw [if_neg h1, if_neg h2, if_neg h3, if_pos h, Rat.num_neg_eq_neg_num, Rat.neg_den,
      Int.natAbs_neg]

theorem float32_mul_neg_neg (a : Float32) :
    Float32.mul (Float32.neg a) (Float32.neg a) = Float32.mul a a := by
  cases a with
  | finite value => simp [Float32.neg, Float32.mul]
  | infinity negative => cases negative <;> rfl
  | nan => rfl

theorem float32_sub_swap (x y : ℚ) :
    Float32.sub (Float32.finite x) (Float32.finite y) =
      Float32.neg (Float32.sub (Float32.finite y) (Float32.finite x)) := by
  have e : x + -y = -(y + -x) := by ring
  show Float32.round (x + -y) = Float32.neg (Float32.round (y + -x))
  rw [e, float32_round_neg]

theorem circleVsCircle_comm (a b : Transform) (ra rb : ℚ) :
    CollisionSystem.circleVsCircle a ra b rb = CollisionSystem.circleVsCircle b rb a ra := by
  unfold CollisionSystem.circleVsCircle
  simp only
  rw [float32_sub_swap a.x b.x, float32_sub_swap a.y b.y, float32_mul_neg_neg,
    float32_mul_neg_neg]
  have e : Float32.add (Float32.finite ra) (Float32.finite rb)
      = Float32.add (Float32.finite rb) (Float32.finite ra) := by
    simp only [Float32.add, add_comm]
  rw [e]

theorem circleVsCircle_of_exact (a b : Transform) (ra rb : ℚ)
    (hexact : CollisionSystem.circleVsCircleExact a ra b rb) :
    CollisionSystem.circleVsCircle a ra b rb =
      decide ((a.x - b.x) * (a.x - b.x) + (a.y - b.y) * (a.y - b.y) < (ra + rb) * (ra + rb)) := by
  obtain ⟨h1, h2, h3, h4, h5, h6, h7⟩ := hexact
  unfold Float32.Exact at h1 h2 h3 h4 h5 h6 h7
  unfold CollisionSystem.circleVsCircle
  simp only [Float32.sub, Float32.neg, Float32.add, ← sub_eq_add_neg, h1, h2, Float32.mul, h3,
    h4, h5, h6, h7, Float32.lt]

/-- The constant of `WeaponDamageSystem` is the value of the literal `0.08f`,
which is below 8/100: a laser whose timer reaches exactly that value after one
tick deals its damage (3, on a victim of 100 hp). -/
theorem laserDamageInterval_eq_round :
    Float32.round (8 / 100) = Float32.finite WeaponDamageSystem.laserDamageInterval ∧
    WeaponDamageSystem.laserDamageInterval < 8 / 100 ∧
    ((CollisionSystem.update (exampleShieldedHitWorld WeaponType.kWeaponLaserType) ∅).map
      (fun st => observeVictim
        (WeaponDamageSystem.update WeaponDamageSystem.laserDamageInterval st.1 st.2)))
      = some (some ⟨97, true⟩, some ⟨none⟩, false) := by
  refine ⟨by decide!, ?_, by decide!⟩
  unfold WeaponDamageSystem.laserDamageInterval
  norm_num

theorem float32_halvings_spec (fuel n : Nat) (hpos : 0 < n) (hfuel : n ≤ fuel) :
    2 ^ Float32.halvings fuel n ≤ n ∧ n < 2 ^ (Float32.halvings fuel n + 1) := by
  induction fuel generalizing n with
  | zero => omega
  | succ fuel ih =>
    rw [Float32.halvings]
    by_cases h2 : n < 2
    · rw [if_pos h2]
      have h1 : n = 1 := by omega
      subst h1
      exact ⟨by norm_num, by norm_num⟩
    · rw [if_neg h2]
      obtain ⟨ihl, ihr⟩ := ih (n / 2) (by omega) (by omega)
      rw [pow_succ] at ihr ⊢
      rw [pow_succ]
      constructor <;> omega

theorem float32_roundHalfEven_one (n : Nat) : Float32.roundHalfEven n 1 = n := by
  unfold Float32.roundHalfEven
  simp [Nat.mod_one]

theorem float32_exact_natCast (n : Nat) (h : n < 2 ^ 24) : Float32.Exact ((n : Nat) : ℚ) := by
  unfold Float32.Exact Float32.round
  by_cases h0 : n = 0
  · subst h0
    simp
  · have hpos : 0 < n := Nat.pos_of_ne_zero h0
    have hq : ¬ (((n : Nat) : ℚ) = 0) := by exact_mod_cast h0
    have hq2 : (0 : ℚ) < ((n : Nat) : ℚ) := by exact_mod_cast hpos
    rw [if_neg hq, if_pos hq2, Rat.num_natCast, Rat.den_natCast, Int.natAbs_ofNat]
    have hspec : 2 ^ Float32.leadingBit n ≤ n ∧ n < 2 ^ (Float32.leadingBit n + 1) :=
      float32_halvings_spec n n hpos (le_refl n)
    obtain ⟨hl, hr⟩ := hspec
    have hone : Float32.leadingBit 1 = 0 := rfl
    have hL : Float32.leadingBit n < 24 := by
      by_contra hc
      have : 2 ^ 24 ≤ 2 ^ Float32.leadingBit n := Nat.pow_le_pow_right (by norm_num) (by omega)
      omega
    have hfl : Float32.floorLog2 n 1 = (Float32.leadingBit n : Int) := by
      unfold Float32.floorLog2
      simp only [hone, Int.ofNat_zero, sub_zero, Int.toNat_ofNat, Nat.one_mul]
      rw [if_pos (Int.ofNat_nonneg _), if_pos hl]
    unfold Float32.roundPos
    simp only [hfl]
    clear hfl
    generalize Float32.leadingBit n = L at hl hr hL
    have hmax : max (L : Int) (-126) - 23 = (L : Int) - 23 := by omega
    rw [hmax]
    by_cases hp : (0 : Int) ≤ (L : Int) - 23
    · have hL23 : L = 23 := by omega
      subst hL23
      rw [if_pos hp]
      have ht : ((23 : Nat) : Int) - 23 = 0 := by norm_num
      simp only [ht, Int.toNat_zero, pow_zero, Nat.mul_one]
      rw [float32_roundHalfEven_one, if_neg (by omega)]
    · rw [if_neg hp]
      have ht : (-((L : Int) - 23)).toNat = 23 - L := by omega
      rw [ht]
      rw [float32_roundHalfEven_one]
      congr 1
      have hne : (((2 ^ (23 - L) : Nat) : ℚ)) ≠ 0 := by positivity
      rw [Nat.cast_mul]
      field_simp

theorem float32_exact_intCast (z : Int) (h : z.natAbs < 2 ^ 24) : Float32.Exact ((z : Int) : ℚ) := by
  rcases Int.natAbs_eq z with hz | hz
  · rw [hz, Int.cast_natCast]
    exact float32_exact_natCast _ h
  · have e : ((z : Int) : ℚ) = -((z.natAbs : Nat) : ℚ) := by
      have h2 := congrArg (fun t : Int => (t : ℚ)) hz
      simp only [Int.cast_neg, Int.cast_natCast] at h2
      exact h2
    unfold Float32.Exact
    rw [e, float32_round_neg]
    have := float32_exact_natCast _ h
    unfold Float32.Exact at this
    rw [this]
    rfl

/-- On the grid of integer coordinates and radii of absolute value at most 1024
no operation of `circleVsCircle` rounds. -/
theorem circleVsCircleExact_of_int (x1 y1 x2 y2 ra rb : Int)
    (hax : x1.natAbs ≤ 1024) (hay : y1.natAbs ≤ 1024) (hbx : x2.natAbs ≤ 1024)
    (hby : y2.natAbs ≤ 1024) (hra : ra.natAbs ≤ 1024) (hrb : rb.natAbs ≤ 1024) :
    CollisionSystem.circleVsCircleExact ⟨x1, y1⟩ ra ⟨x2, y2⟩ rb := by
  have hdx : (x1 - x2).natAbs ≤ 2048 := by omega
  have hdy : (y1 - y2).natAbs ≤ 2048 := by omega
  have hr : (ra + rb).natAbs ≤ 2048 := by omega
  have hsq : ∀ z : Int, z.natAbs ≤ 2048 → (z * z).natAbs ≤ 4194304 := by
    intro z hz
    rw [Int.natAbs_mul]
    calc z.natAbs * z.natAbs ≤ 2048 * 2048 := Nat.mul_le_mul hz hz
      _ = 4194304 := by norm_num
  have hsum : ((x1 - x2) * (x1 - x2) + (y1 - y2) * (y1 - y2)).natAbs ≤ 8388608 := by
    have h1 := hsq _ hdx
    have h2 := hsq _ hdy
    have := Int.natAbs_add_le ((x1 - x2) * (x1 - x2)) ((y1 - y2) * (y1 - y2))
    omega
  unfold CollisionSystem.circleVsCircleExact
  simp only
  refine ⟨?_, ?_, ?_, ?_, ?_, ?_, ?_⟩
  · have := float32_exact_intCast (x1 - x2) (by norm_num; omega)
    rwa [Int.cast_sub] at this
  · have := float32_exact_intCast (y1 - y2) (by norm_num; omega)
    rwa [Int.cast_sub] at this
  · have := float32_exact_intCast ((x1 - x2) * (x1 - x2)) (by have := hsq _ hdx; norm_num; omega)
    rwa [Int.cast_mul, Int.cast_sub] at this
  · have := float32_exact_intCast ((y1 - y2) * (y1 - y2))
      (by have := hsq _ hdy; norm_num; omega)
    rwa [Int.cast_mul, Int.cast_sub] at this
  · have := float32_exact_intCast ((x1 - x2) * (x1 - x2) + (y1 - y2) * (y1 - y2))
      (by norm_num; omega)
    rwa [Int.cast_add, Int.cast_mul, Int.cast_mul, Int.cast_sub, Int.cast_sub] at this
  · have := float32_exact_intCast (ra + rb) (by norm_num; omega)
    rwa [Int.cast_add] at this
  · have := float32_exact_intCast ((ra + rb) * (ra + rb)) (by have := hsq _ hr; norm_num; omega)
    rwa [Int.cast_mul, Int.cast_add] at this

/-- The products of `computeRocketDamage` are products of `float`: with a base
damage of 5 and the multiplier `1.3f`, the exact product is below 6.5, the
`float` product is 6.5, and the damage is 7. -/
theorem computeRocketDamage_rounds_product :
    Float32.round (13 / 10) = Float32.finite (5452595 / 4194304) ∧
    (5 : ℚ) * (5452595 / 4194304) < 13 / 2 ∧
    Float32.mul (Float32.finite 5) (Float32.finite (5452595 / 4194304))
      = Float32.finite (13 / 2) ∧
    ShootingSystem.computeRocketDamage
      { exampleGameplay with weaponDamageBasic := 5, weaponDamageMissile := 0,
                             rocketDamageMultiplier := 5452595 / 4194304 } 1 = 7 := by
  refine ⟨by decide!, by norm_num, by decide!, by decide!⟩

/-- C18: `circleVsCircle` is computed with the operations of `float`.  It gives
the same result when the two circles are exchanged.  Taken over exact
arithmetic, that is whenever none of its seven operations rounds, and for
non-negative radii, `circleVsCircle(a, ra, b, rb)` is true if and only if the
Euclidean distance between `a` and `b` is less than `ra + rb`, that is if and
only if `dx*dx + dy*dy < (ra+rb)*(ra+rb)`, and it is false when the distance
equals `ra + rb`.  No operation rounds on the grid of integer coordinates and
radii of absolute value at most 1024.  Where an operation rounds the result
is the one of the `float` test: for a circle of radius `2 ^ 24` centred
`2 ^ 24` away from a circle of radius 1/2 the sum of the radii rounds to
`2 ^ 24` and the result is false. -/
theorem circleVsCircle_iff_distance_lt :
    (∀ (a b : Transform) (ra rb : ℚ),
      CollisionSystem.circleVsCircle a ra b rb = CollisionSystem.circleVsCircle b rb a ra) ∧
    (∀ (a b : Transform) (ra rb : ℚ), 0 ≤ ra → 0 ≤ rb →
      CollisionSystem.circleVsCircleExact a ra b rb →
      (CollisionSystem.circleVsCircle a ra b rb = true ↔
        Real.sqrt ((((a.x - b.x) * (a.x - b.x) + (a.y - b.y) * (a.y - b.y) : ℚ)) : ℝ)
          < ((ra + rb : ℚ) : ℝ)) ∧
      (CollisionSystem.circleVsCircle a ra b rb = true ↔
        (a.x - b.x) * (a.x - b.x) + (a.y - b.y) * (a.y - b.y) < (ra + rb) * (ra + rb)) ∧
      (Real.sqrt ((((a.x - b.x) * (a.x - b.x) + (a.y - b.y) * (a.y - b.y) : ℚ)) : ℝ)
          = ((ra + rb : ℚ) : ℝ) → CollisionSystem.circleVsCircle a ra b rb = false)) ∧
    (∀ x1 y1 x2 y2 ra rb : Int, x1.natAbs ≤ 1024 → y1.natAbs ≤ 1024 → x2.natAbs ≤ 1024 →
      y2.natAbs ≤ 1024 → ra.natAbs ≤ 1024 → rb.natAbs ≤ 1024 →
      CollisionSystem.circleVsCircleExact ⟨x1, y1⟩ ra ⟨x2, y2⟩ rb) ∧
    (CollisionSystem.circleVsCircle ⟨16777216, 0⟩ 16777216 ⟨0, 0⟩ (1 / 2) = false ∧
      ((16777216 : ℚ) - 0) * (16777216 - 0) + (0 - 0) * (0 - 0)
        < (16777216 + 1 / 2) * (16777216 + 1 / 2)) := by
  refine ⟨circleVsCircle_comm, ?_, circleVsCircleExact_of_int, by decide!, by norm_num⟩
  intro a b ra rb hra hrb hexact
  have hsum : (0 : ℝ) ≤ ((ra + rb : ℚ) : ℝ) := by
    exact_mod_cast add_nonneg hra hrb
  have hcode : CollisionSystem.circleVsCircle a ra b rb = true ↔
      (a.x - b.x) * (a.x - b.x) + (a.y - b.y) * (a.y - b.y) < (ra + rb) * (ra + rb) := by
    rw [circleVsCircle_of_exact a b ra rb hexact, decide_eq_true_eq]
  have hnonneg : (0 : ℚ) ≤ (a.x - b.x) * (a.x - b.x) + (a.y - b.y) * (a.y - b.y) :=
    add_nonneg (mul_self_nonneg _) (mul_self_nonneg _)
  have hnonnegR : (0 : ℝ) ≤
      (((a.x - b.x) * (a.x - b.x) + (a.y - b.y) * (a.y - b.y) : ℚ) : ℝ) := by
    exact_mod_cast hnonneg
  have hdist : Real.sqrt ((((a.x - b.x) * (a.x - b.x) + (a.y - b.y) * (a.y - b.y) : ℚ)) : ℝ)
      < ((ra + rb : ℚ) : ℝ) ↔
      (a.x - b.x) * (a.x - b.x) + (a.y - b.y) * (a.y - b.y) < (ra + rb) * (ra + rb) := by
    rw [Real.sqrt_lt hnonnegR hsum, pow_two, ← Rat.cast_mul, Rat.cast_lt]
  refine ⟨hcode.trans hdist.symm, hcode, ?_⟩
  intro heq
  rw [Bool.eq_false_iff]
  intro h
  have := (hcode.trans hdist.symm).mp h
  rw [heq] at this
  exact lt_irrefl _ this

/-- C18, witness: circles at (0,0) and (3,4), at distance 5.  With radii 1 and 4
(sum 5) they do not collide; with radii 1 and 5 they do.  No operation rounds
on these inputs. -/
theorem circleVsCircle_iff_distance_lt_witness :
    CollisionSystem.circleVsCircleExact ⟨0, 0⟩ 1 ⟨3, 4⟩ 4 ∧
    CollisionSystem.circleVsCircle ⟨0, 0⟩ 1 ⟨3, 4⟩ 4 = false ∧
    CollisionSystem.circleVsCircle ⟨0, 0⟩ 1 ⟨3, 4⟩ 5 = true :=
  ⟨by decide!,
   Bool.eq_false_iff.mpr (fun h =>
      absurd ((circleVsCircle_iff_distance_lt.2.1 ⟨0, 0⟩ ⟨3, 4⟩ 1 4 (by norm_num)
        (by norm_num) (by decide!)).2.1.mp h) (by norm_num)),
   (circleVsCircle_iff_distance_lt.2.1 ⟨0, 0⟩ ⟨3, 4⟩ 1 5 (by norm_num) (by norm_num)
      (by decide!)).2.1.mpr (by norm_num)⟩

theorem onHurtbox_of_mem_toDestroy (deltaTime : ℚ) (id projectileId : EntityId)
    (st : World × Finset EntityId) (hurtbox : Hurtbox)
    (hslot : st.1.getHurtbox id = some hurtbox)
    (hhit : hurtbox.collidedWith = some projectileId) (hmem : projectileId ∈ st.2) :
    WeaponDamageSystem.onHurtbox deltaTime id st = st := by
  unfold WeaponDamageSystem.onHurtbox
  simp only [hslot, hhit]
  split <;> simp only [hmem, if_true]

theorem recordHit_destroyOnHit (hitboxId hurtboxId : EntityId) (hitbox : Hitbox)
    (hurtbox : Hurtbox) (st : World × Finset EntityId) (h : hitbox.destroyOnHit = true) :
    hitboxId ∈ (CollisionSystem.recordHit hitboxId hurtboxId hitbox hurtbox st).2 := by
  unfold CollisionSystem.recordHit
  simp only [h, if_true]
  exact Finset.mem_insert_self _ _

/-- C19, evaluation: a Basic bullet (entity 3, damage 10, destroy-on-hit, team
Player) overlaps a living monster (entity 1, 100 hp, no shield status).  After
`CollisionSystem::update` the slot of the monster holds 3 and 3 is in the
destroy set; `WeaponDamageSystem::update` on that destroy set then leaves the
monster at 100 hp with the slot still set.  Run on the same world with an
empty destroy set it takes the monster to 90 hp and empties the slot. -/
theorem destroy_on_hit_projectile_deals_no_damage :
    (exampleBasicHitWorld.getProjectile 3).map (fun p => (p.damage, p.weaponType))
      = some (10, WeaponType.kWeaponBasicType) ∧
    exampleBasicHitWorld.getHitbox 3 = some ⟨true⟩ ∧
    observeVictim (exampleBasicHitWorld, ∅) = (some ⟨100, true⟩, some ⟨none⟩, false) ∧
    (CollisionSystem.update exampleBasicHitWorld ∅).map observeVictim
      = some (some ⟨100, true⟩, some ⟨some 3⟩, true) ∧
    (collisionThenDamage (1 / 60) exampleBasicHitWorld ∅).map observeVictim
      = some (some ⟨100, true⟩, some ⟨some 3⟩, true) ∧
    (CollisionSystem.update exampleBasicHitWorld ∅).map
      (fun st => observeVictim (WeaponDamageSystem.update (1 / 60) st.1 ∅))
      = some (some ⟨90, true⟩, some ⟨none⟩, false) := by
  decide!

/-- C20, evaluation: a player with `PlayerPowerUpStatus` of type Shield
(entity 1, 100 hp) has a pending hit from entity 3.  When entity 3 is a laser
beam (damage 3) `WeaponDamageSystem::update` takes the player to 97 hp; when it
is a Basic bullet or a rocket the player keeps 100 hp and the slot is
emptied. -/
theorem laser_damages_shielded_victim :
    ((CollisionSystem.update (exampleShieldedHitWorld WeaponType.kWeaponLaserType) ∅).map
      observeVictim) = some (some ⟨100, true⟩, some ⟨some 3⟩, false) ∧
    ((CollisionSystem.update (exampleShieldedHitWorld WeaponType.kWeaponLaserType) ∅).map
      (fun st => observeVictim (WeaponDamageSystem.update (1 / 10) st.1 st.2)))
      = some (some ⟨97, true⟩, some ⟨none⟩, false) ∧
    ((CollisionSystem.update (exampleShieldedHitWorld WeaponType.kWeaponBasicType) ∅).map
      (fun st => observeVictim (WeaponDamageSystem.update (1 / 10) st.1 ∅)))
      = some (some ⟨100, true⟩, some ⟨none⟩, false) ∧
    ((CollisionSystem.update (exampleShieldedHitWorld WeaponType.kWeaponRocketType) ∅).map
      (fun st => observeVictim (WeaponDamageSystem.update (1 / 10) st.1 ∅)))
      = some (some ⟨100, true⟩, some ⟨none⟩, false) ∧
    ((CollisionSystem.update (exampleShieldedHitWorld WeaponType.kWeaponBasicType) ∅).map
      (fun st => observeVictim (WeaponDamageSystem.update (1 / 10) st.1 st.2)))
      = some (some ⟨100, true⟩, some ⟨some 3⟩, true) := by
  refine ⟨?_, ?_, ?_, ?_, ?_⟩ <;> decide!

end server

end rtype

namespace rtype

namespace server

open engine

/-! ### Damage, weapon tiers, the unlock ladder and player ids -/

/-- C30: for a damage `d` and a health with `hp`, both in the range of a
`std::uint8_t`, `dealDamage` leaves `hp - max(1, d)` when that is positive and 0
otherwise (so hp never increases and nothing wraps), clears `alive` when the
new hp is 0 and leaves `alive` as it was when the new hp is not 0. -/
theorem dealDamage_saturating (d : Nat) (h : Health) (hd : d < 256) (hhp : h.hp < 256) :
    ((WeaponDamageSystem.dealDamage d h).hp : Int) = max 0 ((h.hp : Int) - max 1 (d : Int)) ∧
    (WeaponDamageSystem.dealDamage d h).hp = h.hp - max 1 d ∧
    (WeaponDamageSystem.dealDamage d h).hp ≤ h.hp ∧
    ((WeaponDamageSystem.dealDamage d h).hp = 0 →
      (WeaponDamageSystem.dealDamage d h).alive = false) ∧
    ((WeaponDamageSystem.dealDamage d h).hp ≠ 0 →
      (WeaponDamageSystem.dealDamage d h).alive = h.alive) := by
  have hmod : d % 256 = d := Nat.mod_eq_of_lt hd
  have hhpEq : (WeaponDamageSystem.dealDamage d h).hp = h.hp - max 1 d := by
    unfold WeaponDamageSystem.dealDamage
    simp only [hmod]
    by_cases h1 : d < 1
    · simp only [h1, if_true]
      have : d = 0 := by omega
      subst this
      omega
    · simp only [h1, if_false]
      omega
  refine ⟨?_, hhpEq, ?_, ?_, ?_⟩
  · rw [hhpEq]
    omega
  · rw [hhpEq]
    omega
  · intro h0
    unfold WeaponDamageSystem.dealDamage at h0 ⊢
    simp only at h0 ⊢
    rw [if_pos h0]
  · intro h0
    unfold WeaponDamageSystem.dealDamage at h0 ⊢
    simp only at h0 ⊢
    rw [if_neg h0]

/-- C30, witness: damage 0 on 5 hp leaves 4; damage 200 on 100 hp leaves 0 and
clears `alive`; damage 3 on 10 hp leaves 7 and keeps `alive`. -/
theorem dealDamage_saturating_witness :
    (WeaponDamageSystem.dealDamage 0 ⟨5, true⟩).hp = 5 - max 1 0 ∧
    (WeaponDamageSystem.dealDamage 200 ⟨100, true⟩).hp = 100 - max 1 200 ∧
    (WeaponDamageSystem.dealDamage 200 ⟨100, true⟩).alive = false ∧
    (WeaponDamageSystem.dealDamage 3 ⟨10, true⟩).alive = true :=
  ⟨(dealDamage_saturating 0 ⟨5, true⟩ (by decide) (by decide)).2.1,
   (dealDamage_saturating 200 ⟨100, true⟩ (by decide) (by decide)).2.1,
   (dealDamage_saturating 200 ⟨100, true⟩ (by decide) (by decide)).2.2.2.1 (by decide),
   (dealDamage_saturating 3 ⟨10, true⟩ (by decide) (by decide)).2.2.2.2 (by decide)⟩

theorem kWeaponOrder_indexOf (t : WeaponType) :
    ShootingSystem.kWeaponOrder.indexOf t =
      match t with
      | WeaponType.kWeaponBasicType => 0
      | WeaponType.kWeaponLaserType => 1
      | WeaponType.kWeaponRocketType => 2 := by
  cases t <;> rfl

/-- C25: `cycleEquippedWeapon` sets `weaponType` to the first unlocked tier that
follows the current one in the cyclic order Basic, Laser, Rocket, Basic
(Basic always available, Laser when `laserUnlocked`, Rocket when
`rocketUnlocked`), and leaves `laserUnlocked`, `rocketUnlocked` and
`powerUpsCollected` unchanged; a Basic weapon with nothing unlocked stays
Basic. -/
theorem cycleEquippedWeapon_first_unlocked (weapon : WeaponComponent) :
    (ShootingSystem.cycleEquippedWeapon weapon).weaponType
      = ShootingSystem.firstUnlockedAfter weapon ∧
    (ShootingSystem.cycleEquippedWeapon weapon).laserUnlocked = weapon.laserUnlocked ∧
    (ShootingSystem.cycleEquippedWeapon weapon).rocketUnlocked = weapon.rocketUnlocked ∧
    (ShootingSystem.cycleEquippedWeapon weapon).powerUpsCollected = weapon.powerUpsCollected ∧
    (weapon.weaponType = WeaponType.kWeaponBasicType → weapon.laserUnlocked = false →
      weapon.rocketUnlocked = false →
        (ShootingSystem.cycleEquippedWeapon weapon).weaponType = WeaponType.kWeaponBasicType) := by
  obtain ⟨t, level, active, laserId, laser, rocket, collected⟩ := weapon
  unfold ShootingSystem.cycleEquippedWeapon
  simp only [kWeaponOrder_indexOf]
  cases t <;> cases laser <;> cases rocket <;>
    refine ⟨rfl, rfl, rfl, rfl, fun h1 h2 h3 => ?_⟩ <;>
    first | rfl | exact absurd h1 (by decide) | exact absurd h2 (by decide) |
      exact absurd h3 (by decide)

/-- C25, witness: the default weapon (Basic, nothing unlocked) stays Basic. -/
theorem cycleEquippedWeapon_first_unlocked_witness :
    (ShootingSystem.cycleEquippedWeapon defaultWeapon).weaponType
      = WeaponType.kWeaponBasicType :=
  (cycleEquippedWeapon_first_unlocked defaultWeapon).2.2.2.2 rfl rfl rfl

/-- C26, counterexample: with `PowerUpsForLaser=5` and `PowerUpsForRocket=2` the
second pickup of a new player unlocks the rocket, and the laser is still
locked. -/
theorem rocket_unlocks_before_laser :
    (weaponAfter exampleRocketFirst [WeaponEvent.pickup, WeaponEvent.pickup]).rocketUnlocked
      = true ∧
    (weaponAfter exampleRocketFirst [WeaponEvent.pickup, WeaponEvent.pickup]).laserUnlocked
      = false ∧
    (weaponAfter exampleRocketFirst [WeaponEvent.pickup, WeaponEvent.pickup]).powerUpsCollected
      = 2 := by
  decide

theorem incrementPowerUpProgress_fields (config : SimulationConfig) (w : WeaponComponent) :
    (PowerUpSystem.incrementPowerUpProgress config w).powerUpsCollected
      = (if w.powerUpsCollected < 65535 then w.powerUpsCollected + 1 else w.powerUpsCollected) ∧
    (PowerUpSystem.incrementPowerUpProgress config w).laserUnlocked
      = (w.laserUnlocked || decide
          ((if w.powerUpsCollected < 65535 then w.powerUpsCollected + 1 else w.powerUpsCollected)
            ≥ PowerUpSystem.clampThreshold (config.powerUpsForLaser % 256))) ∧
    (PowerUpSystem.incrementPowerUpProgress config w).rocketUnlocked
      = (w.rocketUnlocked || decide
          ((if w.powerUpsCollected < 65535 then w.powerUpsCollected + 1 else w.powerUpsCollected)
            ≥ PowerUpSystem.clampThreshold (config.powerUpsForRocket % 256))) := by
  obtain ⟨t, level, active, laserId, laser, rocket, collected⟩ := w
  unfold PowerUpSystem.incrementPowerUpProgress
  simp only
  generalize PowerUpSystem.clampThreshold (config.powerUpsForLaser % 256) = tl
  generalize PowerUpSystem.clampThreshold (config.powerUpsForRocket % 256) = tr
  by_cases hc : collected < 65535 <;> simp only [hc, if_true, if_false] <;>
    cases laser <;> cases rocket <;>
    simp only [Bool.false_eq_true, and_false, false_and, true_and, if_false, Bool.true_or,
      Bool.false_or] <;>
    split_ifs <;> simp_all

theorem applyWeaponUpgrade_fields (config : SimulationConfig) (w : WeaponComponent) :
    (PowerUpSystem.applyWeaponUpgrade config w).powerUpsCollected
      = (PowerUpSystem.incrementPowerUpProgress config w).powerUpsCollected ∧
    (PowerUpSystem.applyWeaponUpgrade config w).laserUnlocked
      = (PowerUpSystem.incrementPowerUpProgress config w).laserUnlocked ∧
    (PowerUpSystem.applyWeaponUpgrade config w).rocketUnlocked
      = (PowerUpSystem.incrementPowerUpProgress config w).rocketUnlocked := by
  unfold PowerUpSystem.applyWeaponUpgrade
  simp only
  split_ifs <;> exact ⟨rfl, rfl, rfl⟩

theorem ladder_pickup (config : SimulationConfig) (w : WeaponComponent) (n : Nat)
    (hL : config.powerUpsForLaser < 256) (hR : config.powerUpsForRocket < 256)
    (hc : w.powerUpsCollected = min n 65535)
    (hl : w.laserUnlocked = true ↔ max 1 config.powerUpsForLaser ≤ n)
    (hr : w.rocketUnlocked = true ↔ max 1 config.powerUpsForRocket ≤ n) :
    (PowerUpSystem.applyWeaponUpgrade config w).powerUpsCollected = min (n + 1) 65535 ∧
    ((PowerUpSystem.applyWeaponUpgrade config w).laserUnlocked = true ↔
      max 1 config.powerUpsForLaser ≤ n + 1) ∧
    ((PowerUpSystem.applyWeaponUpgrade config w).rocketUnlocked = true ↔
      max 1 config.powerUpsForRocket ≤ n + 1) := by
  obtain ⟨a1, a2, a3⟩ := applyWeaponUpgrade_fields config w
  obtain ⟨b1, b2, b3⟩ := incrementPowerUpProgress_fields config w
  rw [a1, a2, a3, b1, b2, b3, hc]
  unfold PowerUpSystem.clampThreshold
  have e1 : config.powerUpsForLaser % 256 % 65536 = config.powerUpsForLaser := by
    rw [Nat.mod_eq_of_lt hL]
    exact Nat.mod_eq_of_lt (Nat.lt_trans hL (by norm_num))
  have e2 : config.powerUpsForRocket % 256 % 65536 = config.powerUpsForRocket := by
    rw [Nat.mod_eq_of_lt hR]
    exact Nat.mod_eq_of_lt (Nat.lt_trans hR (by norm_num))
  rw [e1, e2]
  simp only [Bool.or_eq_true, decide_eq_true_eq, hl, hr]
  clear a1 a2 a3 b1 b2 b3 e1 e2 hc
  generalize config.powerUpsForLaser = L at *
  generalize config.powerUpsForRocket = R at *
  by_cases hn : n < 65535
  · have hm : min n 65535 = n := Nat.min_eq_left (Nat.le_of_lt hn)
    have hm1 : min (n + 1) 65535 = n + 1 := Nat.min_eq_left hn
    rw [hm, hm1, if_pos hn]
    refine ⟨rfl, ?_, ?_⟩ <;> omega
  · have hn1 : 65535 ≤ n := Nat.le_of_not_lt hn
    have hm : min n 65535 = 65535 := Nat.min_eq_right hn1
    have hm1 : min (n + 1) 65535 = 65535 := Nat.min_eq_right (Nat.le_succ_of_le hn1)
    rw [hm, hm1, if_neg (Nat.lt_irrefl _)]
    refine ⟨rfl, ?_, ?_⟩ <;> omega

theorem cycleEquippedWeapon_fields (w : WeaponComponent) :
    (ShootingSystem.cycleEquippedWeapon w).powerUpsCollected = w.powerUpsCollected ∧
    (ShootingSystem.cycleEquippedWeapon w).laserUnlocked = w.laserUnlocked ∧
    (ShootingSystem.cycleEquippedWeapon w).rocketUnlocked = w.rocketUnlocked := by
  obtain ⟨t, level, active, laserId, laser, rocket, collected⟩ := w
  unfold ShootingSystem.cycleEquippedWeapon
  simp only [kWeaponOrder_indexOf]
  cases t <;> cases laser <;> cases rocket <;> exact ⟨rfl, rfl, rfl⟩

theorem ladder_foldl (config : SimulationConfig) (events : List WeaponEvent)
    (hL : config.powerUpsForLaser < 256) (hR : config.powerUpsForRocket < 256)
    (w : WeaponComponent) (n : Nat)
    (hc : w.powerUpsCollected = min n 65535)
    (hl : w.laserUnlocked = true ↔ max 1 config.powerUpsForLaser ≤ n)
    (hr : w.rocketUnlocked = true ↔ max 1 config.powerUpsForRocket ≤ n) :
    (events.foldl (WeaponEvent.apply config) w).powerUpsCollected
      = min (n + pickupCount events) 65535 ∧
    ((events.foldl (WeaponEvent.apply config) w).laserUnlocked = true ↔
      max 1 config.powerUpsForLaser ≤ n + pickupCount events) ∧
    ((events.foldl (WeaponEvent.apply config) w).rocketUnlocked = true ↔
      max 1 config.powerUpsForRocket ≤ n + pickupCount events) := by
  induction events generalizing w n with
  | nil => exact ⟨hc, hl, hr⟩
  | cons e rest ih =>
    cases e with
    | pickup =>
      obtain ⟨h1, h2, h3⟩ := ladder_pickup config w n hL hR hc hl hr
      have := ih (PowerUpSystem.applyWeaponUpgrade config w) (n + 1) h1 h2 h3
      have hcount : pickupCount (WeaponEvent.pickup :: rest) = pickupCount rest + 1 := by
        simp [pickupCount]
      rw [hcount]
      rw [show n + (pickupCount rest + 1) = n + 1 + pickupCount rest by omega]
      exact this
    | swap =>
      obtain ⟨h1, h2, h3⟩ := cycleEquippedWeapon_fields
        { w with activeLaserId := 0, laserActive := false }
      have := ih (WeaponEvent.apply config w WeaponEvent.swap) n
        (by rw [WeaponEvent.apply, h1]; exact hc)
        (by rw [WeaponEvent.apply, h2]; exact hl)
        (by rw [WeaponEvent.apply, h3]; exact hr)
      have hcount : pickupCount (WeaponEvent.swap :: rest) = pickupCount rest := by
        simp [pickupCount]
      rw [hcount]
      exact this

theorem applyWeaponUpgrade_level (config : SimulationConfig) (w : WeaponComponent)
    (hlaser : w.laserUnlocked = true) (htype : w.weaponType = WeaponType.kWeaponLaserType)
    (hlevel : w.weaponLevel < 256) :
    (PowerUpSystem.applyWeaponUpgrade config w).weaponType = WeaponType.kWeaponLaserType ∧
    (PowerUpSystem.applyWeaponUpgrade config w).weaponLevel
      = if w.weaponLevel < 3 then w.weaponLevel + 1 else w.weaponLevel := by
  obtain ⟨t, level, active, laserId, laser, rocket, collected⟩ := w
  simp only at hlaser htype hlevel
  subst hlaser htype
  have hinc : (PowerUpSystem.incrementPowerUpProgress config
      ⟨WeaponType.kWeaponLaserType, level, active, laserId, true, rocket, collected⟩).weaponType
        = WeaponType.kWeaponLaserType ∧
      (PowerUpSystem.incrementPowerUpProgress config
      ⟨WeaponType.kWeaponLaserType, level, active, laserId, true, rocket, collected⟩).weaponLevel
        = level ∧
      (PowerUpSystem.incrementPowerUpProgress config
      ⟨WeaponType.kWeaponLaserType, level, active, laserId, true, rocket, collected⟩).laserUnlocked
        = true := by
    unfold PowerUpSystem.incrementPowerUpProgress
    simp only
    split_ifs <;> simp_all
  obtain ⟨h1, h2, h3⟩ := hinc
  unfold PowerUpSystem.applyWeaponUpgrade
  simp only [h1, h2, h3, and_self, if_true]
  by_cases h : level < 3
  · simp only [h, if_true, h1]
    exact ⟨trivial, Nat.mod_eq_of_lt (by omega)⟩
  · simp only [h, if_false, h1, h2, and_self]

/-- C26, amended: for thresholds in the range of a `std::uint8_t`, the weapon of
a new player after any sequence of weapon-upgrade pickups and weapon swaps
with `n` pickups has a collected count of `min(n, 65535)`, has the laser
unlocked exactly when `n >= max(1, powerUpsForLaser)` and the rocket unlocked
exactly when `n >= max(1, powerUpsForRocket)`; so the rocket is never unlocked
before the laser when `powerUpsForLaser <= powerUpsForRocket`.  No event
re-locks a tier, and a pickup taken with the laser unlocked and equipped
leaves the laser equipped and raises `weaponLevel` by one when it is below
3. -/
theorem unlock_ladder (config : SimulationConfig) (events : List WeaponEvent)
    (hL : config.powerUpsForLaser < 256) (hR : config.powerUpsForRocket < 256) :
    (weaponAfter config events).powerUpsCollected = min (pickupCount events) 65535 ∧
    ((weaponAfter config events).laserUnlocked = true ↔
      max 1 config.powerUpsForLaser ≤ pickupCount events) ∧
    ((weaponAfter config events).rocketUnlocked = true ↔
      max 1 config.powerUpsForRocket ≤ pickupCount events) ∧
    (config.powerUpsForLaser ≤ config.powerUpsForRocket →
      (weaponAfter config events).rocketUnlocked = true →
        (weaponAfter config events).laserUnlocked = true) ∧
    (∀ (w : WeaponComponent) (e : WeaponEvent),
      (w.laserUnlocked = true → (e.apply config w).laserUnlocked = true) ∧
      (w.rocketUnlocked = true → (e.apply config w).rocketUnlocked = true)) ∧
    (∀ w : WeaponComponent, w.laserUnlocked = true →
      w.weaponType = WeaponType.kWeaponLaserType → w.weaponLevel < 256 →
        (PowerUpSystem.applyWeaponUpgrade config w).weaponType = WeaponType.kWeaponLaserType ∧
        (PowerUpSystem.applyWeaponUpgrade config w).weaponLevel
          = if w.weaponLevel < 3 then w.weaponLevel + 1 else w.weaponLevel) := by
  have hrun := ladder_foldl config events hL hR defaultWeapon 0 rfl
    (by simp [defaultWeapon]) (by simp [defaultWeapon])
  simp only [Nat.zero_add] at hrun
  obtain ⟨h1, h2, h3⟩ := hrun
  refine ⟨h1, h2, h3, ?_, ?_, applyWeaponUpgrade_level config⟩
  · intro hle hrocket
    have := h3.mp hrocket
    exact h2.mpr (by omega)
  · intro w e
    cases e with
    | pickup =>
      obtain ⟨_, a2, a3⟩ := applyWeaponUpgrade_fields config w
      obtain ⟨_, b2, b3⟩ := incrementPowerUpProgress_fields config w
      simp only [WeaponEvent.apply]
      rw [a2, a3, b2, b3]
      constructor <;> intro h <;> rw [h] <;> rfl
    | swap =>
      obtain ⟨_, c2, c3⟩ := cycleEquippedWeapon_fields
        { w with activeLaserId := 0, laserActive := false }
      simp only [WeaponEvent.apply]
      rw [c2, c3]
      exact ⟨fun h => h, fun h => h⟩

/-- C26, witness: with the default thresholds 5 and 10, the laser is locked after
4 pickups and unlocked after 5; a laser of level 1 that is unlocked and
equipped goes to level 2 at the next pickup. -/
theorem unlock_ladder_witness :
    (weaponAfter exampleSimulation (List.replicate 4 WeaponEvent.pickup)).laserUnlocked = false ∧
    (weaponAfter exampleSimulation (List.replicate 5 WeaponEvent.pickup)).laserUnlocked = true ∧
    (PowerUpSystem.applyWeaponUpgrade exampleSimulation
      (weaponAfter exampleSimulation (List.replicate 5 WeaponEvent.pickup))).weaponLevel = 2 :=
  ⟨Bool.eq_false_iff.mpr (fun h =>
      absurd ((unlock_ladder exampleSimulation (List.replicate 4 WeaponEvent.pickup)
        (by decide) (by decide)).2.1.mp h) (by decide)),
   (unlock_ladder exampleSimulation (List.replicate 5 WeaponEvent.pickup)
      (by decide) (by decide)).2.1.mpr (by decide),
   ((unlock_ladder exampleSimulation (List.replicate 5 WeaponEvent.pickup)
      (by decide) (by decide)).2.2.2.2.2
        (weaponAfter exampleSimulation (List.replicate 5 WeaponEvent.pickup))
        (by decide) (by decide) (by decide)).2⟩

variable {V : Type}

theorem getOrCreatePlayer_new (gs : GameServer V) (key : String) (now : Timestamp)
    (hnew : key ∉ gs.endpointToPlayer) :
    (gs.getOrCreatePlayer key now).1 = gs.nextPlayerId ∧
    (gs.getOrCreatePlayer key now).2.nextPlayerId = (gs.nextPlayerId + 1) % 256 ∧
    (gs.getOrCreatePlayer key now).2.endpointToPlayer
      = gs.endpointToPlayer.insert key gs.nextPlayerId := by
  unfold GameServer.getOrCreatePlayer
  rw [AList.lookup_eq_none.mpr hnew]
  exact ⟨rfl, rfl, rfl⟩

theorem firstContacts_ids (keys : List String) (gs : GameServer V) (hnodup : keys.Nodup)
    (hlt : gs.nextPlayerId < 256)
    (hnew : ∀ key ∈ keys, key ∉ gs.endpointToPlayer) :
    (gs.firstContacts keys).1
      = (List.range keys.length).map (fun i => (gs.nextPlayerId + i) % 256) := by
  induction keys generalizing gs with
  | nil => rfl
  | cons key rest ih =>
    obtain ⟨h1, h2, h3⟩ := getOrCreatePlayer_new gs key 0 (hnew key (List.mem_cons_self _ _))
    have hrest : ∀ k ∈ rest, k ∉ (gs.getOrCreatePlayer key 0).2.endpointToPlayer := by
      intro k hk
      rw [h3, AList.mem_insert]
      rintro (hk1 | hk1)
      · subst hk1
        exact (List.nodup_cons.mp hnodup).1 hk
      · exact hnew k (List.mem_cons_of_mem _ hk) hk1
    have := ih (gs.getOrCreatePlayer key 0).2 (List.nodup_cons.mp hnodup).2
      (by rw [h2]; exact Nat.mod_lt _ (by decide)) hrest
    unfold GameServer.firstContacts
    simp only
    rw [this, h1, h2, List.length_cons, List.range_succ_eq_map, List.map_cons, List.map_map]
    congr 1
    · exact (Nat.mod_eq_of_lt hlt).symm
    · apply List.map_congr_left
      intro i _
      simp only [Function.comp]
      omega

/-- C29, evaluation: 257 first contacts from pairwise distinct endpoint keys on a
new server.  The ids handed out are 0, 1, ..., 255 and then 0 again: the first
and the last endpoint are both given player id 0. -/
theorem player_id_reused_after_256_contacts :
    exampleEndpointKeys.Nodup ∧
    exampleEndpointKeys.length = 257 ∧
    ((GameServer.create : GameServer Unit).firstContacts exampleEndpointKeys).1
      = (List.range 257).map (fun i => i % 256) ∧
    ((GameServer.create : GameServer Unit).firstContacts exampleEndpointKeys).1.head? = some 0 ∧
    ((GameServer.create : GameServer Unit).firstContacts exampleEndpointKeys).1.getLast?
      = some 0 ∧
    ¬ ((GameServer.create : GameServer Unit).firstContacts exampleEndpointKeys).1.Nodup := by
  have hnodup : exampleEndpointKeys.Nodup := by
    unfold exampleEndpointKeys
    apply List.Nodup.map _ (List.nodup_range 257)
    intro n m h
    have := congrArg String.length h
    simpa [String.length] using this
  have hlen : exampleEndpointKeys.length = 257 := by
    simp [exampleEndpointKeys]
  have hids := firstContacts_ids exampleEndpointKeys (GameServer.create : GameServer Unit)
    hnodup (by decide) (fun key _ => by simp [GameServer.create])
  rw [hlen] at hids
  have hids2 : ((GameServer.create : GameServer Unit).firstContacts exampleEndpointKeys).1
      = (List.range 257).map (fun i => i % 256) := by
    rw [hids]
    apply List.map_congr_left
    intro i _
    simp [GameServer.create]
  refine ⟨hnodup, hlen, hids2, ?_, ?_, ?_⟩
  · rw [hids2]; decide!
  · rw [hids2]; decide!
  · rw [hids2]; decide!

end server

end rtype

namespace rtype

namespace server

open engine engine.Registry

/-- C22, counterexample: with every configurable system enabled the pipeline has
fourteen systems, `CleanupSystem` is the seventh and the last one is
`ShieldFollowSystem`. -/
theorem cleanup_is_not_last :
    (GameLogicHandler.initializeSystems exampleSimulation).map ISystem.kind
      = [SystemKind.MovementSystem, SystemKind.LaserBeamSystem, SystemKind.FireCooldownSystem,
         SystemKind.ProjectileLifetimeSystem, SystemKind.CollisionSystem,
         SystemKind.BoundarySystem, SystemKind.CleanupSystem, SystemKind.PlayerInputSystem,
         SystemKind.ShootingSystem, SystemKind.WeaponDamageSystem, SystemKind.PowerUpSystem,
         SystemKind.LevelSystem, SystemKind.Boss2BehaviorSystem,
         SystemKind.ShieldFollowSystem] ∧
    ((GameLogicHandler.initializeSystems exampleSimulation).map ISystem.kind).getLast?
      ≠ some SystemKind.CleanupSystem := by
  decide

/-- C22, amended: when every configurable system is enabled, the pipeline is
Movement, LaserBeam, FireCooldown, ProjectileLifetime, Collision, Boundary,
Cleanup, PlayerInput, Shooting, WeaponDamage, PowerUp, Level, Boss2Behavior,
ShieldFollow in this order: `CollisionSystem` runs before `WeaponDamageSystem`,
`CleanupSystem` is the seventh system and `ShieldFollowSystem` is the last. -/
theorem initializeSystems_order (config : SimulationConfig)
    (h1 : config.systems.movementSystem = true) (h2 : config.systems.fireCooldownSystem = true)
    (h3 : config.systems.projectileLifetimeSystem = true)
    (h4 : config.systems.collisionSystem = true) (h5 : config.systems.boundarySystem = true)
    (h6 : config.systems.cleanupSystem = true) (h7 : config.systems.levelSystem = true) :
    (GameLogicHandler.initializeSystems config).map ISystem.kind
      = [SystemKind.MovementSystem, SystemKind.LaserBeamSystem, SystemKind.FireCooldownSystem,
         SystemKind.ProjectileLifetimeSystem, SystemKind.CollisionSystem,
         SystemKind.BoundarySystem, SystemKind.CleanupSystem, SystemKind.PlayerInputSystem,
         SystemKind.ShootingSystem, SystemKind.WeaponDamageSystem, SystemKind.PowerUpSystem,
         SystemKind.LevelSystem, SystemKind.Boss2BehaviorSystem,
         SystemKind.ShieldFollowSystem] ∧
    ((GameLogicHandler.initializeSystems config).map ISystem.kind).indexOf
        SystemKind.CollisionSystem
      < ((GameLogicHandler.initializeSystems config).map ISystem.kind).indexOf
        SystemKind.WeaponDamageSystem ∧
    ((GameLogicHandler.initializeSystems config).map ISystem.kind).indexOf
        SystemKind.CleanupSystem = 6 ∧
    ((GameLogicHandler.initializeSystems config).map ISystem.kind).getLast?
      = some SystemKind.ShieldFollowSystem := by
  have hlist : (GameLogicHandler.initializeSystems config).map ISystem.kind
      = [SystemKind.MovementSystem, SystemKind.LaserBeamSystem, SystemKind.FireCooldownSystem,
         SystemKind.ProjectileLifetimeSystem, SystemKind.CollisionSystem,
         SystemKind.BoundarySystem, SystemKind.CleanupSystem, SystemKind.PlayerInputSystem,
         SystemKind.ShootingSystem, SystemKind.WeaponDamageSystem, SystemKind.PowerUpSystem,
         SystemKind.LevelSystem, SystemKind.Boss2BehaviorSystem,
         SystemKind.ShieldFollowSystem] := by
    unfold GameLogicHandler.initializeSystems
    simp only [h1, h2, h3, h4, h5, h6, h7, if_true]
    rfl
  rw [hlist]
  exact ⟨rfl, by decide, by decide, by decide⟩

/-- C22, witness: the example configuration enables every configurable system. -/
theorem initializeSystems_order_witness :
    ((GameLogicHandler.initializeSystems exampleSimulation).map ISystem.kind).getLast?
      = some SystemKind.ShieldFollowSystem :=
  (initializeSystems_order exampleSimulation rfl rfl rfl rfl rfl rfl rfl).2.2.2

/-- C23, evaluation: the Basic bullet (entity 3) of `exampleBasicHitWorld` hits the
monster (entity 1, 100 hp).  After Collision and WeaponDamage the slot of the
monster still holds 3.  The sweep destroys entity 3 and leaves the slot as it
is, so the hit is pending in the next tick.  There the next bullet gets the
recycled id 3; it is at (50, 50), the monster at (1, 0) with radius 1, and
`WeaponDamageSystem::update` takes the monster from 100 to 90 hp. -/
theorem pending_hit_survives_weapon_damage :
    (collisionThenDamage (1 / 60) exampleBasicHitWorld ∅).map (fun st => st.1.getHurtbox 1)
      = some (some ⟨some 3⟩) ∧
    exampleHitHandler.map
        (fun g => (g.destroyEntityDestructionList.registry.entityExists 3,
          g.destroyEntityDestructionList.registry.getHurtbox 1,
          g.destroyEntityDestructionList.registry.getHealth 1))
      = some (false, some ⟨some 3⟩, some ⟨100, true⟩) ∧
    exampleNextTickWorld.map
        (fun next => (next.1, next.2.getTransform 3, next.2.getTransform 1,
          next.2.getCollider 1))
      = some (3, some ⟨50, 50⟩, some ⟨1, 0⟩, some ⟨1⟩) ∧
    exampleNextTickWorld.map
        (fun next => observeVictim (WeaponDamageSystem.update (1 / 60) next.2 ∅))
      = some (some ⟨90, true⟩, some ⟨none⟩, false) := by
  decide!

/-- C24, evaluation: a monster type configured with `HP=1` and `HasShield=true`
passes `checkMonsterTypes` with `shieldHP = 0`; `spawnMonster` of that type
makes the monster (entity 1) with 1 hp and its shield (entity 2) with 0 hp and
`alive` set. -/
theorem shield_spawns_alive_with_zero_hp :
    (exampleShieldTypes.lookup 1).map (fun m => (m.HP, m.hasShield, m.shieldHP))
      = some (1, true, 0) ∧
    exampleShieldedMonsterWorld.getHealth 1 = some ⟨1, true⟩ ∧
    (exampleShieldedMonsterWorld.getShield 2).map (fun s => s.parentMonster) = some 1 ∧
    exampleShieldedMonsterWorld.getHealth 2 = some ⟨0, true⟩ := by
  decide!

theorem Keeps.refl (s : World × Finset EntityId) : Keeps s s :=
  ⟨Finset.Subset.refl _, Finset.Subset.refl _⟩

theorem Keeps.trans {a b c : World × Finset EntityId} (h1 : Keeps a b) (h2 : Keeps b c) :
    Keeps a c :=
  ⟨h1.1.trans h2.1, h1.2.trans h2.2⟩

@[simp] theorem activeEntities_getOrCreateStorage {V : Type} (r : Registry V) (typeHash : Nat) :
    (r.getOrCreateStorage typeHash).2.activeEntities = r.activeEntities := by
  unfold Registry.getOrCreateStorage
  split <;> rfl

@[simp] theorem activeEntities_touch (r : World) (t : ComponentType) :
    (touch r t).activeEntities = r.activeEntities := by
  unfold touch
  exact activeEntities_getOrCreateStorage r _

@[simp] theorem activeEntities_assign (r : World) (t : ComponentType) (id : EntityId)
    (c : Component) : (r.assign t id c).activeEntities = r.activeEntities := rfl

@[simp] theorem activeEntities_addComponent {V : Type} (r : Registry V) (typeHash : Nat)
    (id : EntityId) (c : V) : (r.addComponent typeHash id c).activeEntities = r.activeEntities := by
  unfold Registry.addComponent
  exact activeEntities_getOrCreateStorage r _

theorem activeEntities_createEntity {V : Type} (r : Registry V) :
    r.createEntity.2.activeEntities = insert r.createEntity.1 r.activeEntities := by
  unfold Registry.createEntity
  split <;> rfl

theorem activeEntities_viewLoopFirst {V : Type} (t2 : Nat)
    (entries : List (Sigma fun _ : EntityId => V)) (st : List (ViewCall V) × Registry V) :
    (viewLoopFirst t2 entries st).2.activeEntities = st.2.activeEntities := by
  induction entries generalizing st with
  | nil => rfl
  | cons e rest ih =>
      unfold viewLoopFirst
      simp only
      split <;> rw [ih] <;> simp [Registry.getComponentMut]

theorem activeEntities_viewLoopSecond {V : Type} (t1 : Nat)
    (entries : List (Sigma fun _ : EntityId => V)) (st : List (ViewCall V) × Registry V) :
    (viewLoopSecond t1 entries st).2.activeEntities = st.2.activeEntities := by
  induction entries generalizing st with
  | nil => rfl
  | cons e rest ih =>
      unfold viewLoopSecond
      simp only
      split <;> rw [ih] <;> simp [Registry.getComponentMut]

@[simp] theorem activeEntities_view {V : Type} (r : Registry V) (t1 t2 : Nat) :
    (r.view t1 t2).2.activeEntities = r.activeEntities := by
  unfold Registry.view
  simp only
  split
  · rw [activeEntities_viewLoopFirst]; simp
  · rw [activeEntities_viewLoopSecond]; simp

theorem keeps_foldl {α : Type} (f : World × Finset EntityId -> α -> World × Finset EntityId)
    (hf : ∀ s x, Keeps s (f s x)) (xs : List α) (s : World × Finset EntityId) :
    Keeps s (xs.foldl f s) := by
  induction xs generalizing s with
  | nil => exact Keeps.refl s
  | cons x rest ih => exact (hf s x).trans (ih (f s x))

theorem keeps_forIds (f : EntityId -> World × Finset EntityId -> Option (World × Finset EntityId))
    (hf : ∀ id s s', f id s = some s' → Keeps s s') (ids : List EntityId)
    (s s' : World × Finset EntityId) (h : CollisionSystem.forIds ids f s = some s') :
    Keeps s s' := by
  induction ids generalizing s with
  | nil =>
      simp only [CollisionSystem.forIds, List.foldlM, pure, Option.some.injEq] at h
      subst h
      exact Keeps.refl s
  | cons id rest ih =>
      simp only [CollisionSystem.forIds, List.foldlM, bind, Option.bind] at h
      cases hstep : f id s with
      | none => simp [hstep] at h
      | some mid =>
          simp only [hstep] at h
          exact (hf id s mid hstep).trans (ih mid h)

theorem keeps_touch (s : World × Finset EntityId) (t : ComponentType) :
    Keeps s (touch s.1 t, s.2) :=
  ⟨by simp, Finset.Subset.refl _⟩

theorem forEach_keeps (t : ComponentType)
    (body : EntityId -> World × Finset EntityId -> World × Finset EntityId)
    (hb : ∀ id s, Keeps s (body id s)) (st : World × Finset EntityId) :
    Keeps st (forEach t body st) := by
  unfold forEach
  refine (keeps_touch st t).trans (keeps_foldl _ ?_ _ _)
  intro s id
  split
  · exact hb id s
  · exact Keeps.refl s

theorem forEachM_keeps (t : ComponentType)
    (body : EntityId -> World × Finset EntityId -> Option (World × Finset EntityId))
    (hb : ∀ id s s', body id s = some s' → Keeps s s') (st st' : World × Finset EntityId)
    (h : forEachM t body st = some st') : Keeps st st' := by
  unfold forEachM at h
  refine (keeps_touch st t).trans (keeps_forIds _ ?_ _ _ _ h)
  intro id s s' hs
  split at hs
  · exact hb id s s' hs
  · simp only [Option.some.injEq] at hs
    subst hs
    exact Keeps.refl s

theorem view3_keeps (t1 t2 t3 : ComponentType)
    (body : EntityId -> World × Finset EntityId -> World × Finset EntityId)
    (hb : ∀ id s, Keeps s (body id s)) (st : World × Finset EntityId) :
    Keeps st (view3 t1 t2 t3 body st) := by
  unfold view3
  refine forEach_keeps _ _ ?_ _
  intro id s
  have h2 : Keeps s (touch (touch s.1 t2) t3, s.2) := ⟨by simp, Finset.Subset.refl _⟩
  simp only
  split
  · exact h2.trans (hb id _)
  · exact h2

theorem view3M_keeps (t1 t2 t3 : ComponentType)
    (body : EntityId -> World × Finset EntityId -> Option (World × Finset EntityId))
    (hb : ∀ id s s', body id s = some s' → Keeps s s') (st st' : World × Finset EntityId)
    (h : view3M t1 t2 t3 body st = some st') : Keeps st st' := by
  unfold view3M at h
  refine forEachM_keeps _ _ ?_ _ _ h
  intro id s s' hs
  have h2 : Keeps s (touch (touch s.1 t2) t3, s.2) := ⟨by simp, Finset.Subset.refl _⟩
  simp only at hs
  split at hs
  · exact h2.trans (hb id _ _ hs)
  · simp only [Option.some.injEq] at hs
    subst hs
    exact h2

theorem view2_keeps (t1 t2 : ComponentType)
    (body : EntityId -> World × Finset EntityId -> World × Finset EntityId)
    (hb : ∀ id s, Keeps s (body id s)) (st : World × Finset EntityId) :
    Keeps st (view2 t1 t2 body st) := by
  unfold view2
  have h2 : Keeps st ((st.1.view t1.hash t2.hash).2, st.2) := ⟨by simp, Finset.Subset.refl _⟩
  exact h2.trans (keeps_foldl _ (fun s id => hb id s) _ _)

theorem view2M_keeps (t1 t2 : ComponentType)
    (body : EntityId -> World × Finset EntityId -> Option (World × Finset EntityId))
    (hb : ∀ id s s', body id s = some s' → Keeps s s') (st st' : World × Finset EntityId)
    (h : view2M t1 t2 body st = some st') : Keeps st st' := by
  unfold view2M at h
  have h2 : Keeps st ((st.1.view t1.hash t2.hash).2, st.2) := ⟨by simp, Finset.Subset.refl _⟩
  exact h2.trans (keeps_forIds _ hb _ _ _ h)

theorem MovementSystem_onTransform_keeps (deltaTime : ℚ) (id : EntityId)
    (s : World × Finset EntityId) : Keeps s (MovementSystem.onTransform deltaTime id s) := by
  unfold MovementSystem.onTransform Keeps
  simp only
  repeat' split
  all_goals (constructor <;> simp [Finset.subset_insert])

theorem LaserBeamSystem_stopLaser_keeps (playerId : EntityId) (weapon : WeaponComponent)
    (s : World × Finset EntityId) : Keeps s (LaserBeamSystem.stopLaser playerId weapon s) := by
  unfold LaserBeamSystem.stopLaser Keeps
  simp only
  repeat' split
  all_goals (constructor <;> simp [Finset.subset_insert])

theorem LaserBeamSystem_onPlayer_keeps (config : SimulationConfig) (id : EntityId)
    (s : World × Finset EntityId) : Keeps s (LaserBeamSystem.onPlayer config id s) := by
  unfold LaserBeamSystem.onPlayer LaserBeamSystem.stopLaser Keeps
  simp only
  repeat' split
  all_goals (constructor <;> simp [Finset.subset_insert])

theorem FireCooldownSystem_onCooldown_keeps (deltaTime : ℚ) (id : EntityId)
    (s : World × Finset EntityId) : Keeps s (FireCooldownSystem.onCooldown deltaTime id s) := by
  unfold FireCooldownSystem.onCooldown Keeps
  simp only
  repeat' split
  all_goals (constructor <;> simp [Finset.subset_insert])

theorem ProjectileLifetimeSystem_onProjectile_keeps (config : SimulationConfig) (deltaTime : ℚ)
    (id : EntityId) (s : World × Finset EntityId) :
    Keeps s (ProjectileLifetimeSystem.onProjectile config deltaTime id s) := by
  unfold ProjectileLifetimeSystem.onProjectile Keeps
  simp only
  repeat' split
  all_goals (constructor <;> simp [Finset.subset_insert])

theorem BoundarySystem_onTransform_keeps (config : SimulationConfig) (id : EntityId)
    (s : World × Finset EntityId) : Keeps s (BoundarySystem.onTransform config id s) := by
  unfold BoundarySystem.onTransform Keeps
  simp only
  repeat' split
  all_goals (constructor <;> simp [Finset.subset_insert])

theorem CleanupSystem_onHealth_keeps (id : EntityId) (s : World × Finset EntityId) :
    Keeps s (CleanupSystem.onHealth id s) := by
  unfold CleanupSystem.onHealth Keeps
  repeat' split
  all_goals (constructor <;> simp [Finset.subset_insert])

theorem PlayerInputSystem_onInput_keeps (config : SimulationConfig) (env : TickEnv)
    (id : EntityId) (s : World × Finset EntityId) :
    Keeps s (PlayerInputSystem.onInput config env id s) := by
  unfold PlayerInputSystem.onInput Keeps
  split
  · simp only
    split <;> (constructor <;> simp)
  · constructor <;> simp

theorem Boss2BehaviorSystem_onBoss_keeps (config : SimulationConfig) (env : TickEnv)
    (deltaTime : ℚ) (id : EntityId) (s : World × Finset EntityId) :
    Keeps s (Boss2BehaviorSystem.onBoss config env deltaTime id s) := by
  unfold Boss2BehaviorSystem.onBoss Keeps
  split
  · constructor <;> simp
  · constructor <;> simp

theorem ShieldFollowSystem_onShield_keeps (config : SimulationConfig) (id : EntityId)
    (s : World × Finset EntityId) : Keeps s (ShieldFollowSystem.onShield config id s) := by
  unfold ShieldFollowSystem.onShield Keeps
  simp only
  repeat' split
  all_goals (constructor <;> simp [Finset.subset_insert])

theorem WeaponDamageSystem_onHurtbox_keeps (deltaTime : ℚ) (id : EntityId)
    (s : World × Finset EntityId) : Keeps s (WeaponDamageSystem.onHurtbox deltaTime id s) := by
  unfold WeaponDamageSystem.onHurtbox WeaponDamageSystem.clearSlot Keeps
  simp only
  repeat' split
  all_goals (constructor <;> simp [Finset.subset_insert])

theorem subset_createEntity {V : Type} (r : Registry V) :
    r.activeEntities ⊆ r.createEntity.2.activeEntities := by
  rw [activeEntities_createEntity]
  exact Finset.subset_insert _ _

theorem CollisionSystem_onPair_keeps (hitboxId hurtboxId : EntityId)
    (s s' : World × Finset EntityId) (h : CollisionSystem.onPair hitboxId hurtboxId s = some s') :
    Keeps s s' := by
  unfold CollisionSystem.onPair CollisionSystem.recordHit at h
  simp only at h
  unfold Keeps
  repeat' split at h
  all_goals (cases h <;> (constructor <;> simp [Finset.subset_insert]))

theorem CollisionSystem_onHitbox_keeps (hitboxId : EntityId)
    (s s' : World × Finset EntityId) (h : CollisionSystem.onHitbox hitboxId s = some s') :
    Keeps s s' := by
  unfold CollisionSystem.onHitbox at h
  have h2 : Keeps s ((s.1.view ComponentType.Hurtbox.hash ComponentType.Transform.hash).2, s.2) :=
    ⟨by simp, Finset.Subset.refl _⟩
  exact h2.trans (keeps_forIds _ (CollisionSystem_onPair_keeps hitboxId) _ _ _ h)

theorem CollisionSystem_update_keeps (s s' : World × Finset EntityId)
    (h : CollisionSystem.update s.1 s.2 = some s') : Keeps s s' := by
  unfold CollisionSystem.update at h
  have h2 : Keeps s ((s.1.view ComponentType.Hitbox.hash ComponentType.Transform.hash).2, s.2) :=
    ⟨by simp, Finset.Subset.refl _⟩
  exact h2.trans (keeps_forIds _ CollisionSystem_onHitbox_keeps _ _ _ h)

theorem WeaponDamageSystem_update_keeps (deltaTime : ℚ) (s : World × Finset EntityId) :
    Keeps s (WeaponDamageSystem.update deltaTime s.1 s.2) := by
  unfold WeaponDamageSystem.update
  exact (keeps_touch s _).trans
    (keeps_foldl _ (fun st id => WeaponDamageSystem_onHurtbox_keeps deltaTime id st) _ _)

theorem ShootingSystem_spawnBullet_subset (config : GameplayConfig) (registry : World)
    (owner : EntityId) (fromPlayer : Bool) (x y vx vy : ℚ) (weaponType : WeaponType)
    (damage : Nat) :
    registry.activeEntities ⊆
      (ShootingSystem.spawnBullet config registry owner fromPlayer x y vx vy weaponType
        damage).2.activeEntities := by
  unfold ShootingSystem.spawnBullet
  simp only
  repeat' split
  all_goals (simp only [activeEntities_addComponent, activeEntities_touch]
             exact subset_createEntity _)

theorem ShootingSystem_shootProjectile_subset (config : GameplayConfig)
    (weapon : WeaponComponent) (entity : EntityId) (registry : World) :
    registry.activeEntities ⊆
      (ShootingSystem.shootProjectile config weapon entity registry).2.activeEntities := by
  unfold ShootingSystem.shootProjectile
  simp only
  refine Finset.Subset.trans ?_ (ShootingSystem_spawnBullet_subset _ _ _ _ _ _ _ _ _ _)
  simp

theorem ShootingSystem_stopActiveLaser_keeps (config : SimulationConfig)
    (weapon : WeaponComponent) (s : World × Finset EntityId) :
    Keeps s (ShootingSystem.stopActiveLaser config weapon s).2 := by
  unfold ShootingSystem.stopActiveLaser Keeps
  simp only
  repeat' split
  all_goals (constructor <;> simp [Finset.subset_insert])

theorem ShootingSystem_startLaserBeam_subset (config : SimulationConfig) (entity : EntityId)
    (weapon : WeaponComponent) (cooldown : FireCooldown) (registry : World) :
    registry.activeEntities ⊆
      (ShootingSystem.startLaserBeam config entity weapon cooldown registry).2.2.activeEntities := by
  unfold ShootingSystem.startLaserBeam
  simp only
  repeat' split
  all_goals first
    | (simp; done)
    | (simp only [activeEntities_assign, activeEntities_touch]
       refine Finset.Subset.trans ?_ (ShootingSystem_spawnBullet_subset _ _ _ _ _ _ _ _ _ _)
       simp)

theorem ShootingSystem_handleLaserFireInput_subset (config : SimulationConfig)
    (entity : EntityId) (weapon : WeaponComponent) (cooldown : FireCooldown) (registry : World) :
    registry.activeEntities ⊆
      (ShootingSystem.handleLaserFireInput config entity weapon cooldown
        registry).2.2.activeEntities := by
  unfold ShootingSystem.handleLaserFireInput
  split
  · exact ShootingSystem_startLaserBeam_subset _ _ _ _ _
  · exact Finset.Subset.refl _

theorem ShootingSystem_store_keeps (entity : EntityId) (weapon : WeaponComponent)
    (cooldown : FireCooldown) (s : World × Finset EntityId) :
    Keeps s (ShootingSystem.store entity weapon cooldown s) := by
  unfold ShootingSystem.store Keeps
  constructor <;> simp


theorem ShootingSystem_onInput_keeps (config : SimulationConfig) (entity : EntityId)
    (s s' : World × Finset EntityId) (h : ShootingSystem.onInput config entity s = some s') :
    Keeps s s' := by
  unfold ShootingSystem.onInput at h
  split at h
  · rename_i input weapon cooldown _ _ _
    simp only at h
    have hswap : Keeps s
        (if input.swapWeapon = true then
          ((ShootingSystem.cycleEquippedWeapon (ShootingSystem.stopActiveLaser config weapon s).1),
            (ShootingSystem.stopActiveLaser config weapon s).2)
        else (weapon, s)).2 := by
      split
      · exact ShootingSystem_stopActiveLaser_keeps config weapon s
      · exact Keeps.refl s
    generalize (if input.swapWeapon = true then
          ((ShootingSystem.cycleEquippedWeapon (ShootingSystem.stopActiveLaser config weapon s).1),
            (ShootingSystem.stopActiveLaser config weapon s).2)
        else (weapon, s)) = swapped at h hswap
    have hrel : Keeps s
        (if swapped.1.laserActive = true then
          ShootingSystem.stopActiveLaser config swapped.1 swapped.2 else swapped).2 := by
      split
      · exact hswap.trans (ShootingSystem_stopActiveLaser_keeps config _ _)
      · exact hswap
    generalize (if swapped.1.laserActive = true then
          ShootingSystem.stopActiveLaser config swapped.1 swapped.2 else swapped) = released
      at h hrel
    split at h
    · cases h
      exact hrel.trans (ShootingSystem_store_keeps _ _ _ _)
    · split at h
      · split at h
        · cases h
        · cases h
          refine Keeps.trans ?_ (ShootingSystem_store_keeps _ _ _ _)
          refine hswap.trans ⟨?_, Finset.Subset.refl _⟩
          refine Finset.Subset.trans ?_ (ShootingSystem_handleLaserFireInput_subset _ _ _ _ _)
          simp
      · split at h
        · cases h
          refine Keeps.trans ?_ (ShootingSystem_store_keeps _ _ _ _)
          exact hrel.trans ⟨ShootingSystem_shootProjectile_subset _ _ _ _, Finset.Subset.refl _⟩
        · cases h
          exact hrel.trans (ShootingSystem_store_keeps _ _ _ _)
  · cases h
    exact Keeps.refl s

theorem ShootingSystem_shootDirection_subset (config : SimulationConfig) (entity : EntityId)
    (r : World) (direction : Direction) :
    r.activeEntities ⊆ (ShootingSystem.shootDirection config entity r direction).activeEntities := by
  unfold ShootingSystem.shootDirection
  exact ShootingSystem_spawnBullet_subset _ _ _ _ _ _ _ _ _ _

theorem subset_foldl {α : Type} (f : World -> α -> World)
    (hf : ∀ r x, r.activeEntities ⊆ (f r x).activeEntities) (xs : List α) (r : World) :
    r.activeEntities ⊆ (xs.foldl f r).activeEntities := by
  induction xs generalizing r with
  | nil => exact Finset.Subset.refl _
  | cons x rest ih => exact (hf r x).trans (ih (f r x))

theorem ShootingSystem_onAutomaticShooting_keeps (config : SimulationConfig) (entity : EntityId)
    (s : World × Finset EntityId) :
    Keeps s (ShootingSystem.onAutomaticShooting config entity s) := by
  have hfold : ∀ (dirs : List Direction) (r : World),
      r.activeEntities ⊆
        (dirs.foldl (ShootingSystem.shootDirection config entity) r).activeEntities :=
    fun dirs r => subset_foldl (ShootingSystem.shootDirection config entity)
      (fun r x => ShootingSystem_shootDirection_subset config entity r x) dirs r
  unfold ShootingSystem.onAutomaticShooting Keeps
  split
  · split
    · constructor
      · simp only [activeEntities_assign]
        refine Finset.Subset.trans ?_ (hfold _ _)
        simp
      · simp
    · constructor <;> simp
  · constructor <;> simp

theorem ShootingSystem_update_keeps (config : SimulationConfig)
    (s s' : World × Finset EntityId) (h : ShootingSystem.update config s = some s') :
    Keeps s s' := by
  unfold ShootingSystem.update at h
  split at h
  · cases h
  · rename_i mid hmid
    cases h
    exact (view3M_keeps _ _ _ _ (ShootingSystem_onInput_keeps config) _ _ hmid).trans
      (view3_keeps _ _ _ _ (ShootingSystem_onAutomaticShooting_keeps config) _)

theorem EntityFactory_spawnPowerUp_subset (config : SimulationConfig) (registry : World)
    (type : Nat) (x y vx vy : ℚ) :
    registry.activeEntities ⊆
      (EntityFactory.spawnPowerUp config registry type x y vx vy).2.activeEntities := by
  unfold EntityFactory.spawnPowerUp EntityFactory.addTransformAndVelocity
  simp only [activeEntities_addComponent]
  exact subset_createEntity _

theorem activeEntities_foldl_addComponent {V : Type} (cs : List (Nat × V)) (id : EntityId)
    (r : Registry V) :
    (cs.foldl (fun r c => r.addComponent c.1 id c.2) r).activeEntities = r.activeEntities := by
  induction cs generalizing r with
  | nil => rfl
  | cons c rest ih =>
      simp only [List.foldl_cons]
      rw [ih]
      exact activeEntities_addComponent r _ _ _

theorem EntityFactory_spawnShield_subset (config : SimulationConfig) (registry : World)
    (parentMonster : EntityId) (type : Nat) (x y vx vy : ℚ) :
    registry.activeEntities ⊆
      (EntityFactory.spawnShield config registry parentMonster type x y vx vy).2.activeEntities := by
  have hsub := subset_createEntity registry
  unfold EntityFactory.spawnShield
  generalize registry.createEntity = created at hsub ⊢
  generalize EntityFactory.shieldComponents config parentMonster type x y vx vy = cs
  simp only
  split <;>
    (simp only [activeEntities_addComponent, activeEntities_touch,
       activeEntities_foldl_addComponent]
     exact hsub)

theorem EntityFactory_spawnMonster_subset (config : SimulationConfig) (lib : FloatLib)
    (registry : World) (type : Nat) (canShoot : Bool) (team : Team) (x y vx vy : ℚ) :
    registry.activeEntities ⊆
      (EntityFactory.spawnMonster config lib registry type canShoot team x y vx vy).2.activeEntities := by
  have hsub := subset_createEntity registry
  unfold EntityFactory.spawnMonster
  generalize registry.createEntity = created at hsub ⊢
  generalize EntityFactory.monsterComponents config lib type canShoot team x y vx vy = cs
  simp only
  split
  · split
    · have hr : registry.activeEntities ⊆
          (cs.foldl (fun r c => r.addComponent c.1 created.1 c.2) created.2).activeEntities := by
        simp only [activeEntities_foldl_addComponent]
        exact hsub
      simp only
      exact hr.trans (EntityFactory_spawnShield_subset _ _ _ _ _ _ _ _)
    · simp only [activeEntities_foldl_addComponent]
      exact hsub
  · simp only [activeEntities_foldl_addComponent]
    exact hsub

theorem PowerUpSystem_spawn_subset (config : SimulationConfig) (env : TickEnv) (registry : World) :
    registry.activeEntities ⊆ (PowerUpSystem.spawn config env registry).activeEntities := by
  unfold PowerUpSystem.spawn
  exact EntityFactory_spawnPowerUp_subset _ _ _ _ _ _ _

theorem PowerUpSystem_onPlayer_keeps (config : SimulationConfig) (env : TickEnv)
    (powerUpId : EntityId) (powerUp : PowerUp) (powerUpTransform : Transform)
    (playerId : EntityId) (s s' : World × Finset EntityId)
    (h : PowerUpSystem.onPlayer config env powerUpId powerUp powerUpTransform playerId s
      = some s') : Keeps s s' := by
  unfold PowerUpSystem.onPlayer at h
  simp only at h
  unfold Keeps
  repeat' split at h
  all_goals (cases h <;> (constructor <;> simp [Finset.subset_insert]))

theorem PowerUpSystem_onPowerUp_keeps (config : SimulationConfig) (env : TickEnv)
    (powerUpId : EntityId) (s s' : World × Finset EntityId)
    (h : PowerUpSystem.onPowerUp config env powerUpId s = some s') : Keeps s s' := by
  unfold PowerUpSystem.onPowerUp at h
  split at h
  · simp only at h
    split at h
    · cases h
      unfold Keeps
      constructor <;> simp [Finset.subset_insert]
    · exact forEachM_keeps _ _
        (fun playerId a b hab => PowerUpSystem_onPlayer_keeps _ _ _ _ _ playerId a b hab) _ _ h
  · cases h
    exact Keeps.refl s

theorem PowerUpSystem_update_keeps (config : SimulationConfig) (env : TickEnv)
    (system : PowerUpSystem) (dt : ℚ) (s : World × Finset EntityId)
    (out : PowerUpSystem × (World × Finset EntityId))
    (h : PowerUpSystem.update config env system dt s = some out) : Keeps s out.2 := by
  unfold PowerUpSystem.update at h
  simp only at h
  split at h
  · cases h
  · rename_i mid hmid
    cases h
    refine Keeps.trans ?_
      (view2M_keeps _ _ _ (fun id a b hab => PowerUpSystem_onPowerUp_keeps config env id a b hab)
        _ _ hmid)
    unfold Keeps
    constructor
    · simp only
      split
      · exact PowerUpSystem_spawn_subset _ _ _
      · exact Finset.Subset.refl _
    · exact Finset.Subset.refl _

theorem MonsterSpawnerSystem_spawnMonster_subset (config : SimulationConfig) (env : TickEnv)
    (registry : World) :
    registry.activeEntities ⊆
      (MonsterSpawnerSystem.spawnMonster config env registry).activeEntities := by
  unfold MonsterSpawnerSystem.spawnMonster
  simp only
  split
  · exact Finset.Subset.refl _
  · exact EntityFactory_spawnMonster_subset _ _ _ _ _ _ _ _ _ _

theorem MonsterSpawnerSystem_spawnBoss_subset (config : SimulationConfig) (env : TickEnv)
    (bossType : Nat) (registry : World) :
    registry.activeEntities ⊆
      (MonsterSpawnerSystem.spawnBoss config env bossType registry).activeEntities := by
  have hsub := EntityFactory_spawnMonster_subset config env.lib registry bossType true
    Team.Monster (config.gameplay.worldWidth - 200) (config.worldHeight * (3 / 4)) 0 0
  unfold MonsterSpawnerSystem.spawnBoss
  simp only
  generalize EntityFactory.spawnMonster config env.lib registry bossType true
    Team.Monster (config.gameplay.worldWidth - 200) (config.worldHeight * (3 / 4)) 0 0 = spawned
    at hsub ⊢
  repeat' split
  all_goals first
    | exact hsub
    | (simp only [activeEntities_assign, activeEntities_addComponent, activeEntities_touch]
       exact hsub)

theorem LevelSystem_isWaveComplete_activeEntities (registry : World) :
    (LevelSystem.isWaveComplete registry).2.activeEntities = registry.activeEntities := by
  unfold LevelSystem.isWaveComplete
  simp only
  split <;> simp

theorem LevelSystem_startWave_subset (config : GameplayConfig) (effects : SpawnEffects)
    (hboss : ∀ type r, r.activeEntities ⊆ (effects.spawnBoss type r).activeEntities)
    (ls : LevelSystem) (waveNumber : Int) (registry : World) :
    registry.activeEntities ⊆
      (LevelSystem.startWave config effects ls waveNumber registry).2.2.activeEntities := by
  unfold LevelSystem.startWave
  simp only
  repeat' split
  all_goals first
    | exact hboss _ _
    | exact Finset.Subset.refl _

theorem MonsterSpawnerSystem_update_subset (config : GameplayConfig) (effects : SpawnEffects)
    (hmonster : ∀ r, r.activeEntities ⊆ (effects.spawnMonster r).activeEntities)
    (s : MonsterSpawnerSystem) (deltaTime : ℚ) (registry : World) :
    registry.activeEntities ⊆
      (MonsterSpawnerSystem.update config effects s deltaTime registry).2.activeEntities := by
  unfold MonsterSpawnerSystem.update
  simp only
  repeat' split
  all_goals first
    | exact hmonster _
    | exact Finset.Subset.refl _

theorem LevelSystem_update_subset (config : GameplayConfig) (effects : SpawnEffects)
    (hmonster : ∀ r, r.activeEntities ⊆ (effects.spawnMonster r).activeEntities)
    (hboss : ∀ type r, r.activeEntities ⊆ (effects.spawnBoss type r).activeEntities)
    (ls : LevelSystem) (deltaTime : ℚ) (currentLevel : Int) (registry : World) :
    registry.activeEntities ⊆
      (LevelSystem.update config effects ls deltaTime currentLevel registry).2.2.activeEntities := by
  unfold LevelSystem.update
  simp only
  refine Finset.Subset.trans ?_ (MonsterSpawnerSystem_update_subset config effects hmonster _ _ _)
  repeat' split
  all_goals first
    | exact Finset.Subset.refl _
    | rw [LevelSystem_isWaveComplete_activeEntities]
    | (refine Finset.Subset.trans ?_ (LevelSystem_startWave_subset config effects hboss _ _ _)
       rw [LevelSystem_isWaveComplete_activeEntities])

theorem ISystem_update_keeps (config : SimulationConfig) (env : TickEnv) (deltaTime : ℚ)
    (system : ISystem) (currentLevel : Int) (s : World × Finset EntityId)
    (out : ISystem × Int × (World × Finset EntityId))
    (h : system.update config env deltaTime currentLevel s = some out) : Keeps s out.2.2 := by
  cases system <;> simp only [ISystem.update, Option.some.injEq, Option.map_eq_some'] at h
  case MovementSystem =>
    subst h
    exact forEach_keeps _ _ (fun id a => MovementSystem_onTransform_keeps deltaTime id a) _
  case LaserBeamSystem =>
    subst h
    exact forEach_keeps _ _ (fun id a => LaserBeamSystem_onPlayer_keeps config id a) _
  case FireCooldownSystem =>
    subst h
    exact forEach_keeps _ _ (fun id a => FireCooldownSystem_onCooldown_keeps deltaTime id a) _
  case ProjectileLifetimeSystem =>
    subst h
    exact forEach_keeps _ _
      (fun id a => ProjectileLifetimeSystem_onProjectile_keeps config deltaTime id a) _
  case CollisionSystem =>
    obtain ⟨mid, hmid, rfl⟩ := h
    exact CollisionSystem_update_keeps s mid hmid
  case BoundarySystem =>
    subst h
    exact forEach_keeps _ _ (fun id a => BoundarySystem_onTransform_keeps config id a) _
  case CleanupSystem =>
    subst h
    exact forEach_keeps _ _ (fun id a => CleanupSystem_onHealth_keeps id a) _
  case PlayerInputSystem =>
    subst h
    exact view3_keeps _ _ _ _ (fun id a => PlayerInputSystem_onInput_keeps config env id a) _
  case ShootingSystem =>
    obtain ⟨mid, hmid, rfl⟩ := h
    exact ShootingSystem_update_keeps config s mid hmid
  case WeaponDamageSystem =>
    subst h
    exact WeaponDamageSystem_update_keeps deltaTime s
  case PowerUpSystem powerUps =>
    obtain ⟨mid, hmid, rfl⟩ := h
    exact PowerUpSystem_update_keeps config env powerUps deltaTime s mid hmid
  case LevelSystem levels =>
    split at h
    · simp only [Option.some.injEq] at h
      subst h
      exact ⟨LevelSystem_update_subset config.gameplay (LevelSystem.effects config env)
        (fun r => MonsterSpawnerSystem_spawnMonster_subset config env r)
        (fun type r => MonsterSpawnerSystem_spawnBoss_subset config env type r)
        levels deltaTime currentLevel s.1, Finset.Subset.refl _⟩
    · cases h
  case Boss2BehaviorSystem =>
    subst h
    exact view2_keeps _ _ _ (fun id a => Boss2BehaviorSystem_onBoss_keeps config env deltaTime id a) _
  case ShieldFollowSystem =>
    subst h
    exact forEach_keeps _ _ (fun id a => ShieldFollowSystem_onShield_keeps config id a) _

theorem SystemPipeline_update_keeps (config : SimulationConfig) (env : TickEnv) (deltaTime : ℚ)
    (systems : List ISystem) (currentLevel : Int) (s : World × Finset EntityId)
    (out : List ISystem × Int × (World × Finset EntityId))
    (h : SystemPipeline.update config env deltaTime systems currentLevel s = some out) :
    Keeps s out.2.2 := by
  induction systems generalizing currentLevel s out with
  | nil =>
      simp only [SystemPipeline.update, Option.some.injEq] at h
      subst h
      exact Keeps.refl s
  | cons system rest ih =>
      unfold SystemPipeline.update at h
      split at h
      · cases h
      · rename_i first hfirst
        split at h
        · cases h
        · rename_i others hothers
          cases h
          exact (ISystem_update_keeps config env deltaTime system currentLevel s first
            hfirst).trans (ih _ _ others hothers)

theorem destroyEntity_fold_activeEntities {V : Type} (ids : List EntityId)
    (g : GameLogicHandler V) :
    (ids.foldl (fun h id => h.destroyEntity id) g).registry.activeEntities
      = g.registry.activeEntities \ ids.toFinset := by
  induction ids generalizing g with
  | nil => simp
  | cons id rest ih =>
      simp only [List.foldl_cons, List.toFinset_cons]
      rw [ih]
      ext x
      simp only [GameLogicHandler.destroyEntity, Registry.destroyEntity, Finset.mem_sdiff,
        Finset.mem_erase, Finset.mem_insert, List.mem_toFinset]
      tauto

theorem destroyEntityDestructionList_activeEntities {V : Type} (g : GameLogicHandler V) :
    g.destroyEntityDestructionList.registry.activeEntities
      = g.registry.activeEntities \ g.toDestroySet := by
  unfold GameLogicHandler.destroyEntityDestructionList
  rw [destroyEntity_fold_activeEntities, Finset.sort_toFinset]

/-- C21: a pass of the pipeline that `updateGame` runs destroys no entity.  For
every configuration, environment, tick length, handler and list of systems,
when `updateGame` is defined (no null pointer is dereferenced): every entity
that exists before the pass exists after it; the same holds for each single
system of the pipeline, whose destroy set is only added to; and the sweep
`destroyEntityDestructionList` that follows removes from the store exactly
the entities of the destroy set. -/
theorem updateGame_destroys_no_entity (config : SimulationConfig) (env : TickEnv) (dt : ℚ)
    (g g' : GameLogicHandler Component) (systemPipeline systemPipeline' : List ISystem)
    (h : g.updateGame config env dt systemPipeline = some (g', systemPipeline')) :
    (∀ id, g.registry.entityExists id = true → g'.registry.entityExists id = true) ∧
    (∀ (system : ISystem) (currentLevel : Int) (s : World × Finset EntityId)
        (out : ISystem × Int × (World × Finset EntityId)),
      system.update config env dt currentLevel s = some out →
        (∀ id, s.1.entityExists id = true → out.2.2.1.entityExists id = true) ∧
          s.2 ⊆ out.2.2.2) ∧
    (∀ id, g'.destroyEntityDestructionList.registry.entityExists id = true ↔
      (g'.registry.entityExists id = true ∧ id ∉ g'.toDestroySet)) := by
  refine ⟨?_, ?_, ?_⟩
  · unfold GameLogicHandler.updateGame at h
    split at h
    · cases h
    · rename_i out hout
      simp only [Option.some.injEq, Prod.mk.injEq] at h
      obtain ⟨hg, _⟩ := h
      subst hg
      intro id hid
      have hk := SystemPipeline_update_keeps config env dt systemPipeline g.currentLevel
        (g.registry, ∅) out hout
      simp only [Registry.entityExists, decide_eq_true_eq] at hid ⊢
      exact hk.1 hid
  · intro system currentLevel s out hs
    have hk := ISystem_update_keeps config env dt system currentLevel s out hs
    refine ⟨?_, hk.2⟩
    intro id hid
    simp only [Registry.entityExists, decide_eq_true_eq] at hid ⊢
    exact hk.1 hid
  · intro id
    simp only [Registry.entityExists, decide_eq_true_eq,
      destroyEntityDestructionList_activeEntities, Finset.mem_sdiff]

/-- C21, witness: a tick of the full pipeline on the registry with the monster
(entity 1) and its shield (entity 2, 0 hp) is defined; both entities exist
after it. -/
theorem updateGame_destroys_no_entity_witness :
    ∃ g' systems',
      exampleShieldedGame.updateGame exampleShieldSimulation exampleTickEnv (1 / 60)
          (GameLogicHandler.initializeSystems exampleShieldSimulation) = some (g', systems') ∧
        g'.registry.entityExists 1 = true ∧ g'.registry.entityExists 2 = true := by
  have hsome : (exampleShieldedGame.updateGame exampleShieldSimulation exampleTickEnv (1 / 60)
      (GameLogicHandler.initializeSystems exampleShieldSimulation)).isSome = true := by
    decide!
  obtain ⟨out, hout⟩ := Option.isSome_iff_exists.mp hsome
  exact ⟨out.1, out.2, hout,
    (updateGame_destroys_no_entity exampleShieldSimulation exampleTickEnv (1 / 60)
      exampleShieldedGame out.1 _ out.2 hout).1 1 (by decide!),
    (updateGame_destroys_no_entity exampleShieldSimulation exampleTickEnv (1 / 60)
      exampleShieldedGame out.1 _ out.2 hout).1 2 (by decide!)⟩

/-- C28, evaluation: players 1 and 2 (ships: entities 1 and 2, 1 hp, friendly fire
on) play eleven rounds of 1/10 s.  Player 1 moves 66 to the right.  The bullet
that player 2 fires in round 5 (entity 3) hits ship 1 in round 6 and is swept;
the hit stays in the slot of ship 1.  The bullet fired in round 8 gets the id 3
again, and `WeaponDamageSystem` kills ship 1 with it; ship 1 is swept and its
id 1 goes to the pool.  The bullet fired in round 11 gets the id 1.  Player 1
still has `entityId` 1, so `removePlayer(1)` destroys the bullet of player 2:
entity 1 existed before the call with a `Projectile` owned by entity 2 and a
`Transform`, and has neither afterwards. -/
theorem removePlayer_destroys_recycled_entity :
    (exampleDuel 6).map
        (fun out => (out.1.gameLogic.registry.getHurtbox 1,
          out.1.gameLogic.registry.entityExists 3))
      = some (some ⟨some 3⟩, false) ∧
    (exampleDuel 8).map
        (fun out => (out.1.gameLogic.registry.entityExists 1,
          out.1.gameLogic.registry.freeEntityIds,
          (out.1.clients.lookup 1).map (fun client => client.entityId)))
      = some (false, [1], some 1) ∧
    (exampleDuel 11).map
        (fun out => (out.1.gameLogic.registry.entityExists 1,
          (out.1.gameLogic.registry.getProjectile 1).map (fun p => p.owner),
          out.1.gameLogic.registry.getTransform 1))
      = some (true, some 2, some ⟨110, 120⟩) ∧
    (exampleDuel 11).map
        (fun out => ((out.1.clients.lookup 1).map (fun client => client.entityId),
          (out.1.clients.lookup 2).map (fun client => client.entityId),
          (out.1.gameLogic.registry.getPlayerComponent 1).isSome))
      = some (some 1, some 2, false) ∧
    (exampleDuel 11).map
        (fun out => ((out.1.removePlayer 1).gameLogic.registry.entityExists 1,
          (out.1.removePlayer 1).gameLogic.registry.getProjectile 1,
          (out.1.removePlayer 1).gameLogic.registry.getTransform 1,
          (out.1.removePlayer 1).gameLogic.registry.entityExists 2))
      = some (false, none, none, true) := by
  refine ⟨?_, ?_, ?_, ?_, ?_⟩ <;> decide!

end server

end rtype
